import Mathlib

/-!
WLED remote-control action engine.

A shallow embedding of the brightness, power and night-mode operations of
`UiAction`, of `UiAction::runJson`, of `SegmentIterator` and of the colour,
hue, effect, palette, speed and intensity operations of `UiAction`
(`wled00/remote_action.cpp`, `wled00/remote_action.h`), of `decodeIRJson`,
`applyRepeatActions`, `decodeIR`, the per-remote decoders and `handleIR`
(`wled00/ir.cpp`), of `handleWiZdata` and `handleRemote` (`wled00/remote.cpp`)
and of `RF433Usermod::loop` (`usermods/usermod_v2_RF433/usermod_v2_RF433.cpp`).

The C++ code works on process-wide globals (`bri`, `briLast`,
`nightlightActive`, `stateChanged`) and on the static member
`brightnessBeforeNightMode`.  Here they are the fields of `State`, and every
operation is a function from the state before the call to the returned
boolean and the state after the call.

Machine integers: a `uint8_t` is a `Nat` below 256, an `int16_t` is an `Int`.
Every assignment of an integer expression to a `uint8_t` goes through
`toUint8`, which reduces modulo 256.

The JSON command runtime and segment targeting work on a `World`: the globals
of the action engine together with the strip, the JSON buffer lock, the
command files and a log of the calls made to code outside these files.  Loops
over a `uint8_t` index take the number of rounds they may run as an argument
and answer `none` when it is used up; the theorems show that they end.

The actions that write to segments take the scope of their `UiAction` object
as the argument `m_filter`.  A segment reference is the index of the segment
in the strip.  The colour conversions of the colour library are an argument
of the operations that use them.

The key codes of the remotes and the effect ids are constants of headers
outside these files; they are the fields of `IrCodeTables` and `FxModes`, and
a `switch` over key codes is the list of its cases in the order of the source.
The receivers of the three transports are libraries; the value a receiver has
ready is a field of the state the transport works on.
-/

namespace WLED

/-- Mode tag handed to `stateUpdated` (only the two tags this code uses). -/
inductive CallMode where
  | button        -- CALL_MODE_BUTTON
  | buttonPreset  -- CALL_MODE_BUTTON_PRESET
deriving DecidableEq, Repr

/-- The globals read and written by the power, brightness and night-mode
operations of `UiAction`. -/
structure State where
  /-- Global `bri` (a byte): current brightness, 0 means off. -/
  bri : Nat
  /-- Global `briLast` (a byte): brightness to return to when turned on. -/
  briLast : Nat
  /-- Static `UiAction::brightnessBeforeNightMode` (`int16_t`). -/
  brightnessBeforeNightMode : Int
  /-- Global `nightlightActive`. -/
  nightlightActive : Bool
  /-- Global `stateChanged`. -/
  stateChanged : Bool
  /-- Calls of `stateUpdated`, the newest first. -/
  notifications : List CallMode
  /-- Number of calls of `strip.restartRuntime()`. -/
  runtimeRestarts : Nat
deriving DecidableEq, Repr

/-- Conversion of an integer value to `uint8_t`. -/
def toUint8 (x : Int) : Nat := (x % 256).toNat

/-- Constant `UiAction::NIGHT_MODE_DEACTIVATED`. -/
def NIGHT_MODE_DEACTIVATED : Int := -1

/-- Constant `UiAction::NIGHT_MODE_BRIGHTNESS`. -/
def NIGHT_MODE_BRIGHTNESS : Nat := 5

/-- Table `UiAction::brightnessSteps`. -/
def brightnessSteps : List Nat :=
  [5, 7, 9, 12, 16, 20, 26, 34, 43, 56, 72, 93, 119, 154, 198, 255]

/-- Value of `sizeof(brightnessSteps) / sizeof(brightnessSteps[0])`. -/
def numBrightnessSteps : Nat := brightnessSteps.length

/-- Modelled from the spec: `stateUpdated` is defined outside the files of this
development; the spec describes it as the state-updated notification raised
with a mode tag.  A call is recorded in `notifications`. -/
def stateUpdated (callMode : CallMode) (s : State) : State :=
  { s with notifications := callMode :: s.notifications }

/-- Modelled from the spec: `strip.restartRuntime()` belongs to the strip
engine, which is outside the files of this development; the spec calls it the
restart of the render runtime.  A call is counted in `runtimeRestarts`. -/
def restartRuntime (s : State) : State :=
  { s with runtimeRestarts := s.runtimeRestarts + 1 }

/-- Method `UiAction::doUpdate`. -/
def doUpdate (s : State) : State := stateUpdated CallMode.button s

/-- Method `UiAction::nightModeActive`. -/
def nightModeActive (s : State) : Bool :=
  s.brightnessBeforeNightMode != NIGHT_MODE_DEACTIVATED

/-- Method `UiAction::turnOn`. -/
def turnOn (s : State) : Bool × State :=
  let changed := false
  let (s, changed) :=
    if s.brightnessBeforeNightMode != NIGHT_MODE_DEACTIVATED then
      ({ s with bri := toUint8 s.brightnessBeforeNightMode,
                brightnessBeforeNightMode := NIGHT_MODE_DEACTIVATED }, true)
    else (s, changed)
  let (s, changed) :=
    if s.bri == 0 then
      ({ restartRuntime { s with bri := s.briLast } with stateChanged := true }, true)
    else (s, changed)
  if changed then (true, doUpdate s) else (false, s)

/-- Method `UiAction::turnOff`. -/
def turnOff (s : State) : Bool × State :=
  let changed := false
  let (s, changed) :=
    if s.brightnessBeforeNightMode != NIGHT_MODE_DEACTIVATED then
      ({ s with bri := toUint8 s.brightnessBeforeNightMode,
                brightnessBeforeNightMode := NIGHT_MODE_DEACTIVATED }, true)
    else (s, changed)
  let (s, changed) :=
    if s.bri != 0 then
      ({ s with briLast := s.bri,
                bri := 0,
                nightlightActive := false,
                brightnessBeforeNightMode := NIGHT_MODE_DEACTIVATED,
                stateChanged := true }, true)
    else (s, changed)
  if changed then (true, doUpdate s) else (false, s)

/-- Method `UiAction::turnOnOffToggle`. -/
def turnOnOffToggle (s : State) : State :=
  if s.bri == 0 then (turnOn s).2 else (turnOff s).2

/-- Method `UiAction::activateNightMode`. -/
def activateNightMode (s : State) : Bool × State :=
  if nightModeActive s then (false, s)
  else
    let s := { s with brightnessBeforeNightMode := (s.bri : Int) }
    let s := { s with bri := NIGHT_MODE_BRIGHTNESS }
    (true, doUpdate s)

/-- Method `UiAction::resetNightMode`. -/
def resetNightMode (s : State) : Bool × State :=
  if !nightModeActive s then (false, s)
  else
    let s := { s with bri := toUint8 s.brightnessBeforeNightMode }
    let s := { s with brightnessBeforeNightMode := NIGHT_MODE_DEACTIVATED }
    (true, doUpdate s)

/-- The `for` loop of `UiAction::incBrightness`.  The argument is the part of
`brightnessSteps` from the current `index` to the end of the table, so the
entries are tried by ascending index and the loop ends after the last one. -/
def incBrightnessLoop (s : State) : List Nat → Bool × State
  | [] => (false, s)
  | step :: rest =>
    if step > s.bri then
      (true, doUpdate { s with bri := step })
    else incBrightnessLoop s rest

/-- Method `UiAction::incBrightness`. -/
def incBrightness (s : State) : Bool × State :=
  if nightModeActive s then (false, s)
  else incBrightnessLoop s brightnessSteps

/-- Method `UiAction::incBrightnessBy`; `delta` is a `uint8_t`. -/
def incBrightnessBy (delta : Nat) (s : State) : Bool × State :=
  if nightModeActive s then (false, s)
  else if s.bri == 255 then (false, s)
  else
    let s :=
      if (s.bri : Int) ≥ 255 - (delta : Int) then { s with bri := 255 }
      else { s with bri := toUint8 ((s.bri : Int) + (delta : Int)) }
    (true, doUpdate s)

/-- Method `UiAction::incBrightnessAlternate`. -/
def incBrightnessAlternate (s : State) : Bool × State :=
  if nightModeActive s then (false, s)
  else
    let delta := if s.bri < 40 then 2 else 5
    incBrightnessBy delta s

/-- The `for` loop of `UiAction::decBrightness`.  The argument is `index + 1`:
the entries are tried by descending index, from the one passed in down to
index 0, and the loop ends when `index` would go below 0. -/
def decBrightnessLoop (s : State) :
    (n : Nat) → n ≤ brightnessSteps.length → Bool × State
  | 0, _ => (false, s)
  | index + 1, h =>
    if brightnessSteps[index] < s.bri then
      (true, doUpdate { s with bri := brightnessSteps[index] })
    else decBrightnessLoop s index (Nat.le_of_succ_le h)

/-- Method `UiAction::decBrightness`. -/
def decBrightness (s : State) : Bool × State :=
  if nightModeActive s then (false, s)
  else decBrightnessLoop s numBrightnessSteps (Nat.le_refl _)

/-- Method `UiAction::decBrightnessBy`; `delta` is a `uint8_t`. -/
def decBrightnessBy (delta : Nat) (s : State) : Bool × State :=
  if nightModeActive s then (false, s)
  else if s.bri == 1 then (false, s)
  else
    let s :=
      if s.bri == 0 then { restartRuntime s with bri := 1 }
      else if s.bri ≤ delta then { s with bri := 1 }
      else { s with bri := toUint8 ((s.bri : Int) - (delta : Int)) }
    (true, doUpdate s)

/-- Method `UiAction::decBrightnessAlternate`. -/
def decBrightnessAlternate (s : State) : Bool × State :=
  if nightModeActive s then (false, s)
  else
    let delta := if s.bri < 40 then 2 else 5
    decBrightnessBy delta s

/-- Method `UiAction::setBrightness`. -/
def setBrightness (brightness : Nat) (s : State) : State :=
  if brightness == 0 then (turnOff s).2
  else
    let s := { s with brightnessBeforeNightMode := NIGHT_MODE_DEACTIVATED }
    let s := if s.bri == 0 then restartRuntime s else s
    let s := { s with bri := brightness }
    doUpdate s

/-- A state right after start-up: brightness 128, night mode not engaged. -/
def bootState : State :=
  { bri := 128, briLast := 128, brightnessBeforeNightMode := NIGHT_MODE_DEACTIVATED,
    nightlightActive := false, stateChanged := false, notifications := [],
    runtimeRestarts := 0 }

/-- Brightness values and return values seen in `n` successive calls of
`incBrightness`, the first call first. -/
def incBrightnessTrace : Nat → State → List (Bool × Nat)
  | 0, _ => []
  | n + 1, s =>
    let r := incBrightness s
    (r.1, r.2.bri) :: incBrightnessTrace n r.2

/-- A state in night mode: brightness 5, with 128 saved. -/
def nightState : State :=
  { bootState with bri := NIGHT_MODE_BRIGHTNESS, brightnessBeforeNightMode := 128 }

/-- A switched-off state whose `briLast` is 0 as well. -/
def darkState : State :=
  { bootState with bri := 0, briLast := 0 }

/-! JSON command runtime: data -/

/-- Text.  An Arduino `String` and a C string are both a list of characters. -/
abbrev Str := List Char

/-- Arduino `String::startsWith`. -/
def startsWith (s head : Str) : Bool := head.isPrefixOf s

/-- Arduino `String::indexOf` with a text argument, entered at offset `offset`
of the searched text: the offset of the first occurrence, or -1. -/
def indexOfFrom (sub : Str) : Str → Nat → Int
  | [], _ => -1
  | c :: rest, offset =>
    if sub.isPrefixOf (c :: rest) then (offset : Int)
    else indexOfFrom sub rest (offset + 1)

/-- Arduino `String::indexOf` with a text argument. -/
def indexOf (s sub : Str) : Int := indexOfFrom sub s 0

/-- Output of the `printf` conversion `%d` for a value that is not negative. -/
def formatDecimal (n : Nat) : Str := Nat.toDigits 10 n

/-- One digit of the `printf` conversion `%lX`. -/
def hexDigitUpper (d : Nat) : Char :=
  "0123456789ABCDEF".toList.getD d '0'

/-- Output of the `printf` conversion `%lX`: upper-case hexadecimal without
leading zeros.  The first argument bounds the number of digits. -/
def formatHexUpperAux : Nat → Nat → Str → Str
  | 0, _, acc => acc
  | fuel + 1, n, acc =>
    if n < 16 then hexDigitUpper n :: acc
    else formatHexUpperAux fuel (n / 16) (hexDigitUpper (n % 16) :: acc)

/-- Output of the `printf` conversion `%lX` for an `unsigned long`. -/
def formatHexUpper (n : Nat) : Str := formatHexUpperAux (n + 1) n []

/-- Type `UiJsonActionResult`. -/
inductive UiJsonActionResult where
  | OK
  | OK_REPEATABLE
  | ERR_LOCK
  | ERR_NO_FILE
  | ERR_CODE_NOT_IN_FILE
  | ERR_CODE_NO_ACTION
deriving DecidableEq, Repr

/-- One segment object inside a JSON state command: its `id` member, if any,
and the text of its other members. -/
structure JsonSegObj where
  id : Option Int
  body : Str
deriving DecidableEq, Repr

/-- The `seg` member of a JSON state command. -/
inductive JsonSeg where
  | absent
  | object (o : JsonSegObj)
  | array (items : List JsonSegObj)
deriving DecidableEq, Repr

/-- A JSON object given as `cmd`: the `psave` member as read by `as<int>()`
(`none` when the member is null or missing), the `seg` member, and the text of
the other members. -/
structure JsonCmdObj where
  psave : Option Int
  seg : JsonSeg
  body : Str
deriving DecidableEq, Repr

/-- The `cmd` member of an entry of the command file. -/
inductive JsonCmd where
  | str (cmdStr : Str)
  | obj (jsonCmdObj : JsonCmdObj)
deriving DecidableEq, Repr

/-- An entry of the command file (`fdo` in `runJson`): `cmd`, the truth value
of `rpt`, and the integer members `PL`, `FX` and `FP` where present. -/
structure JsonEntry where
  cmd : JsonCmd
  rpt : Bool
  PL : Option Int
  FX : Option Int
  FP : Option Int
deriving DecidableEq, Repr

/-- What the code does to its collaborators, in the order of the calls. -/
inductive Event where
  | lockAcquired (moduleID : Nat)
  | lockReleased
  | stateUpdated (callMode : CallMode)
  | handleSet (request : Str)
  | deserializeState (jsonCmdObj : JsonCmdObj) (callMode : CallMode)
  | savePreset (index : Nat) (pname : Str)
  | applyPresetWithFallback (presetID : Nat) (callMode : CallMode)
      (effectID paletteID : Nat)
deriving DecidableEq, Repr

/-- The part of a `Segment` that segment targeting and the actions read and
write. -/
structure Segment where
  /-- Result of `isActive()`. -/
  active : Bool
  /-- Result of `isSelected()`. -/
  selected : Bool
  /-- Member `colors[0]`, the primary colour, as a 32-bit value with the white
  byte on top, then red, green and blue. -/
  colors0 : Nat := 0
  /-- Member `cct`, the colour temperature. -/
  cct : Nat := 0
  /-- Member `mode`, the effect. -/
  mode : Nat := 0
  /-- Member `palette`. -/
  palette : Nat := 0
  /-- Member `speed`. -/
  speed : Nat := 0
  /-- Member `intensity`. -/
  intensity : Nat := 0
  /-- Result of `getLightCapabilities()`. -/
  capabilities : Nat := 0
deriving DecidableEq, Repr

/-- The part of the global `strip` this code reads. -/
structure Strip where
  /-- The segments, by index. -/
  segments : List Segment
  /-- Result of `getMainSegmentId()`. -/
  mainSegmentId : Nat
  /-- Result of `getModeCount()`. -/
  modeCount : Nat
  /-- The time at which the frame being sent out is finished; `isUpdating()`
  is true before that time. -/
  updatingUntil : Nat
deriving DecidableEq, Repr

/-- Values of the global `errorFlag` that this code deals with. -/
inductive ErrorFlag where
  | ERR_NONE
  | ERR_FS_IRLOAD
deriving DecidableEq, Repr

/-- Values of the static `lastRepeatableAction` of `ir.cpp`. -/
inductive RepeatAction where
  | ACTION_NONE
  | ACTION_BRIGHT_UP
  | ACTION_BRIGHT_DOWN
  | ACTION_SPEED_UP
  | ACTION_SPEED_DOWN
  | ACTION_INTENSITY_UP
  | ACTION_INTENSITY_DOWN
deriving DecidableEq, Repr

/-- Everything `runJson` and its callers work on: the globals of the action
engine, the strip, the JSON buffer lock, the file system and the log of calls
to collaborators. -/
structure World where
  /-- Globals of the action engine. -/
  ui : State
  /-- Global `strip`. -/
  strip : Strip
  /-- Global `irApplyToAllSelected`. -/
  irApplyToAllSelected : Bool
  /-- Owner of the JSON buffer lock, `none` when the lock is free. -/
  jsonBufferLock : Option Nat
  /-- Command files by name; a file is a list of entries by key text. -/
  files : List (Str × List (Str × JsonEntry))
  /-- Result of `millis()`. -/
  millis : Nat
  /-- The raw value the random generator hands out next. -/
  random : Nat
  /-- Static `lastValidCode` of `ir.cpp`. -/
  lastValidCode : Nat
  /-- Global `errorFlag`. -/
  errorFlag : ErrorFlag
  /-- Calls to collaborators, the oldest first. -/
  trace : List Event
  /-- Global `effectCurrent`. -/
  effectCurrent : Nat := 0
  /-- Global `effectSpeed`. -/
  effectSpeed : Nat := 0
  /-- Global `effectIntensity`. -/
  effectIntensity : Nat := 0
  /-- Global `effectPalette`. -/
  effectPalette : Nat := 0
  /-- Global `colPri`, as one 32-bit colour. -/
  colPri : Nat := 0
  /-- Global `nightlightStartTime`. -/
  nightlightStartTime : Nat := 0
  /-- Result of `getPaletteCount()`. -/
  paletteCount : Nat := 1
  /-- Global `irEnabled`, the remote mode. -/
  irEnabled : Nat := 0
  /-- Static `lastRepeatableAction` of `ir.cpp`. -/
  lastRepeatableAction : RepeatAction := RepeatAction.ACTION_NONE
  /-- Static `irTimesRepeated` of `ir.cpp`. -/
  irTimesRepeated : Nat := 0
  /-- Static member `UiAction::colorCycleIndex`. -/
  colorCycleIndex : Nat := 0
  /-- Global `whiteLast`. -/
  whiteLast : Nat := 0
  /-- Static `irCheckedTime` of `ir.cpp`. -/
  irCheckedTime : Nat := 0
  /-- Static `irrecv` of `ir.cpp`: whether the receiver object exists. -/
  irrecv : Bool := false
  /-- The value the infrared receiver has decoded and not yet handed over,
  `none` when it has nothing. -/
  irReceived : Option Nat := none
  /-- Static `last_seq` of `remote.cpp`. -/
  last_seq : Nat := 0xFFFFFFFF
  /-- Static `ESPNowButton` of `remote.cpp`. -/
  ESPNowButton : Int := -1
deriving DecidableEq, Repr


/-! JSON command runtime: operations -/

/-- Constant `ACTIONIRJSON_BUSWAIT_TIMEOUT`. -/
def ACTIONIRJSON_BUSWAIT_TIMEOUT : Nat := 24

/-- Text `"!"`. -/
def textBang : Str := "!".toList

/-- Text `"!incBri"`. -/
def textIncBri : Str := "!incBri".toList

/-- Text `"!decBri"`. -/
def textDecBri : Str := "!decBri".toList

/-- Text `"!presetF"`. -/
def textPresetF : Str := "!presetF".toList

/-- Text `"win&"`, the value of `apireq`. -/
def textWin : Str := "win&".toList

/-- Text `"~"`. -/
def textTilde : Str := "~".toList

/-- Text `"SS="`. -/
def textSS : Str := "SS=".toList

/-- Text `"&SS="`, the fixed part of the format `"&SS=%d"`. -/
def textAndSS : Str := "&SS=".toList

/-- Text `"IR Preset "`, the fixed part of the format `"IR Preset %d"`. -/
def textIrPreset : Str := "IR Preset ".toList

/-- Text `"/ir.json"`. -/
def textIrJson : Str := "/ir.json".toList

/-- Notifications raised between two states of the action engine, the oldest
first, as log entries. -/
def raised (before after : State) : List Event :=
  ((after.notifications.take
    (after.notifications.length - before.notifications.length)).reverse).map
      Event.stateUpdated

/-- A call of an action-engine operation from code that works on the `World`.
The operation does not touch the lock or the file system; the notifications it
raises go to the log in the order they were raised. -/
def callAction (f : State → State) (w : World) : World :=
  { w with ui := f w.ui, trace := w.trace ++ raised w.ui (f w.ui) }

/-- A call of the global `stateUpdated` from code that works on the `World`. -/
def notify (callMode : CallMode) (w : World) : World :=
  callAction (stateUpdated callMode) w

/-- Modelled from the spec: `requestJSONBufferLock` is defined outside the
files of this development.  The spec: an exclusive buffer lock identified by a
module id, which fails at once when it is not available, with no queuing. -/
def requestJSONBufferLock (moduleID : Nat) (w : World) : Bool × World :=
  match w.jsonBufferLock with
  | some _ => (false, w)
  | none =>
    (true, { w with jsonBufferLock := some moduleID,
                    trace := w.trace ++ [Event.lockAcquired moduleID] })

/-- Modelled from the spec: `releaseJSONBufferLock` is defined outside the
files of this development; it frees the buffer lock. -/
def releaseJSONBufferLock (w : World) : World :=
  { w with jsonBufferLock := none, trace := w.trace ++ [Event.lockReleased] }

/-- The loop `while (strip.isUpdating() && millis()-start < TIMEOUT) yield();`
of `runJson`.  The first argument is the time left until the timeout.
Modelled from the spec: `yield`, `millis` and `strip.isUpdating` are defined
outside the files of this development; one `yield` lets one time unit pass and
changes nothing else in the `World`. -/
def waitForStrip : Nat → World → World
  | 0, w => w
  | left + 1, w =>
    if w.millis < w.strip.updatingUntil then
      waitForStrip left { w with millis := w.millis + 1 }
    else w

/-- Modelled from the spec: `readObjectFromFile` is defined outside the files
of this development.  The spec: the key is looked up in the file; the lookup
yields the command object, or nothing when the file does not exist or has no
such key. -/
def readObjectFromFile (fileName objKey : Str) (w : World) : Option JsonEntry :=
  (w.files.lookup fileName).bind (fun file => file.lookup objKey)

/-- Modelled from the spec: `WLED_FS.exists` is the file system, outside the
files of this development. -/
def fileExists (fileName : Str) (w : World) : Bool :=
  (w.files.lookup fileName).isSome

/-- Modelled from the spec: `deserializeState` is the JSON state API, outside
the files of this development.  The call is logged; as the comment at the call
in `runJson` says, it calls `stateUpdated` with the call mode it is given.
What it does to the lights is not part of this model. -/
def deserializeState (jsonCmdObj : JsonCmdObj) (callMode : CallMode)
    (w : World) : World :=
  notify callMode
    { w with trace := w.trace ++ [Event.deserializeState jsonCmdObj callMode] }

/-- Modelled from the spec: `handleSet` is the HTTP API, outside the files of
this development.  The call is logged with the request text; as the comment at
the call in `runJson` says, it does not call `stateUpdated`.  What it does to
the lights is not part of this model. -/
def handleSet (request : Str) (w : World) : World :=
  { w with trace := w.trace ++ [Event.handleSet request] }

/-- Modelled from the spec: `savePreset` is the preset storage, outside the
files of this development.  The call is logged. -/
def savePreset (index : Nat) (pname : Str) (w : World) : World :=
  { w with trace := w.trace ++ [Event.savePreset index pname] }

/-- Modelled from the spec: `applyPresetWithFallback` is the preset storage,
outside the files of this development.  The call is logged. -/
def applyPresetWithFallback (presetID : Nat) (callMode : CallMode)
    (effectID paletteID : Nat) (w : World) : World :=
  { w with trace :=
      w.trace ++ [Event.applyPresetWithFallback presetID callMode effectID paletteID] }

/-- Modelled from the spec: `hw_random8` with an upper limit is defined outside
the files of this development; it yields a random value below the limit. -/
def hw_random8 (upperlimit : Nat) (w : World) : Nat :=
  if upperlimit = 0 then 0 else w.random % upperlimit

/-- Method `UiAction::presetWithFallback`. -/
def presetWithFallback (presetID effectID paletteID : Nat) (w : World) : World :=
  let w := callAction (fun s => (resetNightMode s).2) w
  applyPresetWithFallback presetID CallMode.buttonPreset effectID paletteID w

/-- The statements of `runJson` that turn a `seg` array into one object: the
first entry of the array with its `id` removed. -/
def collapseSeg (jsonCmdObj : JsonCmdObj) : JsonCmdObj :=
  match jsonCmdObj.seg with
  | JsonSeg.array (seg :: _) =>
    { jsonCmdObj with seg := JsonSeg.object { seg with id := none } }
  | JsonSeg.array [] => { jsonCmdObj with seg := JsonSeg.absent }
  | _ => jsonCmdObj

/-- Test `jsonCmdObj["seg"].is<JsonArray>()`. -/
def segIsArray (jsonCmdObj : JsonCmdObj) : Bool :=
  match jsonCmdObj.seg with
  | JsonSeg.array _ => true
  | _ => false

/-- Method `UiAction::runJson`. -/
def runJson (moduleID : Nat) (fileName objKey : Str) (w : World) :
    UiJsonActionResult × World :=
  match requestJSONBufferLock moduleID w with
  | (false, w) => (UiJsonActionResult.ERR_LOCK, w)
  | (true, w) =>
    -- wait for strip to finish updating
    let w := waitForStrip ACTIONIRJSON_BUSWAIT_TIMEOUT w
    -- attempt to read command from JSON file
    match readObjectFromFile fileName objKey w with
    | none =>
      if !fileExists fileName w then
        (UiJsonActionResult.ERR_NO_FILE, releaseJSONBufferLock w)
      else
        (UiJsonActionResult.ERR_CODE_NOT_IN_FILE, releaseJSONBufferLock w)
    | some fdo =>
      match fdo.cmd with
      | JsonCmd.obj jsonCmdObj =>
        -- command is JSON object
        match jsonCmdObj.psave with
        | none =>
          let jsonCmdObj :=
            if w.irApplyToAllSelected && segIsArray jsonCmdObj then
              collapseSeg jsonCmdObj
            else jsonCmdObj
          let w := deserializeState jsonCmdObj CallMode.buttonPreset w
          (UiJsonActionResult.OK, releaseJSONBufferLock w)
        | some value =>
          let psave := toUint8 value
          let pname := textIrPreset ++ formatDecimal psave
          if psave > 0 && psave < 251 then
            let w := savePreset psave pname w
            let w := releaseJSONBufferLock w
            let w := notify CallMode.buttonPreset w
            (UiJsonActionResult.OK, w)
          else
            (UiJsonActionResult.ERR_CODE_NO_ACTION, releaseJSONBufferLock w)
      | JsonCmd.str cmdStr =>
        if startsWith cmdStr textBang then
          -- call limited set of C functions
          if startsWith cmdStr textIncBri then
            let w := releaseJSONBufferLock w
            let w := callAction (fun s => (incBrightness s).2) w
            (UiJsonActionResult.OK_REPEATABLE, w)
          else if startsWith cmdStr textDecBri then
            let w := releaseJSONBufferLock w
            let w := callAction (fun s => (decBrightness s).2) w
            (UiJsonActionResult.OK_REPEATABLE, w)
          else if startsWith cmdStr textPresetF then
            let presetID := toUint8 (fdo.PL.getD 1)
            let effectID :=
              toUint8 (fdo.FX.getD
                (hw_random8 (toUint8 ((w.strip.modeCount : Int) - 1)) w : Int))
            let paletteID := toUint8 (fdo.FP.getD 0)
            let w := releaseJSONBufferLock w
            let w := presetWithFallback presetID effectID paletteID w
            (UiJsonActionResult.OK, w)
          else
            (UiJsonActionResult.ERR_CODE_NO_ACTION, releaseJSONBufferLock w)
        else
          -- HTTP API command
          let apireq := textWin
          let repeatable := decide (indexOf cmdStr textTilde > 0) || fdo.rpt
          let cmdStr := if !startsWith cmdStr apireq then apireq ++ cmdStr else cmdStr
          let cmdStr :=
            if !w.irApplyToAllSelected && decide (indexOf cmdStr textSS < 0) then
              cmdStr ++ (textAndSS ++ formatDecimal w.strip.mainSegmentId)
            else cmdStr
          let w := handleSet cmdStr w
          let w := releaseJSONBufferLock w
          let w := notify CallMode.buttonPreset w
          (if repeatable then UiJsonActionResult.OK_REPEATABLE
           else UiJsonActionResult.OK, w)

/-- Function `decodeIRJson` of `ir.cpp`.  The key text is `"0x`, the code in
upper-case hexadecimal, `":`; character 34 is the double quote. -/
def decodeIRJson (code : Nat) (w : World) : World :=
  let objKey := [Char.ofNat 34, '0', 'x'] ++ formatHexUpper code ++ [Char.ofNat 34, ':']
  let fileName := textIrJson
  let r := runJson 13 fileName objKey w
  let w := { r.2 with lastValidCode := 0 }
  match r.1 with
  | UiJsonActionResult.OK => w
  | UiJsonActionResult.OK_REPEATABLE => { w with lastValidCode := code }
  | UiJsonActionResult.ERR_NO_FILE => { w with errorFlag := ErrorFlag.ERR_FS_IRLOAD }
  | UiJsonActionResult.ERR_LOCK => w
  | UiJsonActionResult.ERR_CODE_NOT_IN_FILE => w
  | UiJsonActionResult.ERR_CODE_NO_ACTION => w

/-- Lock state after a run of log entries, given the lock state before. -/
def lockHeldAfter : Bool → List Event → Bool
  | held, [] => held
  | _, Event.lockAcquired _ :: rest => lockHeldAfter true rest
  | _, Event.lockReleased :: rest => lockHeldAfter false rest
  | held, _ :: rest => lockHeldAfter held rest

/-- Number of notifications in a run of log entries that were raised while the
lock was held, given the lock state before. -/
def heldNotifications : Bool → List Event → Nat
  | _, [] => 0
  | _, Event.lockAcquired _ :: rest => heldNotifications true rest
  | _, Event.lockReleased :: rest => heldNotifications false rest
  | held, Event.stateUpdated _ :: rest =>
    (if held then 1 else 0) + heldNotifications held rest
  | held, _ :: rest => heldNotifications held rest

/-- Number of lock releases in a run of log entries. -/
def lockReleases : List Event → Nat
  | [] => 0
  | Event.lockReleased :: rest => lockReleases rest + 1
  | _ :: rest => lockReleases rest

/-- A strip with one segment, active and selected, which is the main segment. -/
def oneSegmentStrip : Strip :=
  { segments := [{ active := true, selected := true }], mainSegmentId := 0,
    modeCount := 200, updatingUntil := 0 }

/-- A world right after start-up, with no command file. -/
def bootWorld : World :=
  { ui := bootState, strip := oneSegmentStrip, irApplyToAllSelected := false,
    jsonBufferLock := none, files := [], millis := 1000, random := 77,
    lastValidCode := 0, errorFlag := ErrorFlag.ERR_NONE, trace := [] }

/-- An entry of the command file with a text command and nothing else. -/
def textEntry (cmdStr : Str) : JsonEntry :=
  { cmd := JsonCmd.str cmdStr, rpt := false, PL := none, FX := none, FP := none }

/-- A world whose file `/ir.json` has the given entry under the key of IR code
`0x1`. -/
def irWorld (fdo : JsonEntry) : World :=
  { bootWorld with
    files := [(textIrJson, [([Char.ofNat 34, '0', 'x', '1', Char.ofNat 34, ':'], fdo)])] }


/-- Key text of IR code `0x1` in the command file: `"0x1":` with its quotes. -/
def irKeyOne : Str := [Char.ofNat 34, '0', 'x', '1', Char.ofNat 34, ':']

/-- Log entries added between two worlds. -/
def newEvents (before after : World) : List Event :=
  after.trace.drop before.trace.length

/-- Test for a state command: an entry whose `cmd` is an object without
`psave`. -/
def isStateCommand : Option JsonEntry → Bool
  | some { cmd := JsonCmd.obj { psave := none, .. }, .. } => true
  | _ => false

/-- Stated from the spec: the HTTP request for a text command `s` is `s` with
`win&` put in front unless `s` starts with it, followed by `&SS=` and the main
segment id in decimal exactly when apply-to-all-selected is off and `s` does
not contain `SS=`. -/
def specRequest (s : Str) (applyToAll : Bool) (mainSegmentId : Nat) : Str :=
  (if textWin <+: s then s else textWin ++ s) ++
    (if applyToAll = false ∧ ¬ textSS <:+: s then
      textAndSS ++ formatDecimal mainSegmentId
    else [])


/-! Segment targeting -/

/-- Type `SegmentsFilter`. -/
inductive SegmentsFilter where
  | IR_REMOTE_SETTING
  | MAIN
  | SELECTED
  | ACTIVE
deriving DecidableEq, Repr

/-- Result of `strip.getSegment(index).isActive()`. -/
def Strip.isActive (strip : Strip) (index : Nat) : Bool :=
  match strip.segments[index]? with
  | some seg => seg.active
  | none => false

/-- Result of `strip.getSegment(index).isSelected()`. -/
def Strip.isSelected (strip : Strip) (index : Nat) : Bool :=
  match strip.segments[index]? with
  | some seg => seg.selected
  | none => false

/-- Test of the `SELECTED` scope: the segment is both active and selected. -/
def Strip.isActiveSelected (strip : Strip) (index : Nat) : Bool :=
  strip.isActive index && strip.isSelected index

/-- Result of `strip.getSegmentsNum()`. -/
def Strip.getSegmentsNum (strip : Strip) : Nat := strip.segments.length

/-- Modelled from the spec: `strip.getFirstSelectedSegId()` belongs to the strip
engine, outside the files of this development.  The spec: the first segment
that is both active and selected, with the main segment as the fallback when
there is none. -/
def Strip.getFirstSelectedSegId (strip : Strip) : Nat :=
  match ((List.range strip.segments.length).filter strip.isActiveSelected).head? with
  | some index => index
  | none => strip.mainSegmentId

/-- Class `SegmentIterator`.  A segment reference is the index of the segment
in the strip; `none` is the null pointer. -/
structure SegmentIterator where
  m_filter : SegmentsFilter
  m_index : Nat
  m_count : Nat
  m_pointer : Option Nat
  m_first : Option Nat
deriving DecidableEq, Repr

/-- Number of loop rounds the loops over a `uint8_t` index may take. -/
def indexRounds : Nat := 256

/-- The loop `while (m_index < m_count && !isActive(m_index)) m_index++;` of
the constructor.  The first argument is the number of rounds left; `none`
means that they were used up. -/
def skipInactive (strip : Strip) (m_count : Nat) : Nat → Nat → Option Nat
  | 0, _ => none
  | rounds + 1, m_index =>
    if m_index < m_count && !strip.isActive m_index then
      skipInactive strip m_count rounds ((m_index + 1) % 256)
    else some m_index

/-- Constructor `SegmentIterator::SegmentIterator`.  In the `MAIN` branch the
members `m_index` and `m_count` are not set by the code and not read later;
they are 0 here. -/
def SegmentIterator.create (irApplyToAllSelected : Bool) (strip : Strip)
    (filter : SegmentsFilter) : Option SegmentIterator :=
  let m_filter :=
    if filter = SegmentsFilter.IR_REMOTE_SETTING then
      (if irApplyToAllSelected then SegmentsFilter.SELECTED else SegmentsFilter.MAIN)
    else filter
  if m_filter = SegmentsFilter.SELECTED then
    let m_count := strip.getSegmentsNum % 256
    let m_index := strip.getFirstSelectedSegId % 256
    some { m_filter := m_filter, m_index := m_index, m_count := m_count,
           m_pointer := some m_index, m_first := some m_index }
  else if m_filter = SegmentsFilter.ACTIVE then
    let m_count := strip.getSegmentsNum % 256
    match skipInactive strip m_count indexRounds 0 with
    | none => none
    | some m_index =>
      let m_index :=
        if m_index ≥ m_count then
          -- no active segments, use main segment
          strip.mainSegmentId % 256
        else m_index
      some { m_filter := m_filter, m_index := m_index, m_count := m_count,
             m_pointer := some m_index, m_first := some m_index }
  else
    some { m_filter := m_filter, m_index := 0, m_count := 0,
           m_pointer := some strip.mainSegmentId,
           m_first := some strip.mainSegmentId }

/-- The `do ... while` loops of `SegmentIterator::next`: step `m_index`, stop
at `m_count` with the null pointer, otherwise stop at the first segment that
passes the test.  The result is the new `m_index` and the new `m_pointer`.
The first argument is the number of rounds left; `none` means that they were
used up. -/
def advance (test : Nat → Bool) (m_count : Nat) :
    Nat → Nat → Option (Nat × Option Nat)
  | 0, _ => none
  | rounds + 1, m_index =>
    let m_index := (m_index + 1) % 256
    if m_index ≥ m_count then some (m_index, none)
    else if test m_index then some (m_index, some m_index)
    else advance test m_count rounds m_index

/-- Method `SegmentIterator::next`. -/
def SegmentIterator.next (strip : Strip) (it : SegmentIterator) :
    Option (Bool × SegmentIterator) :=
  match it.m_pointer with
  | none => some (false, it)
  | some _ =>
    if it.m_filter = SegmentsFilter.SELECTED then
      match advance strip.isActiveSelected it.m_count indexRounds it.m_index with
      | none => none
      | some (m_index, none) =>
        some (false, { it with m_index := m_index, m_pointer := none })
      | some (m_index, some seg) =>
        some (true, { it with m_index := m_index, m_pointer := some seg })
    else if it.m_filter = SegmentsFilter.ACTIVE then
      match advance strip.isActive it.m_count indexRounds it.m_index with
      | none => none
      | some (m_index, none) =>
        some (false, { it with m_index := m_index, m_pointer := none })
      | some (m_index, some seg) =>
        some (true, { it with m_index := m_index, m_pointer := some seg })
    else
      -- only one segment is being used
      some (false, { it with m_pointer := none })

/-- The loop `do { ... *segment_iter ... } while (segment_iter.next());` that
every action runs over its iterator: the segments the body is run on, in the
order of the rounds.  The first argument is the number of rounds left; `none`
means that they were used up, or that the null pointer would be read. -/
def visitLoop (strip : Strip) : Nat → SegmentIterator → Option (List Nat)
  | 0, _ => none
  | rounds + 1, it =>
    match it.m_pointer with
    | none => none
    | some seg =>
      match it.next strip with
      | none => none
      | some (true, it2) => (visitLoop strip rounds it2).map (fun l => seg :: l)
      | some (false, _) => some [seg]

/-- The segments an action with the given scope works on: the iterator is
constructed and the loop is run to its end. -/
def segmentsVisited (irApplyToAllSelected : Bool) (strip : Strip)
    (filter : SegmentsFilter) : Option (List Nat) :=
  match SegmentIterator.create irApplyToAllSelected strip filter with
  | none => none
  | some it => visitLoop strip indexRounds it

/-- A strip of five segments; segment 4 is the main segment. -/
def fiveSegmentStrip : Strip :=
  { oneSegmentStrip with
    segments :=
      [{ active := true, selected := false }, { active := true, selected := true },
       { active := false, selected := true }, { active := true, selected := true },
       { active := true, selected := false }],
    mainSegmentId := 4 }


/-- The segments that pass a test, by ascending index, with the main segment as
the fallback when there is none. -/
def passingOrMain (strip : Strip) (test : Nat → Bool) : List Nat :=
  match (List.range strip.segments.length).filter test with
  | [] => [strip.mainSegmentId]
  | index :: rest => index :: rest

/-- Stated from the spec: the segments a scope targets.  `SELECTED` targets the
segments that are both active and selected, `ACTIVE` the active segments, both
by ascending index and with the main segment as the fallback when there is
none; `MAIN` targets the main segment; `IR_REMOTE_SETTING` is `SELECTED` when
`irApplyToAllSelected` is set and `MAIN` otherwise. -/
def targetSegments (irApplyToAllSelected : Bool) (strip : Strip) :
    SegmentsFilter → List Nat
  | SegmentsFilter.SELECTED => passingOrMain strip strip.isActiveSelected
  | SegmentsFilter.ACTIVE => passingOrMain strip strip.isActive
  | SegmentsFilter.MAIN => [strip.mainSegmentId]
  | SegmentsFilter.IR_REMOTE_SETTING =>
    if irApplyToAllSelected then passingOrMain strip strip.isActiveSelected
    else [strip.mainSegmentId]

/-- A strip of three segments, none of them active; segment 2 is the main
segment. -/
def idleStrip : Strip :=
  { oneSegmentStrip with
    segments :=
      [{ active := false, selected := true }, { active := false, selected := false },
       { active := false, selected := true }],
    mainSegmentId := 2 }


/-! Actions on the targeted segments -/

/-- Modelled from the spec: the macro `GET_BIT` is defined outside the files of
this development; it tests one bit of a value. -/
def GET_BIT (var bit : Nat) : Bool := (var >>> bit) &&& 1 != 0

/-- Modelled from the spec: the macro `R` is defined outside the files of this
development; the spec packs the primary colour in 32 bits, white on top, then
red, green and blue.  The red byte of a colour. -/
def R (c : Nat) : Nat := (c >>> 16) % 256

/-- Modelled from the spec: the green byte of a colour (macro `G`). -/
def G (c : Nat) : Nat := (c >>> 8) % 256

/-- Modelled from the spec: the blue byte of a colour (macro `B`). -/
def B (c : Nat) : Nat := c % 256

/-- Modelled from the spec: the white byte of a colour (macro `W`). -/
def W (c : Nat) : Nat := (c >>> 24) % 256

/-- Modelled from the spec: the colour packed from four bytes (macro
`RGBW32`). -/
def RGBW32 (r g b w : Nat) : Nat :=
  ((w % 256) <<< 24) ||| ((r % 256) <<< 16) ||| ((g % 256) <<< 8) ||| (b % 256)

/-- Modelled from the spec: `FX_MODE_STATIC` is defined outside the files of
this development; the spec gives the solid colour effect the id 0. -/
def FX_MODE_STATIC : Nat := 0

/-- Modelled from the spec: `Segment::setColor` belongs to the strip engine,
outside the files of this development.  Only slot 0, the primary colour, is
kept here; a write to another slot is dropped. -/
def Segment.setColor (seg : Segment) (slot c : Nat) : Segment :=
  if slot = 0 then { seg with colors0 := c % 2 ^ 32 } else seg

/-- Modelled from the spec: `Segment::setCCT` belongs to the strip engine; it
sets the colour temperature value. -/
def Segment.setCCT (seg : Segment) (k : Nat) : Segment :=
  { seg with cct := k % 2 ^ 16 }

/-- Modelled from the spec: `Segment::setMode` belongs to the strip engine; it
sets the effect mode id. -/
def Segment.setMode (seg : Segment) (fx : Nat) : Segment :=
  { seg with mode := fx % 256 }

/-- Modelled from the spec: `Segment::setPalette` belongs to the strip engine;
it sets the palette id. -/
def Segment.setPalette (seg : Segment) (pal : Nat) : Segment :=
  { seg with palette := pal % 256 }

/-- Macro `constrain` of the platform: the value held between two limits. -/
def constrain (amt low high : Int) : Int :=
  if amt < low then low else if amt > high then high else amt

/-- A write through a segment reference: the segment with that index is
replaced by the result of the statements run on it.  A reference to an index
outside the strip refers to no segment. -/
def Strip.update (strip : Strip) (seg : Nat) (body : Segment → Segment) : Strip :=
  match strip.segments[seg]? with
  | some s => { strip with segments := strip.segments.set seg (body s) }
  | none => strip

/-- The loop `do { body } while (segment_iter.next());` with a body that works
on the segment the iterator points at.  The first argument is the number of
rounds left; `none` means that they were used up, or that the null pointer
would be read. -/
def forEachSegment (body : Segment → Segment) :
    Nat → Strip → SegmentIterator → Option Strip
  | 0, _, _ => none
  | rounds + 1, strip, segment_iter =>
    match segment_iter.m_pointer with
    | none => none
    | some seg =>
      let strip := strip.update seg body
      match segment_iter.next strip with
      | none => none
      | some (true, segment_iter) => forEachSegment body rounds strip segment_iter
      | some (false, _) => some strip

/-- Modelled from the spec: `setValuesFromSegmentRef` is defined outside the
files of this development.  The spec: callers re-read the settled values of
the first segment visited into the global shadow state. -/
def setValuesFromSegmentRef (first : Option Nat) (w : World) : World :=
  match first.bind (fun index => w.strip.segments[index]?) with
  | none => w
  | some seg =>
    { w with effectCurrent := seg.mode, effectSpeed := seg.speed,
             effectIntensity := seg.intensity, effectPalette := seg.palette,
             colPri := seg.colors0 }

/-- The statements shared by the actions that write to the targeted segments:
`SegmentIterator segment_iter(m_filter); do { body } while (segment_iter.next());
setValuesFromSegmentRef(segment_iter.first()); stateChanged = true; doUpdate();`.
When the rounds of the loops are used up the world is handed back as it was;
this does not happen on a strip of at most 255 segments. -/
def updateSegments (m_filter : SegmentsFilter) (body : Segment → Segment)
    (w : World) : World :=
  match SegmentIterator.create w.irApplyToAllSelected w.strip m_filter with
  | none => w
  | some segment_iter =>
    match forEachSegment body indexRounds w.strip segment_iter with
    | none => w
    | some strip =>
      let w := { w with strip := strip }
      let w := setValuesFromSegmentRef segment_iter.m_first w
      callAction (fun s => doUpdate { s with stateChanged := true }) w

/-- The segment a freshly constructed iterator points at, read through
`segment_iter->` or `*segment_iter`. -/
def firstSegment (m_filter : SegmentsFilter) (w : World) : Option Segment :=
  match SegmentIterator.create w.irApplyToAllSelected w.strip m_filter with
  | none => none
  | some segment_iter =>
    segment_iter.m_pointer.bind (fun index => w.strip.segments[index]?)

/-- The body of the loop of `UiAction::changeColorEffectAndPalette`, run on one
segment.  `c` is a `uint32_t`; `cct`, `effect` and `pal` are `int16_t`. -/
def colorEffectAndPaletteStep (c : Nat) (cct effect pal : Int) (seg : Segment) :
    Segment :=
  let capabilities := seg.capabilities % 256
  let mask := 0
  let isRGB := GET_BIT capabilities 0    -- is segment RGB capable
  let hasW := GET_BIT capabilities 1     -- do we have white/CCT channel
  let isCCT := GET_BIT capabilities 2    -- is segment CCT capable
  let wSlider := GET_BIT capabilities 3
  let mask := if isRGB then mask ||| 0x00FFFFFF else mask
  let mask := if hasW then mask ||| 0xFF000000 else mask
  let seg :=
    if hasW && !wSlider && (c &&& 0xFF000000 != 0) then
      seg.setColor 0 (c ||| 0xFFFFFF)
    else if c &&& mask != 0 then seg.setColor 0 (c &&& mask)
    else seg
  let seg := if isCCT && cct ≥ 0 then seg.setCCT cct.toNat else seg
  let seg := if effect ≥ 0 then seg.setMode (toUint8 effect) else seg
  let seg := if pal ≥ 0 then seg.setPalette (toUint8 pal) else seg
  seg

/-- Method `UiAction::changeColorEffectAndPalette`. -/
def changeColorEffectAndPalette (m_filter : SegmentsFilter) (c : Nat)
    (cct effect pal : Int) (w : World) : World :=
  updateSegments m_filter (colorEffectAndPaletteStep c cct effect pal) w

/-- Method `UiAction::changeColor`. -/
def changeColor (m_filter : SegmentsFilter) (c : Nat) (cct : Int) (w : World) :
    World :=
  changeColorEffectAndPalette m_filter c cct (-1) (-1) w

/-- Method `UiAction::changeColorStatic`. -/
def changeColorStatic (m_filter : SegmentsFilter) (c : Nat) (cct : Int)
    (w : World) : World :=
  changeColorEffectAndPalette m_filter c cct (FX_MODE_STATIC : Int) (-1) w

/-- A strip of three segments, all active and selected.  Segment 0 has a white
channel and capability bit 3 set, and no RGB; segment 1 is RGB and CCT capable
with a white channel and capability bit 3 clear; segment 2 is plain RGB.
Segment 0 is the main segment. -/
def colourStrip : Strip :=
  { oneSegmentStrip with
    segments :=
      [{ active := true, selected := true, colors0 := 0x11223344, cct := 7,
         mode := 3, palette := 4, capabilities := 0x0A },
       { active := true, selected := true, colors0 := 0x55000000, cct := 8,
         mode := 5, palette := 6, capabilities := 0x07 },
       { active := true, selected := true, colors0 := 0x00010203, cct := 9,
         mode := 7, palette := 8, capabilities := 0x01 }],
    mainSegmentId := 0 }

/-- A world with `colourStrip` in which the remote works on all selected
segments; there are 200 effects and 71 palettes. -/
def colourWorld : World :=
  { bootWorld with strip := colourStrip, irApplyToAllSelected := true,
                   effectCurrent := 3, effectPalette := 4, paletteCount := 71 }

/-- A body of a segment loop that leaves alone the flags segment targeting
reads. -/
def KeepsFlags (body : Segment → Segment) : Prop :=
  ∀ seg, (body seg).active = seg.active ∧ (body seg).selected = seg.selected

/-- The statements of a loop body run on the listed segments, one after the
other. -/
def applyToSegments (body : Segment → Segment) (targets : List Nat)
    (strip : Strip) : Strip :=
  targets.foldl (fun s index => s.update index body) strip

/-- Stated from the spec: the capability-aware mask, with the three RGB bytes
set when bit 0 of the capabilities is set and the white byte set when bit 1 is
set. -/
def capabilityMask (capabilities : Nat) : Nat :=
  (if GET_BIT capabilities 0 then 0x00FFFFFF else 0) +
    (if GET_BIT capabilities 1 then 0xFF000000 else 0)

/-- The test of the forced-white case in `changeColorEffectAndPalette`:
`hasW && !wSlider && (c & 0xFF000000)`. -/
def forcedWhite (capabilities c : Nat) : Bool :=
  GET_BIT capabilities 1 && !GET_BIT capabilities 3 && (c &&& 0xFF000000 != 0)

/-- Stated from the spec: a value held in the range of a byte, 0 below the
range and 255 above it. -/
def clampByte (x : Int) : Nat :=
  if x < 0 then 0 else if x > 255 then 255 else x.toNat

/-- Method `UiAction::changePalette`. -/
def changePalette (m_filter : SegmentsFilter) (pal : Nat) (w : World) : World :=
  updateSegments m_filter (fun seg => seg.setPalette pal) w

/-- Method `UiAction::nextPalette`.  The result of the remainder is narrowed to
`uint8_t`. -/
def nextPalette (m_filter : SegmentsFilter) (w : World) : World :=
  let pal := toUint8 (((w.effectPalette + 1) % w.paletteCount : Nat) : Int)
  changePalette m_filter pal w

/-- Method `UiAction::prevPalette`. -/
def prevPalette (m_filter : SegmentsFilter) (w : World) : World :=
  let pal :=
    toUint8 (if w.effectPalette = 0 then (w.paletteCount : Int) - 1
             else (w.effectPalette : Int) - 1)
  changePalette m_filter pal w

/-- Method `UiAction::changeEffect`. -/
def changeEffect (m_filter : SegmentsFilter) (fx : Nat) (w : World) : World :=
  updateSegments m_filter (fun seg => seg.setMode fx) w

/-- Method `UiAction::nextEffect`. -/
def nextEffect (m_filter : SegmentsFilter) (w : World) : World :=
  let fx := toUint8 (((w.effectCurrent + 1) % w.strip.modeCount : Nat) : Int)
  changeEffect m_filter fx w

/-- Method `UiAction::prevEffect`. -/
def prevEffect (m_filter : SegmentsFilter) (w : World) : World :=
  let fx :=
    toUint8 (if w.effectCurrent = 0 then (w.strip.modeCount : Int) - 1
             else (w.effectCurrent : Int) - 1)
  changeEffect m_filter fx w

/-- Method `UiAction::changeEffectSpeed`. -/
def changeEffectSpeed (m_filter : SegmentsFilter) (speed : Nat) (w : World) :
    World :=
  updateSegments m_filter (fun seg => { seg with speed := speed % 256 }) w

/-- Method `UiAction::changeEffectSpeedRelative`; `delta` is an `int8_t`. -/
def changeEffectSpeedRelative (m_filter : SegmentsFilter) (delta : Int)
    (w : World) : World :=
  let new_val : Int := (w.effectSpeed : Int) + delta
  let speed := toUint8 (constrain new_val 0 255)
  changeEffectSpeed m_filter speed w

/-- Method `UiAction::incEffectSpeed`. -/
def incEffectSpeed (m_filter : SegmentsFilter) (w : World) : World :=
  let speed := w.effectSpeed % 256
  if speed < 240 then changeEffectSpeed m_filter ((speed + 12) % 256) w
  else if speed < 255 then changeEffectSpeed m_filter ((speed + 1) % 256) w
  else w

/-- Method `UiAction::decEffectSpeed`. -/
def decEffectSpeed (m_filter : SegmentsFilter) (w : World) : World :=
  let speed := w.effectSpeed % 256
  if speed > 15 then changeEffectSpeed m_filter (toUint8 ((speed : Int) - 12)) w
  else if speed > 0 then changeEffectSpeed m_filter (toUint8 ((speed : Int) - 1)) w
  else w

/-- Method `UiAction::changeEffectIntensity`. -/
def changeEffectIntensity (m_filter : SegmentsFilter) (intensity : Nat)
    (w : World) : World :=
  updateSegments m_filter (fun seg => { seg with intensity := intensity % 256 }) w

/-- Method `UiAction::changeEffectIntensityRelative`; `delta` is an
`int8_t`. -/
def changeEffectIntensityRelative (m_filter : SegmentsFilter) (delta : Int)
    (w : World) : World :=
  let new_val : Int := (w.effectIntensity : Int) + delta
  let intensity := toUint8 (constrain new_val 0 255)
  changeEffectIntensity m_filter intensity w

/-- Method `UiAction::incEffectIntensity`. -/
def incEffectIntensity (m_filter : SegmentsFilter) (w : World) : World :=
  let intensity := w.effectIntensity % 256
  if intensity < 240 then changeEffectIntensity m_filter ((intensity + 12) % 256) w
  else if intensity < 255 then
    changeEffectIntensity m_filter ((intensity + 1) % 256) w
  else w

/-- Method `UiAction::decEffectIntensity`. -/
def decEffectIntensity (m_filter : SegmentsFilter) (w : World) : World :=
  let intensity := w.effectIntensity % 256
  if intensity > 15 then
    changeEffectIntensity m_filter (toUint8 ((intensity : Int) - 12)) w
  else if intensity > 0 then
    changeEffectIntensity m_filter (toUint8 ((intensity : Int) - 1)) w
  else w

/-- Modelled from the spec: the conversions `rgb2hsv` and `hsv2rgb_rainbow`
belong to the colour library, outside the files of this development; the spec
has the primary colour converted to HSV and back.  A colour is its three bytes
red, green, blue; an HSV value is its three bytes hue, saturation, value. -/
structure ColorConversion where
  rgb2hsv : Nat × Nat × Nat → Nat × Nat × Nat
  hsv2rgb_rainbow : Nat × Nat × Nat → Nat × Nat × Nat

/-- The statements of `changeHueSaturationRelative` that change the hue:
`int16_t new_hue = (int16_t)prim_hsv.h + hue_delta;`, the two roll-over tests
and the narrowing to `uint8_t`. -/
def hueRollOver (h : Nat) (hue_delta : Int) : Nat :=
  let new_hue : Int := (h : Int) + hue_delta
  let new_hue := if new_hue > 255 then new_hue - 255 else new_hue
  let new_hue := if new_hue < 0 then new_hue + 255 else new_hue
  toUint8 new_hue

/-- The statements of `changeHueSaturationRelative` that change the
saturation. -/
def saturationConstrain (s : Nat) (sat_delta : Int) : Nat :=
  let new_sat : Int := (s : Int) + sat_delta
  toUint8 (constrain new_sat 0 255)

/-- The colour `changeHueSaturationRelative` computes from the primary colour
of the first targeted segment. -/
def hueSaturationColor (conv : ColorConversion) (hue_delta sat_delta : Int)
    (color : Nat) : Nat :=
  -- Get old color and split into HSV
  let fastled_col := (R color, G color, B color)
  let prim_hsv := conv.rgb2hsv fastled_col
  -- Change hue
  let h := hueRollOver (prim_hsv.1 % 256) hue_delta
  -- Change saturation
  let s := saturationConstrain (prim_hsv.2.1 % 256) sat_delta
  -- Convert color back to RGBW (we don't change the W part)
  let fastled_col := conv.hsv2rgb_rainbow (h, s, prim_hsv.2.2 % 256)
  RGBW32 fastled_col.1 fastled_col.2.1 fastled_col.2.2 (W color)

/-- Method `UiAction::changeHueSaturationRelative`; the deltas are `int8_t`.
When the iterator points at no segment of the strip the world is handed back
as it was. -/
def changeHueSaturationRelative (conv : ColorConversion) (m_filter : SegmentsFilter)
    (hue_delta sat_delta : Int) (w : World) : World :=
  match firstSegment m_filter w with
  | none => w
  | some first =>
    let new_color := hueSaturationColor conv hue_delta sat_delta first.colors0
    -- Set the new color.
    updateSegments m_filter (fun seg => { seg with colors0 := new_color }) w

/-- Method `UiAction::changeHueRelative`. -/
def changeHueRelative (conv : ColorConversion) (m_filter : SegmentsFilter)
    (delta : Int) (w : World) : World :=
  changeHueSaturationRelative conv m_filter delta 0 w

/-- Method `UiAction::changeSaturationRelative`. -/
def changeSaturationRelative (conv : ColorConversion) (m_filter : SegmentsFilter)
    (delta : Int) (w : World) : World :=
  changeHueSaturationRelative conv m_filter 0 delta w

/-- Method `UiAction::incEffectSpeedOrHue`. -/
def incEffectSpeedOrHue (conv : ColorConversion) (m_filter : SegmentsFilter)
    (w : World) : World :=
  if w.effectCurrent != 0 then changeEffectSpeedRelative m_filter 16 w
  else changeHueRelative conv m_filter 16 w

/-- Method `UiAction::decEffectSpeedOrHue`. -/
def decEffectSpeedOrHue (conv : ColorConversion) (m_filter : SegmentsFilter)
    (w : World) : World :=
  if w.effectCurrent != 0 then changeEffectSpeedRelative m_filter (-16) w
  else changeHueRelative conv m_filter (-16) w

/-- Method `UiAction::incEffectIntensityOrSaturation`. -/
def incEffectIntensityOrSaturation (conv : ColorConversion)
    (m_filter : SegmentsFilter) (w : World) : World :=
  if w.effectCurrent != 0 then changeEffectIntensityRelative m_filter 16 w
  else changeSaturationRelative conv m_filter 16 w

/-- Method `UiAction::decEffectIntensityOrSaturation`. -/
def decEffectIntensityOrSaturation (conv : ColorConversion)
    (m_filter : SegmentsFilter) (w : World) : World :=
  if w.effectCurrent != 0 then changeEffectIntensityRelative m_filter (-16) w
  else changeSaturationRelative conv m_filter (-16) w

/-- Function `relativeChange` of `remote_action.cpp`; `property` and the
boundaries are `uint8_t`, `amount` is an `int8_t`. -/
def relativeChange (property : Nat) (amount : Int) (lowerBoundary : Nat)
    (higherBoundary : Nat) : Nat :=
  let new_val : Int := (property : Int) + amount
  if lowerBoundary ≥ higherBoundary then property
  else
    let new_val := if new_val > (higherBoundary : Int) then (higherBoundary : Int) else new_val
    let new_val := if new_val < (lowerBoundary : Int) then (lowerBoundary : Int) else new_val
    toUint8 new_val

/-- Method `UiAction::changeWhite`.  When the iterator points at no segment of
the strip the world is handed back as it was. -/
def changeWhite (m_filter : SegmentsFilter) (amount : Int) (w : World) : World :=
  match firstSegment m_filter w with
  | none => w
  | some seg =>
    let r := R seg.colors0
    let g := G seg.colors0
    let b := B seg.colors0
    let white := relativeChange (W seg.colors0) amount 5 0xFF
    let new_color := RGBW32 r g b white
    changeColor m_filter new_color (-1) w

/-- Method `UiAction::nightlightStart`. -/
def nightlightStart (w : World) : World :=
  let w := { w with ui := { w.ui with nightlightActive := true } }
  let w := { w with nightlightStartTime := w.millis }
  callAction doUpdate w

/-- A colour conversion for worked examples: both directions hand the three
bytes through as they are. -/
def plainConversion : ColorConversion :=
  { rgb2hsv := fun x => x, hsv2rgb_rainbow := fun x => x }

/-- A strip of two segments with different white bytes, both active and
selected. -/
def twoWhiteStrip : Strip :=
  { oneSegmentStrip with
    segments :=
      [{ active := true, selected := true, colors0 := 0x11203040, capabilities := 3 },
       { active := true, selected := true, colors0 := 0x55607080, capabilities := 3 }],
    mainSegmentId := 0 }

/-- A world with `twoWhiteStrip` in which the remote works on all selected
segments. -/
def twoWhiteWorld : World :=
  { bootWorld with strip := twoWhiteStrip, irApplyToAllSelected := true }


/-- Stated from the spec: the non-linear step up of speed and intensity, 12
units below 240, one unit from 240 to 254, none at 255. -/
def stepUp (v : Nat) : Nat :=
  if v < 240 then v + 12 else if v < 255 then v + 1 else v

/-- Stated from the spec: the non-linear step down of speed and intensity, 12
units above 15, one unit from 15 to 1, none at 0. -/
def stepDown (v : Nat) : Nat :=
  if v > 15 then v - 12 else if v > 0 then v - 1 else v


/-! Infrared remote: repeat memory -/

/-- Function `incBrightness` of `ir.cpp`: the brightness step up, recorded as
the repeatable action when it changed the brightness. -/
def Ir.incBrightness (w : World) : World :=
  let changed := (WLED.incBrightness w.ui).1
  let w := callAction (fun s => (WLED.incBrightness s).2) w
  if changed then { w with lastRepeatableAction := RepeatAction.ACTION_BRIGHT_UP }
  else w

/-- Function `decBrightness` of `ir.cpp`. -/
def Ir.decBrightness (w : World) : World :=
  let changed := (WLED.decBrightness w.ui).1
  let w := callAction (fun s => (WLED.decBrightness s).2) w
  if changed then { w with lastRepeatableAction := RepeatAction.ACTION_BRIGHT_DOWN }
  else w

/-- Function `incEffectSpeedOrHue` of `ir.cpp`. -/
def Ir.incEffectSpeedOrHue (conv : ColorConversion) (w : World) : World :=
  let w := WLED.incEffectSpeedOrHue conv SegmentsFilter.IR_REMOTE_SETTING w
  { w with lastRepeatableAction := RepeatAction.ACTION_SPEED_UP }

/-- Function `decEffectSpeedOrHue` of `ir.cpp`. -/
def Ir.decEffectSpeedOrHue (conv : ColorConversion) (w : World) : World :=
  let w := WLED.decEffectSpeedOrHue conv SegmentsFilter.IR_REMOTE_SETTING w
  { w with lastRepeatableAction := RepeatAction.ACTION_SPEED_DOWN }

/-- Function `incEffectIntensityOrSaturation` of `ir.cpp`. -/
def Ir.incEffectIntensityOrSaturation (conv : ColorConversion) (w : World) : World :=
  let w := WLED.incEffectIntensityOrSaturation conv SegmentsFilter.IR_REMOTE_SETTING w
  { w with lastRepeatableAction := RepeatAction.ACTION_INTENSITY_UP }

/-- Function `decEffectIntensityOrSaturation` of `ir.cpp`. -/
def Ir.decEffectIntensityOrSaturation (conv : ColorConversion) (w : World) : World :=
  let w := WLED.decEffectIntensityOrSaturation conv SegmentsFilter.IR_REMOTE_SETTING w
  { w with lastRepeatableAction := RepeatAction.ACTION_INTENSITY_DOWN }

/-- Modelled from the spec: the key codes are defined in `ir_codes.h`, outside
the files of this development; the spec calls them the per-remote code tables.
These are the four codes `applyRepeatActions` compares the last valid code
with. -/
structure IrCodes where
  IR40_WPLUS : Nat
  IR40_WMINUS : Nat
  IR24_ON : Nat
  IR40_ON : Nat

/-- Function `applyRepeatActions` of `ir.cpp`.  The global `RemoteAction` has
the scope `IR_REMOTE_SETTING`. -/
def applyRepeatActions (codes : IrCodes) (conv : ColorConversion) (w : World) :
    World :=
  if w.irEnabled = 8 then decodeIRJson w.lastValidCode w
  else
    match w.lastRepeatableAction with
    | RepeatAction.ACTION_BRIGHT_UP => callAction (fun s => (incBrightness s).2) w
    | RepeatAction.ACTION_BRIGHT_DOWN => callAction (fun s => (decBrightness s).2) w
    | RepeatAction.ACTION_SPEED_UP =>
      incEffectSpeedOrHue conv SegmentsFilter.IR_REMOTE_SETTING w
    | RepeatAction.ACTION_SPEED_DOWN =>
      decEffectSpeedOrHue conv SegmentsFilter.IR_REMOTE_SETTING w
    | RepeatAction.ACTION_INTENSITY_UP =>
      incEffectIntensityOrSaturation conv SegmentsFilter.IR_REMOTE_SETTING w
    | RepeatAction.ACTION_INTENSITY_DOWN =>
      decEffectIntensityOrSaturation conv SegmentsFilter.IR_REMOTE_SETTING w
    | RepeatAction.ACTION_NONE =>
      if w.lastValidCode = codes.IR40_WPLUS then
        changeWhite SegmentsFilter.IR_REMOTE_SETTING 10 w
      else if w.lastValidCode = codes.IR40_WMINUS then
        changeWhite SegmentsFilter.IR_REMOTE_SETTING (-10) w
      else if (w.lastValidCode = codes.IR24_ON || w.lastValidCode = codes.IR40_ON)
          && w.irTimesRepeated > 7 then
        nightlightStart w
      else w

/-- The per-remote decoders `decodeIR24OLD` to `decodeIR9` of `ir.cpp`, which
`decodeIR` hands a code to; they are arguments of `decodeIR` here. -/
structure Decoders where
  decodeIR24OLD : Nat → World → World
  decodeIR24 : Nat → World → World
  decodeIR24CT : Nat → World → World
  decodeIR40 : Nat → World → World
  decodeIR44 : Nat → World → World
  decodeIR21 : Nat → World → World
  decodeIR6 : Nat → World → World
  decodeIR9 : Nat → World → World

/-- Function `decodeIR` of `ir.cpp`; `code` is a `uint32_t` and the repeat
counter a `uint16_t`. -/
def decodeIR (codes : IrCodes) (conv : ColorConversion) (decoders : Decoders)
    (code : Nat) (w : World) : World :=
  if code = 0xFFFFFFFF then
    -- repeated code, continue brightness up/down
    let w := { w with irTimesRepeated := (w.irTimesRepeated + 1) % 65536 }
    applyRepeatActions codes conv w
  else
    let w := { w with lastValidCode := 0, irTimesRepeated := 0,
                      lastRepeatableAction := RepeatAction.ACTION_NONE }
    if w.irEnabled = 8 then decodeIRJson code w   -- any remote configurable with ir.json file
    else if code > 0xFFFFFF then w                -- invalid code
    else
      match w.irEnabled with
      | 1 =>
        if code > 0xF80000 then decoders.decodeIR24OLD code w
        else decoders.decodeIR24 code w
      | 2 => decoders.decodeIR24CT code w
      | 3 => decoders.decodeIR40 code w
      | 4 => decoders.decodeIR44 code w
      | 5 => decoders.decodeIR21 code w
      | 6 => decoders.decodeIR6 code w
      | 7 => decoders.decodeIR9 code w
      | _ => w

/-- Stated from the spec: the action a recorded tag stands for, a brightness,
speed or intensity step. -/
def repeatedAction (conv : ColorConversion) : RepeatAction → World → World
  | RepeatAction.ACTION_NONE => fun w => w
  | RepeatAction.ACTION_BRIGHT_UP => callAction (fun s => (incBrightness s).2)
  | RepeatAction.ACTION_BRIGHT_DOWN => callAction (fun s => (decBrightness s).2)
  | RepeatAction.ACTION_SPEED_UP =>
    incEffectSpeedOrHue conv SegmentsFilter.IR_REMOTE_SETTING
  | RepeatAction.ACTION_SPEED_DOWN =>
    decEffectSpeedOrHue conv SegmentsFilter.IR_REMOTE_SETTING
  | RepeatAction.ACTION_INTENSITY_UP =>
    incEffectIntensityOrSaturation conv SegmentsFilter.IR_REMOTE_SETTING
  | RepeatAction.ACTION_INTENSITY_DOWN =>
    decEffectIntensityOrSaturation conv SegmentsFilter.IR_REMOTE_SETTING

/-- The repeat memory of `ir.cpp` and the remote mode: last valid code, last
repeatable action, repeat counter, `irEnabled`. -/
def repeatMemory (w : World) : Nat × RepeatAction × Nat × Nat :=
  (w.lastValidCode, w.lastRepeatableAction, w.irTimesRepeated, w.irEnabled)

/-- Key codes for worked examples. -/
def exampleCodes : IrCodes :=
  { IR40_WPLUS := 0xFF7887, IR40_WMINUS := 0xFFF807, IR24_ON := 0xF7C03F,
    IR40_ON := 0xFFB24D }

/-- Decoders for worked examples, which do nothing with a code. -/
def idleDecoders : Decoders :=
  { decodeIR24OLD := fun _ w => w, decodeIR24 := fun _ w => w,
    decodeIR24CT := fun _ w => w, decodeIR40 := fun _ w => w,
    decodeIR44 := fun _ w => w, decodeIR21 := fun _ w => w,
    decodeIR6 := fun _ w => w, decodeIR9 := fun _ w => w }

/-- A world in the mode of the 24-key remote in which the last key was a speed
step up on the solid colour effect, so that repeats change the hue. -/
def repeatWorld : World :=
  { colourWorld with irEnabled := 1, effectCurrent := 0,
                     lastRepeatableAction := RepeatAction.ACTION_SPEED_UP,
                     lastValidCode := 0xF7E01F }


/-! Colour cycle, white channel and colour temperature -/

/-- Constant `COLOR_WHITE` of `remote_action.cpp`. -/
def COLOR_WHITE : Nat := 0xFFFFFFFF

/-- Constant `COLOR_RED` of `remote_action.cpp`. -/
def COLOR_RED : Nat := 0xFF0000

/-- Constant `COLOR_REDDISH` of `remote_action.cpp`. -/
def COLOR_REDDISH : Nat := 0xFF7800

/-- Constant `COLOR_ORANGE` of `remote_action.cpp`. -/
def COLOR_ORANGE : Nat := 0xFFA000

/-- Constant `COLOR_YELLOWISH` of `remote_action.cpp`. -/
def COLOR_YELLOWISH : Nat := 0xFFC800

/-- Constant `COLOR_GREEN` of `remote_action.cpp`. -/
def COLOR_GREEN : Nat := 0x00FF00

/-- Constant `COLOR_GREENISH` of `remote_action.cpp`. -/
def COLOR_GREENISH : Nat := 0x00FF78

/-- Constant `COLOR_TURQUOISE` of `remote_action.cpp`. -/
def COLOR_TURQUOISE : Nat := 0x00FFA0

/-- Constant `COLOR_CYAN` of `remote_action.cpp`. -/
def COLOR_CYAN : Nat := 0x00FFDC

/-- Constant `COLOR_AQUA` of `remote_action.cpp`. -/
def COLOR_AQUA : Nat := 0x00C8FF

/-- Constant `COLOR_BLUE` of `remote_action.cpp`. -/
def COLOR_BLUE : Nat := 0x00A0FF

/-- Constant `COLOR_DEEPBLUE` of `remote_action.cpp`. -/
def COLOR_DEEPBLUE : Nat := 0x0000FF

/-- Constant `COLOR_PURPLE` of `remote_action.cpp`. -/
def COLOR_PURPLE : Nat := 0xAA00FF

/-- Constant `COLOR_PINK` of `remote_action.cpp`. -/
def COLOR_PINK : Nat := 0xFF00A0

/-- Table `UiAction::colorCycle`. -/
def colorCycle : List Nat :=
  [COLOR_WHITE, COLOR_RED, COLOR_REDDISH, COLOR_ORANGE, COLOR_YELLOWISH, COLOR_GREEN,
   COLOR_GREENISH, COLOR_TURQUOISE, COLOR_CYAN, COLOR_BLUE, COLOR_DEEPBLUE,
   COLOR_PURPLE, COLOR_PINK]

/-- Method `UiAction::getNextColorInCycle`; the cursor is a `uint8_t`.  The
result is the colour returned and the world after the call. -/
def getNextColorInCycle (w : World) : Nat × World :=
  let colorCycleIndex := (w.colorCycleIndex + 1) % 256
  let colorCycleIndex :=
    if colorCycleIndex ≥ colorCycle.length then 0 else colorCycleIndex
  (colorCycle.getD colorCycleIndex 0, { w with colorCycleIndex := colorCycleIndex })

/-- Method `UiAction::nextColorAndPalette`. -/
def nextColorAndPalette (m_filter : SegmentsFilter) (w : World) : World :=
  let r := getNextColorInCycle w
  let new_color := r.1
  let w := r.2
  let pal := relativeChange (w.effectPalette % 256) 1 0
    (toUint8 ((w.paletteCount : Int) - 1))
  changeColorEffectAndPalette m_filter new_color (-1) (-1) (pal : Int) w

/-- The colours returned by a number of successive calls of
`getNextColorInCycle`, the first call first, and the world after them. -/
def colorCycleCalls : Nat → World → List Nat × World
  | 0, w => ([], w)
  | n + 1, w =>
    let r := getNextColorInCycle w
    let rest := colorCycleCalls n r.2
    (r.1 :: rest.1, rest.2)

/-- Method `UiAction::whiteOff`.  When the iterator points at no segment of the
strip the world is handed back as it was. -/
def whiteOff (m_filter : SegmentsFilter) (w : World) : World :=
  match firstSegment m_filter w with
  | none => w
  | some seg =>
    let r := R seg.colors0
    let g := G seg.colors0
    let b := B seg.colors0
    let white := W seg.colors0
    let w := if white != 0 then { w with whiteLast := white } else w
    let new_color := RGBW32 r g b 0
    changeColor m_filter new_color (-1) w

/-- Method `UiAction::whiteOn`.  When the iterator points at no segment of the
strip the world is handed back as it was. -/
def whiteOn (m_filter : SegmentsFilter) (w : World) : World :=
  match firstSegment m_filter w with
  | none => w
  | some seg =>
    let r := R seg.colors0
    let g := G seg.colors0
    let b := B seg.colors0
    let new_color := RGBW32 r g b w.whiteLast
    changeColor m_filter new_color (-1) w

/-- Method `UiAction::setWhiteAndChangeCctRelative`; `delta` is an `int8_t` and
the local `cct` a `uint8_t`.  When the main segment is no segment of the strip
the world is handed back as it was. -/
def setWhiteAndChangeCctRelative (m_filter : SegmentsFilter) (c : Nat) (delta : Int)
    (w : World) : World :=
  match w.strip.segments[w.strip.mainSegmentId]? with
  | none => w
  | some mainSegment =>
    let cct := toUint8 ((mainSegment.cct : Int) + delta)
    -- No need for range check - turns out setCct() will do that for us.
    changeColorStatic m_filter c (cct : Int) w

/-- Method `UiAction::changeCct`. -/
def changeCct (m_filter : SegmentsFilter) (cct : Nat) (w : World) : World :=
  updateSegments m_filter (fun seg => seg.setCCT cct) w

/-- Method `UiAction::setToPlainStaticBrightWhite`. -/
def setToPlainStaticBrightWhite (m_filter : SegmentsFilter) (w : World) : World :=
  let w := callAction (fun s => if s.bri == 0 then restartRuntime s else s) w
  let w := { w with ui := { w.ui with bri := 255, stateChanged := true } }
  changeColorEffectAndPalette m_filter COLOR_WHITE (-1) (FX_MODE_STATIC : Int) 0 w

/-- Size of the buffer `objKey` of `decodeIRJson`. -/
def OBJKEY_SIZE : Nat := 10

/-- The text `sprintf_P` writes to `objKey` in `decodeIRJson`, without the
terminating NUL: `"0x`, the code in upper-case hexadecimal, `":`; character 34
is the double quote. -/
def irObjKey (code : Nat) : Str :=
  [Char.ofNat 34, '0', 'x'] ++ formatHexUpper code ++ [Char.ofNat 34, ':']

/-- A strip with one segment that has a white channel and no RGB, with the
white byte `0x80`. -/
def whiteOnlyStrip : Strip :=
  { oneSegmentStrip with
    segments := [{ active := true, selected := true, colors0 := 0x80000000,
                   capabilities := 0x02 }] }

/-- A strip with one RGB segment with a white channel, whose RGB bytes are zero
and whose white byte is `0x80`. -/
def blackWhiteStrip : Strip :=
  { oneSegmentStrip with
    segments := [{ active := true, selected := true, colors0 := 0x80000000,
                   capabilities := 0x03 }] }

/-- A strip with one segment that is RGB and CCT capable with a white channel,
at colour temperature 0. -/
def cctStrip : Strip :=
  { oneSegmentStrip with
    segments := [{ active := true, selected := true, colors0 := 0xFF102030,
                   cct := 0, capabilities := 0x07 }] }


/-- A world in the user-programmable mode whose file `/ir.json` has a command
that is not repeatable under the key of code `0x1`, the request `FX=1` for an
effect, and the brightness step up under the key of code `0x0`. -/
def jsonRemoteWorld : World :=
  { bootWorld with
    irEnabled := 8,
    files := [(textIrJson, [(irObjKey 1, textEntry "FX=1".toList),
                            (irObjKey 0, textEntry "!incBri".toList)])] }

/-- A world in the user-programmable mode whose file `/ir.json` has, under the
key of code `0x0`, a text command with `!` that is none of the built-in
functions. -/
def jsonNoActionWorld : World :=
  { bootWorld with
    irEnabled := 8,
    files := [(textIrJson, [(irObjKey 0, textEntry "!bogus".toList)])] }


/-! Infrared remote: the per-remote decoders -/

/-- The global `RemoteAction`; a `UiAction` object is given by its scope. -/
def RemoteAction : SegmentsFilter := SegmentsFilter.IR_REMOTE_SETTING

/-- Modelled from the spec: the effect ids are defined in `FX.h`, outside the
files of this development; the spec calls the effect-mode ids externally
defined.  These are the ids the decoders name, `FX_MODE_STATIC` apart. -/
structure FxModes where
  FX_MODE_COLORTWINKLE : Nat
  FX_MODE_RAINBOW_CYCLE : Nat
  FX_MODE_BREATH : Nat
  FX_MODE_RAINBOW : Nat
  FX_MODE_FIRE_FLICKER : Nat
  FX_MODE_METEOR : Nat
  FX_MODE_RAIN : Nat
  FX_MODE_PALETTE : Nat

/-- Modelled from the spec: the colours the decoders name are defined in
`ir_codes.h`, outside the files of this development. -/
structure IrColors where
  COLOR_RED : Nat
  COLOR_REDDISH : Nat
  COLOR_ORANGE : Nat
  COLOR_YELLOWISH : Nat
  COLOR_YELLOW : Nat
  COLOR_GREEN : Nat
  COLOR_GREENISH : Nat
  COLOR_TURQUOISE : Nat
  COLOR_CYAN : Nat
  COLOR_AQUA : Nat
  COLOR_BLUE : Nat
  COLOR_DEEPBLUE : Nat
  COLOR_PURPLE : Nat
  COLOR_MAGENTA : Nat
  COLOR_PINK : Nat
  COLOR_WHITE : Nat
  COLOR_COLDWHITE2 : Nat
  COLOR_WARMWHITE2 : Nat
  COLOR_COLDWHITE : Nat
  COLOR_WARMWHITE : Nat
  COLOR_NEUTRALWHITE : Nat

/-- Modelled from the spec: the key codes of the 24-key remote are defined in
`ir_codes.h`, outside the files of this development; the spec calls them the
per-remote code tables.  The codes of `IrCodes` are not repeated here. -/
structure Ir24Codes where
  IR24_BRIGHTER : Nat
  IR24_DARKER : Nat
  IR24_OFF : Nat
  IR24_RED : Nat
  IR24_REDDISH : Nat
  IR24_ORANGE : Nat
  IR24_YELLOWISH : Nat
  IR24_YELLOW : Nat
  IR24_GREEN : Nat
  IR24_GREENISH : Nat
  IR24_TURQUOISE : Nat
  IR24_CYAN : Nat
  IR24_AQUA : Nat
  IR24_BLUE : Nat
  IR24_DEEPBLUE : Nat
  IR24_PURPLE : Nat
  IR24_MAGENTA : Nat
  IR24_PINK : Nat
  IR24_WHITE : Nat
  IR24_FLASH : Nat
  IR24_STROBE : Nat
  IR24_FADE : Nat
  IR24_SMOOTH : Nat

/-- Modelled from the spec: the key codes of the old 24-key remote are defined
in
`ir_codes.h`, outside the files of this development; the spec calls them the
per-remote code tables.  The codes of `IrCodes` are not repeated here. -/
structure Ir24OldCodes where
  IR24_OLD_BRIGHTER : Nat
  IR24_OLD_DARKER : Nat
  IR24_OLD_OFF : Nat
  IR24_OLD_ON : Nat
  IR24_OLD_RED : Nat
  IR24_OLD_REDDISH : Nat
  IR24_OLD_ORANGE : Nat
  IR24_OLD_YELLOWISH : Nat
  IR24_OLD_YELLOW : Nat
  IR24_OLD_GREEN : Nat
  IR24_OLD_GREENISH : Nat
  IR24_OLD_TURQUOISE : Nat
  IR24_OLD_CYAN : Nat
  IR24_OLD_AQUA : Nat
  IR24_OLD_BLUE : Nat
  IR24_OLD_DEEPBLUE : Nat
  IR24_OLD_PURPLE : Nat
  IR24_OLD_MAGENTA : Nat
  IR24_OLD_PINK : Nat
  IR24_OLD_WHITE : Nat
  IR24_OLD_FLASH : Nat
  IR24_OLD_STROBE : Nat
  IR24_OLD_FADE : Nat
  IR24_OLD_SMOOTH : Nat

/-- Modelled from the spec: the key codes of the 24-key remote with colour
temperature keys are defined in
`ir_codes.h`, outside the files of this development; the spec calls them the
per-remote code tables.  The codes of `IrCodes` are not repeated here. -/
structure Ir24CtCodes where
  IR24_CT_BRIGHTER : Nat
  IR24_CT_DARKER : Nat
  IR24_CT_OFF : Nat
  IR24_CT_ON : Nat
  IR24_CT_RED : Nat
  IR24_CT_REDDISH : Nat
  IR24_CT_ORANGE : Nat
  IR24_CT_YELLOWISH : Nat
  IR24_CT_YELLOW : Nat
  IR24_CT_GREEN : Nat
  IR24_CT_GREENISH : Nat
  IR24_CT_TURQUOISE : Nat
  IR24_CT_CYAN : Nat
  IR24_CT_AQUA : Nat
  IR24_CT_BLUE : Nat
  IR24_CT_DEEPBLUE : Nat
  IR24_CT_PURPLE : Nat
  IR24_CT_MAGENTA : Nat
  IR24_CT_PINK : Nat
  IR24_CT_COLDWHITE : Nat
  IR24_CT_WARMWHITE : Nat
  IR24_CT_CTPLUS : Nat
  IR24_CT_CTMINUS : Nat
  IR24_CT_MEMORY : Nat

/-- Modelled from the spec: the key codes of the 40-key remote are defined in
`ir_codes.h`, outside the files of this development; the spec calls them the
per-remote code tables.  The codes of `IrCodes` are not repeated here. -/
structure Ir40Codes where
  IR40_BPLUS : Nat
  IR40_BMINUS : Nat
  IR40_OFF : Nat
  IR40_RED : Nat
  IR40_REDDISH : Nat
  IR40_ORANGE : Nat
  IR40_YELLOWISH : Nat
  IR40_YELLOW : Nat
  IR40_GREEN : Nat
  IR40_GREENISH : Nat
  IR40_TURQUOISE : Nat
  IR40_CYAN : Nat
  IR40_AQUA : Nat
  IR40_BLUE : Nat
  IR40_DEEPBLUE : Nat
  IR40_PURPLE : Nat
  IR40_MAGENTA : Nat
  IR40_PINK : Nat
  IR40_WARMWHITE2 : Nat
  IR40_WARMWHITE : Nat
  IR40_WHITE : Nat
  IR40_COLDWHITE : Nat
  IR40_COLDWHITE2 : Nat
  IR40_WOFF : Nat
  IR40_WON : Nat
  IR40_W25 : Nat
  IR40_W50 : Nat
  IR40_W75 : Nat
  IR40_W100 : Nat
  IR40_QUICK : Nat
  IR40_SLOW : Nat
  IR40_JUMP7 : Nat
  IR40_AUTO : Nat
  IR40_JUMP3 : Nat
  IR40_FADE3 : Nat
  IR40_FADE7 : Nat
  IR40_FLASH : Nat

/-- Modelled from the spec: the key codes of the 44-key remote are defined in
`ir_codes.h`, outside the files of this development; the spec calls them the
per-remote code tables.  The codes of `IrCodes` are not repeated here. -/
structure Ir44Codes where
  IR44_BPLUS : Nat
  IR44_BMINUS : Nat
  IR44_OFF : Nat
  IR44_ON : Nat
  IR44_RED : Nat
  IR44_REDDISH : Nat
  IR44_ORANGE : Nat
  IR44_YELLOWISH : Nat
  IR44_YELLOW : Nat
  IR44_GREEN : Nat
  IR44_GREENISH : Nat
  IR44_TURQUOISE : Nat
  IR44_CYAN : Nat
  IR44_AQUA : Nat
  IR44_BLUE : Nat
  IR44_DEEPBLUE : Nat
  IR44_PURPLE : Nat
  IR44_MAGENTA : Nat
  IR44_PINK : Nat
  IR44_WHITE : Nat
  IR44_WARMWHITE2 : Nat
  IR44_WARMWHITE : Nat
  IR44_COLDWHITE : Nat
  IR44_COLDWHITE2 : Nat
  IR44_REDPLUS : Nat
  IR44_REDMINUS : Nat
  IR44_GREENPLUS : Nat
  IR44_GREENMINUS : Nat
  IR44_BLUEPLUS : Nat
  IR44_BLUEMINUS : Nat
  IR44_QUICK : Nat
  IR44_SLOW : Nat
  IR44_DIY1 : Nat
  IR44_DIY2 : Nat
  IR44_DIY3 : Nat
  IR44_DIY4 : Nat
  IR44_DIY5 : Nat
  IR44_DIY6 : Nat
  IR44_AUTO : Nat
  IR44_FLASH : Nat
  IR44_JUMP3 : Nat
  IR44_JUMP7 : Nat
  IR44_FADE3 : Nat
  IR44_FADE7 : Nat

/-- Modelled from the spec: the key codes of the 21-key remote are defined in
`ir_codes.h`, outside the files of this development; the spec calls them the
per-remote code tables.  The codes of `IrCodes` are not repeated here. -/
structure Ir21Codes where
  IR21_BRIGHTER : Nat
  IR21_DARKER : Nat
  IR21_OFF : Nat
  IR21_ON : Nat
  IR21_RED : Nat
  IR21_REDDISH : Nat
  IR21_ORANGE : Nat
  IR21_YELLOWISH : Nat
  IR21_GREEN : Nat
  IR21_GREENISH : Nat
  IR21_TURQUOISE : Nat
  IR21_CYAN : Nat
  IR21_BLUE : Nat
  IR21_DEEPBLUE : Nat
  IR21_PURPLE : Nat
  IR21_PINK : Nat
  IR21_WHITE : Nat
  IR21_FLASH : Nat
  IR21_STROBE : Nat
  IR21_FADE : Nat
  IR21_SMOOTH : Nat

/-- Modelled from the spec: the key codes of the 6-key remote are defined in
`ir_codes.h`, outside the files of this development; the spec calls them the
per-remote code tables.  The codes of `IrCodes` are not repeated here. -/
structure Ir6Codes where
  IR6_POWER : Nat
  IR6_CHANNEL_UP : Nat
  IR6_CHANNEL_DOWN : Nat
  IR6_VOLUME_UP : Nat
  IR6_VOLUME_DOWN : Nat
  IR6_MUTE : Nat

/-- Modelled from the spec: the key codes of the 9-key remote are defined in
`ir_codes.h`, outside the files of this development; the spec calls them the
per-remote code tables.  The codes of `IrCodes` are not repeated here. -/
structure Ir9Codes where
  IR9_POWER : Nat
  IR9_A : Nat
  IR9_B : Nat
  IR9_C : Nat
  IR9_UP : Nat
  IR9_DOWN : Nat
  IR9_LEFT : Nat
  IR9_RIGHT : Nat
  IR9_SELECT : Nat

/-- The constants of `ir_codes.h` the decoders name: the four codes of
`IrCodes`, the colours, and the key codes by remote. -/
structure IrCodeTables extends IrCodes where
  colors : IrColors
  ir24 : Ir24Codes
  ir24old : Ir24OldCodes
  ir24ct : Ir24CtCodes
  ir40 : Ir40Codes
  ir44 : Ir44Codes
  ir21 : Ir21Codes
  ir6 : Ir6Codes
  ir9 : Ir9Codes

/-- Function `presetFallback` of `ir.cpp`. -/
def Ir.presetFallback (presetID effectID paletteID : Nat) (w : World) : World :=
  let w := presetWithFallback presetID effectID paletteID w
  notify CallMode.button w

/-- The body shared by the decoders: `switch (code)` with one `case` for each
entry of the table, in which the action of the entry is run, with
`default: return;`, followed by `lastValidCode = code;`. -/
def irSwitch (table : List (Nat × (World → World))) (code : Nat) (w : World) :
    World :=
  match table.lookup code with
  | none => w
  | some action => { action w with lastValidCode := code }

/-- The `case` entries of `decodeIR24`, by the order of the source. -/
def decodeIR24Table (codes : IrCodeTables) (fx : FxModes) (_conv : ColorConversion) :
    List (Nat × (World → World)) :=
  [(codes.ir24.IR24_BRIGHTER, Ir.incBrightness),
   (codes.ir24.IR24_DARKER, Ir.decBrightness),
   (codes.ir24.IR24_OFF, callAction (fun s => (turnOff s).2)),
   (codes.IR24_ON, callAction (fun s => (turnOn s).2)),
   (codes.ir24.IR24_RED, changeColor RemoteAction codes.colors.COLOR_RED (-1)),
   (codes.ir24.IR24_REDDISH, changeColor RemoteAction codes.colors.COLOR_REDDISH (-1)),
   (codes.ir24.IR24_ORANGE, changeColor RemoteAction codes.colors.COLOR_ORANGE (-1)),
   (codes.ir24.IR24_YELLOWISH, changeColor RemoteAction codes.colors.COLOR_YELLOWISH (-1)),
   (codes.ir24.IR24_YELLOW, changeColor RemoteAction codes.colors.COLOR_YELLOW (-1)),
   (codes.ir24.IR24_GREEN, changeColor RemoteAction codes.colors.COLOR_GREEN (-1)),
   (codes.ir24.IR24_GREENISH, changeColor RemoteAction codes.colors.COLOR_GREENISH (-1)),
   (codes.ir24.IR24_TURQUOISE, changeColor RemoteAction codes.colors.COLOR_TURQUOISE (-1)),
   (codes.ir24.IR24_CYAN, changeColor RemoteAction codes.colors.COLOR_CYAN (-1)),
   (codes.ir24.IR24_AQUA, changeColor RemoteAction codes.colors.COLOR_AQUA (-1)),
   (codes.ir24.IR24_BLUE, changeColor RemoteAction codes.colors.COLOR_BLUE (-1)),
   (codes.ir24.IR24_DEEPBLUE, changeColor RemoteAction codes.colors.COLOR_DEEPBLUE (-1)),
   (codes.ir24.IR24_PURPLE, changeColor RemoteAction codes.colors.COLOR_PURPLE (-1)),
   (codes.ir24.IR24_MAGENTA, changeColor RemoteAction codes.colors.COLOR_MAGENTA (-1)),
   (codes.ir24.IR24_PINK, changeColor RemoteAction codes.colors.COLOR_PINK (-1)),
   (codes.ir24.IR24_WHITE, changeColorStatic RemoteAction codes.colors.COLOR_WHITE (-1)),
   (codes.ir24.IR24_FLASH,
     fun w => Ir.presetFallback 1 fx.FX_MODE_COLORTWINKLE w.effectPalette w),
   (codes.ir24.IR24_STROBE,
     fun w => Ir.presetFallback 2 fx.FX_MODE_RAINBOW_CYCLE w.effectPalette w),
   (codes.ir24.IR24_FADE, fun w => Ir.presetFallback 3 fx.FX_MODE_BREATH w.effectPalette w),
   (codes.ir24.IR24_SMOOTH,
     fun w => Ir.presetFallback 4 fx.FX_MODE_RAINBOW w.effectPalette w)]

/-- Function `decodeIR24` of `ir.cpp`. -/
def decodeIR24 (codes : IrCodeTables) (fx : FxModes) (conv : ColorConversion)
    (code : Nat) (w : World) : World :=
  irSwitch (decodeIR24Table codes fx conv) code w

/-- The `case` entries of `decodeIR24OLD`, by the order of the source. -/
def decodeIR24OLDTable (codes : IrCodeTables) (fx : FxModes) (_conv : ColorConversion) :
    List (Nat × (World → World)) :=
  [(codes.ir24old.IR24_OLD_BRIGHTER, Ir.incBrightness),
   (codes.ir24old.IR24_OLD_DARKER, Ir.decBrightness),
   (codes.ir24old.IR24_OLD_OFF, callAction (fun s => (turnOff s).2)),
   (codes.ir24old.IR24_OLD_ON, callAction (fun s => (turnOn s).2)),
   (codes.ir24old.IR24_OLD_RED, changeColor RemoteAction codes.colors.COLOR_RED (-1)),
   (codes.ir24old.IR24_OLD_REDDISH,
     changeColor RemoteAction codes.colors.COLOR_REDDISH (-1)),
   (codes.ir24old.IR24_OLD_ORANGE, changeColor RemoteAction codes.colors.COLOR_ORANGE (-1)),
   (codes.ir24old.IR24_OLD_YELLOWISH,
     changeColor RemoteAction codes.colors.COLOR_YELLOWISH (-1)),
   (codes.ir24old.IR24_OLD_YELLOW, changeColor RemoteAction codes.colors.COLOR_YELLOW (-1)),
   (codes.ir24old.IR24_OLD_GREEN, changeColor RemoteAction codes.colors.COLOR_GREEN (-1)),
   (codes.ir24old.IR24_OLD_GREENISH,
     changeColor RemoteAction codes.colors.COLOR_GREENISH (-1)),
   (codes.ir24old.IR24_OLD_TURQUOISE,
     changeColor RemoteAction codes.colors.COLOR_TURQUOISE (-1)),
   (codes.ir24old.IR24_OLD_CYAN, changeColor RemoteAction codes.colors.COLOR_CYAN (-1)),
   (codes.ir24old.IR24_OLD_AQUA, changeColor RemoteAction codes.colors.COLOR_AQUA (-1)),
   (codes.ir24old.IR24_OLD_BLUE, changeColor RemoteAction codes.colors.COLOR_BLUE (-1)),
   (codes.ir24old.IR24_OLD_DEEPBLUE,
     changeColor RemoteAction codes.colors.COLOR_DEEPBLUE (-1)),
   (codes.ir24old.IR24_OLD_PURPLE, changeColor RemoteAction codes.colors.COLOR_PURPLE (-1)),
   (codes.ir24old.IR24_OLD_MAGENTA,
     changeColor RemoteAction codes.colors.COLOR_MAGENTA (-1)),
   (codes.ir24old.IR24_OLD_PINK, changeColor RemoteAction codes.colors.COLOR_PINK (-1)),
   (codes.ir24old.IR24_OLD_WHITE,
     changeColorStatic RemoteAction codes.colors.COLOR_WHITE (-1)),
   (codes.ir24old.IR24_OLD_FLASH, Ir.presetFallback 1 fx.FX_MODE_COLORTWINKLE 0),
   (codes.ir24old.IR24_OLD_STROBE, Ir.presetFallback 2 fx.FX_MODE_RAINBOW_CYCLE 0),
   (codes.ir24old.IR24_OLD_FADE, Ir.presetFallback 3 fx.FX_MODE_BREATH 0),
   (codes.ir24old.IR24_OLD_SMOOTH, Ir.presetFallback 4 fx.FX_MODE_RAINBOW 0)]

/-- Function `decodeIR24OLD` of `ir.cpp`. -/
def decodeIR24OLD (codes : IrCodeTables) (fx : FxModes) (conv : ColorConversion)
    (code : Nat) (w : World) : World :=
  irSwitch (decodeIR24OLDTable codes fx conv) code w

/-- The `case` entries of `decodeIR24CT`, by the order of the source. -/
def decodeIR24CTTable (codes : IrCodeTables) (_fx : FxModes) (_conv : ColorConversion) :
    List (Nat × (World → World)) :=
  [(codes.ir24ct.IR24_CT_BRIGHTER, Ir.incBrightness),
   (codes.ir24ct.IR24_CT_DARKER, Ir.decBrightness),
   (codes.ir24ct.IR24_CT_OFF, callAction (fun s => (turnOff s).2)),
   (codes.ir24ct.IR24_CT_ON, callAction (fun s => (turnOn s).2)),
   (codes.ir24ct.IR24_CT_RED, changeColor RemoteAction codes.colors.COLOR_RED (-1)),
   (codes.ir24ct.IR24_CT_REDDISH, changeColor RemoteAction codes.colors.COLOR_REDDISH (-1)),
   (codes.ir24ct.IR24_CT_ORANGE, changeColor RemoteAction codes.colors.COLOR_ORANGE (-1)),
   (codes.ir24ct.IR24_CT_YELLOWISH,
     changeColor RemoteAction codes.colors.COLOR_YELLOWISH (-1)),
   (codes.ir24ct.IR24_CT_YELLOW, changeColor RemoteAction codes.colors.COLOR_YELLOW (-1)),
   (codes.ir24ct.IR24_CT_GREEN, changeColor RemoteAction codes.colors.COLOR_GREEN (-1)),
   (codes.ir24ct.IR24_CT_GREENISH,
     changeColor RemoteAction codes.colors.COLOR_GREENISH (-1)),
   (codes.ir24ct.IR24_CT_TURQUOISE,
     changeColor RemoteAction codes.colors.COLOR_TURQUOISE (-1)),
   (codes.ir24ct.IR24_CT_CYAN, changeColor RemoteAction codes.colors.COLOR_CYAN (-1)),
   (codes.ir24ct.IR24_CT_AQUA, changeColor RemoteAction codes.colors.COLOR_AQUA (-1)),
   (codes.ir24ct.IR24_CT_BLUE, changeColor RemoteAction codes.colors.COLOR_BLUE (-1)),
   (codes.ir24ct.IR24_CT_DEEPBLUE,
     changeColor RemoteAction codes.colors.COLOR_DEEPBLUE (-1)),
   (codes.ir24ct.IR24_CT_PURPLE, changeColor RemoteAction codes.colors.COLOR_PURPLE (-1)),
   (codes.ir24ct.IR24_CT_MAGENTA, changeColor RemoteAction codes.colors.COLOR_MAGENTA (-1)),
   (codes.ir24ct.IR24_CT_PINK, changeColor RemoteAction codes.colors.COLOR_PINK (-1)),
   (codes.ir24ct.IR24_CT_COLDWHITE,
     changeColorStatic RemoteAction codes.colors.COLOR_COLDWHITE2 255),
   (codes.ir24ct.IR24_CT_WARMWHITE,
     changeColorStatic RemoteAction codes.colors.COLOR_WARMWHITE2 0),
   (codes.ir24ct.IR24_CT_CTPLUS,
     setWhiteAndChangeCctRelative RemoteAction codes.colors.COLOR_COLDWHITE 1),
   (codes.ir24ct.IR24_CT_CTMINUS,
     setWhiteAndChangeCctRelative RemoteAction codes.colors.COLOR_WARMWHITE (-1)),
   (codes.ir24ct.IR24_CT_MEMORY,
     changeColorStatic RemoteAction codes.colors.COLOR_NEUTRALWHITE 127)]

/-- Function `decodeIR24CT` of `ir.cpp`. -/
def decodeIR24CT (codes : IrCodeTables) (fx : FxModes) (conv : ColorConversion)
    (code : Nat) (w : World) : World :=
  irSwitch (decodeIR24CTTable codes fx conv) code w

/-- The `case` entries of `decodeIR40`, by the order of the source. -/
def decodeIR40Table (codes : IrCodeTables) (fx : FxModes) (conv : ColorConversion) :
    List (Nat × (World → World)) :=
  [(codes.ir40.IR40_BPLUS, Ir.incBrightness),
   (codes.ir40.IR40_BMINUS, Ir.decBrightness),
   (codes.ir40.IR40_OFF, callAction (fun s => (turnOff s).2)),
   (codes.IR40_ON, callAction (fun s => (turnOn s).2)),
   (codes.ir40.IR40_RED, changeColor RemoteAction codes.colors.COLOR_RED (-1)),
   (codes.ir40.IR40_REDDISH, changeColor RemoteAction codes.colors.COLOR_REDDISH (-1)),
   (codes.ir40.IR40_ORANGE, changeColor RemoteAction codes.colors.COLOR_ORANGE (-1)),
   (codes.ir40.IR40_YELLOWISH, changeColor RemoteAction codes.colors.COLOR_YELLOWISH (-1)),
   (codes.ir40.IR40_YELLOW, changeColor RemoteAction codes.colors.COLOR_YELLOW (-1)),
   (codes.ir40.IR40_GREEN, changeColor RemoteAction codes.colors.COLOR_GREEN (-1)),
   (codes.ir40.IR40_GREENISH, changeColor RemoteAction codes.colors.COLOR_GREENISH (-1)),
   (codes.ir40.IR40_TURQUOISE, changeColor RemoteAction codes.colors.COLOR_TURQUOISE (-1)),
   (codes.ir40.IR40_CYAN, changeColor RemoteAction codes.colors.COLOR_CYAN (-1)),
   (codes.ir40.IR40_AQUA, changeColor RemoteAction codes.colors.COLOR_AQUA (-1)),
   (codes.ir40.IR40_BLUE, changeColor RemoteAction codes.colors.COLOR_BLUE (-1)),
   (codes.ir40.IR40_DEEPBLUE, changeColor RemoteAction codes.colors.COLOR_DEEPBLUE (-1)),
   (codes.ir40.IR40_PURPLE, changeColor RemoteAction codes.colors.COLOR_PURPLE (-1)),
   (codes.ir40.IR40_MAGENTA, changeColor RemoteAction codes.colors.COLOR_MAGENTA (-1)),
   (codes.ir40.IR40_PINK, changeColor RemoteAction codes.colors.COLOR_PINK (-1)),
   (codes.ir40.IR40_WARMWHITE2,
     changeColorStatic RemoteAction codes.colors.COLOR_WARMWHITE2 0),
   (codes.ir40.IR40_WARMWHITE,
     changeColorStatic RemoteAction codes.colors.COLOR_WARMWHITE 63),
   (codes.ir40.IR40_WHITE,
     changeColorStatic RemoteAction codes.colors.COLOR_NEUTRALWHITE 127),
   (codes.ir40.IR40_COLDWHITE,
     changeColorStatic RemoteAction codes.colors.COLOR_COLDWHITE 191),
   (codes.ir40.IR40_COLDWHITE2,
     changeColorStatic RemoteAction codes.colors.COLOR_COLDWHITE2 255),
   (codes.IR40_WPLUS, changeWhite RemoteAction (10)),
   (codes.IR40_WMINUS, changeWhite RemoteAction (-10)),
   (codes.ir40.IR40_WOFF, whiteOff RemoteAction),
   (codes.ir40.IR40_WON, whiteOn RemoteAction),
   (codes.ir40.IR40_W25, callAction (setBrightness 63)),
   (codes.ir40.IR40_W50, callAction (setBrightness 127)),
   (codes.ir40.IR40_W75, callAction (setBrightness 191)),
   (codes.ir40.IR40_W100, callAction (setBrightness 255)),
   (codes.ir40.IR40_QUICK, Ir.incEffectSpeedOrHue conv),
   (codes.ir40.IR40_SLOW, Ir.decEffectSpeedOrHue conv),
   (codes.ir40.IR40_JUMP7, Ir.incEffectIntensityOrSaturation conv),
   (codes.ir40.IR40_AUTO, Ir.decEffectIntensityOrSaturation conv),
   (codes.ir40.IR40_JUMP3, Ir.presetFallback 1 FX_MODE_STATIC 0),
   (codes.ir40.IR40_FADE3, Ir.presetFallback 2 fx.FX_MODE_BREATH 0),
   (codes.ir40.IR40_FADE7, Ir.presetFallback 3 fx.FX_MODE_FIRE_FLICKER 0),
   (codes.ir40.IR40_FLASH, Ir.presetFallback 4 fx.FX_MODE_RAINBOW 0)]

/-- Function `decodeIR40` of `ir.cpp`. -/
def decodeIR40 (codes : IrCodeTables) (fx : FxModes) (conv : ColorConversion)
    (code : Nat) (w : World) : World :=
  irSwitch (decodeIR40Table codes fx conv) code w

/-- The `case` entries of `decodeIR44`, by the order of the source. -/
def decodeIR44Table (codes : IrCodeTables) (fx : FxModes) (conv : ColorConversion) :
    List (Nat × (World → World)) :=
  [(codes.ir44.IR44_BPLUS, Ir.incBrightness),
   (codes.ir44.IR44_BMINUS, Ir.decBrightness),
   (codes.ir44.IR44_OFF, callAction (fun s => (turnOff s).2)),
   (codes.ir44.IR44_ON, callAction (fun s => (turnOn s).2)),
   (codes.ir44.IR44_RED, changeColor RemoteAction codes.colors.COLOR_RED (-1)),
   (codes.ir44.IR44_REDDISH, changeColor RemoteAction codes.colors.COLOR_REDDISH (-1)),
   (codes.ir44.IR44_ORANGE, changeColor RemoteAction codes.colors.COLOR_ORANGE (-1)),
   (codes.ir44.IR44_YELLOWISH, changeColor RemoteAction codes.colors.COLOR_YELLOWISH (-1)),
   (codes.ir44.IR44_YELLOW, changeColor RemoteAction codes.colors.COLOR_YELLOW (-1)),
   (codes.ir44.IR44_GREEN, changeColor RemoteAction codes.colors.COLOR_GREEN (-1)),
   (codes.ir44.IR44_GREENISH, changeColor RemoteAction codes.colors.COLOR_GREENISH (-1)),
   (codes.ir44.IR44_TURQUOISE, changeColor RemoteAction codes.colors.COLOR_TURQUOISE (-1)),
   (codes.ir44.IR44_CYAN, changeColor RemoteAction codes.colors.COLOR_CYAN (-1)),
   (codes.ir44.IR44_AQUA, changeColor RemoteAction codes.colors.COLOR_AQUA (-1)),
   (codes.ir44.IR44_BLUE, changeColor RemoteAction codes.colors.COLOR_BLUE (-1)),
   (codes.ir44.IR44_DEEPBLUE, changeColor RemoteAction codes.colors.COLOR_DEEPBLUE (-1)),
   (codes.ir44.IR44_PURPLE, changeColor RemoteAction codes.colors.COLOR_PURPLE (-1)),
   (codes.ir44.IR44_MAGENTA, changeColor RemoteAction codes.colors.COLOR_MAGENTA (-1)),
   (codes.ir44.IR44_PINK, changeColor RemoteAction codes.colors.COLOR_PINK (-1)),
   (codes.ir44.IR44_WHITE,
     changeColorStatic RemoteAction codes.colors.COLOR_NEUTRALWHITE 127),
   (codes.ir44.IR44_WARMWHITE2,
     changeColorStatic RemoteAction codes.colors.COLOR_WARMWHITE2 0),
   (codes.ir44.IR44_WARMWHITE,
     changeColorStatic RemoteAction codes.colors.COLOR_WARMWHITE 63),
   (codes.ir44.IR44_COLDWHITE,
     changeColorStatic RemoteAction codes.colors.COLOR_COLDWHITE 191),
   (codes.ir44.IR44_COLDWHITE2,
     changeColorStatic RemoteAction codes.colors.COLOR_COLDWHITE2 255),
   (codes.ir44.IR44_REDPLUS, nextEffect RemoteAction),
   (codes.ir44.IR44_REDMINUS, prevEffect RemoteAction),
   (codes.ir44.IR44_GREENPLUS, nextPalette RemoteAction),
   (codes.ir44.IR44_GREENMINUS, prevPalette RemoteAction),
   (codes.ir44.IR44_BLUEPLUS, Ir.incEffectIntensityOrSaturation conv),
   (codes.ir44.IR44_BLUEMINUS, Ir.decEffectIntensityOrSaturation conv),
   (codes.ir44.IR44_QUICK, Ir.incEffectSpeedOrHue conv),
   (codes.ir44.IR44_SLOW, Ir.decEffectSpeedOrHue conv),
   (codes.ir44.IR44_DIY1, Ir.presetFallback 1 FX_MODE_STATIC 0),
   (codes.ir44.IR44_DIY2, Ir.presetFallback 2 fx.FX_MODE_BREATH 0),
   (codes.ir44.IR44_DIY3, Ir.presetFallback 3 fx.FX_MODE_FIRE_FLICKER 0),
   (codes.ir44.IR44_DIY4, Ir.presetFallback 4 fx.FX_MODE_RAINBOW 0),
   (codes.ir44.IR44_DIY5, Ir.presetFallback 5 fx.FX_MODE_METEOR 0),
   (codes.ir44.IR44_DIY6, Ir.presetFallback 6 fx.FX_MODE_RAIN 0),
   (codes.ir44.IR44_AUTO, changeEffect RemoteAction FX_MODE_STATIC),
   (codes.ir44.IR44_FLASH, changeEffect RemoteAction fx.FX_MODE_PALETTE),
   (codes.ir44.IR44_JUMP3, callAction (setBrightness 63)),
   (codes.ir44.IR44_JUMP7, callAction (setBrightness 127)),
   (codes.ir44.IR44_FADE3, callAction (setBrightness 191)),
   (codes.ir44.IR44_FADE7, callAction (setBrightness 255))]

/-- Function `decodeIR44` of `ir.cpp`. -/
def decodeIR44 (codes : IrCodeTables) (fx : FxModes) (conv : ColorConversion)
    (code : Nat) (w : World) : World :=
  irSwitch (decodeIR44Table codes fx conv) code w

/-- The `case` entries of `decodeIR21`, by the order of the source. -/
def decodeIR21Table (codes : IrCodeTables) (fx : FxModes) (_conv : ColorConversion) :
    List (Nat × (World → World)) :=
  [(codes.ir21.IR21_BRIGHTER, Ir.incBrightness),
   (codes.ir21.IR21_DARKER, Ir.decBrightness),
   (codes.ir21.IR21_OFF, callAction (fun s => (turnOff s).2)),
   (codes.ir21.IR21_ON, callAction (fun s => (turnOn s).2)),
   (codes.ir21.IR21_RED, changeColor RemoteAction codes.colors.COLOR_RED (-1)),
   (codes.ir21.IR21_REDDISH, changeColor RemoteAction codes.colors.COLOR_REDDISH (-1)),
   (codes.ir21.IR21_ORANGE, changeColor RemoteAction codes.colors.COLOR_ORANGE (-1)),
   (codes.ir21.IR21_YELLOWISH, changeColor RemoteAction codes.colors.COLOR_YELLOWISH (-1)),
   (codes.ir21.IR21_GREEN, changeColor RemoteAction codes.colors.COLOR_GREEN (-1)),
   (codes.ir21.IR21_GREENISH, changeColor RemoteAction codes.colors.COLOR_GREENISH (-1)),
   (codes.ir21.IR21_TURQUOISE, changeColor RemoteAction codes.colors.COLOR_TURQUOISE (-1)),
   (codes.ir21.IR21_CYAN, changeColor RemoteAction codes.colors.COLOR_CYAN (-1)),
   (codes.ir21.IR21_BLUE, changeColor RemoteAction codes.colors.COLOR_BLUE (-1)),
   (codes.ir21.IR21_DEEPBLUE, changeColor RemoteAction codes.colors.COLOR_DEEPBLUE (-1)),
   (codes.ir21.IR21_PURPLE, changeColor RemoteAction codes.colors.COLOR_PURPLE (-1)),
   (codes.ir21.IR21_PINK, changeColor RemoteAction codes.colors.COLOR_PINK (-1)),
   (codes.ir21.IR21_WHITE, changeColorStatic RemoteAction codes.colors.COLOR_WHITE (-1)),
   (codes.ir21.IR21_FLASH, Ir.presetFallback 1 fx.FX_MODE_COLORTWINKLE 0),
   (codes.ir21.IR21_STROBE, Ir.presetFallback 2 fx.FX_MODE_RAINBOW_CYCLE 0),
   (codes.ir21.IR21_FADE, Ir.presetFallback 3 fx.FX_MODE_BREATH 0),
   (codes.ir21.IR21_SMOOTH, Ir.presetFallback 4 fx.FX_MODE_RAINBOW 0)]

/-- Function `decodeIR21` of `ir.cpp`. -/
def decodeIR21 (codes : IrCodeTables) (fx : FxModes) (conv : ColorConversion)
    (code : Nat) (w : World) : World :=
  irSwitch (decodeIR21Table codes fx conv) code w

/-- The `case` entries of `decodeIR6`, by the order of the source. -/
def decodeIR6Table (codes : IrCodeTables) (_fx : FxModes) (_conv : ColorConversion) :
    List (Nat × (World → World)) :=
  [(codes.ir6.IR6_POWER, callAction turnOnOffToggle),
   (codes.ir6.IR6_CHANNEL_UP, Ir.incBrightness),
   (codes.ir6.IR6_CHANNEL_DOWN, Ir.decBrightness),
   (codes.ir6.IR6_VOLUME_UP, nextEffect RemoteAction),
   (codes.ir6.IR6_VOLUME_DOWN, nextColorAndPalette RemoteAction),
   (codes.ir6.IR6_MUTE, setToPlainStaticBrightWhite RemoteAction)]

/-- Function `decodeIR6` of `ir.cpp`. -/
def decodeIR6 (codes : IrCodeTables) (fx : FxModes) (conv : ColorConversion)
    (code : Nat) (w : World) : World :=
  irSwitch (decodeIR6Table codes fx conv) code w

/-- The `case` entries of `decodeIR9`, by the order of the source. -/
def decodeIR9Table (codes : IrCodeTables) (fx : FxModes) (conv : ColorConversion) :
    List (Nat × (World → World)) :=
  [(codes.ir9.IR9_POWER, callAction turnOnOffToggle),
   (codes.ir9.IR9_A,
     fun w => Ir.presetFallback 1 fx.FX_MODE_COLORTWINKLE w.effectPalette w),
   (codes.ir9.IR9_B,
     fun w => Ir.presetFallback 2 fx.FX_MODE_RAINBOW_CYCLE w.effectPalette w),
   (codes.ir9.IR9_C, fun w => Ir.presetFallback 3 fx.FX_MODE_BREATH w.effectPalette w),
   (codes.ir9.IR9_UP, Ir.incBrightness),
   (codes.ir9.IR9_DOWN, Ir.decBrightness),
   (codes.ir9.IR9_LEFT, Ir.incEffectSpeedOrHue conv),
   (codes.ir9.IR9_RIGHT, Ir.decEffectSpeedOrHue conv),
   (codes.ir9.IR9_SELECT, nextEffect RemoteAction)]

/-- Function `decodeIR9` of `ir.cpp`. -/
def decodeIR9 (codes : IrCodeTables) (fx : FxModes) (conv : ColorConversion)
    (code : Nat) (w : World) : World :=
  irSwitch (decodeIR9Table codes fx conv) code w

/-- The decoders of `ir.cpp`, for `decodeIR`. -/
def irDecoders (codes : IrCodeTables) (fx : FxModes) (conv : ColorConversion) :
    Decoders :=
  { decodeIR24OLD := decodeIR24OLD codes fx conv,
    decodeIR24 := decodeIR24 codes fx conv,
    decodeIR24CT := decodeIR24CT codes fx conv,
    decodeIR40 := decodeIR40 codes fx conv,
    decodeIR44 := decodeIR44 codes fx conv,
    decodeIR21 := decodeIR21 codes fx conv,
    decodeIR6 := decodeIR6 codes fx conv,
    decodeIR9 := decodeIR9 codes fx conv }

/-- Stated from the spec: the table of the family a fixed-layout mode selects
for a code.  Mode 1 has two tables, the old 24-key remote for codes above
`0xF80000` and the 24-key remote for the others; the modes 2 to 7 are the
24-key remote with colour temperature keys, the 40-key, 44-key, 21-key, 6-key
and 9-key remotes. -/
def familyTable (codes : IrCodeTables) (fx : FxModes) (conv : ColorConversion)
    (irEnabled code : Nat) : List (Nat × (World → World)) :=
  match irEnabled with
  | 1 =>
    if code > 0xF80000 then decodeIR24OLDTable codes fx conv
    else decodeIR24Table codes fx conv
  | 2 => decodeIR24CTTable codes fx conv
  | 3 => decodeIR40Table codes fx conv
  | 4 => decodeIR44Table codes fx conv
  | 5 => decodeIR21Table codes fx conv
  | 6 => decodeIR6Table codes fx conv
  | 7 => decodeIR9Table codes fx conv
  | _ => []

/-- The repeat memory after the reset `decodeIR` does for a code other than the
sentinel. -/
def resetRepeatMemory (w : World) : World :=
  { w with lastValidCode := 0, irTimesRepeated := 0,
           lastRepeatableAction := RepeatAction.ACTION_NONE }

/-- A number of repeat sentinels in a row, handed to `decodeIR`. -/
def repeatSentinels (codes : IrCodes) (conv : ColorConversion) (decoders : Decoders) :
    Nat → World → World
  | 0, w => w
  | k + 1, w =>
    decodeIR codes conv decoders 0xFFFFFFFF (repeatSentinels codes conv decoders k w)

/-- Effect ids for worked examples. -/
def exampleFx : FxModes :=
  { FX_MODE_COLORTWINKLE := 74,
    FX_MODE_RAINBOW_CYCLE := 9,
    FX_MODE_BREATH := 2,
    FX_MODE_RAINBOW := 8,
    FX_MODE_FIRE_FLICKER := 45,
    FX_MODE_METEOR := 76,
    FX_MODE_RAIN := 43,
    FX_MODE_PALETTE := 65 }

/-- Colours for worked examples. -/
def exampleColors : IrColors :=
  { COLOR_RED := 0xFF0000,
    COLOR_REDDISH := 0xFF7800,
    COLOR_ORANGE := 0xFFA000,
    COLOR_YELLOWISH := 0xFFC800,
    COLOR_YELLOW := 0xFFFF00,
    COLOR_GREEN := 0xFF00,
    COLOR_GREENISH := 0xFF78,
    COLOR_TURQUOISE := 0xFFA0,
    COLOR_CYAN := 0xFFDC,
    COLOR_AQUA := 0xC8FF,
    COLOR_BLUE := 0xA0FF,
    COLOR_DEEPBLUE := 0xFF,
    COLOR_PURPLE := 0xAA00FF,
    COLOR_MAGENTA := 0xFF00DC,
    COLOR_PINK := 0xFF00A0,
    COLOR_WHITE := 0xFFFFFFFF,
    COLOR_COLDWHITE2 := 0xFFFFFFFF,
    COLOR_WARMWHITE2 := 0xFFFFAA69,
    COLOR_COLDWHITE := 0xFFFFE9D9,
    COLOR_WARMWHITE := 0xFFFFBF8E,
    COLOR_NEUTRALWHITE := 0xFFFFD4B4 }

/-- Key codes of the 24-key remote for worked examples, each different from the
others and from the codes of `exampleCodes`. -/
def exampleIr24Codes : Ir24Codes :=
  { IR24_BRIGHTER := 0xF705FA,
    IR24_DARKER := 0xF712ED,
    IR24_OFF := 0xF71FE0,
    IR24_RED := 0xF72CD3,
    IR24_REDDISH := 0xF739C6,
    IR24_ORANGE := 0xF746B9,
    IR24_YELLOWISH := 0xF753AC,
    IR24_YELLOW := 0xF7609F,
    IR24_GREEN := 0xF76D92,
    IR24_GREENISH := 0xF77A85,
    IR24_TURQUOISE := 0xF78778,
    IR24_CYAN := 0xF7946B,
    IR24_AQUA := 0xF7A15E,
    IR24_BLUE := 0xF7AE51,
    IR24_DEEPBLUE := 0xF7BB44,
    IR24_PURPLE := 0xF7C837,
    IR24_MAGENTA := 0xF7D52A,
    IR24_PINK := 0xF7E21D,
    IR24_WHITE := 0xF7EF10,
    IR24_FLASH := 0xF7FC03,
    IR24_STROBE := 0xF709F6,
    IR24_FADE := 0xF716E9,
    IR24_SMOOTH := 0xF723DC }

/-- Key codes of the old 24-key remote for worked examples, each different
from the
others and from the codes of `exampleCodes`. -/
def exampleIr24OldCodes : Ir24OldCodes :=
  { IR24_OLD_BRIGHTER := 0xFF05FA,
    IR24_OLD_DARKER := 0xFF12ED,
    IR24_OLD_OFF := 0xFF1FE0,
    IR24_OLD_ON := 0xFF2CD3,
    IR24_OLD_RED := 0xFF39C6,
    IR24_OLD_REDDISH := 0xFF46B9,
    IR24_OLD_ORANGE := 0xFF53AC,
    IR24_OLD_YELLOWISH := 0xFF609F,
    IR24_OLD_YELLOW := 0xFF6D92,
    IR24_OLD_GREEN := 0xFF7A85,
    IR24_OLD_GREENISH := 0xFF8778,
    IR24_OLD_TURQUOISE := 0xFF946B,
    IR24_OLD_CYAN := 0xFFA15E,
    IR24_OLD_AQUA := 0xFFAE51,
    IR24_OLD_BLUE := 0xFFBB44,
    IR24_OLD_DEEPBLUE := 0xFFC837,
    IR24_OLD_PURPLE := 0xFFD52A,
    IR24_OLD_MAGENTA := 0xFFE21D,
    IR24_OLD_PINK := 0xFFEF10,
    IR24_OLD_WHITE := 0xFFFC03,
    IR24_OLD_FLASH := 0xFF09F6,
    IR24_OLD_STROBE := 0xFF16E9,
    IR24_OLD_FADE := 0xFF23DC,
    IR24_OLD_SMOOTH := 0xFF30CF }

/-- Key codes of the 24-key remote with colour temperature keys for worked
examples, each different from the
others and from the codes of `exampleCodes`. -/
def exampleIr24CtCodes : Ir24CtCodes :=
  { IR24_CT_BRIGHTER := 0xF705FA,
    IR24_CT_DARKER := 0xF712ED,
    IR24_CT_OFF := 0xF71FE0,
    IR24_CT_ON := 0xF72CD3,
    IR24_CT_RED := 0xF739C6,
    IR24_CT_REDDISH := 0xF746B9,
    IR24_CT_ORANGE := 0xF753AC,
    IR24_CT_YELLOWISH := 0xF7609F,
    IR24_CT_YELLOW := 0xF76D92,
    IR24_CT_GREEN := 0xF77A85,
    IR24_CT_GREENISH := 0xF78778,
    IR24_CT_TURQUOISE := 0xF7946B,
    IR24_CT_CYAN := 0xF7A15E,
    IR24_CT_AQUA := 0xF7AE51,
    IR24_CT_BLUE := 0xF7BB44,
    IR24_CT_DEEPBLUE := 0xF7C837,
    IR24_CT_PURPLE := 0xF7D52A,
    IR24_CT_MAGENTA := 0xF7E21D,
    IR24_CT_PINK := 0xF7EF10,
    IR24_CT_COLDWHITE := 0xF7FC03,
    IR24_CT_WARMWHITE := 0xF709F6,
    IR24_CT_CTPLUS := 0xF716E9,
    IR24_CT_CTMINUS := 0xF723DC,
    IR24_CT_MEMORY := 0xF730CF }

/-- Key codes of the 40-key remote for worked examples, each different from the
others and from the codes of `exampleCodes`. -/
def exampleIr40Codes : Ir40Codes :=
  { IR40_BPLUS := 0xFF05FA,
    IR40_BMINUS := 0xFF12ED,
    IR40_OFF := 0xFF1FE0,
    IR40_RED := 0xFF2CD3,
    IR40_REDDISH := 0xFF39C6,
    IR40_ORANGE := 0xFF46B9,
    IR40_YELLOWISH := 0xFF53AC,
    IR40_YELLOW := 0xFF609F,
    IR40_GREEN := 0xFF6D92,
    IR40_GREENISH := 0xFF7A85,
    IR40_TURQUOISE := 0xFF8778,
    IR40_CYAN := 0xFF946B,
    IR40_AQUA := 0xFFA15E,
    IR40_BLUE := 0xFFAE51,
    IR40_DEEPBLUE := 0xFFBB44,
    IR40_PURPLE := 0xFFC837,
    IR40_MAGENTA := 0xFFD52A,
    IR40_PINK := 0xFFE21D,
    IR40_WARMWHITE2 := 0xFFEF10,
    IR40_WARMWHITE := 0xFFFC03,
    IR40_WHITE := 0xFF09F6,
    IR40_COLDWHITE := 0xFF16E9,
    IR40_COLDWHITE2 := 0xFF23DC,
    IR40_WOFF := 0xFF30CF,
    IR40_WON := 0xFF3DC2,
    IR40_W25 := 0xFF4AB5,
    IR40_W50 := 0xFF57A8,
    IR40_W75 := 0xFF649B,
    IR40_W100 := 0xFF718E,
    IR40_QUICK := 0xFF7E81,
    IR40_SLOW := 0xFF8B74,
    IR40_JUMP7 := 0xFF9867,
    IR40_AUTO := 0xFFA55A,
    IR40_JUMP3 := 0xFFBF40,
    IR40_FADE3 := 0xFFCC33,
    IR40_FADE7 := 0xFFD926,
    IR40_FLASH := 0xFFE619 }

/-- Key codes of the 44-key remote for worked examples, each different from the
others and from the codes of `exampleCodes`. -/
def exampleIr44Codes : Ir44Codes :=
  { IR44_BPLUS := 0xFF05FA,
    IR44_BMINUS := 0xFF12ED,
    IR44_OFF := 0xFF1FE0,
    IR44_ON := 0xFF2CD3,
    IR44_RED := 0xFF39C6,
    IR44_REDDISH := 0xFF46B9,
    IR44_ORANGE := 0xFF53AC,
    IR44_YELLOWISH := 0xFF609F,
    IR44_YELLOW := 0xFF6D92,
    IR44_GREEN := 0xFF7A85,
    IR44_GREENISH := 0xFF8778,
    IR44_TURQUOISE := 0xFF946B,
    IR44_CYAN := 0xFFA15E,
    IR44_AQUA := 0xFFAE51,
    IR44_BLUE := 0xFFBB44,
    IR44_DEEPBLUE := 0xFFC837,
    IR44_PURPLE := 0xFFD52A,
    IR44_MAGENTA := 0xFFE21D,
    IR44_PINK := 0xFFEF10,
    IR44_WHITE := 0xFFFC03,
    IR44_WARMWHITE2 := 0xFF09F6,
    IR44_WARMWHITE := 0xFF16E9,
    IR44_COLDWHITE := 0xFF23DC,
    IR44_COLDWHITE2 := 0xFF30CF,
    IR44_REDPLUS := 0xFF3DC2,
    IR44_REDMINUS := 0xFF4AB5,
    IR44_GREENPLUS := 0xFF57A8,
    IR44_GREENMINUS := 0xFF649B,
    IR44_BLUEPLUS := 0xFF718E,
    IR44_BLUEMINUS := 0xFF7E81,
    IR44_QUICK := 0xFF8B74,
    IR44_SLOW := 0xFF9867,
    IR44_DIY1 := 0xFFA55A,
    IR44_DIY2 := 0xFFB24D,
    IR44_DIY3 := 0xFFBF40,
    IR44_DIY4 := 0xFFCC33,
    IR44_DIY5 := 0xFFD926,
    IR44_DIY6 := 0xFFE619,
    IR44_AUTO := 0xFFF30C,
    IR44_FLASH := 0xFF00FF,
    IR44_JUMP3 := 0xFF0DF2,
    IR44_JUMP7 := 0xFF1AE5,
    IR44_FADE3 := 0xFF27D8,
    IR44_FADE7 := 0xFF34CB }

/-- Key codes of the 21-key remote for worked examples, each different from the
others and from the codes of `exampleCodes`. -/
def exampleIr21Codes : Ir21Codes :=
  { IR21_BRIGHTER := 0xFF05FA,
    IR21_DARKER := 0xFF12ED,
    IR21_OFF := 0xFF1FE0,
    IR21_ON := 0xFF2CD3,
    IR21_RED := 0xFF39C6,
    IR21_REDDISH := 0xFF46B9,
    IR21_ORANGE := 0xFF53AC,
    IR21_YELLOWISH := 0xFF609F,
    IR21_GREEN := 0xFF6D92,
    IR21_GREENISH := 0xFF7A85,
    IR21_TURQUOISE := 0xFF8778,
    IR21_CYAN := 0xFF946B,
    IR21_BLUE := 0xFFA15E,
    IR21_DEEPBLUE := 0xFFAE51,
    IR21_PURPLE := 0xFFBB44,
    IR21_PINK := 0xFFC837,
    IR21_WHITE := 0xFFD52A,
    IR21_FLASH := 0xFFE21D,
    IR21_STROBE := 0xFFEF10,
    IR21_FADE := 0xFFFC03,
    IR21_SMOOTH := 0xFF09F6 }

/-- Key codes of the 6-key remote for worked examples, each different from the
others and from the codes of `exampleCodes`. -/
def exampleIr6Codes : Ir6Codes :=
  { IR6_POWER := 0xFF05FA,
    IR6_CHANNEL_UP := 0xFF12ED,
    IR6_CHANNEL_DOWN := 0xFF1FE0,
    IR6_VOLUME_UP := 0xFF2CD3,
    IR6_VOLUME_DOWN := 0xFF39C6,
    IR6_MUTE := 0xFF46B9 }

/-- Key codes of the 9-key remote for worked examples, each different from the
others and from the codes of `exampleCodes`. -/
def exampleIr9Codes : Ir9Codes :=
  { IR9_POWER := 0xFF05FA,
    IR9_A := 0xFF12ED,
    IR9_B := 0xFF1FE0,
    IR9_C := 0xFF2CD3,
    IR9_UP := 0xFF39C6,
    IR9_DOWN := 0xFF46B9,
    IR9_LEFT := 0xFF53AC,
    IR9_RIGHT := 0xFF609F,
    IR9_SELECT := 0xFF6D92 }

/-- Key codes and colours for worked examples. -/
def exampleTables : IrCodeTables :=
  { exampleCodes with
    colors := exampleColors,
    ir24 := exampleIr24Codes,
    ir24old := exampleIr24OldCodes,
    ir24ct := exampleIr24CtCodes,
    ir40 := exampleIr40Codes,
    ir44 := exampleIr44Codes,
    ir21 := exampleIr21Codes,
    ir6 := exampleIr6Codes,
    ir9 := exampleIr9Codes }

/-- A world in the mode of the 24-key remote with a receiver, right after
start-up. -/
def remoteWorld : World :=
  { bootWorld with irEnabled := 1, irrecv := true }

/-! Transports: infrared receiver, ESP-NOW and RF433 -/

/-- Difference of two `unsigned long` clock values. -/
def elapsed (now since : Nat) : Nat := (now + 4294967296 - since % 4294967296) % 4294967296

/-- Function `handleIR` of `ir.cpp`.  Modelled from the spec: the receiver
object belongs to the infrared library, outside the files of this development;
`decode` hands over the value the receiver has, if it has one, and `resume`
makes the receiver ready for the next value.  The value is narrowed to the
`uint32_t` argument of `decodeIR`.  The output to the serial port is left
out. -/
def handleIR (codes : IrCodes) (conv : ColorConversion) (decoders : Decoders)
    (w : World) : World :=
  let currentTime := w.millis
  let timeDiff := elapsed currentTime w.irCheckedTime
  if timeDiff > 120 && w.irEnabled > 0 && w.irrecv then
    if w.millis < w.strip.updatingUntil && timeDiff < 240 then w  -- be nice, but not too nice
    else
      let w := { w with irCheckedTime := currentTime }
      match w.irReceived with
      | none => w
      | some value =>
        let w := decodeIR codes conv decoders (value % 4294967296) w
        { w with irReceived := none }
  else w

/-- Output of the `printf` conversion `%d`. -/
def formatInt (n : Int) : Str :=
  if n < 0 then '-' :: formatDecimal n.natAbs else formatDecimal n.toNat

/-- Conversion of an `unsigned long` value to `int`. -/
def toInt32 (n : Nat) : Int :=
  if n % 4294967296 < 2147483648 then ((n % 4294967296 : Nat) : Int)
  else ((n % 4294967296 : Nat) : Int) - 4294967296

/-- Text `"/remote.json"`. -/
def textRemoteJson : Str := "/remote.json".toList

/-- Text `"/remote433.json"`. -/
def textRemote433Json : Str := "/remote433.json".toList

/-- The key text `sprintf_P(objKey, PSTR("\"%d\":"), button)` writes; character
34 is the double quote. -/
def buttonObjKey (button : Int) : Str :=
  [Char.ofNat 34] ++ formatInt button ++ [Char.ofNat 34, ':']

/-- The members of class `RF433Usermod` that `loop` works on.  Modelled from the
spec: the receiver `mySwitch` belongs to a library outside the files of this
development; `received` is the value it has available, if any. -/
structure RF433Usermod where
  lastCommand : Nat := 0
  lastTime : Nat := 0
  modEnabled : Bool := true
  received : Option Nat := none
deriving DecidableEq, Repr

/-- Method `RF433Usermod::remoteJson433`. -/
def RF433Usermod.remoteJson433 (button : Int) (w : World) : Bool × World :=
  let objKey := buttonObjKey button
  let fileName := textRemote433Json
  let r := runJson 22 fileName objKey w
  match r.1 with
  | UiJsonActionResult.OK => (true, r.2)
  | UiJsonActionResult.OK_REPEATABLE => (true, r.2)
  | UiJsonActionResult.ERR_NO_FILE => (false, r.2)
  | UiJsonActionResult.ERR_LOCK => (false, r.2)
  | UiJsonActionResult.ERR_CODE_NOT_IN_FILE => (false, r.2)
  | UiJsonActionResult.ERR_CODE_NO_ACTION => (false, r.2)

/-- Method `RF433Usermod::loop`.  The debug output is left out. -/
def RF433Usermod.loop (u : RF433Usermod) (w : World) : RF433Usermod × World :=
  if !u.modEnabled || decide (w.millis < w.strip.updatingUntil) then (u, w)
  else
    match u.received with
    | none => (u, w)
    | some receivedCommand =>
      let receivedCommand := receivedCommand % 4294967296
      let u := { u with received := none }
      -- Discard duplicates, limit long press repeat
      if u.lastCommand == receivedCommand && decide (elapsed w.millis u.lastTime < 800) then
        (u, w)
      else
        let u := { u with lastCommand := receivedCommand, lastTime := w.millis }
        let r := RF433Usermod.remoteJson433 (toInt32 receivedCommand) w
        (u, r.2)

/-- Constant `WIZMOTE_BUTTON_ON`. -/
def WIZMOTE_BUTTON_ON : Int := 1

/-- Constant `WIZMOTE_BUTTON_OFF`. -/
def WIZMOTE_BUTTON_OFF : Int := 2

/-- Constant `WIZMOTE_BUTTON_NIGHT`. -/
def WIZMOTE_BUTTON_NIGHT : Int := 3

/-- Constant `WIZMOTE_BUTTON_ONE`. -/
def WIZMOTE_BUTTON_ONE : Int := 16

/-- Constant `WIZMOTE_BUTTON_TWO`. -/
def WIZMOTE_BUTTON_TWO : Int := 17

/-- Constant `WIZMOTE_BUTTON_THREE`. -/
def WIZMOTE_BUTTON_THREE : Int := 18

/-- Constant `WIZMOTE_BUTTON_FOUR`. -/
def WIZMOTE_BUTTON_FOUR : Int := 19

/-- Constant `WIZMOTE_BUTTON_BRIGHT_UP`. -/
def WIZMOTE_BUTTON_BRIGHT_UP : Int := 9

/-- Constant `WIZMOTE_BUTTON_BRIGHT_DOWN`. -/
def WIZMOTE_BUTTON_BRIGHT_DOWN : Int := 8

/-- Constant `WIZ_SMART_BUTTON_ON`. -/
def WIZ_SMART_BUTTON_ON : Int := 100

/-- Constant `WIZ_SMART_BUTTON_OFF`. -/
def WIZ_SMART_BUTTON_OFF : Int := 101

/-- Constant `WIZ_SMART_BUTTON_BRIGHT_UP`. -/
def WIZ_SMART_BUTTON_BRIGHT_UP : Int := 102

/-- Constant `WIZ_SMART_BUTTON_BRIGHT_DOWN`. -/
def WIZ_SMART_BUTTON_BRIGHT_DOWN : Int := 103

/-- Value of `sizeof(message_structure_t)`: 13 members of one byte each. -/
def messageStructureSize : Nat := 13

/-- The sequence number of a packet: the bytes `seq[0]` to `seq[3]` at offsets
1 to 4, least significant byte first. -/
def packetSeq (incomingData : List Nat) : Nat :=
  ((incomingData.getD 1 0 % 256) ||| ((incomingData.getD 2 0 % 256) <<< 8) |||
    ((incomingData.getD 3 0 % 256) <<< 16) |||
    ((incomingData.getD 4 0 % 256) <<< 24)) % 4294967296

/-- The member `button` of a packet, at offset 6. -/
def packetButton (incomingData : List Nat) : Int :=
  ((incomingData.getD 6 0 % 256 : Nat) : Int)

/-- Function `handleWiZdata` of `remote.cpp`; the packet is the list of its
bytes and `len` the length of the list.  The debug output is left out. -/
def handleWiZdata (incomingData : List Nat) (w : World) : World :=
  if incomingData.length ≠ messageStructureSize then w
  else
    let cur_seq := packetSeq incomingData
    if cur_seq = w.last_seq then w
    else
      -- save state, do not process in callback (can cause glitches)
      { w with ESPNowButton := packetButton incomingData, last_seq := cur_seq }

/-- Function `remoteJson` of `remote.cpp`. -/
def remoteJson (button : Int) (w : World) : Bool × World :=
  let objKey := buttonObjKey button
  let fileName := textRemoteJson
  let r := runJson 22 fileName objKey w
  (r.1 == UiJsonActionResult.OK || r.1 == UiJsonActionResult.OK_REPEATABLE, r.2)

/-- The `switch` of `handleRemote`, which runs the built-in action of a
button. -/
def builtinButtonAction (fx : FxModes) (button : Int) (w : World) : World :=
  if button = WIZ_SMART_BUTTON_ON ∨ button = WIZMOTE_BUTTON_ON then
    callAction (fun s => (turnOn s).2) w
  else if button = WIZ_SMART_BUTTON_OFF ∨ button = WIZMOTE_BUTTON_OFF then
    callAction (fun s => (turnOff s).2) w
  else if button = WIZMOTE_BUTTON_ONE then presetWithFallback 1 FX_MODE_STATIC 0 w
  else if button = WIZMOTE_BUTTON_TWO then presetWithFallback 2 fx.FX_MODE_BREATH 0 w
  else if button = WIZMOTE_BUTTON_THREE then
    presetWithFallback 3 fx.FX_MODE_FIRE_FLICKER 0 w
  else if button = WIZMOTE_BUTTON_FOUR then presetWithFallback 4 fx.FX_MODE_RAINBOW 0 w
  else if button = WIZMOTE_BUTTON_NIGHT then
    callAction (fun s => (activateNightMode s).2) w
  else if button = WIZ_SMART_BUTTON_BRIGHT_UP ∨ button = WIZMOTE_BUTTON_BRIGHT_UP then
    callAction (fun s => (incBrightness s).2) w
  else if button = WIZ_SMART_BUTTON_BRIGHT_DOWN ∨ button = WIZMOTE_BUTTON_BRIGHT_DOWN then
    callAction (fun s => (decBrightness s).2) w
  else w

/-- The statements `handleRemote` runs for a pending button: the command of the
button in `/remote.json`, and the built-in action when that fails. -/
def processButton (fx : FxModes) (w : World) : World :=
  let r := remoteJson w.ESPNowButton w
  if !r.1 then builtinButtonAction fx r.2.ESPNowButton r.2 else r.2

/-- Function `handleRemote` of `remote.cpp`. -/
def handleRemote (fx : FxModes) (w : World) : World :=
  let w := if w.ESPNowButton ≥ 0 then processButton fx w else w
  { w with ESPNowButton := -1 }

/-- A packet of the remote with the given sequence bytes and button. -/
def wizPacket (seq0 seq1 seq2 seq3 button : Nat) : List Nat :=
  [0x81, seq0, seq1, seq2, seq3, 0x32, button, 0x01, 90, 0, 0, 0, 0]


/-- The clock reads `now` and the infrared receiver has decoded `value`. -/
def irReceive (value now : Nat) (w : World) : World :=
  { w with millis := now, irReceived := some value }


/-! Brightness stepping -/

/-- With night mode inactive, `incBrightness` is the upward search through the
table, written out entry by entry. -/
theorem incBrightness_unfold (s : State) (hn : nightModeActive s = false) :
    incBrightness s = incBrightnessLoop s brightnessSteps := by
  simp [incBrightness, hn]

/-- With night mode inactive, `decBrightness` is the downward search through
the table, started at the last index. -/
theorem decBrightness_unfold (s : State) (hn : nightModeActive s = false) :
    decBrightness s = decBrightnessLoop s 16 (Nat.le_refl _) := by
  simp [decBrightness, hn, numBrightnessSteps, brightnessSteps]

/-- The upward search over a strictly increasing list finds the smallest entry
above `bri`, or reports that there is none. -/
theorem incBrightnessLoop_spec (s : State) : ∀ (l : List Nat), l.Pairwise (· < ·) →
    (∃ v, v ∈ l ∧ s.bri < v ∧ (∀ w ∈ l, s.bri < w → v ≤ w) ∧
        incBrightnessLoop s l = (true, doUpdate { s with bri := v })) ∨
    ((∀ w ∈ l, ¬ s.bri < w) ∧ incBrightnessLoop s l = (false, s))
  | [], _ => Or.inr ⟨by simp, rfl⟩
  | step :: rest, hp => by
    rw [List.pairwise_cons] at hp
    by_cases h : step > s.bri
    · left
      refine ⟨step, by simp, h, ?_, by simp [incBrightnessLoop, h]⟩
      intro w hw _
      rcases List.mem_cons.1 hw with rfl | hw
      · exact le_refl _
      · exact le_of_lt (hp.1 w hw)
    · rcases incBrightnessLoop_spec s rest hp.2 with ⟨v, hv, hlt, hmin, heq⟩ | ⟨hno, heq⟩
      · left
        refine ⟨v, by simp [hv], hlt, ?_, by simp [incBrightnessLoop, h, heq]⟩
        intro w hw hw2
        rcases List.mem_cons.1 hw with rfl | hw
        · exact absurd hw2 h
        · exact hmin w hw hw2
      · right
        refine ⟨?_, by simp [incBrightnessLoop, h, heq]⟩
        intro w hw
        rcases List.mem_cons.1 hw with rfl | hw
        · exact h
        · exact hno w hw

/-- The step table is strictly increasing. -/
theorem brightnessSteps_increasing : brightnessSteps.Pairwise (· < ·) := by
  decide

/-- The downward search from index `n - 1` finds the entry of largest index
below `bri`, or reports that there is none. -/
theorem decBrightnessLoop_spec (s : State) :
    ∀ (n : Nat) (h : n ≤ brightnessSteps.length),
    (∃ i v, i < n ∧ brightnessSteps[i]? = some v ∧ v < s.bri ∧
        (∀ j w, j < n → brightnessSteps[j]? = some w → w < s.bri → j ≤ i) ∧
        decBrightnessLoop s n h = (true, doUpdate { s with bri := v })) ∨
    ((∀ j w, j < n → brightnessSteps[j]? = some w → ¬ w < s.bri) ∧
        decBrightnessLoop s n h = (false, s))
  | 0, _ => Or.inr ⟨by intro j w hj; omega, rfl⟩
  | index + 1, h => by
    have hi : index < brightnessSteps.length := h
    have hget : brightnessSteps[index]? = some brightnessSteps[index] :=
      List.getElem?_eq_getElem hi
    by_cases hc : brightnessSteps[index] < s.bri
    · left
      refine ⟨index, brightnessSteps[index], by omega, hget, hc, ?_,
        by simp [decBrightnessLoop, hc]⟩
      intro j w hj _ _
      omega
    · rcases decBrightnessLoop_spec s index (Nat.le_of_succ_le h) with
        ⟨i, v, hin, hv, hlt, hmax, heq⟩ | ⟨hno, heq⟩
      · left
        refine ⟨i, v, by omega, hv, hlt, ?_, by simp [decBrightnessLoop, hc, heq]⟩
        intro j w hj hw hw2
        rcases Nat.lt_succ_iff_lt_or_eq.1 hj with hj | rfl
        · exact hmax j w hj hw hw2
        · rw [hget] at hw
          cases hw
          exact absurd hw2 hc
      · right
        refine ⟨?_, by simp [decBrightnessLoop, hc, heq]⟩
        intro j w hj hw
        rcases Nat.lt_succ_iff_lt_or_eq.1 hj with hj | rfl
        · exact hno j w hj hw
        · rw [hget] at hw
          cases hw
          exact hc

/-- Entries of the step table grow with the index. -/
theorem brightnessSteps_monotone (i j v w : Nat) (hij : i ≤ j)
    (hv : brightnessSteps[i]? = some v) (hw : brightnessSteps[j]? = some w) : v ≤ w := by
  rcases List.getElem?_eq_some.1 hv with ⟨hi, rfl⟩
  rcases List.getElem?_eq_some.1 hw with ⟨hj, rfl⟩
  rcases Nat.eq_or_lt_of_le hij with rfl | hlt
  · exact le_refl _
  · exact le_of_lt (List.pairwise_iff_getElem.1 brightnessSteps_increasing i j hi hj hlt)

/-- In a state with night mode inactive the search of `incBrightness` sees only
`bri`: two such states with equal `bri` get the same return value, the same new
`bri` and both stay out of night mode. -/
theorem incBrightnessLoop_congr (s t : State) (hb : s.bri = t.bri) :
    ∀ l : List Nat,
      (incBrightnessLoop s l).1 = (incBrightnessLoop t l).1 ∧
      (incBrightnessLoop s l).2.bri = (incBrightnessLoop t l).2.bri ∧
      (incBrightnessLoop s l).2.brightnessBeforeNightMode = s.brightnessBeforeNightMode ∧
      (incBrightnessLoop t l).2.brightnessBeforeNightMode = t.brightnessBeforeNightMode
  | [] => ⟨rfl, hb, rfl, rfl⟩
  | step :: rest => by
    by_cases h : step > s.bri
    · have h2 : step > t.bri := hb ▸ h
      simp [incBrightnessLoop, h, h2, doUpdate, stateUpdated]
    · have h2 : ¬ step > t.bri := hb ▸ h
      simpa [incBrightnessLoop, h, h2] using incBrightnessLoop_congr s t hb rest

/-- The trace of repeated `incBrightness` calls depends on the start state only
through `bri`, as long as night mode is inactive. -/
theorem incBrightnessTrace_congr :
    ∀ (n : Nat) (s t : State), s.bri = t.bri →
      nightModeActive s = false → nightModeActive t = false →
      incBrightnessTrace n s = incBrightnessTrace n t
  | 0, _, _, _, _, _ => rfl
  | n + 1, s, t, hb, hs, ht => by
    obtain ⟨h1, h2, h3, h4⟩ := incBrightnessLoop_congr s t hb brightnessSteps
    simp only [incBrightnessTrace, incBrightness_unfold s hs,
      incBrightness_unfold t ht, h1, h2]
    congr 1
    apply incBrightnessTrace_congr n _ _ h2
    · simpa [nightModeActive, h3] using hs
    · simpa [nightModeActive, h4] using ht

/-- C1: with night mode inactive, `incBrightness` sets `bri` to the smallest
value of the step table that is strictly greater than `bri`, raises the
notification and returns true; at `bri = 255` the table has no greater value,
and the call returns false and leaves the state as it is. -/
theorem incBrightness_next_table_value (s : State)
    (hn : nightModeActive s = false) :
    (s.bri < 255 →
      ∃ v, v ∈ brightnessSteps ∧ s.bri < v ∧
        (∀ w ∈ brightnessSteps, s.bri < w → v ≤ w) ∧
        incBrightness s = (true, doUpdate { s with bri := v })) ∧
    (s.bri = 255 →
      (∀ w ∈ brightnessSteps, ¬ s.bri < w) ∧ incBrightness s = (false, s)) := by
  rw [incBrightness_unfold s hn]
  have h255 : (255 : Nat) ∈ brightnessSteps := by decide
  have hle : ∀ w ∈ brightnessSteps, w ≤ 255 := by decide
  rcases incBrightnessLoop_spec s brightnessSteps brightnessSteps_increasing with
    ⟨v, hv, hlt, hmin, heq⟩ | ⟨hno, heq⟩
  · refine ⟨fun _ => ⟨v, hv, hlt, hmin, heq⟩, fun h => ?_⟩
    have := hle v hv
    omega
  · refine ⟨fun h => absurd h (hno 255 h255), fun _ => ⟨hno, heq⟩⟩

/-- Witness of C1 at the start-up state (brightness 128). -/
theorem incBrightness_next_table_value_witness :
    nightModeActive bootState = false ∧
    ((bootState.bri < 255 →
      ∃ v, v ∈ brightnessSteps ∧ bootState.bri < v ∧
        (∀ w ∈ brightnessSteps, bootState.bri < w → v ≤ w) ∧
        incBrightness bootState = (true, doUpdate { bootState with bri := v })) ∧
    (bootState.bri = 255 →
      (∀ w ∈ brightnessSteps, ¬ bootState.bri < w) ∧
        incBrightness bootState = (false, bootState))) :=
  ⟨by decide, incBrightness_next_table_value bootState (by decide)⟩

/-- C2: from `bri = 0` with night mode inactive, sixteen successive
`incBrightness` calls return true and set `bri` to 5, 7, 9, 12, 16, 20, 26, 34,
43, 56, 72, 93, 119, 154, 198, 255 in this order; the seventeenth call returns
false and leaves `bri` at 255. -/
theorem incBrightness_from_zero_visits_table (s : State) (h0 : s.bri = 0)
    (hn : nightModeActive s = false) :
    incBrightnessTrace 17 s =
      [(true, 5), (true, 7), (true, 9), (true, 12), (true, 16), (true, 20),
       (true, 26), (true, 34), (true, 43), (true, 56), (true, 72), (true, 93),
       (true, 119), (true, 154), (true, 198), (true, 255), (false, 255)] := by
  rw [incBrightnessTrace_congr 17 s { bootState with bri := 0 } h0 hn (by decide)]
  decide

/-- Witness of C2 at the start-up state with the light off. -/
theorem incBrightness_from_zero_visits_table_witness :
    ({ bootState with bri := 0 } : State).bri = 0 ∧
    nightModeActive { bootState with bri := 0 } = false ∧
    incBrightnessTrace 17 { bootState with bri := 0 } =
      [(true, 5), (true, 7), (true, 9), (true, 12), (true, 16), (true, 20),
       (true, 26), (true, 34), (true, 43), (true, 56), (true, 72), (true, 93),
       (true, 119), (true, 154), (true, 198), (true, 255), (false, 255)] :=
  ⟨rfl, by decide,
    incBrightness_from_zero_visits_table { bootState with bri := 0 } rfl (by decide)⟩

/-- C3: with night mode inactive, `decBrightness` sets `bri` to the largest
value of the step table that is strictly less than `bri` and returns true, or
returns false and leaves the state as it is when the table has no smaller
value; a value it sets is at least 5, so it never sets `bri` to 0. -/
theorem decBrightness_prev_table_value (s : State)
    (hn : nightModeActive s = false) :
    ((∃ v, v ∈ brightnessSteps ∧ v < s.bri ∧
        (∀ w ∈ brightnessSteps, w < s.bri → w ≤ v) ∧
        decBrightness s = (true, doUpdate { s with bri := v })) ∨
      ((∀ w ∈ brightnessSteps, ¬ w < s.bri) ∧ decBrightness s = (false, s))) ∧
    ((decBrightness s).1 = true → 5 ≤ (decBrightness s).2.bri) ∧
    ((decBrightness s).2.bri = 0 → s.bri = 0 ∧ (decBrightness s).1 = false) := by
  have hge : ∀ w ∈ brightnessSteps, 5 ≤ w := by decide
  have key : (∃ v, v ∈ brightnessSteps ∧ v < s.bri ∧
        (∀ w ∈ brightnessSteps, w < s.bri → w ≤ v) ∧
        decBrightness s = (true, doUpdate { s with bri := v })) ∨
      ((∀ w ∈ brightnessSteps, ¬ w < s.bri) ∧ decBrightness s = (false, s)) := by
    rw [decBrightness_unfold s hn]
    rcases decBrightnessLoop_spec s 16 (Nat.le_refl _) with
      ⟨i, v, hi, hv, hlt, hmax, heq⟩ | ⟨hno, heq⟩
    · left
      refine ⟨v, List.getElem?_eq_some.1 hv |> fun ⟨h, e⟩ => e ▸ List.getElem_mem h, hlt, ?_, heq⟩
      intro w hw hw2
      rcases List.mem_iff_getElem?.1 hw with ⟨j, hj⟩
      have hj16 : j < 16 := (List.getElem?_eq_some.1 hj).1
      exact brightnessSteps_monotone j i w v (hmax j w hj16 hj hw2) hj hv
    · right
      refine ⟨?_, heq⟩
      intro w hw
      rcases List.mem_iff_getElem?.1 hw with ⟨j, hj⟩
      exact hno j w (List.getElem?_eq_some.1 hj).1 hj
  refine ⟨key, ?_, ?_⟩
  · rcases key with ⟨v, hv, _, _, heq⟩ | ⟨_, heq⟩
    · intro _; rw [heq]; exact hge v hv
    · intro h; rw [heq] at h; cases h
  · rcases key with ⟨v, hv, _, _, heq⟩ | ⟨_, heq⟩
    · intro h; rw [heq] at h
      have := hge v hv
      simp [doUpdate, stateUpdated] at h
      omega
    · intro h; rw [heq] at h ⊢
      exact ⟨h, rfl⟩

/-- Witness of C3 at the start-up state (brightness 128). -/
theorem decBrightness_prev_table_value_witness :
    nightModeActive bootState = false ∧
    (((∃ v, v ∈ brightnessSteps ∧ v < bootState.bri ∧
        (∀ w ∈ brightnessSteps, w < bootState.bri → w ≤ v) ∧
        decBrightness bootState = (true, doUpdate { bootState with bri := v })) ∨
      ((∀ w ∈ brightnessSteps, ¬ w < bootState.bri) ∧
        decBrightness bootState = (false, bootState))) ∧
    ((decBrightness bootState).1 = true → 5 ≤ (decBrightness bootState).2.bri) ∧
    ((decBrightness bootState).2.bri = 0 →
      bootState.bri = 0 ∧ (decBrightness bootState).1 = false)) :=
  ⟨by decide, decBrightness_prev_table_value bootState (by decide)⟩

/-- C4: while night mode is active, each of the six brightness operations
returns false and hands back the state it was given: no notification, `bri`,
the saved brightness and every other field as before. -/
theorem brightness_ops_suppressed_in_night_mode (s : State) (delta : Nat)
    (hn : nightModeActive s = true) :
    incBrightness s = (false, s) ∧
    decBrightness s = (false, s) ∧
    incBrightnessAlternate s = (false, s) ∧
    decBrightnessAlternate s = (false, s) ∧
    incBrightnessBy delta s = (false, s) ∧
    decBrightnessBy delta s = (false, s) := by
  simp [incBrightness, decBrightness, incBrightnessAlternate,
    decBrightnessAlternate, incBrightnessBy, decBrightnessBy, hn]

/-- Witness of C4 in night mode with a delta of 10. -/
theorem brightness_ops_suppressed_in_night_mode_witness :
    nightModeActive nightState = true ∧
    (incBrightness nightState = (false, nightState) ∧
    decBrightness nightState = (false, nightState) ∧
    incBrightnessAlternate nightState = (false, nightState) ∧
    decBrightnessAlternate nightState = (false, nightState) ∧
    incBrightnessBy 10 nightState = (false, nightState) ∧
    decBrightnessBy 10 nightState = (false, nightState)) :=
  ⟨by decide, brightness_ops_suppressed_in_night_mode nightState 10 (by decide)⟩

/-! Power and night mode -/

/-- Conversion to `uint8_t` keeps a value that already is a byte. -/
theorem toUint8_of_byte (n : Nat) (h : n ≤ 255) : toUint8 (n : Int) = n := by
  unfold toUint8
  omega

/-- Night mode is inactive exactly when the saved brightness is the sentinel. -/
theorem nightModeActive_eq_false (s : State) :
    nightModeActive s = false ↔
      s.brightnessBeforeNightMode = NIGHT_MODE_DEACTIVATED := by
  simp [nightModeActive]

/-- C5: with night mode inactive and the light on at brightness `b`, `turnOff`
leaves `bri = 0` and a following `turnOn` ends with `bri = b`; both calls
return true. -/
theorem turnOff_turnOn_round_trip (s : State)
    (hn : nightModeActive s = false) (hb : s.bri ≠ 0) :
    (turnOff s).1 = true ∧ (turnOff s).2.bri = 0 ∧
    (turnOn (turnOff s).2).1 = true ∧ (turnOn (turnOff s).2).2.bri = s.bri := by
  have hs := (nightModeActive_eq_false s).1 hn
  simp [turnOff, turnOn, hs, hb, doUpdate, stateUpdated, restartRuntime]

/-- Witness of C5 at the start-up state (brightness 128). -/
theorem turnOff_turnOn_round_trip_witness :
    nightModeActive bootState = false ∧ bootState.bri ≠ 0 ∧
    ((turnOff bootState).1 = true ∧ (turnOff bootState).2.bri = 0 ∧
    (turnOn (turnOff bootState).2).1 = true ∧
    (turnOn (turnOff bootState).2).2.bri = bootState.bri) :=
  ⟨by decide, by decide,
    turnOff_turnOn_round_trip bootState (by decide) (by decide)⟩

/-- C6 as stated fails: from the start-up state (brightness 128), after
`turnOff`, `activateNightMode`, `turnOn` the brightness is 128, while the
brightness that `activateNightMode` saved is 0. -/
theorem turnOn_after_night_mode_not_saved_brightness :
    nightModeActive bootState = false ∧ bootState.bri ≠ 0 ∧
    (activateNightMode (turnOff bootState).2).2.brightnessBeforeNightMode = 0 ∧
    ((turnOn (activateNightMode (turnOff bootState).2).2).2.bri : Int) ≠
      (activateNightMode (turnOff bootState).2).2.brightnessBeforeNightMode := by
  decide

/-- C6, amended: with night mode inactive and the light on at brightness `b`,
after `turnOff`, `activateNightMode`, `turnOn` night mode is inactive and
`bri = b`.  The brightness saved by `activateNightMode` is 0, the light being
off at that moment; `turnOn` restores this 0 and then, the light being off,
takes `bri` from `briLast`. -/
theorem turnOn_after_night_mode_restores_pre_off (s : State)
    (hn : nightModeActive s = false) (hb : s.bri ≠ 0) :
    (activateNightMode (turnOff s).2).2.brightnessBeforeNightMode = 0 ∧
    nightModeActive (activateNightMode (turnOff s).2).2 = true ∧
    nightModeActive (turnOn (activateNightMode (turnOff s).2).2).2 = false ∧
    (turnOn (activateNightMode (turnOff s).2).2).2.bri = s.bri := by
  have hs := (nightModeActive_eq_false s).1 hn
  have h0 : ((0 : Int) != NIGHT_MODE_DEACTIVATED) = true := by decide
  have h1 : (NIGHT_MODE_BRIGHTNESS == 0) = false := by decide
  have h2 : toUint8 0 = 0 := by decide
  simp [turnOff, turnOn, activateNightMode, nightModeActive, hs, hb, doUpdate,
    stateUpdated, restartRuntime, h0, h1, h2]

/-- Witness of the amended C6 at the start-up state (brightness 128). -/
theorem turnOn_after_night_mode_restores_pre_off_witness :
    nightModeActive bootState = false ∧ bootState.bri ≠ 0 ∧
    ((activateNightMode (turnOff bootState).2).2.brightnessBeforeNightMode = 0 ∧
    nightModeActive (activateNightMode (turnOff bootState).2).2 = true ∧
    nightModeActive (turnOn (activateNightMode (turnOff bootState).2).2).2 = false ∧
    (turnOn (activateNightMode (turnOff bootState).2).2).2.bri = bootState.bri) :=
  ⟨by decide, by decide,
    turnOn_after_night_mode_restores_pre_off bootState (by decide) (by decide)⟩

/-- C7 as stated fails for `turnOn`: in a switched-off state with `briLast = 0`
the first `turnOn` returns true and leaves `bri = 0`, and the second `turnOn`
returns true again and raises another notification. -/
theorem turnOn_not_idempotent_when_briLast_zero :
    (turnOn darkState).1 = true ∧ (turnOn darkState).2.bri = 0 ∧
    (turnOn (turnOn darkState).2).1 = true ∧
    (turnOn (turnOn darkState).2).2.notifications ≠
      (turnOn darkState).2.notifications := by
  decide

/-- C7, amended: `turnOff` is idempotent in every state, and after it `bri = 0`
and night mode is inactive; `turnOn` is idempotent in every state with
`briLast` not 0.  Idempotent means: the second call returns false and hands
back the state left by the first call, so no notification is raised and `bri`,
`briLast` and the night-mode state stay as they were. -/
theorem turnOn_turnOff_idempotent (s : State) :
    (s.briLast ≠ 0 → turnOn (turnOn s).2 = (false, (turnOn s).2)) ∧
    turnOff (turnOff s).2 = (false, (turnOff s).2) ∧
    (turnOff s).2.bri = 0 ∧ nightModeActive (turnOff s).2 = false := by
  refine ⟨fun hl => ?_, ?_, ?_, ?_⟩
  · by_cases hn : s.brightnessBeforeNightMode = NIGHT_MODE_DEACTIVATED
    · by_cases hb : s.bri = 0
      · simp [turnOn, hn, hb, hl, doUpdate, stateUpdated, restartRuntime]
      · simp [turnOn, hn, hb]
    · by_cases hb : toUint8 s.brightnessBeforeNightMode = 0
      · simp [turnOn, hn, hb, hl, doUpdate, stateUpdated, restartRuntime]
      · simp [turnOn, hn, hb, doUpdate, stateUpdated]
  all_goals
    by_cases hn : s.brightnessBeforeNightMode = NIGHT_MODE_DEACTIVATED
    · by_cases hb : s.bri = 0
      · simp [turnOff, nightModeActive, hn, hb]
      · simp [turnOff, nightModeActive, hn, hb, doUpdate, stateUpdated]
    · by_cases hb : toUint8 s.brightnessBeforeNightMode = 0
      · simp [turnOff, nightModeActive, hn, hb, doUpdate, stateUpdated]
      · simp [turnOff, nightModeActive, hn, hb, doUpdate, stateUpdated]

/-- Witness of the amended C7 at the start-up state, whose `briLast` is 128. -/
theorem turnOn_turnOff_idempotent_witness :
    bootState.briLast ≠ 0 ∧
    turnOn (turnOn bootState).2 = (false, (turnOn bootState).2) :=
  ⟨by decide, (turnOn_turnOff_idempotent bootState).1 (by decide)⟩

/-- C8 as stated fails: in night mode `bri` is 5, not 0, and `turnOn` returns
true, sets `bri` to the saved brightness 128 and leaves night mode. -/
theorem turnOn_changes_state_in_night_mode :
    nightState.bri ≠ 0 ∧ (turnOn nightState).1 = true ∧
    (turnOn nightState).2.bri = 128 ∧
    nightModeActive nightState = true ∧
    nightModeActive (turnOn nightState).2 = false := by
  decide

/-- C8, amended: in every state with `bri` not 0 and night mode inactive,
`turnOn` returns false and hands back the state it was given. -/
theorem turnOn_noop_when_on (s : State) (hb : s.bri ≠ 0)
    (hn : nightModeActive s = false) :
    turnOn s = (false, s) := by
  simp only [nightModeActive] at hn
  simp [turnOn, hn, hb]

/-- Witness of the amended C8 at the start-up state. -/
theorem turnOn_noop_when_on_witness :
    bootState.bri ≠ 0 ∧ nightModeActive bootState = false ∧
    turnOn bootState = (false, bootState) :=
  ⟨by decide, by decide, turnOn_noop_when_on bootState (by decide) (by decide)⟩

/-- C9: with night mode inactive and `bri = b` a byte, `activateNightMode`
returns true, makes night mode active and sets `bri` to 5; `resetNightMode`
right after returns true, makes night mode inactive and sets `bri` back to
`b`.  In every state, `activateNightMode` with night mode active and
`resetNightMode` with night mode inactive return false and hand back the state
they were given. -/
theorem night_mode_reversible (s : State) (hb : s.bri ≤ 255)
    (hn : nightModeActive s = false) :
    ((activateNightMode s).1 = true ∧
      nightModeActive (activateNightMode s).2 = true ∧
      (activateNightMode s).2.bri = 5 ∧
      (resetNightMode (activateNightMode s).2).1 = true ∧
      nightModeActive (resetNightMode (activateNightMode s).2).2 = false ∧
      (resetNightMode (activateNightMode s).2).2.bri = s.bri) ∧
    (∀ t : State, nightModeActive t = true → activateNightMode t = (false, t)) ∧
    (∀ t : State, nightModeActive t = false → resetNightMode t = (false, t)) := by
  refine ⟨?_, fun t ht => by simp [activateNightMode, ht],
    fun t ht => by simp [resetNightMode, ht]⟩
  have hne : ((s.bri : Int) != NIGHT_MODE_DEACTIVATED) = true := by
    simp only [NIGHT_MODE_DEACTIVATED, bne_iff_ne, ne_eq]
    omega
  have hs := (nightModeActive_eq_false s).1 hn
  have h5 : NIGHT_MODE_BRIGHTNESS = 5 := rfl
  simp [activateNightMode, resetNightMode, nightModeActive, hs, hne, doUpdate,
    stateUpdated, h5, toUint8_of_byte s.bri hb]

/-- Witness of C9 at the start-up state (brightness 128). -/
theorem night_mode_reversible_witness :
    bootState.bri ≤ 255 ∧ nightModeActive bootState = false ∧
    (((activateNightMode bootState).1 = true ∧
      nightModeActive (activateNightMode bootState).2 = true ∧
      (activateNightMode bootState).2.bri = 5 ∧
      (resetNightMode (activateNightMode bootState).2).1 = true ∧
      nightModeActive (resetNightMode (activateNightMode bootState).2).2 = false ∧
      (resetNightMode (activateNightMode bootState).2).2.bri = bootState.bri) ∧
    (∀ t : State, nightModeActive t = true → activateNightMode t = (false, t)) ∧
    (∀ t : State, nightModeActive t = false → resetNightMode t = (false, t))) :=
  ⟨by decide, by decide, night_mode_reversible bootState (by decide) (by decide)⟩

/-- C10: with night mode inactive, `incBrightnessBy` returns false and leaves
the state as it is when `bri = 255`; otherwise it sets `bri` to
`min 255 (bri + delta)`, a value without 8-bit wrap-around, raises the
notification and returns true.  This holds for every `bri` and `delta`, the
bytes 0..255 among them. -/
theorem incBrightnessBy_saturates (s : State) (delta : Nat)
    (hn : nightModeActive s = false) :
    (s.bri = 255 → incBrightnessBy delta s = (false, s)) ∧
    (s.bri ≠ 255 →
      incBrightnessBy delta s =
        (true, doUpdate { s with bri := min 255 (s.bri + delta) })) := by
  refine ⟨fun h => by simp [incBrightnessBy, hn, h], fun h => ?_⟩
  by_cases hc : (s.bri : Int) ≥ 255 - (delta : Int)
  · have hm : min 255 (s.bri + delta) = 255 := by omega
    simp [incBrightnessBy, hn, h, hc, hm]
  · have hm : min 255 (s.bri + delta) = s.bri + delta := by omega
    have hu : toUint8 ((s.bri : Int) + (delta : Int)) = s.bri + delta := by
      have := toUint8_of_byte (s.bri + delta) (by omega)
      simpa using this
    simp [incBrightnessBy, hn, h, hc, hm, hu]

/-- Witness of C10 at the start-up state (brightness 128) with delta 200. -/
theorem incBrightnessBy_saturates_witness :
    nightModeActive bootState = false ∧
    ((bootState.bri = 255 → incBrightnessBy 200 bootState = (false, bootState)) ∧
    (bootState.bri ≠ 255 →
      incBrightnessBy 200 bootState =
        (true, doUpdate { bootState with bri := min 255 (bootState.bri + 200) }))) :=
  ⟨by decide, incBrightnessBy_saturates bootState 200 (by decide)⟩

/-- C39: with night mode inactive and `bri` at a value of the step table,
`incBrightness` followed by `decBrightness` leads back to that value unless it
is 255, and `decBrightness` followed by `incBrightness` leads back to it unless
it is 5; both calls report a change. -/
theorem inc_dec_brightness_inverse (s : State) (hn : nightModeActive s = false)
    (hb : s.bri ∈ brightnessSteps) :
    (s.bri ≠ 255 →
      (incBrightness s).1 = true ∧ (decBrightness (incBrightness s).2).1 = true ∧
      (decBrightness (incBrightness s).2).2.bri = s.bri) ∧
    (s.bri ≠ 5 →
      (decBrightness s).1 = true ∧ (incBrightness (decBrightness s).2).1 = true ∧
      (incBrightness (decBrightness s).2).2.bri = s.bri) := by
  have hn2 := (nightModeActive_eq_false s).1 hn
  simp only [brightnessSteps, List.mem_cons, List.mem_singleton, List.not_mem_nil,
    or_false] at hb
  rcases hb with h | h | h | h | h | h | h | h | h | h | h | h | h | h | h | h <;>
    simp [incBrightness, decBrightness, nightModeActive, incBrightnessLoop,
      decBrightnessLoop, brightnessSteps, numBrightnessSteps, doUpdate, stateUpdated,
      hn2, h]

/-- Witness of C39: the state right after start-up with `bri` at the table
value 26. -/
theorem inc_dec_brightness_inverse_witness :
    (decBrightness (incBrightness { bootState with bri := 26 }).2).2.bri = 26 ∧
    (incBrightness (decBrightness { bootState with bri := 26 }).2).2.bri = 26 :=
  have h := inc_dec_brightness_inverse { bootState with bri := 26 } (by decide)
    (by decide)
  ⟨(h.1 (by decide)).2.2, (h.2 (by decide)).2.2⟩


/-! Linear brightness steps and the absolute setter -/

/-- The state `turnOff` leaves: the light is off and night mode is inactive. -/
theorem turnOff_post (s : State) :
    (turnOff s).2.bri = 0 ∧ nightModeActive (turnOff s).2 = false := by
  by_cases hn : s.brightnessBeforeNightMode = NIGHT_MODE_DEACTIVATED
  · by_cases hb : s.bri = 0
    · simp [turnOff, nightModeActive, hn, hb]
    · simp [turnOff, nightModeActive, hn, hb, doUpdate, stateUpdated]
  · by_cases hb : toUint8 s.brightnessBeforeNightMode = 0
    · simp [turnOff, nightModeActive, hn, hb, doUpdate, stateUpdated]
    · simp [turnOff, nightModeActive, hn, hb, doUpdate, stateUpdated]

/-- C11: with night mode inactive and `bri` a byte, `decBrightnessBy` returns
false and leaves the state as it is when `bri = 1`; from `bri = 0` it restarts
the render runtime, sets `bri` to 1 and returns true; from `bri` of 2 or more
it sets `bri` to `max 1 (bri - delta)` and returns true.  Whenever `bri` is
not 1 the new `bri` is the integer `max 1 (bri - delta)`: it is never 0 and
there is no wrap below 0. -/
theorem decBrightnessBy_floor (s : State) (delta : Nat) (hb : s.bri ≤ 255)
    (hn : nightModeActive s = false) :
    (s.bri = 1 → decBrightnessBy delta s = (false, s)) ∧
    (s.bri = 0 →
      decBrightnessBy delta s = (true, doUpdate { restartRuntime s with bri := 1 })) ∧
    (2 ≤ s.bri →
      decBrightnessBy delta s =
        (true, doUpdate { s with bri := max 1 (s.bri - delta) })) ∧
    (s.bri ≠ 1 →
      (((decBrightnessBy delta s).2.bri : Nat) : Int) =
        max 1 ((s.bri : Int) - (delta : Int))) ∧
    (decBrightnessBy delta s).2.bri ≠ 0 := by
  have h1 : s.bri = 1 → decBrightnessBy delta s = (false, s) := fun h => by
    simp [decBrightnessBy, hn, h]
  have h0 : s.bri = 0 →
      decBrightnessBy delta s = (true, doUpdate { restartRuntime s with bri := 1 }) :=
    fun h => by simp [decBrightnessBy, hn, h]
  have h2 : 2 ≤ s.bri →
      decBrightnessBy delta s =
        (true, doUpdate { s with bri := max 1 (s.bri - delta) }) := fun h => by
    have hne1 : s.bri ≠ 1 := by omega
    have hne0 : s.bri ≠ 0 := by omega
    by_cases hc : s.bri ≤ delta
    · have hm : max 1 (s.bri - delta) = 1 := by omega
      simp [decBrightnessBy, hn, hne1, hne0, hc, hm]
    · have hm : max 1 (s.bri - delta) = s.bri - delta := by omega
      have hu : toUint8 ((s.bri : Int) - (delta : Int)) = s.bri - delta := by
        unfold toUint8
        omega
      simp [decBrightnessBy, hn, hne1, hne0, hc, hm, hu]
  refine ⟨h1, h0, h2, fun hne => ?_, ?_⟩
  · rcases Nat.eq_zero_or_pos s.bri with hz | hpos
    · rw [h0 hz]
      simp only [doUpdate, stateUpdated, restartRuntime, hz]
      omega
    · rw [h2 (by omega)]
      simp only [doUpdate, stateUpdated]
      omega
  · rcases Nat.lt_or_ge s.bri 2 with hlt | hge
    · rcases Nat.eq_zero_or_pos s.bri with hz | hpos
      · rw [h0 hz]
        simp [doUpdate, stateUpdated, restartRuntime]
      · rw [h1 (by omega)]
        show s.bri ≠ 0
        omega
    · rw [h2 hge]
      simp only [doUpdate, stateUpdated]
      omega

/-- Witness of C11 at the start-up state (brightness 128) with delta 200. -/
theorem decBrightnessBy_floor_witness :
    bootState.bri ≤ 255 ∧ nightModeActive bootState = false ∧
    (decBrightnessBy 200 bootState).2.bri ≠ 0 :=
  ⟨by decide, by decide,
    (decBrightnessBy_floor bootState 200 (by decide) (by decide)).2.2.2.2⟩

/-- C12 as stated fails: with delta 0 at brightness 128 both `incBrightnessBy`
and `decBrightnessBy` return true and raise a notification, while `bri` stays
at 128. -/
theorem brightnessBy_true_without_change :
    (incBrightnessBy 0 bootState).1 = true ∧
    (incBrightnessBy 0 bootState).2.bri = bootState.bri ∧
    (decBrightnessBy 0 bootState).1 = true ∧
    (decBrightnessBy 0 bootState).2.bri = bootState.bri := by
  decide

/-- C12, amended: for every `bri`, every night-mode state and every delta of 1
or more, `incBrightnessBy` and `decBrightnessBy` return true exactly when `bri`
after the call differs from `bri` before it; for every delta, 0 included, a
changed `bri` comes with the result true. -/
theorem brightnessBy_result_iff_changed (s : State) (delta : Nat) :
    ((incBrightnessBy delta s).2.bri ≠ s.bri → (incBrightnessBy delta s).1 = true) ∧
    ((decBrightnessBy delta s).2.bri ≠ s.bri → (decBrightnessBy delta s).1 = true) ∧
    (1 ≤ delta →
      ((incBrightnessBy delta s).1 = true ↔ (incBrightnessBy delta s).2.bri ≠ s.bri) ∧
      ((decBrightnessBy delta s).1 = true ↔ (decBrightnessBy delta s).2.bri ≠ s.bri)) := by
  have hi : (incBrightnessBy delta s).1 = false → (incBrightnessBy delta s).2 = s := by
    unfold incBrightnessBy
    split_ifs <;> simp
  have hd : (decBrightnessBy delta s).1 = false → (decBrightnessBy delta s).2 = s := by
    unfold decBrightnessBy
    split_ifs <;> simp
  have hi2 : (incBrightnessBy delta s).2.bri ≠ s.bri → (incBrightnessBy delta s).1 = true := by
    intro h
    by_contra hf
    exact h (by rw [hi (by simpa using hf)])
  have hd2 : (decBrightnessBy delta s).2.bri ≠ s.bri → (decBrightnessBy delta s).1 = true := by
    intro h
    by_contra hf
    exact h (by rw [hd (by simpa using hf)])
  refine ⟨hi2, hd2, fun hpos => ⟨⟨fun ht => ?_, hi2⟩, ⟨fun ht => ?_, hd2⟩⟩⟩
  · by_cases hn : nightModeActive s = true
    · simp [incBrightnessBy, hn] at ht
    · by_cases h255 : s.bri = 255
      · simp [incBrightnessBy, hn, h255] at ht
      · by_cases hc : (s.bri : Int) ≥ 255 - (delta : Int)
        · simp [incBrightnessBy, hn, h255, hc, doUpdate, stateUpdated]
          omega
        · simp [incBrightnessBy, hn, h255, hc, doUpdate, stateUpdated, toUint8]
          omega
  · by_cases hn : nightModeActive s = true
    · simp [decBrightnessBy, hn] at ht
    · by_cases h1 : s.bri = 1
      · simp [decBrightnessBy, hn, h1] at ht
      · by_cases h0 : s.bri = 0
        · simp [decBrightnessBy, hn, h0, doUpdate, stateUpdated, restartRuntime]
        · by_cases hc : s.bri ≤ delta
          · simp [decBrightnessBy, hn, h1, h0, hc, doUpdate, stateUpdated]
            omega
          · simp [decBrightnessBy, hn, h1, h0, hc, doUpdate, stateUpdated, toUint8]
            omega

/-- Witness of the amended C12 at the start-up state with delta 5. -/
theorem brightnessBy_result_iff_changed_witness :
    1 ≤ 5 ∧
    ((incBrightnessBy 5 bootState).1 = true ↔
      (incBrightnessBy 5 bootState).2.bri ≠ bootState.bri) :=
  ⟨by decide, ((brightnessBy_result_iff_changed bootState 5).2.2 (by decide)).1⟩

/-- C13: for every state and every `b` of 1 or more, `setBrightness b` leaves
`bri = b` and night mode inactive; `setBrightness 0` is `turnOff`, which leaves
`bri = 0` and night mode inactive. -/
theorem setBrightness_clears_night_mode (s : State) :
    (∀ b : Nat, 1 ≤ b →
      (setBrightness b s).bri = b ∧ nightModeActive (setBrightness b s) = false) ∧
    setBrightness 0 s = (turnOff s).2 ∧
    (setBrightness 0 s).bri = 0 ∧ nightModeActive (setBrightness 0 s) = false := by
  have h0 : setBrightness 0 s = (turnOff s).2 := by simp [setBrightness]
  refine ⟨fun b hb => ?_, h0, ?_, ?_⟩
  · have hne : b ≠ 0 := by omega
    by_cases hz : s.bri = 0 <;>
      simp [setBrightness, hne, hz, nightModeActive, doUpdate, stateUpdated,
        restartRuntime]
  · rw [h0]; exact (turnOff_post s).1
  · rw [h0]; exact (turnOff_post s).2

/-- Witness of C13 in night mode with `b = 200`. -/
theorem setBrightness_clears_night_mode_witness :
    1 ≤ 200 ∧ (setBrightness 200 nightState).bri = 200 ∧
    nightModeActive (setBrightness 200 nightState) = false :=
  ⟨by decide, (setBrightness_clears_night_mode nightState).1 200 (by decide)⟩

/-! JSON command runtime -/

/-- The wait for the strip changes nothing but the clock. -/
theorem waitForStrip_eq : ∀ (n : Nat) (w : World),
    waitForStrip n w = { w with millis := (waitForStrip n w).millis }
  | 0, _ => rfl
  | n + 1, w => by
    by_cases h : w.millis < w.strip.updatingUntil
    · have ih := waitForStrip_eq n { w with millis := w.millis + 1 }
      simp only [waitForStrip, h, if_true]
      rw [ih]
    · simp [waitForStrip, h]

/-- The world in which `runJson` looks up the command: lock taken, wait done. -/
theorem runJson_locked_world (moduleID : Nat) (w : World)
    (hl : w.jsonBufferLock = none) :
    ∃ m, requestJSONBufferLock moduleID w =
        (true, { w with jsonBufferLock := some moduleID,
                        trace := w.trace ++ [Event.lockAcquired moduleID] }) ∧
      waitForStrip ACTIONIRJSON_BUSWAIT_TIMEOUT
        { w with jsonBufferLock := some moduleID,
                 trace := w.trace ++ [Event.lockAcquired moduleID] } =
        { w with jsonBufferLock := some moduleID,
                 trace := w.trace ++ [Event.lockAcquired moduleID],
                 millis := m } := by
  refine ⟨(waitForStrip ACTIONIRJSON_BUSWAIT_TIMEOUT
        { w with jsonBufferLock := some moduleID,
                 trace := w.trace ++ [Event.lockAcquired moduleID] }).millis, ?_, ?_⟩
  · simp [requestJSONBufferLock, hl]
  · exact waitForStrip_eq _ _

/-- The notification raised by a direct call of `stateUpdated`, as a log entry. -/
theorem raised_stateUpdated (callMode : CallMode) (s : State) :
    raised s (stateUpdated callMode s) = [Event.stateUpdated callMode] := by
  simp [raised, stateUpdated]

/-- C14: `runJson` with the lock taken by someone else returns ERR_LOCK and
hands back the world it was given.  With the lock free and the file missing it
returns ERR_NO_FILE; with the file there and the key absent it returns
ERR_CODE_NOT_IN_FILE.  In these two cases the globals of the action engine
(brightness, night mode, notifications) and the strip are as before, the lock
is free again, and the log has gained the taking and the release of the lock
and nothing else. -/
theorem runJson_failure_outcomes (moduleID : Nat) (fileName objKey : Str)
    (w : World) :
    (w.jsonBufferLock ≠ none →
      runJson moduleID fileName objKey w = (UiJsonActionResult.ERR_LOCK, w)) ∧
    (w.jsonBufferLock = none → fileExists fileName w = false →
      (runJson moduleID fileName objKey w).1 = UiJsonActionResult.ERR_NO_FILE ∧
      (runJson moduleID fileName objKey w).2.ui = w.ui ∧
      (runJson moduleID fileName objKey w).2.strip = w.strip ∧
      (runJson moduleID fileName objKey w).2.jsonBufferLock = none ∧
      (runJson moduleID fileName objKey w).2.trace =
        w.trace ++ [Event.lockAcquired moduleID, Event.lockReleased]) ∧
    (w.jsonBufferLock = none → fileExists fileName w = true →
      readObjectFromFile fileName objKey w = none →
      (runJson moduleID fileName objKey w).1 =
        UiJsonActionResult.ERR_CODE_NOT_IN_FILE ∧
      (runJson moduleID fileName objKey w).2.ui = w.ui ∧
      (runJson moduleID fileName objKey w).2.strip = w.strip ∧
      (runJson moduleID fileName objKey w).2.jsonBufferLock = none ∧
      (runJson moduleID fileName objKey w).2.trace =
        w.trace ++ [Event.lockAcquired moduleID, Event.lockReleased]) := by
  refine ⟨fun hl => ?_, fun hl hf => ?_, fun hl hf hr => ?_⟩
  · cases hw : w.jsonBufferLock with
    | none => exact absurd hw hl
    | some owner => simp [runJson, requestJSONBufferLock, hw]
  · obtain ⟨m, h1, h2⟩ := runJson_locked_world moduleID w hl
    have hnone : List.lookup fileName w.files = none := by
      cases h : List.lookup fileName w.files with
      | none => rfl
      | some file => simp [fileExists, h] at hf
    simp [runJson, h1, h2, readObjectFromFile, fileExists, hnone,
      releaseJSONBufferLock]
  · obtain ⟨m, h1, h2⟩ := runJson_locked_world moduleID w hl
    have hr2 : ((w.files.lookup fileName).bind fun file => file.lookup objKey) = none := hr
    have hf2 : (w.files.lookup fileName).isSome = true := hf
    simp [runJson, h1, h2, readObjectFromFile, fileExists, hr2, hf2,
      releaseJSONBufferLock]

/-- Witness of C14: the start-up world has no file `/ir.json`. -/
theorem runJson_failure_outcomes_witness :
    bootWorld.jsonBufferLock = none ∧ fileExists textIrJson bootWorld = false ∧
    (runJson 13 textIrJson irKeyOne bootWorld).1 = UiJsonActionResult.ERR_NO_FILE :=
  ⟨rfl, by decide,
    ((runJson_failure_outcomes 13 textIrJson irKeyOne bootWorld).2.1 rfl
      (by decide)).1⟩

/-- `startsWith` is the prefix relation. -/
theorem startsWith_iff (s head : Str) : startsWith s head = true ↔ head <+: s := by
  simp [startsWith]

/-- `indexOfFrom` answers -1 or an offset that is not negative. -/
theorem indexOfFrom_neg_iff (sub : Str) (hs : sub ≠ []) :
    ∀ (s : Str) (offset : Nat), indexOfFrom sub s offset < 0 ↔ ¬ sub <:+: s
  | [], offset => by
    simp [indexOfFrom, hs]
  | c :: rest, offset => by
    by_cases hp : sub.isPrefixOf (c :: rest) = true
    · have hpre : sub <+: c :: rest := List.isPrefixOf_iff_prefix.1 hp
      have hin : sub <:+: c :: rest := hpre.isInfix
      simp only [indexOfFrom, hp, if_true]
      constructor
      · intro h
        omega
      · intro h
        exact absurd hin h
    · have hpre : ¬ sub <+: c :: rest := fun h => hp (List.isPrefixOf_iff_prefix.2 h)
      have ih := indexOfFrom_neg_iff sub hs rest (offset + 1)
      have hv : indexOfFrom sub (c :: rest) offset =
          indexOfFrom sub rest (offset + 1) := by
        simp [indexOfFrom, hp]
      rw [hv, ih, List.infix_cons_iff]
      tauto

/-- `indexOf` is negative exactly when the text does not occur. -/
theorem indexOf_neg_iff (s sub : Str) (hs : sub ≠ []) :
    indexOf s sub < 0 ↔ ¬ sub <:+: s :=
  indexOfFrom_neg_iff sub hs s 0

/-- Putting `win&` in front of a text neither creates nor removes an
occurrence of `SS=`. -/
theorem textSS_infix_textWin_append (s : Str) :
    textSS <:+: textWin ++ s ↔ textSS <:+: s := by
  have hss : textSS ≠ [] := by decide
  have h1 := indexOfFrom_neg_iff textSS hss (textWin ++ s) 0
  have h2 := indexOfFrom_neg_iff textSS hss s 4
  have he : indexOfFrom textSS (textWin ++ s) 0 = indexOfFrom textSS s 4 := by
    have hw : textWin = ['w', 'i', 'n', '&'] := by decide
    have ht : textSS = ['S', 'S', '='] := by decide
    rw [hw, ht]
    simp [indexOfFrom, List.isPrefixOf]
  rw [he] at h1
  have := h1.symm.trans h2
  tauto

/-- C15: for an entry whose `cmd` is a text that does not start with `!`,
`runJson` with the lock free hands exactly one request to `handleSet`: the
text with `win&` in front unless it starts with it, followed by `&SS=` and the
main segment id in decimal exactly when apply-to-all-selected is off and the
text does not contain `SS=`.  The lock is released after the request, and the
notification follows the release. -/
theorem runJson_text_command_request (moduleID : Nat) (fileName objKey : Str)
    (w : World) (fdo : JsonEntry) (cmdStr : Str)
    (hl : w.jsonBufferLock = none)
    (hf : readObjectFromFile fileName objKey w = some fdo)
    (hc : fdo.cmd = JsonCmd.str cmdStr)
    (hb : startsWith cmdStr textBang = false) :
    (runJson moduleID fileName objKey w).2.trace =
      w.trace ++
        [Event.lockAcquired moduleID,
         Event.handleSet
          (specRequest cmdStr w.irApplyToAllSelected w.strip.mainSegmentId),
         Event.lockReleased,
         Event.stateUpdated CallMode.buttonPreset] := by
  obtain ⟨m, h1, h2⟩ := runJson_locked_world moduleID w hl
  have hf2 : ((List.lookup fileName w.files).bind fun file => file.lookup objKey) =
      some fdo := hf
  have hss : textSS ≠ [] := by decide
  have hreq :
      (if (!w.irApplyToAllSelected &&
            decide (indexOf (if (!startsWith cmdStr textWin) = true then
              textWin ++ cmdStr else cmdStr) textSS < 0)) = true then
          (if (!startsWith cmdStr textWin) = true then textWin ++ cmdStr else cmdStr) ++
            (textAndSS ++ formatDecimal w.strip.mainSegmentId)
        else (if (!startsWith cmdStr textWin) = true then textWin ++ cmdStr else cmdStr)) =
      specRequest cmdStr w.irApplyToAllSelected w.strip.mainSegmentId := by
    by_cases hw : startsWith cmdStr textWin = true
    · have hpre : textWin <+: cmdStr := (startsWith_iff _ _).1 hw
      by_cases ha : w.irApplyToAllSelected = true
      · simp [specRequest, hw, hpre, ha]
      · by_cases hi : textSS <:+: cmdStr
        · have hx : ¬ indexOf cmdStr textSS < 0 := fun h =>
            (indexOf_neg_iff _ _ hss).1 h hi
          simp [specRequest, hw, hpre, ha, hi, hx]
        · have hx : indexOf cmdStr textSS < 0 := (indexOf_neg_iff _ _ hss).2 hi
          simp [specRequest, hw, hpre, ha, hi, hx]
    · have hpre : ¬ textWin <+: cmdStr := fun h => hw ((startsWith_iff _ _).2 h)
      by_cases ha : w.irApplyToAllSelected = true
      · simp [specRequest, hw, hpre, ha]
      · by_cases hi : textSS <:+: cmdStr
        · have hx : ¬ indexOf (textWin ++ cmdStr) textSS < 0 := fun h =>
            (indexOf_neg_iff _ _ hss).1 h ((textSS_infix_textWin_append _).2 hi)
          simp [specRequest, hw, hpre, ha, hi, hx]
        · have hx : indexOf (textWin ++ cmdStr) textSS < 0 :=
            (indexOf_neg_iff _ _ hss).2 (fun h => hi ((textSS_infix_textWin_append _).1 h))
          simp [specRequest, hw, hpre, ha, hi, hx]
  simp only [runJson, h1, h2, readObjectFromFile, hf2, hc, hb]
  simp only [Bool.false_eq_true, if_false, handleSet, releaseJSONBufferLock, notify,
    callAction, raised_stateUpdated, hreq]
  simp

/-- Witness of C15, the example of the spec: with the file
`{"0x1":{"cmd":"T=2","rpt":true}}`, apply-to-all-selected off and main segment
0, the key of IR code `0x1` issues the request `win&T=2&SS=0`; the result is
OK_REPEATABLE, and `decodeIRJson` keeps the code as the last valid code. -/
theorem runJson_text_command_request_witness :
    (irWorld { textEntry "T=2".toList with rpt := true }).jsonBufferLock = none ∧
    readObjectFromFile textIrJson irKeyOne
        (irWorld { textEntry "T=2".toList with rpt := true }) =
      some { textEntry "T=2".toList with rpt := true } ∧
    startsWith "T=2".toList textBang = false ∧
    (runJson 13 textIrJson irKeyOne
        (irWorld { textEntry "T=2".toList with rpt := true })).2.trace =
      [] ++
        [Event.lockAcquired 13,
         Event.handleSet (specRequest "T=2".toList false 0),
         Event.lockReleased,
         Event.stateUpdated CallMode.buttonPreset] ∧
    specRequest "T=2".toList false 0 = "win&T=2&SS=0".toList ∧
    (runJson 13 textIrJson irKeyOne
        (irWorld { textEntry "T=2".toList with rpt := true })).1 =
      UiJsonActionResult.OK_REPEATABLE ∧
    (decodeIRJson 1 (irWorld { textEntry "T=2".toList with rpt := true })).trace =
      [Event.lockAcquired 13, Event.handleSet "win&T=2&SS=0".toList,
       Event.lockReleased, Event.stateUpdated CallMode.buttonPreset] ∧
    (decodeIRJson 1
        (irWorld { textEntry "T=2".toList with rpt := true })).lastValidCode = 1 :=
  ⟨rfl, by decide, by decide,
    runJson_text_command_request 13 textIrJson irKeyOne
      (irWorld { textEntry "T=2".toList with rpt := true })
      { textEntry "T=2".toList with rpt := true } "T=2".toList rfl (by decide) rfl
      (by decide),
    by decide, by decide, by decide, by decide⟩

/-- C16 fails on the code at a text whose first character is the tilde: the
command `~&A=~16` contains the tilde twice, `rpt` is not set, and `runJson`
returns OK, not OK_REPEATABLE, because the test is `indexOf("~") > 0` and the
first occurrence is at offset 0. -/
theorem runJson_leading_tilde_not_repeatable :
    '~' ∈ "~&A=~16".toList ∧
    startsWith "~&A=~16".toList textBang = false ∧
    indexOf "~&A=~16".toList textTilde = 0 ∧
    (runJson 13 textIrJson irKeyOne (irWorld (textEntry "~&A=~16".toList))).1 =
      UiJsonActionResult.OK ∧
    (runJson 13 textIrJson irKeyOne (irWorld (textEntry "A=~16".toList))).1 =
      UiJsonActionResult.OK_REPEATABLE := by
  decide

/-- C17 fails on the code at `psave` 257, a value outside 1..250: the value is
stored in a `uint8_t` before the range test, so it becomes 1, preset 1 is saved
under the name `IR Preset 1` and `runJson` returns OK. -/
theorem runJson_psave_out_of_range_saved :
    (runJson 13 textIrJson irKeyOne
      (irWorld { textEntry [] with
        cmd := JsonCmd.obj { psave := some 257, seg := JsonSeg.absent, body := [] } })).1 =
      UiJsonActionResult.OK ∧
    (runJson 13 textIrJson irKeyOne
      (irWorld { textEntry [] with
        cmd := JsonCmd.obj { psave := some 257, seg := JsonSeg.absent, body := [] } })).2.trace =
      [Event.lockAcquired 13, Event.savePreset 1 "IR Preset 1".toList,
       Event.lockReleased, Event.stateUpdated CallMode.buttonPreset] := by
  decide

/-- A text cannot start with both `!incBri` and `!decBri`, nor with `!incBri`
or `!decBri` and `!presetF`. -/
theorem bang_verbs_exclusive (s : Str) :
    (startsWith s textIncBri = true → startsWith s textDecBri = false) ∧
    (startsWith s textIncBri = true → startsWith s textPresetF = false) ∧
    (startsWith s textDecBri = true → startsWith s textPresetF = false) := by
  have hi : textIncBri = ['!', 'i', 'n', 'c', 'B', 'r', 'i'] := by decide
  have hd : textDecBri = ['!', 'd', 'e', 'c', 'B', 'r', 'i'] := by decide
  have hp : textPresetF = ['!', 'p', 'r', 'e', 's', 'e', 't', 'F'] := by decide
  rw [hi, hd, hp]
  rcases s with _ | ⟨a, _ | ⟨b, t⟩⟩
  · simp [startsWith, List.isPrefixOf]
  · simp [startsWith, List.isPrefixOf]
  · simp only [startsWith, List.isPrefixOf, Bool.and_eq_true, beq_iff_eq]
    refine ⟨?_, ?_, ?_⟩ <;>
    · rintro ⟨_, rfl, _⟩
      simp

/-- The notifications an action-engine call raises never include lock events. -/
theorem lockReleases_raised (before after : State) :
    lockReleases (raised before after) = 0 := by
  unfold raised
  induction (List.take (after.notifications.length - before.notifications.length)
      after.notifications).reverse with
  | nil => rfl
  | cons a l ih => simpa [lockReleases] using ih

/-- C18 as stated fails: `!incBrightness` is none of the three verbs, and
`runJson` still calls `incBrightness`, which takes `bri` from 128 to 154, and
returns OK_REPEATABLE; `!presetF` alone triggers `presetWithFallback`. -/
theorem runJson_bang_longer_text_triggers :
    (runJson 13 textIrJson irKeyOne
      (irWorld (textEntry "!incBrightness".toList))).1 =
        UiJsonActionResult.OK_REPEATABLE ∧
    (irWorld (textEntry "!incBrightness".toList)).ui.bri = 128 ∧
    (runJson 13 textIrJson irKeyOne
      (irWorld (textEntry "!incBrightness".toList))).2.ui.bri = 154 ∧
    (runJson 13 textIrJson irKeyOne
      (irWorld (textEntry "!presetF".toList))).2.trace =
        [Event.lockAcquired 13, Event.lockReleased,
         Event.applyPresetWithFallback 1 CallMode.buttonPreset 77 0] := by
  decide

/-- C18, amended: the verbs are matched as beginnings of the text.  For an
entry whose `cmd` is a text starting with `!`, with the lock free: a text
starting with `!incBri` calls `incBrightness` and returns OK_REPEATABLE; one
starting with `!decBri` calls `decBrightness` and returns OK_REPEATABLE; one
starting with `!presetF` calls `presetWithFallback` with `PL` (default 1), `FX`
(default a random value) and `FP` (default 0) and returns OK.  Every other text starting with `!`
returns ERR_CODE_NO_ACTION, leaves the globals of the action engine and the
strip as they were, and adds nothing to the log but the taking and the release
of the lock. -/
theorem runJson_bang_commands (moduleID : Nat) (fileName objKey : Str)
    (w : World) (fdo : JsonEntry) (cmdStr : Str)
    (hl : w.jsonBufferLock = none)
    (hf : readObjectFromFile fileName objKey w = some fdo)
    (hc : fdo.cmd = JsonCmd.str cmdStr)
    (hb : startsWith cmdStr textBang = true) :
    (startsWith cmdStr textIncBri = true →
      (runJson moduleID fileName objKey w).1 = UiJsonActionResult.OK_REPEATABLE ∧
      (runJson moduleID fileName objKey w).2.ui = (incBrightness w.ui).2) ∧
    (startsWith cmdStr textDecBri = true →
      (runJson moduleID fileName objKey w).1 = UiJsonActionResult.OK_REPEATABLE ∧
      (runJson moduleID fileName objKey w).2.ui = (decBrightness w.ui).2) ∧
    (startsWith cmdStr textPresetF = true →
      (runJson moduleID fileName objKey w).1 = UiJsonActionResult.OK ∧
      (runJson moduleID fileName objKey w).2.ui = (resetNightMode w.ui).2 ∧
      (runJson moduleID fileName objKey w).2.trace =
        w.trace ++
          ([Event.lockAcquired moduleID, Event.lockReleased] ++
            (raised w.ui (resetNightMode w.ui).2 ++
              [Event.applyPresetWithFallback (toUint8 (fdo.PL.getD 1))
                CallMode.buttonPreset
                (toUint8 (fdo.FX.getD
                  ((hw_random8 (toUint8 ((w.strip.modeCount : Int) - 1)) w : Nat) : Int)))
                (toUint8 (fdo.FP.getD 0))]))) ∧
    (startsWith cmdStr textIncBri = false → startsWith cmdStr textDecBri = false →
      startsWith cmdStr textPresetF = false →
      (runJson moduleID fileName objKey w).1 = UiJsonActionResult.ERR_CODE_NO_ACTION ∧
      (runJson moduleID fileName objKey w).2.ui = w.ui ∧
      (runJson moduleID fileName objKey w).2.strip = w.strip ∧
      (runJson moduleID fileName objKey w).2.jsonBufferLock = none ∧
      (runJson moduleID fileName objKey w).2.trace =
        w.trace ++ [Event.lockAcquired moduleID, Event.lockReleased]) := by
  obtain ⟨m, h1, h2⟩ := runJson_locked_world moduleID w hl
  have hf2 : ((List.lookup fileName w.files).bind fun file => file.lookup objKey) =
      some fdo := hf
  obtain ⟨e1, e2, e3⟩ := bang_verbs_exclusive cmdStr
  refine ⟨fun hi => ?_, fun hd => ?_, fun hp => ?_, fun hi hd hp => ?_⟩
  · simp [runJson, h1, h2, readObjectFromFile, hf2, hc, hb, hi, callAction,
      releaseJSONBufferLock]
  · have hi : startsWith cmdStr textIncBri = false := by
      cases h : startsWith cmdStr textIncBri with
      | false => rfl
      | true => rw [e1 h] at hd; cases hd
    simp [runJson, h1, h2, readObjectFromFile, hf2, hc, hb, hi, hd, callAction,
      releaseJSONBufferLock]
  · have hi : startsWith cmdStr textIncBri = false := by
      cases h : startsWith cmdStr textIncBri with
      | false => rfl
      | true => rw [e2 h] at hp; cases hp
    have hd : startsWith cmdStr textDecBri = false := by
      cases h : startsWith cmdStr textDecBri with
      | false => rfl
      | true => rw [e3 h] at hp; cases hp
    refine ⟨?_, ?_, ?_⟩
    · simp [runJson, h1, h2, readObjectFromFile, hf2, hc, hb, hi, hd, hp]
    · simp [runJson, h1, h2, readObjectFromFile, hf2, hc, hb, hi, hd, hp,
        presetWithFallback, applyPresetWithFallback, callAction,
        releaseJSONBufferLock]
    · simp [runJson, h1, h2, readObjectFromFile, hf2, hc, hb, hi, hd, hp,
        presetWithFallback, applyPresetWithFallback, callAction,
        releaseJSONBufferLock, hw_random8]
  · simp [runJson, h1, h2, readObjectFromFile, hf2, hc, hb, hi, hd, hp,
      releaseJSONBufferLock]

/-- Witness of the amended C18: the text `!incBrightness` starts with `!incBri`
and `incBrightness` is called. -/
theorem runJson_bang_commands_witness :
    (irWorld (textEntry "!incBrightness".toList)).jsonBufferLock = none ∧
    readObjectFromFile textIrJson irKeyOne
        (irWorld (textEntry "!incBrightness".toList)) =
      some (textEntry "!incBrightness".toList) ∧
    startsWith "!incBrightness".toList textBang = true ∧
    startsWith "!incBrightness".toList textIncBri = true ∧
    (runJson 13 textIrJson irKeyOne
        (irWorld (textEntry "!incBrightness".toList))).1 =
      UiJsonActionResult.OK_REPEATABLE ∧
    (runJson 13 textIrJson irKeyOne
        (irWorld (textEntry "!incBrightness".toList))).2.ui =
      (incBrightness (irWorld (textEntry "!incBrightness".toList)).ui).2 :=
  ⟨rfl, by decide, by decide, by decide,
    (runJson_bang_commands 13 textIrJson irKeyOne
      (irWorld (textEntry "!incBrightness".toList))
      (textEntry "!incBrightness".toList) "!incBrightness".toList rfl (by decide) rfl
      (by decide)).1 (by decide)⟩

/-- Lock releases of two runs of log entries add up. -/
theorem lockReleases_append (a b : List Event) :
    lockReleases (a ++ b) = lockReleases a + lockReleases b := by
  induction a with
  | nil => simp [lockReleases]
  | cons e l ih =>
    cases e <;> simp [lockReleases, ih]
    omega

/-- Lock state after two runs of log entries. -/
theorem lockHeldAfter_append (a b : List Event) :
    ∀ held, lockHeldAfter held (a ++ b) = lockHeldAfter (lockHeldAfter held a) b := by
  induction a with
  | nil => intro held; rfl
  | cons e l ih =>
    intro held
    cases e <;> simp [lockHeldAfter, ih]

/-- Notifications under the lock in two runs of log entries add up. -/
theorem heldNotifications_append (a b : List Event) :
    ∀ held, heldNotifications held (a ++ b) =
      heldNotifications held a + heldNotifications (lockHeldAfter held a) b := by
  induction a with
  | nil => intro held; simp [heldNotifications, lockHeldAfter]
  | cons e l ih =>
    intro held
    cases e <;> simp [heldNotifications, lockHeldAfter, ih]
    omega

/-- The notifications of an action-engine call leave the lock state alone. -/
theorem lockHeldAfter_raised (before after : State) (held : Bool) :
    lockHeldAfter held (raised before after) = held := by
  unfold raised
  induction (List.take (after.notifications.length - before.notifications.length)
      after.notifications).reverse with
  | nil => rfl
  | cons a l ih => simpa [lockHeldAfter] using ih

/-- With the lock free, the notifications of an action-engine call are not
raised under the lock. -/
theorem heldNotifications_raised (before after : State) :
    heldNotifications false (raised before after) = 0 := by
  unfold raised
  induction (List.take (after.notifications.length - before.notifications.length)
      after.notifications).reverse with
  | nil => rfl
  | cons a l ih => simpa [heldNotifications] using ih

/-- C19 as stated fails: for a state command (`cmd` an object without `psave`)
`deserializeState` runs before the release of the lock, so the notification it
raises is raised while the lock is held. -/
theorem runJson_state_command_notifies_under_lock :
    (runJson 13 textIrJson irKeyOne
      (irWorld { textEntry [] with
        cmd := JsonCmd.obj
          { psave := none, seg := JsonSeg.absent, body := "bri:10".toList } })).2.trace =
      [Event.lockAcquired 13,
       Event.deserializeState
        { psave := none, seg := JsonSeg.absent, body := "bri:10".toList }
        CallMode.buttonPreset,
       Event.stateUpdated CallMode.buttonPreset,
       Event.lockReleased] ∧
    heldNotifications false
      (runJson 13 textIrJson irKeyOne
        (irWorld { textEntry [] with
          cmd := JsonCmd.obj
            { psave := none, seg := JsonSeg.absent, body := "bri:10".toList } })).2.trace
      = 1 := by
  decide

/-- C19, amended: on every path of `runJson` on which the lock was taken, the
log gains the taking of the lock first and exactly one release, and the lock is
free when `runJson` returns.  No notification of `runJson` itself or of an
action-engine call is raised while the lock is held.  Only for a state command
(`cmd` an object without `psave`) one notification, the one of the delegated
`deserializeState`, is raised under the lock, which is released right after
that call. -/
theorem runJson_lock_discipline (moduleID : Nat) (fileName objKey : Str)
    (w : World) (hl : w.jsonBufferLock = none) :
    (runJson moduleID fileName objKey w).2.trace =
      w.trace ++ newEvents w (runJson moduleID fileName objKey w).2 ∧
    (newEvents w (runJson moduleID fileName objKey w).2).head? =
      some (Event.lockAcquired moduleID) ∧
    lockReleases (newEvents w (runJson moduleID fileName objKey w).2) = 1 ∧
    lockHeldAfter false (newEvents w (runJson moduleID fileName objKey w).2) = false ∧
    (runJson moduleID fileName objKey w).2.jsonBufferLock = none ∧
    heldNotifications false (newEvents w (runJson moduleID fileName objKey w).2) =
      (if isStateCommand (readObjectFromFile fileName objKey w) then 1 else 0) := by
  obtain ⟨m, h1, h2⟩ := runJson_locked_world moduleID w hl
  cases hf : readObjectFromFile fileName objKey w with
  | none =>
    have hf2 : ((List.lookup fileName w.files).bind fun file => file.lookup objKey) =
        none := hf
    by_cases hx : fileExists fileName w = true
    · have hx2 : (List.lookup fileName w.files).isSome = true := hx
      simp [runJson, h1, h2, readObjectFromFile, fileExists, hf2, hx2,
        releaseJSONBufferLock, newEvents, lockReleases, lockHeldAfter,
        heldNotifications, isStateCommand]
    · have hx2 : (List.lookup fileName w.files).isSome = false := by
        cases h : (List.lookup fileName w.files).isSome with
        | false => rfl
        | true => exact absurd h hx
      simp [runJson, h1, h2, readObjectFromFile, fileExists, hf2, hx2,
        releaseJSONBufferLock, newEvents, lockReleases, lockHeldAfter,
        heldNotifications, isStateCommand]
  | some fdo =>
    have hf2 : ((List.lookup fileName w.files).bind fun file => file.lookup objKey) =
        some fdo := hf
    obtain ⟨cmd, rpt, PL, FX, FP⟩ := fdo
    cases cmd with
    | obj jsonCmdObj =>
      obtain ⟨psave, seg, body⟩ := jsonCmdObj
      cases psave with
      | none =>
        simp [runJson, h1, h2, readObjectFromFile, hf2, deserializeState, notify,
          callAction, raised_stateUpdated, releaseJSONBufferLock, newEvents,
          lockReleases, lockHeldAfter, heldNotifications, isStateCommand]
      | some value =>
        by_cases hr : (decide (toUint8 value > 0) && decide (toUint8 value < 251)) = true
        · simp [runJson, h1, h2, readObjectFromFile, hf2, hr, savePreset, notify,
            callAction, raised_stateUpdated, releaseJSONBufferLock, newEvents,
            lockReleases, lockHeldAfter, heldNotifications, isStateCommand]
        · simp [runJson, h1, h2, readObjectFromFile, hf2, hr,
            releaseJSONBufferLock, newEvents, lockReleases, lockHeldAfter,
            heldNotifications, isStateCommand]
    | str cmdStr =>
      by_cases hb : startsWith cmdStr textBang = true
      · by_cases hi : startsWith cmdStr textIncBri = true
        · simp [runJson, h1, h2, readObjectFromFile, hf2, hb, hi, callAction,
            releaseJSONBufferLock, newEvents, lockReleases, lockHeldAfter,
            heldNotifications, isStateCommand, lockReleases_raised,
            lockHeldAfter_raised, heldNotifications_raised]
        · by_cases hd : startsWith cmdStr textDecBri = true
          · simp [runJson, h1, h2, readObjectFromFile, hf2, hb, hi, hd, callAction,
              releaseJSONBufferLock, newEvents, lockReleases, lockHeldAfter,
              heldNotifications, isStateCommand, lockReleases_raised,
              lockHeldAfter_raised, heldNotifications_raised]
          · by_cases hp : startsWith cmdStr textPresetF = true
            · simp [runJson, h1, h2, readObjectFromFile, hf2, hb, hi, hd, hp,
                presetWithFallback, applyPresetWithFallback, callAction,
                releaseJSONBufferLock, newEvents, lockReleases, lockHeldAfter,
                heldNotifications, isStateCommand, lockReleases_raised,
                lockHeldAfter_raised, heldNotifications_raised,
                lockReleases_append, lockHeldAfter_append, heldNotifications_append]
            · simp [runJson, h1, h2, readObjectFromFile, hf2, hb, hi, hd, hp,
                releaseJSONBufferLock, newEvents, lockReleases, lockHeldAfter,
                heldNotifications, isStateCommand]
      · simp [runJson, h1, h2, readObjectFromFile, hf2, hb, handleSet, notify,
          callAction, raised_stateUpdated, releaseJSONBufferLock, newEvents,
          lockReleases, lockHeldAfter, heldNotifications, isStateCommand]

/-- Witness of the amended C19: the example command `T=2` in the start-up
world. -/
theorem runJson_lock_discipline_witness :
    (irWorld (textEntry "T=2".toList)).jsonBufferLock = none ∧
    lockReleases
      (newEvents (irWorld (textEntry "T=2".toList))
        (runJson 13 textIrJson irKeyOne (irWorld (textEntry "T=2".toList))).2) = 1 :=
  ⟨rfl, (runJson_lock_discipline 13 textIrJson irKeyOne
    (irWorld (textEntry "T=2".toList)) rfl).2.2.1⟩

/-! Segment targeting -/

/-- The first element of a filtered index range and what follows it. -/
theorem filter_range_cons (p : Nat → Bool) :
    ∀ (k a j : Nat) (tl : List Nat),
      (List.range' a k).filter p = j :: tl →
      a ≤ j ∧ j < a + k ∧ p j = true ∧
        tl = (List.range' (j + 1) (a + k - (j + 1))).filter p
  | 0, a, j, tl, h => by simp at h
  | k + 1, a, j, tl, h => by
    rw [List.range'_succ] at h
    by_cases hp : p a = true
    · rw [List.filter_cons_of_pos hp] at h
      injection h with h1 h2
      subst h1
      refine ⟨le_refl _, by omega, hp, ?_⟩
      rw [← h2]
      congr 2
      omega
    · rw [List.filter_cons_of_neg hp] at h
      obtain ⟨h1, h2, h3, h4⟩ := filter_range_cons p k (a + 1) j tl h
      refine ⟨by omega, by omega, h3, ?_⟩
      rw [h4]
      congr 2
      omega

/-- The stepping loop of `next` ends within the rounds it is given: it stops at
the first index after `i` that passes the test, or at `m_count` with the null
pointer. -/
theorem advance_eq (p : Nat → Bool) (n : Nat) (hn : n ≤ 255) :
    ∀ (k i rounds : Nat), i + 1 + k = n → k < rounds →
      advance p n rounds i =
        some (match (List.range' (i + 1) k).filter p with
          | [] => (n, none)
          | j :: _ => (j, some j))
  | 0, i, rounds, hk, hr => by
    obtain ⟨r, rfl⟩ : ∃ r, rounds = r + 1 := ⟨rounds - 1, by omega⟩
    have hm : (i + 1) % 256 = n := by omega
    simp [advance, hm]
  | k + 1, i, rounds, hk, hr => by
    obtain ⟨r, rfl⟩ : ∃ r, rounds = r + 1 := ⟨rounds - 1, by omega⟩
    have hm : (i + 1) % 256 = i + 1 := by omega
    have hlt : ¬ i + 1 ≥ n := by omega
    rw [List.range'_succ]
    by_cases hp : p (i + 1) = true
    · simp [advance, hm, hlt, hp]
    · have ih := advance_eq p n hn k (i + 1) r (by omega) (by omega)
      rw [List.filter_cons_of_neg hp]
      simp only [advance, hm, hlt, hp, if_false, Bool.false_eq_true]
      exact ih

/-- The skipping loop of the constructor ends within the rounds it is given: it
stops at the first active index from `i` on, or at `m_count`. -/
theorem skipInactive_eq (strip : Strip) (n : Nat) (hn : n ≤ 255) :
    ∀ (k i rounds : Nat), i + k = n → k < rounds →
      skipInactive strip n rounds i =
        some (match (List.range' i k).filter strip.isActive with
          | [] => n
          | j :: _ => j)
  | 0, i, rounds, hk, hr => by
    obtain ⟨r, rfl⟩ : ∃ r, rounds = r + 1 := ⟨rounds - 1, by omega⟩
    have hlt : ¬ i < n := by omega
    simp [skipInactive, hlt]
    omega
  | k + 1, i, rounds, hk, hr => by
    obtain ⟨r, rfl⟩ : ∃ r, rounds = r + 1 := ⟨rounds - 1, by omega⟩
    have hm : (i + 1) % 256 = i + 1 := by omega
    have hlt : i < n := by omega
    rw [List.range'_succ]
    by_cases hp : strip.isActive i = true
    · simp [skipInactive, hlt, hp]
    · have ih := skipInactive_eq strip n hn k (i + 1) r (by omega) (by omega)
      rw [List.filter_cons_of_neg hp]
      simp only [skipInactive, hm, hlt, hp, decide_True, Bool.not_false, Bool.and_self,
        if_true, Bool.false_eq_true, Bool.not_eq_true]
      simpa [hp] using ih

/-- One call of `next` on an iterator of scope `SELECTED` or `ACTIVE` that
points to segment `i`: it moves to the next index that passes the test of the
scope, or ends the iteration. -/
theorem next_eq (strip : Strip) (it : SegmentIterator) (p : Nat → Bool)
    (hfp : (it.m_filter = SegmentsFilter.SELECTED ∧ p = strip.isActiveSelected) ∨
           (it.m_filter = SegmentsFilter.ACTIVE ∧ p = strip.isActive))
    (n i k x : Nat) (hn : n ≤ 255) (hc : it.m_count = n) (hi : it.m_index = i)
    (hx : it.m_pointer = some x) (hk : i + 1 + k = n) :
    it.next strip =
      some (match (List.range' (i + 1) k).filter p with
        | [] => (false, { it with m_index := n, m_pointer := none })
        | j :: _ => (true, { it with m_index := j, m_pointer := some j })) := by
  have ha := advance_eq p n hn k i indexRounds hk (by unfold indexRounds; omega)
  rcases hfp with ⟨hf, rfl⟩ | ⟨hf, rfl⟩
  · simp only [SegmentIterator.next, hx, hf, hc, hi, ha, if_true]
    cases (List.range' (i + 1) k).filter strip.isActiveSelected <;> rfl
  · have hne : ¬ SegmentsFilter.ACTIVE = SegmentsFilter.SELECTED := by decide
    simp only [SegmentIterator.next, hx, hf, hc, hi, ha, if_true, hne, if_false]
    cases (List.range' (i + 1) k).filter strip.isActive <;> rfl

/-- The visiting loop on an iterator of scope `SELECTED` or `ACTIVE` that points
to segment `i`: it ends within the rounds it is given and visits `i` and then
every later index that passes the test of the scope, in ascending order. -/
theorem visitLoop_eq (strip : Strip) (p : Nat → Bool) (n : Nat) (hn : n ≤ 255) :
    ∀ (rounds k i : Nat) (it : SegmentIterator),
      ((it.m_filter = SegmentsFilter.SELECTED ∧ p = strip.isActiveSelected) ∨
        (it.m_filter = SegmentsFilter.ACTIVE ∧ p = strip.isActive)) →
      it.m_count = n → it.m_index = i → it.m_pointer = some i →
      i + 1 + k = n → k < rounds →
      visitLoop strip rounds it = some (i :: (List.range' (i + 1) k).filter p)
  | 0, k, i, it, _, _, _, _, _, hr => by omega
  | rounds + 1, k, i, it, hfp, hc, hi, hx, hk, hr => by
    have hnext := next_eq strip it p hfp n i k i hn hc hi hx hk
    cases hl : (List.range' (i + 1) k).filter p with
    | nil =>
      rw [hl] at hnext
      simp [visitLoop, hx, hnext]
    | cons j tl =>
      rw [hl] at hnext
      obtain ⟨h1, h2, _, h4⟩ := filter_range_cons p k (i + 1) j tl hl
      have ih := visitLoop_eq strip p n hn rounds (i + 1 + k - (j + 1)) j
        { it with m_index := j, m_pointer := some j } hfp hc rfl rfl
        (by omega) (by omega)
      simp only [visitLoop, hx, hnext, ih, Option.map_some', h4]

/-- A filtered index range is not empty when some index below the bound passes
the test. -/
theorem filter_range_ne_nil (p : Nat → Bool) (n : Nat)
    (h : ∃ i, i < n ∧ p i = true) : (List.range' 0 n).filter p ≠ [] := by
  obtain ⟨i, hi, hp⟩ := h
  intro hnil
  have hmem : i ∈ (List.range' 0 n).filter p := by
    rw [List.mem_filter]
    exact ⟨by rw [List.mem_range']; exact ⟨i, hi, by omega⟩, hp⟩
  rw [hnil] at hmem
  cases hmem

/-- A filtered index range is strictly ascending, so no index occurs twice. -/
theorem filter_range_ascending (p : Nat → Bool) (n : Nat) :
    ((List.range n).filter p).Pairwise (fun a b => a < b) :=
  List.Pairwise.sublist (List.filter_sublist _) (List.pairwise_lt_range n)

/-- C20: for a strip of at most 255 segments (the index is a `uint8_t`), the
segments an action visits are: with scope `SELECTED`, when some segment is both
active and selected, exactly the segments that are both active and selected;
with scope `ACTIVE`, when some segment is active, exactly the active segments;
with scope `MAIN` the main segment alone; scope `IR_REMOTE_SETTING` visits what
`SELECTED` visits when `irApplyToAllSelected` is set and what `MAIN` visits
otherwise.  The visited segments come in ascending index order, each once, and
the loop ends. -/
theorem segment_targeting_visits (irApplyToAllSelected : Bool) (strip : Strip)
    (hn : strip.segments.length ≤ 255) :
    ((∃ i, i < strip.segments.length ∧ strip.isActiveSelected i = true) →
      segmentsVisited irApplyToAllSelected strip SegmentsFilter.SELECTED =
        some ((List.range strip.segments.length).filter strip.isActiveSelected)) ∧
    ((∃ i, i < strip.segments.length ∧ strip.isActive i = true) →
      segmentsVisited irApplyToAllSelected strip SegmentsFilter.ACTIVE =
        some ((List.range strip.segments.length).filter strip.isActive)) ∧
    segmentsVisited irApplyToAllSelected strip SegmentsFilter.MAIN =
      some [strip.mainSegmentId] ∧
    segmentsVisited irApplyToAllSelected strip SegmentsFilter.IR_REMOTE_SETTING =
      segmentsVisited irApplyToAllSelected strip
        (if irApplyToAllSelected then SegmentsFilter.SELECTED
         else SegmentsFilter.MAIN) ∧
    ((List.range strip.segments.length).filter strip.isActiveSelected).Pairwise
      (fun a b => a < b) ∧
    ((List.range strip.segments.length).filter strip.isActive).Pairwise
      (fun a b => a < b) := by
  have hmod : strip.segments.length % 256 = strip.segments.length := by omega
  refine ⟨fun hex => ?_, fun hex => ?_, ?_, ?_, filter_range_ascending _ _,
    filter_range_ascending _ _⟩
  · have hne := filter_range_ne_nil strip.isActiveSelected _ hex
    rw [List.range_eq_range']
    cases hl : (List.range' 0 strip.segments.length).filter strip.isActiveSelected with
    | nil => exact absurd hl hne
    | cons j tl =>
      obtain ⟨_, h2, _, h4⟩ :=
        filter_range_cons strip.isActiveSelected strip.segments.length 0 j tl hl
      have hfirst : strip.getFirstSelectedSegId = j := by
        simp [Strip.getFirstSelectedSegId, List.range_eq_range', hl]
      have hjm : j % 256 = j := by omega
      have hv := visitLoop_eq strip strip.isActiveSelected strip.segments.length hn
        indexRounds (0 + strip.segments.length - (j + 1)) j
        { m_filter := SegmentsFilter.SELECTED, m_index := j,
          m_count := strip.segments.length, m_pointer := some j, m_first := some j }
        (Or.inl ⟨rfl, rfl⟩) rfl rfl rfl (by omega) (by unfold indexRounds; omega)
      simp only [segmentsVisited, SegmentIterator.create, Strip.getSegmentsNum, hmod,
        hfirst, hjm, h4]
      simpa using hv
  · have hne := filter_range_ne_nil strip.isActive _ hex
    rw [List.range_eq_range']
    cases hl : (List.range' 0 strip.segments.length).filter strip.isActive with
    | nil => exact absurd hl hne
    | cons j tl =>
      obtain ⟨_, h2, _, h4⟩ :=
        filter_range_cons strip.isActive strip.segments.length 0 j tl hl
      have hskip := skipInactive_eq strip strip.segments.length hn
        strip.segments.length 0 indexRounds (by omega) (by unfold indexRounds; omega)
      rw [hl] at hskip
      have hlt : ¬ j ≥ strip.segments.length := by omega
      have hv := visitLoop_eq strip strip.isActive strip.segments.length hn
        indexRounds (0 + strip.segments.length - (j + 1)) j
        { m_filter := SegmentsFilter.ACTIVE, m_index := j,
          m_count := strip.segments.length, m_pointer := some j, m_first := some j }
        (Or.inr ⟨rfl, rfl⟩) rfl rfl rfl (by omega) (by unfold indexRounds; omega)
      simp only [segmentsVisited, SegmentIterator.create, Strip.getSegmentsNum, hmod,
        hskip, hlt, h4]
      simpa using hv
  · simp [segmentsVisited, SegmentIterator.create, visitLoop, indexRounds,
      SegmentIterator.next]
  · cases irApplyToAllSelected <;>
      simp [segmentsVisited, SegmentIterator.create]

/-- Witness of C20: a strip of five segments with main segment 4, in which
segments 1 and 3 are both active and selected and segment 2 is not active. -/
theorem segment_targeting_visits_witness :
    fiveSegmentStrip.segments.length ≤ 255 ∧
    segmentsVisited false fiveSegmentStrip SegmentsFilter.MAIN =
      some [fiveSegmentStrip.mainSegmentId] ∧
    segmentsVisited false fiveSegmentStrip SegmentsFilter.SELECTED = some [1, 3] ∧
    segmentsVisited false fiveSegmentStrip SegmentsFilter.ACTIVE = some [0, 1, 3, 4] :=
  ⟨by decide,
    (segment_targeting_visits false fiveSegmentStrip (by decide)).2.2.1,
    by decide, by decide⟩

/-- A filtered index range is empty when no index below the bound passes the
test. -/
theorem filter_range_eq_nil (p : Nat → Bool) (n a k : Nat) (hk : a + k ≤ n)
    (h : ∀ i, i < n → p i = false) : (List.range' a k).filter p = [] := by
  rw [List.filter_eq_nil_iff]
  intro i hi
  rw [List.mem_range'] at hi
  obtain ⟨j, hj, rfl⟩ := hi
  simp only [Nat.one_mul] at *
  have := h (a + j) (by omega)
  simp [this]

/-- One round of the stepping loop of `next`. -/
theorem advance_succ (p : Nat → Bool) (n rounds m : Nat) :
    advance p n (rounds + 1) m =
      if (m + 1) % 256 ≥ n then some ((m + 1) % 256, none)
      else if p ((m + 1) % 256) then some ((m + 1) % 256, some ((m + 1) % 256))
      else advance p n rounds ((m + 1) % 256) := rfl

/-- When no segment passes the test, the stepping loop of `next` ends with the
null pointer from every `uint8_t` index, within the rounds it is given. -/
theorem advance_none (p : Nat → Bool) (n m : Nat) (hn : n ≤ 255) (hm : m ≤ 255)
    (h : ∀ i, i < n → p i = false) :
    ∃ index, advance p n indexRounds m = some (index, none) := by
  by_cases h1 : m + 1 ≤ n
  · have ha := advance_eq p n hn (n - (m + 1)) m indexRounds (by omega)
      (by unfold indexRounds; omega)
    rw [filter_range_eq_nil p n (m + 1) (n - (m + 1)) (by omega) h] at ha
    exact ⟨n, ha⟩
  · by_cases h2 : m = 255
    · subst h2
      by_cases h3 : n = 0
      · subst h3
        refine ⟨0, ?_⟩
        rw [show indexRounds = 255 + 1 from rfl, advance_succ]
        simp
      · have hp0 : p 0 = false := h 0 (by omega)
        have ha := advance_eq p n hn (n - 1) 0 255 (by omega) (by omega)
        rw [filter_range_eq_nil p n (0 + 1) (n - 1) (by omega) h] at ha
        refine ⟨n, ?_⟩
        have hge : ¬ 0 ≥ n := by omega
        rw [show indexRounds = 255 + 1 from rfl, advance_succ]
        simp only [show (255 + 1) % 256 = 0 from rfl, hge, hp0, if_false,
          Bool.false_eq_true]
        exact ha
    · have hmod : (m + 1) % 256 = m + 1 := by omega
      have hge : m + 1 ≥ n := by omega
      refine ⟨m + 1, ?_⟩
      rw [show indexRounds = 255 + 1 from rfl, advance_succ]
      simp [hmod, hge]

/-- When no segment passes the test of its scope, an iterator of scope
`SELECTED` or `ACTIVE` that points to a segment visits that segment alone. -/
theorem visitLoop_single (strip : Strip) (it : SegmentIterator) (p : Nat → Bool)
    (hfp : (it.m_filter = SegmentsFilter.SELECTED ∧ p = strip.isActiveSelected) ∨
           (it.m_filter = SegmentsFilter.ACTIVE ∧ p = strip.isActive))
    (n m : Nat) (hn : n ≤ 255) (hm : m ≤ 255) (hc : it.m_count = n)
    (hi : it.m_index = m) (hx : it.m_pointer = some m)
    (h : ∀ i, i < n → p i = false) :
    visitLoop strip indexRounds it = some [m] := by
  obtain ⟨index, ha⟩ := advance_none p n m hn hm h
  rcases hfp with ⟨hf, rfl⟩ | ⟨hf, rfl⟩
  · simp [visitLoop, indexRounds, SegmentIterator.next, hx, hf, hc, hi,
      show advance strip.isActiveSelected n 256 m = some (index, none) from ha]
  · have hne : ¬ SegmentsFilter.ACTIVE = SegmentsFilter.SELECTED := by decide
    simp [visitLoop, indexRounds, SegmentIterator.next, hx, hf, hc, hi, hne,
      show advance strip.isActive n 256 m = some (index, none) from ha]

/-- Scope `SELECTED` on a strip of at most 255 segments: the loop ends and
visits the segments that are both active and selected, or the main segment
when there is none. -/
theorem segmentsVisited_selected (irApplyToAllSelected : Bool) (strip : Strip)
    (hn : strip.segments.length ≤ 255) (hm : strip.mainSegmentId ≤ 255) :
    segmentsVisited irApplyToAllSelected strip SegmentsFilter.SELECTED =
      some (passingOrMain strip strip.isActiveSelected) := by
  have hmod : strip.segments.length % 256 = strip.segments.length := by omega
  unfold passingOrMain
  rw [List.range_eq_range']
  cases hl : (List.range' 0 strip.segments.length).filter strip.isActiveSelected with
  | nil =>
    have hall : ∀ i, i < strip.segments.length → strip.isActiveSelected i = false := by
      intro i hi
      cases hp : strip.isActiveSelected i with
      | false => rfl
      | true => exact absurd hl (filter_range_ne_nil _ _ ⟨i, hi, hp⟩)
    have hfirst : strip.getFirstSelectedSegId = strip.mainSegmentId := by
      simp [Strip.getFirstSelectedSegId, List.range_eq_range', hl]
    have hmm : strip.mainSegmentId % 256 = strip.mainSegmentId := by omega
    have hv := visitLoop_single strip
      { m_filter := SegmentsFilter.SELECTED, m_index := strip.mainSegmentId,
        m_count := strip.segments.length, m_pointer := some strip.mainSegmentId,
        m_first := some strip.mainSegmentId }
      strip.isActiveSelected (Or.inl ⟨rfl, rfl⟩) strip.segments.length
      strip.mainSegmentId hn hm rfl rfl rfl hall
    simp only [segmentsVisited, SegmentIterator.create, Strip.getSegmentsNum, hmod,
      hfirst, hmm]
    simpa using hv
  | cons j tl =>
    obtain ⟨_, h2, _, h4⟩ :=
      filter_range_cons strip.isActiveSelected strip.segments.length 0 j tl hl
    have hfirst : strip.getFirstSelectedSegId = j := by
      simp [Strip.getFirstSelectedSegId, List.range_eq_range', hl]
    have hjm : j % 256 = j := by omega
    have hv := visitLoop_eq strip strip.isActiveSelected strip.segments.length hn
      indexRounds (0 + strip.segments.length - (j + 1)) j
      { m_filter := SegmentsFilter.SELECTED, m_index := j,
        m_count := strip.segments.length, m_pointer := some j, m_first := some j }
      (Or.inl ⟨rfl, rfl⟩) rfl rfl rfl (by omega) (by unfold indexRounds; omega)
    simp only [segmentsVisited, SegmentIterator.create, Strip.getSegmentsNum, hmod,
      hfirst, hjm, h4]
    simpa using hv

/-- Scope `ACTIVE` on a strip of at most 255 segments: the loop ends and visits
the active segments, or the main segment when there is none. -/
theorem segmentsVisited_active (irApplyToAllSelected : Bool) (strip : Strip)
    (hn : strip.segments.length ≤ 255) (hm : strip.mainSegmentId ≤ 255) :
    segmentsVisited irApplyToAllSelected strip SegmentsFilter.ACTIVE =
      some (passingOrMain strip strip.isActive) := by
  have hmod : strip.segments.length % 256 = strip.segments.length := by omega
  have hskip := skipInactive_eq strip strip.segments.length hn
    strip.segments.length 0 indexRounds (by omega) (by unfold indexRounds; omega)
  unfold passingOrMain
  rw [List.range_eq_range']
  cases hl : (List.range' 0 strip.segments.length).filter strip.isActive with
  | nil =>
    have hall : ∀ i, i < strip.segments.length → strip.isActive i = false := by
      intro i hi
      cases hp : strip.isActive i with
      | false => rfl
      | true => exact absurd hl (filter_range_ne_nil _ _ ⟨i, hi, hp⟩)
    rw [hl] at hskip
    have hmm : strip.mainSegmentId % 256 = strip.mainSegmentId := by omega
    have hv := visitLoop_single strip
      { m_filter := SegmentsFilter.ACTIVE, m_index := strip.mainSegmentId,
        m_count := strip.segments.length, m_pointer := some strip.mainSegmentId,
        m_first := some strip.mainSegmentId }
      strip.isActive (Or.inr ⟨rfl, rfl⟩) strip.segments.length
      strip.mainSegmentId hn hm rfl rfl rfl hall
    simp only [segmentsVisited, SegmentIterator.create, Strip.getSegmentsNum, hmod,
      hskip, hmm]
    simpa using hv
  | cons j tl =>
    obtain ⟨_, h2, _, h4⟩ :=
      filter_range_cons strip.isActive strip.segments.length 0 j tl hl
    rw [hl] at hskip
    have hlt : ¬ j ≥ strip.segments.length := by omega
    have hv := visitLoop_eq strip strip.isActive strip.segments.length hn
      indexRounds (0 + strip.segments.length - (j + 1)) j
      { m_filter := SegmentsFilter.ACTIVE, m_index := j,
        m_count := strip.segments.length, m_pointer := some j, m_first := some j }
      (Or.inr ⟨rfl, rfl⟩) rfl rfl rfl (by omega) (by unfold indexRounds; omega)
    simp only [segmentsVisited, SegmentIterator.create, Strip.getSegmentsNum, hmod,
      hskip, hlt, h4]
    simpa using hv

/-- On a strip of at most 255 segments the loop over the iterator ends for
every scope, and it visits the segments the scope targets. -/
theorem segmentsVisited_eq_targets (irApplyToAllSelected : Bool) (strip : Strip)
    (filter : SegmentsFilter)
    (hn : strip.segments.length ≤ 255) (hm : strip.mainSegmentId ≤ 255) :
    segmentsVisited irApplyToAllSelected strip filter =
      some (targetSegments irApplyToAllSelected strip filter) := by
  have hs := segmentsVisited_selected irApplyToAllSelected strip hn hm
  have ha := segmentsVisited_active irApplyToAllSelected strip hn hm
  have hmain : segmentsVisited irApplyToAllSelected strip SegmentsFilter.MAIN =
      some [strip.mainSegmentId] := by
    simp [segmentsVisited, SegmentIterator.create, visitLoop, indexRounds,
      SegmentIterator.next]
  cases filter with
  | SELECTED => exact hs
  | ACTIVE => exact ha
  | MAIN => exact hmain
  | IR_REMOTE_SETTING =>
    cases irApplyToAllSelected with
    | true =>
      have he : segmentsVisited true strip SegmentsFilter.IR_REMOTE_SETTING =
          segmentsVisited true strip SegmentsFilter.SELECTED := by
        simp [segmentsVisited, SegmentIterator.create]
      rw [he, hs]
      rfl
    | false =>
      have he : segmentsVisited false strip SegmentsFilter.IR_REMOTE_SETTING =
          segmentsVisited false strip SegmentsFilter.MAIN := by
        simp [segmentsVisited, SegmentIterator.create]
      rw [he, hmain]
      rfl

/-- The segments a scope targets are never none. -/
theorem targetSegments_ne_nil (irApplyToAllSelected : Bool) (strip : Strip)
    (filter : SegmentsFilter) :
    targetSegments irApplyToAllSelected strip filter ≠ [] := by
  have hp : ∀ test, passingOrMain strip test ≠ [] := by
    intro test
    unfold passingOrMain
    cases (List.range strip.segments.length).filter test <;> simp
  cases filter <;> cases irApplyToAllSelected <;> simp [targetSegments, hp]

/-- C21: on a strip of at most 255 segments whose main segment id is a byte,
for every scope the loop over the iterator ends and visits at least one
segment.  With scope `SELECTED` and no segment both active and selected, and
with scope `ACTIVE` and no active segment, it visits the main segment and
nothing else. -/
theorem segment_targeting_never_empty (irApplyToAllSelected : Bool) (strip : Strip)
    (filter : SegmentsFilter)
    (hn : strip.segments.length ≤ 255) (hm : strip.mainSegmentId ≤ 255) :
    (∃ l, segmentsVisited irApplyToAllSelected strip filter = some l ∧ l ≠ []) ∧
    ((∀ i, i < strip.segments.length → strip.isActiveSelected i = false) →
      segmentsVisited irApplyToAllSelected strip SegmentsFilter.SELECTED =
        some [strip.mainSegmentId]) ∧
    ((∀ i, i < strip.segments.length → strip.isActive i = false) →
      segmentsVisited irApplyToAllSelected strip SegmentsFilter.ACTIVE =
        some [strip.mainSegmentId]) := by
  refine ⟨⟨_, segmentsVisited_eq_targets irApplyToAllSelected strip filter hn hm,
    targetSegments_ne_nil _ _ _⟩, fun h => ?_, fun h => ?_⟩
  · rw [segmentsVisited_selected irApplyToAllSelected strip hn hm]
    unfold passingOrMain
    rw [List.range_eq_range',
      filter_range_eq_nil _ strip.segments.length 0 strip.segments.length (by omega) h]
  · rw [segmentsVisited_active irApplyToAllSelected strip hn hm]
    unfold passingOrMain
    rw [List.range_eq_range',
      filter_range_eq_nil _ strip.segments.length 0 strip.segments.length (by omega) h]

/-- Witness of C21: a strip of three segments, none active, with main segment
2. -/
theorem segment_targeting_never_empty_witness :
    idleStrip.segments.length ≤ 255 ∧ idleStrip.mainSegmentId ≤ 255 ∧
    (∀ i, i < idleStrip.segments.length → idleStrip.isActive i = false) ∧
    segmentsVisited true idleStrip SegmentsFilter.ACTIVE =
      some [idleStrip.mainSegmentId] ∧
    segmentsVisited true idleStrip SegmentsFilter.SELECTED = some [2] :=
  ⟨by decide, by decide, by decide,
    (segment_targeting_never_empty true idleStrip SegmentsFilter.ACTIVE (by decide)
      (by decide)).2.2 (by decide),
    by decide⟩

/-! Actions on the targeted segments -/

/-- A write through a segment reference keeps the number of segments. -/
theorem update_length (strip : Strip) (i : Nat) (body : Segment → Segment) :
    (strip.update i body).segments.length = strip.segments.length := by
  unfold Strip.update
  cases strip.segments[i]? <;> simp

/-- The segments after a write through a segment reference. -/
theorem update_getElem? (strip : Strip) (i j : Nat) (body : Segment → Segment) :
    (strip.update i body).segments[j]? =
      if j = i then strip.segments[j]?.map body else strip.segments[j]? := by
  unfold Strip.update
  cases h : strip.segments[i]? with
  | none =>
    by_cases hj : j = i
    · subst hj
      simp [h]
    · simp [hj]
  | some s =>
    by_cases hj : j = i
    · subst hj
      have hlt : j < strip.segments.length := by
        rcases List.getElem?_eq_some_iff.mp h with ⟨hlt, _⟩
        exact hlt
      simp [h, List.getElem?_set, hlt]
    · have hj2 : ¬ i = j := fun e => hj e.symm
      simp [hj, hj2, List.getElem?_set]

/-- A write that keeps the flags keeps the test for an active segment. -/
theorem update_isActive (strip : Strip) (i : Nat) (body : Segment → Segment)
    (hb : KeepsFlags body) : (strip.update i body).isActive = strip.isActive := by
  funext j
  unfold Strip.isActive
  rw [update_getElem?]
  by_cases hj : j = i
  · simp only [hj, if_true]
    cases strip.segments[i]? with
    | none => rfl
    | some s => simp [(hb s).1]
  · simp [hj]

/-- A write that keeps the flags keeps the test for a selected segment. -/
theorem update_isSelected (strip : Strip) (i : Nat) (body : Segment → Segment)
    (hb : KeepsFlags body) : (strip.update i body).isSelected = strip.isSelected := by
  funext j
  unfold Strip.isSelected
  rw [update_getElem?]
  by_cases hj : j = i
  · simp only [hj, if_true]
    cases strip.segments[i]? with
    | none => rfl
    | some s => simp [(hb s).2]
  · simp [hj]

/-- A write that keeps the flags keeps the test of the `SELECTED` scope. -/
theorem update_isActiveSelected (strip : Strip) (i : Nat) (body : Segment → Segment)
    (hb : KeepsFlags body) :
    (strip.update i body).isActiveSelected = strip.isActiveSelected := by
  funext j
  unfold Strip.isActiveSelected
  rw [update_isActive strip i body hb, update_isSelected strip i body hb]

/-- A write through a segment reference keeps the main segment id. -/
theorem update_mainSegmentId (strip : Strip) (i : Nat) (body : Segment → Segment) :
    (strip.update i body).mainSegmentId = strip.mainSegmentId := by
  unfold Strip.update
  cases strip.segments[i]? <;> rfl

/-- A write through a segment reference keeps the effect count. -/
theorem update_modeCount (strip : Strip) (i : Nat) (body : Segment → Segment) :
    (strip.update i body).modeCount = strip.modeCount := by
  unfold Strip.update
  cases strip.segments[i]? <;> rfl

/-- The iterator step reads the strip through the two tests only. -/
theorem next_congr (strip strip2 : Strip) (it : SegmentIterator)
    (ha : strip2.isActive = strip.isActive)
    (hs : strip2.isActiveSelected = strip.isActiveSelected) :
    it.next strip2 = it.next strip := by
  unfold SegmentIterator.next
  rw [ha, hs]

/-- The loop over the iterator reads the strip through the two tests only. -/
theorem visitLoop_congr (strip strip2 : Strip)
    (ha : strip2.isActive = strip.isActive)
    (hs : strip2.isActiveSelected = strip.isActiveSelected) :
    ∀ (rounds : Nat) (it : SegmentIterator),
      visitLoop strip2 rounds it = visitLoop strip rounds it
  | 0, _ => rfl
  | rounds + 1, it => by
    simp only [visitLoop, next_congr strip strip2 it ha hs,
      visitLoop_congr strip strip2 ha hs rounds]

/-- The loop with a body that keeps the flags runs the body on the segments
the iterator visits, in the order of the visits. -/
theorem forEachSegment_eq (body : Segment → Segment) (hb : KeepsFlags body) :
    ∀ (rounds : Nat) (strip : Strip) (it : SegmentIterator),
      forEachSegment body rounds strip it =
        (visitLoop strip rounds it).map (fun l => applyToSegments body l strip)
  | 0, _, _ => rfl
  | rounds + 1, strip, it => by
    cases hp : it.m_pointer with
    | none => simp [forEachSegment, visitLoop, hp]
    | some seg =>
      have hn := next_congr strip (strip.update seg body) it
        (update_isActive strip seg body hb) (update_isActiveSelected strip seg body hb)
      simp only [forEachSegment, visitLoop, hp, hn]
      cases hx : it.next strip with
      | none => rfl
      | some r =>
        obtain ⟨more, it2⟩ := r
        cases more with
        | false => simp [applyToSegments]
        | true =>
          simp only [forEachSegment_eq body hb rounds (strip.update seg body) it2,
            visitLoop_congr strip (strip.update seg body)
              (update_isActive strip seg body hb)
              (update_isActiveSelected strip seg body hb) rounds it2]
          cases visitLoop strip rounds it2 <;> simp [applyToSegments]

/-- The segments after the body was run on a list of distinct segments. -/
theorem applyToSegments_getElem? (body : Segment → Segment) (j : Nat) :
    ∀ (l : List Nat) (strip : Strip), l.Nodup →
      (applyToSegments body l strip).segments[j]? =
        if j ∈ l then strip.segments[j]?.map body else strip.segments[j]?
  | [], _, _ => by simp [applyToSegments]
  | i :: l, strip, hnd => by
    have hi : i ∉ l := (List.nodup_cons.mp hnd).1
    have hl : l.Nodup := (List.nodup_cons.mp hnd).2
    have ih := applyToSegments_getElem? body j l (strip.update i body) hl
    simp only [applyToSegments, List.foldl_cons] at ih ⊢
    rw [ih, update_getElem?]
    by_cases hj : j = i
    · subst hj
      simp [hi]
    · by_cases hm : j ∈ l
      · simp [hj, hm]
      · simp [hj, hm]

/-- Running a body on segments keeps the number of segments. -/
theorem applyToSegments_length (body : Segment → Segment) :
    ∀ (l : List Nat) (strip : Strip),
      (applyToSegments body l strip).segments.length = strip.segments.length
  | [], _ => rfl
  | i :: l, strip => by
    have ih := applyToSegments_length body l (strip.update i body)
    simp only [applyToSegments, List.foldl_cons] at ih ⊢
    rw [ih, update_length]

/-- Running a body on segments keeps the main segment id and the effect
count. -/
theorem applyToSegments_frame (body : Segment → Segment) :
    ∀ (l : List Nat) (strip : Strip),
      (applyToSegments body l strip).mainSegmentId = strip.mainSegmentId ∧
      (applyToSegments body l strip).modeCount = strip.modeCount
  | [], _ => ⟨rfl, rfl⟩
  | i :: l, strip => by
    have ih := applyToSegments_frame body l (strip.update i body)
    simp only [applyToSegments, List.foldl_cons] at ih ⊢
    rw [ih.1, ih.2, update_mainSegmentId, update_modeCount]
    exact ⟨rfl, rfl⟩

/-- The targeted segments are distinct. -/
theorem targetSegments_nodup (irApplyToAllSelected : Bool) (strip : Strip)
    (filter : SegmentsFilter) :
    (targetSegments irApplyToAllSelected strip filter).Nodup := by
  have hp : ∀ test, (passingOrMain strip test).Nodup := by
    intro test
    unfold passingOrMain
    have hf : ((List.range strip.segments.length).filter test).Nodup :=
      (List.nodup_range _).filter _
    cases hl : (List.range strip.segments.length).filter test with
    | nil => simp
    | cons a l =>
      rw [hl] at hf
      exact hf
  cases filter <;> cases irApplyToAllSelected <;> simp [targetSegments, hp]

/-- A freshly constructed iterator has its first segment where it points. -/
theorem create_first (irApplyToAllSelected : Bool) (strip : Strip)
    (filter : SegmentsFilter) (it : SegmentIterator)
    (h : SegmentIterator.create irApplyToAllSelected strip filter = some it) :
    it.m_first = it.m_pointer := by
  unfold SegmentIterator.create at h
  cases filter <;> cases irApplyToAllSelected <;> simp at h
  all_goals first
    | (subst h; rfl)
    | (split at h
       · cases h
       · simp only [Option.some.injEq] at h
         subst h
         rfl)

/-- The loop over the iterator starts at the segment the iterator points at. -/
theorem visitLoop_head (strip : Strip) (rounds : Nat) (it : SegmentIterator)
    (l : List Nat) (h : visitLoop strip rounds it = some l) :
    it.m_pointer = l.head? := by
  cases rounds with
  | zero => cases h
  | succ rounds =>
    cases hp : it.m_pointer with
    | none => simp [visitLoop, hp] at h
    | some seg =>
      simp only [visitLoop, hp] at h
      cases hx : it.next strip with
      | none => simp [hx] at h
      | some r =>
        obtain ⟨more, it2⟩ := r
        cases more with
        | false =>
          simp only [hx, Option.some.injEq] at h
          subst h
          rfl
        | true =>
          simp only [hx] at h
          cases hv : visitLoop strip rounds it2 with
          | none => simp [hv] at h
          | some l2 =>
            simp only [hv, Option.map_some', Option.some.injEq] at h
            subst h
            rfl

/-- On a strip of at most 255 segments an action of the shared shape runs its
body on the targeted segments, mirrors the first of them into the globals,
sets `stateChanged` and raises one notification. -/
theorem updateSegments_eq (m_filter : SegmentsFilter) (body : Segment → Segment)
    (w : World) (hb : KeepsFlags body)
    (hn : w.strip.segments.length ≤ 255) (hm : w.strip.mainSegmentId ≤ 255) :
    updateSegments m_filter body w =
      callAction (fun s => doUpdate { s with stateChanged := true })
        (setValuesFromSegmentRef
          (targetSegments w.irApplyToAllSelected w.strip m_filter).head?
          { w with
            strip :=
              applyToSegments body
                (targetSegments w.irApplyToAllSelected w.strip m_filter) w.strip }) := by
  have hv := segmentsVisited_eq_targets w.irApplyToAllSelected w.strip m_filter hn hm
  unfold segmentsVisited at hv
  unfold updateSegments
  cases hc : SegmentIterator.create w.irApplyToAllSelected w.strip m_filter with
  | none => simp [hc] at hv
  | some it =>
    simp only [hc] at hv
    have hf := create_first _ _ _ it hc
    have hh := visitLoop_head _ _ _ _ hv
    simp only [forEachSegment_eq body hb, hv, Option.map_some', hf, hh]

/-- The segments after an action of the shared shape: the body was run on the
targeted segments and on no other segment. -/
theorem updateSegments_segments (m_filter : SegmentsFilter)
    (body : Segment → Segment) (w : World) (hb : KeepsFlags body)
    (hn : w.strip.segments.length ≤ 255) (hm : w.strip.mainSegmentId ≤ 255)
    (j : Nat) :
    (updateSegments m_filter body w).strip.segments[j]? =
      if j ∈ targetSegments w.irApplyToAllSelected w.strip m_filter then
        w.strip.segments[j]?.map body
      else w.strip.segments[j]? := by
  rw [updateSegments_eq m_filter body w hb hn hm]
  have h := applyToSegments_getElem? body j
    (targetSegments w.irApplyToAllSelected w.strip m_filter) w.strip
    (targetSegments_nodup _ _ _)
  rw [← h]
  simp only [callAction, setValuesFromSegmentRef]
  split <;> rfl

/-- The body of the colour loop leaves alone the flags segment targeting
reads. -/
theorem colorEffectAndPaletteStep_keeps (c : Nat) (cct effect pal : Int) :
    KeepsFlags (colorEffectAndPaletteStep c cct effect pal) := by
  intro seg
  simp only [colorEffectAndPaletteStep, Segment.setColor, Segment.setCCT,
    Segment.setMode, Segment.setPalette, eq_self, if_true,
    apply_ite Segment.active, apply_ite Segment.selected, ite_self, and_self]

/-- The mask the colour loop builds is the mask the spec describes. -/
theorem capabilityMask_eq (capabilities : Nat) :
    (if GET_BIT capabilities 1 = true then
        (if GET_BIT capabilities 0 = true then 0 ||| 0x00FFFFFF else 0) ||| 0xFF000000
      else (if GET_BIT capabilities 0 = true then 0 ||| 0x00FFFFFF else 0)) =
      capabilityMask capabilities := by
  unfold capabilityMask
  cases GET_BIT capabilities 0 <;> cases GET_BIT capabilities 1 <;> rfl

/-- The mask the spec describes fits in 32 bits. -/
theorem capabilityMask_lt (capabilities : Nat) :
    capabilityMask capabilities < 4294967296 := by
  unfold capabilityMask
  cases GET_BIT capabilities 0 <;> cases GET_BIT capabilities 1 <;> simp

/-- The primary colour after the body of the colour loop. -/
theorem colorEffectAndPaletteStep_colors0 (c : Nat) (cct effect pal : Int)
    (seg : Segment) (hcap : seg.capabilities < 256) :
    (colorEffectAndPaletteStep c cct effect pal seg).colors0 =
      if forcedWhite seg.capabilities c = true then (c ||| 0xFFFFFF) % 4294967296
      else if c &&& capabilityMask seg.capabilities = 0 then seg.colors0
      else c &&& capabilityMask seg.capabilities := by
  have hmask : c &&& capabilityMask seg.capabilities < 4294967296 :=
    Nat.lt_of_le_of_lt Nat.and_le_right (capabilityMask_lt _)
  simp only [colorEffectAndPaletteStep, Segment.setColor, Segment.setCCT,
    Segment.setMode, Segment.setPalette, eq_self, if_true,
    apply_ite Segment.colors0, ite_self, Nat.mod_eq_of_lt hcap, capabilityMask_eq,
    forcedWhite, Nat.reducePow]
  by_cases hf : (GET_BIT seg.capabilities 1 && !GET_BIT seg.capabilities 3 &&
      (c &&& 0xFF000000 != 0)) = true
  · simp only [hf, if_true]
  · simp only [hf, if_false]
    by_cases hz : c &&& capabilityMask seg.capabilities = 0
    · simp [hz]
    · simp [hz, Nat.mod_eq_of_lt hmask]

/-- The colour temperature after the body of the colour loop. -/
theorem colorEffectAndPaletteStep_cct (c : Nat) (cct effect pal : Int)
    (seg : Segment) (hcap : seg.capabilities < 256) :
    (colorEffectAndPaletteStep c cct effect pal seg).cct =
      (if GET_BIT seg.capabilities 2 = true ∧ 0 ≤ cct then cct.toNat % 65536
       else seg.cct) := by
  simp only [colorEffectAndPaletteStep, Segment.setColor, Segment.setCCT,
    Segment.setMode, Segment.setPalette, eq_self, if_true,
    apply_ite Segment.cct, ite_self, Nat.mod_eq_of_lt hcap, Nat.reducePow]
  by_cases h2 : GET_BIT seg.capabilities 2 = true <;> by_cases hc : 0 ≤ cct <;>
    simp [h2, hc]

/-- The effect and the palette after the body of the colour loop. -/
theorem colorEffectAndPaletteStep_mode_palette (c : Nat) (cct effect pal : Int)
    (seg : Segment) :
    (colorEffectAndPaletteStep c cct effect pal seg).mode =
      (if 0 ≤ effect then toUint8 effect else seg.mode) ∧
    (colorEffectAndPaletteStep c cct effect pal seg).palette =
      (if 0 ≤ pal then toUint8 pal else seg.palette) := by
  have hu : ∀ x : Int, toUint8 x % 256 = toUint8 x := by
    intro x
    unfold toUint8
    omega
  refine ⟨?_, ?_⟩
  · simp only [colorEffectAndPaletteStep, Segment.setColor, Segment.setCCT,
      Segment.setMode, Segment.setPalette, eq_self, if_true,
      apply_ite Segment.mode, ite_self, hu]
  · simp only [colorEffectAndPaletteStep, Segment.setColor, Segment.setCCT,
      Segment.setMode, Segment.setPalette, eq_self, if_true,
      apply_ite Segment.palette, ite_self, hu]

/-- The segments after `changeColorEffectAndPalette`: the body of the loop was
run on the targeted segments and on no other segment. -/
theorem changeColorEffectAndPalette_segments (m_filter : SegmentsFilter) (c : Nat)
    (cct effect pal : Int) (w : World)
    (hn : w.strip.segments.length ≤ 255) (hm : w.strip.mainSegmentId ≤ 255)
    (j : Nat) :
    (changeColorEffectAndPalette m_filter c cct effect pal w).strip.segments[j]? =
      if j ∈ targetSegments w.irApplyToAllSelected w.strip m_filter then
        w.strip.segments[j]?.map (colorEffectAndPaletteStep c cct effect pal)
      else w.strip.segments[j]? := by
  unfold changeColorEffectAndPalette
  exact updateSegments_segments m_filter _ w
    (colorEffectAndPaletteStep_keeps c cct effect pal) hn hm j

/-- C22: outside the forced-white case the colour `changeColorEffectAndPalette`
writes to a targeted segment is `c` AND the mask, where the mask has the three
RGB bytes set when capability bit 0 is set and the white byte set when
capability bit 1 is set; when `c` AND the mask is zero the primary colour of
the segment stays as it was. -/
theorem changeColor_capability_mask (m_filter : SegmentsFilter) (c : Nat)
    (cct effect pal : Int) (w : World) (j : Nat) (seg : Segment)
    (hn : w.strip.segments.length ≤ 255) (hm : w.strip.mainSegmentId ≤ 255)
    (hj : j ∈ targetSegments w.irApplyToAllSelected w.strip m_filter)
    (hseg : w.strip.segments[j]? = some seg) (hcap : seg.capabilities < 256)
    (hspecial : forcedWhite seg.capabilities c = false) :
    ∃ seg2,
      (changeColorEffectAndPalette m_filter c cct effect pal w).strip.segments[j]? =
        some seg2 ∧
      seg2.colors0 =
        (if c &&& capabilityMask seg.capabilities = 0 then seg.colors0
         else c &&& capabilityMask seg.capabilities) ∧
      capabilityMask seg.capabilities =
        (if GET_BIT seg.capabilities 0 = true then 0x00FFFFFF else 0) +
          (if GET_BIT seg.capabilities 1 = true then 0xFF000000 else 0) := by
  refine ⟨colorEffectAndPaletteStep c cct effect pal seg, ?_, ?_, rfl⟩
  · unfold changeColorEffectAndPalette
    rw [updateSegments_segments m_filter _ w
      (colorEffectAndPaletteStep_keeps c cct effect pal) hn hm j, if_pos hj, hseg]
    rfl
  · rw [colorEffectAndPaletteStep_colors0 c cct effect pal seg hcap, hspecial]
    simp

/-- Witness of C22: the plain RGB segment 2 of `colourStrip` and a colour with
a white byte. -/
theorem changeColor_capability_mask_witness :
    ∃ seg2,
      (changeColorEffectAndPalette SegmentsFilter.SELECTED 0x80102030 (-1) (-1) (-1)
        colourWorld).strip.segments[2]? = some seg2 ∧
      seg2.colors0 =
        (if 0x80102030 &&& capabilityMask 1 = 0 then 0x00010203
         else 0x80102030 &&& capabilityMask 1) ∧
      capabilityMask 1 =
        (if GET_BIT 1 0 = true then 0x00FFFFFF else 0) +
          (if GET_BIT 1 1 = true then 0xFF000000 else 0) :=
  changeColor_capability_mask SegmentsFilter.SELECTED 0x80102030 (-1) (-1) (-1)
    colourWorld 2
    { active := true, selected := true, colors0 := 0x00010203, cct := 9,
      mode := 7, palette := 8, capabilities := 0x01 }
    (by decide) (by decide) (by decide) (by decide) (by decide) (by decide)

/-- The bytes of a colour after its RGB bytes were forced to `0xFF`. -/
theorem or_white_bytes (c : Nat) :
    R (c ||| 0x00FFFFFF) = 0xFF ∧ G (c ||| 0x00FFFFFF) = 0xFF ∧
    B (c ||| 0x00FFFFFF) = 0xFF ∧ W (c ||| 0x00FFFFFF) = W c := by
  have h24 : (c ||| 0x00FFFFFF) = 2 ^ 24 * (c / 2 ^ 24) + 0x00FFFFFF := by
    apply Nat.eq_of_testBit_eq
    intro i
    rw [Nat.mul_add_lt_is_or (by decide)]
    simp only [Nat.testBit_or]
    by_cases hi : i < 24
    · have h1 : Nat.testBit 0x00FFFFFF i = true := by
        interval_cases i <;> decide
      simp [h1]
    · have hi2 : 24 ≤ i := Nat.le_of_not_lt hi
      have h2 : (c / 16777216).testBit (i - 24) = c.testBit i := by
        rw [show (16777216 : Nat) = 2 ^ 24 from rfl, ← Nat.shiftRight_eq_div_pow,
          Nat.testBit_shiftRight]
        congr 1
        omega
      rw [Nat.testBit_mul_pow_two]
      simp [hi2, h2]
  unfold R G B W
  simp only [Nat.shiftRight_eq_div_pow]
  rw [h24]
  omega

/-- Counterexample to C23 as stated: segment 0 of `colourStrip` has a white
channel and capability bit 3 set, and the fully white colour is sent.  The
colour written is the masked colour `0xFF000000`, whose RGB bytes are zero,
not `c` OR `0x00FFFFFF`. -/
theorem forced_white_not_when_bit3_set :
    GET_BIT 0x0A 1 = true ∧ GET_BIT 0x0A 3 = true ∧
    ((changeColorEffectAndPalette SegmentsFilter.SELECTED 0xFFFFFFFF (-1) (-1) (-1)
        colourWorld).strip.segments.map (fun seg => seg.colors0)) =
      [0xFF000000, 0xFFFFFFFF, 0x00FFFFFF] ∧
    (0xFF000000 : Nat) ≠ 0xFFFFFFFF ||| 0x00FFFFFF := by
  decide

/-- C23, amended: for a targeted segment that has a white channel (capability
bit 1 set) and whose capability bit 3 is clear, and a 32-bit colour `c` whose
white byte is not zero, `changeColorEffectAndPalette` writes `c` OR
`0x00FFFFFF`, a colour whose RGB bytes are all `0xFF`. -/
theorem forced_white_when_bit3_clear (m_filter : SegmentsFilter) (c : Nat)
    (cct effect pal : Int) (w : World) (j : Nat) (seg : Segment)
    (hn : w.strip.segments.length ≤ 255) (hm : w.strip.mainSegmentId ≤ 255)
    (hj : j ∈ targetSegments w.irApplyToAllSelected w.strip m_filter)
    (hseg : w.strip.segments[j]? = some seg) (hcap : seg.capabilities < 256)
    (hc : c < 4294967296)
    (hasW : GET_BIT seg.capabilities 1 = true)
    (hbit3 : GET_BIT seg.capabilities 3 = false)
    (hwhite : c &&& 0xFF000000 ≠ 0) :
    ∃ seg2,
      (changeColorEffectAndPalette m_filter c cct effect pal w).strip.segments[j]? =
        some seg2 ∧
      seg2.colors0 = c ||| 0x00FFFFFF ∧
      R seg2.colors0 = 0xFF ∧ G seg2.colors0 = 0xFF ∧ B seg2.colors0 = 0xFF ∧
      W seg2.colors0 = W c := by
  have hcol : (colorEffectAndPaletteStep c cct effect pal seg).colors0 =
      c ||| 0x00FFFFFF := by
    have hf : forcedWhite seg.capabilities c = true := by
      simp [forcedWhite, hasW, hbit3, hwhite]
    have hlt : c ||| 0x00FFFFFF < 2 ^ 32 := Nat.or_lt_two_pow hc (by decide)
    rw [colorEffectAndPaletteStep_colors0 c cct effect pal seg hcap, hf]
    simpa using Nat.mod_eq_of_lt hlt
  refine ⟨colorEffectAndPaletteStep c cct effect pal seg, ?_, hcol, ?_⟩
  · unfold changeColorEffectAndPalette
    rw [updateSegments_segments m_filter _ w
      (colorEffectAndPaletteStep_keeps c cct effect pal) hn hm j, if_pos hj, hseg]
    rfl
  · rw [hcol]
    exact or_white_bytes c

/-- Witness of C23, amended: segment 1 of `colourStrip` and a colour with
white byte `0x80`. -/
theorem forced_white_when_bit3_clear_witness :
    ∃ seg2,
      (changeColorEffectAndPalette SegmentsFilter.SELECTED 0x80102030 (-1) (-1) (-1)
        colourWorld).strip.segments[1]? = some seg2 ∧
      seg2.colors0 = 0x80102030 ||| 0x00FFFFFF ∧
      R seg2.colors0 = 0xFF ∧ G seg2.colors0 = 0xFF ∧ B seg2.colors0 = 0xFF ∧
      W seg2.colors0 = W 0x80102030 :=
  forced_white_when_bit3_clear SegmentsFilter.SELECTED 0x80102030 (-1) (-1) (-1)
    colourWorld 1
    { active := true, selected := true, colors0 := 0x55000000, cct := 8,
      mode := 5, palette := 6, capabilities := 0x07 }
    (by decide) (by decide) (by decide) (by decide) (by decide) (by decide)
    (by decide) (by decide) (by decide)

/-- C24: `changeColorEffectAndPalette` leaves a targeted segment with the new
colour temperature when capability bit 2 is set and `cct` is not negative, and
with the old one otherwise; with the new effect when `effect` is not negative
and with the new palette when `pal` is not negative, and with the old ones
otherwise.  `changeColor` keeps the effect and the palette of every segment;
`changeColorStatic` leaves the targeted segment with effect 0 and keeps the
palette of every segment. -/
theorem negative_means_no_change (m_filter : SegmentsFilter) (c : Nat)
    (cct effect pal : Int) (w : World) (j : Nat) (seg : Segment)
    (hn : w.strip.segments.length ≤ 255) (hm : w.strip.mainSegmentId ≤ 255)
    (hj : j ∈ targetSegments w.irApplyToAllSelected w.strip m_filter)
    (hseg : w.strip.segments[j]? = some seg) (hcap : seg.capabilities < 256) :
    (∃ seg2,
      (changeColorEffectAndPalette m_filter c cct effect pal w).strip.segments[j]? =
        some seg2 ∧
      seg2.cct =
        (if GET_BIT seg.capabilities 2 = true ∧ 0 ≤ cct then cct.toNat % 65536
         else seg.cct) ∧
      seg2.mode = (if 0 ≤ effect then toUint8 effect else seg.mode) ∧
      seg2.palette = (if 0 ≤ pal then toUint8 pal else seg.palette)) ∧
    (∀ i : Nat, (changeColor m_filter c cct w).strip.segments[i]?.map
        (fun s : Segment => (s.mode, s.palette)) =
      w.strip.segments[i]?.map (fun s : Segment => (s.mode, s.palette))) ∧
    (∃ seg3, (changeColorStatic m_filter c cct w).strip.segments[j]? = some seg3 ∧
      seg3.mode = 0) ∧
    (∀ i : Nat, (changeColorStatic m_filter c cct w).strip.segments[i]?.map
        (fun s : Segment => s.palette) =
      w.strip.segments[i]?.map (fun s : Segment => s.palette)) := by
  refine ⟨⟨colorEffectAndPaletteStep c cct effect pal seg, ?_, ?_, ?_, ?_⟩, ?_,
    ⟨colorEffectAndPaletteStep c cct (FX_MODE_STATIC : Int) (-1) seg, ?_, ?_⟩, ?_⟩
  · rw [changeColorEffectAndPalette_segments m_filter c cct effect pal w hn hm j,
      if_pos hj, hseg]
    rfl
  · exact colorEffectAndPaletteStep_cct c cct effect pal seg hcap
  · exact (colorEffectAndPaletteStep_mode_palette c cct effect pal seg).1
  · exact (colorEffectAndPaletteStep_mode_palette c cct effect pal seg).2
  · intro i
    unfold changeColor
    rw [changeColorEffectAndPalette_segments m_filter c cct (-1) (-1) w hn hm i]
    split
    · cases w.strip.segments[i]? with
      | none => rfl
      | some s =>
        have h := colorEffectAndPaletteStep_mode_palette c cct (-1) (-1) s
        simp only [Option.map_some', Option.some.injEq, Prod.mk.injEq]
        rw [h.1, h.2]
        simp
    · rfl
  · unfold changeColorStatic
    rw [changeColorEffectAndPalette_segments m_filter c cct _ (-1) w hn hm j,
      if_pos hj, hseg]
    rfl
  · rw [(colorEffectAndPaletteStep_mode_palette c cct (FX_MODE_STATIC : Int) (-1) seg).1]
    simp [FX_MODE_STATIC, toUint8]
  · intro i
    unfold changeColorStatic
    rw [changeColorEffectAndPalette_segments m_filter c cct _ (-1) w hn hm i]
    split
    · cases w.strip.segments[i]? with
      | none => rfl
      | some s =>
        have h := colorEffectAndPaletteStep_mode_palette c cct (FX_MODE_STATIC : Int) (-1) s
        simp only [Option.map_some', Option.some.injEq]
        rw [h.2]
        simp
    · rfl

/-- Witness of C24: segment 1 of `colourStrip`, which is CCT capable, with a
colour temperature of 100 and no effect and no palette given. -/
theorem negative_means_no_change_witness :
    (∃ seg2,
      (changeColorEffectAndPalette SegmentsFilter.SELECTED 0x80102030 100 (-1) (-1)
        colourWorld).strip.segments[1]? = some seg2 ∧
      seg2.cct =
        (if GET_BIT 0x07 2 = true ∧ (0 : Int) ≤ 100 then (100 : Int).toNat % 65536
         else 8) ∧
      seg2.mode = (if (0 : Int) ≤ -1 then toUint8 (-1) else 5) ∧
      seg2.palette = (if (0 : Int) ≤ -1 then toUint8 (-1) else 6)) ∧
    (∀ i : Nat, (changeColor SegmentsFilter.SELECTED 0x80102030 100
        colourWorld).strip.segments[i]?.map (fun s : Segment => (s.mode, s.palette)) =
      colourWorld.strip.segments[i]?.map (fun s : Segment => (s.mode, s.palette))) ∧
    (∃ seg3, (changeColorStatic SegmentsFilter.SELECTED 0x80102030 100
        colourWorld).strip.segments[1]? = some seg3 ∧ seg3.mode = 0) ∧
    (∀ i : Nat, (changeColorStatic SegmentsFilter.SELECTED 0x80102030 100
        colourWorld).strip.segments[i]?.map (fun s : Segment => s.palette) =
      colourWorld.strip.segments[i]?.map (fun s : Segment => s.palette)) :=
  negative_means_no_change SegmentsFilter.SELECTED 0x80102030 100 (-1) (-1)
    colourWorld 1
    { active := true, selected := true, colors0 := 0x55000000, cct := 8,
      mode := 5, palette := 6, capabilities := 0x07 }
    (by decide) (by decide) (by decide) (by decide) (by decide)


/-- The colour packed from four bytes, written with sums. -/
theorem RGBW32_eq (r g b w : Nat) :
    RGBW32 r g b w =
      16777216 * (w % 256) + 65536 * (r % 256) + 256 * (g % 256) + b % 256 := by
  unfold RGBW32
  have hw : w % 256 < 256 := Nat.mod_lt _ (by decide)
  have hr : r % 256 < 256 := Nat.mod_lt _ (by decide)
  have hg : g % 256 < 256 := Nat.mod_lt _ (by decide)
  have hb : b % 256 < 256 := Nat.mod_lt _ (by decide)
  generalize w % 256 = w1 at hw ⊢
  generalize r % 256 = r1 at hr ⊢
  generalize g % 256 = g1 at hg ⊢
  generalize b % 256 = b1 at hb ⊢
  have e1 : w1 <<< 24 ||| r1 <<< 16 = 2 ^ 16 * (256 * w1 + r1) := by
    rw [Nat.shiftLeft_eq, Nat.shiftLeft_eq, Nat.mul_comm w1,
      ← Nat.mul_add_lt_is_or (show r1 * 2 ^ 16 < 2 ^ 24 by omega) w1]
    omega
  have e2 : 2 ^ 16 * (256 * w1 + r1) ||| g1 <<< 8 =
      2 ^ 8 * (65536 * w1 + 256 * r1 + g1) := by
    rw [Nat.shiftLeft_eq,
      ← Nat.mul_add_lt_is_or (show g1 * 2 ^ 8 < 2 ^ 16 by omega) (256 * w1 + r1)]
    omega
  have e3 : 2 ^ 8 * (65536 * w1 + 256 * r1 + g1) ||| b1 =
      2 ^ 8 * (65536 * w1 + 256 * r1 + g1) + b1 := by
    rw [← Nat.mul_add_lt_is_or (show b1 < 2 ^ 8 by omega) (65536 * w1 + 256 * r1 + g1)]
  rw [e1, e2, e3]
  omega

/-- The white byte of a colour packed from four bytes. -/
theorem W_RGBW32 (r g b w : Nat) : W (RGBW32 r g b w) = w % 256 := by
  rw [RGBW32_eq]
  unfold W
  rw [Nat.shiftRight_eq_div_pow]
  omega

/-- The white byte of a colour is a byte. -/
theorem W_lt (c : Nat) : W c < 256 := by
  unfold W
  omega

/-- The narrowing of a constrained value to `uint8_t` is the clamped value. -/
theorem toUint8_constrain (x : Int) : toUint8 (constrain x 0 255) = clampByte x := by
  unfold toUint8 constrain clampByte
  split_ifs <;> omega

/-- The clamped value is a byte. -/
theorem clampByte_le (x : Int) : clampByte x ≤ 255 := by
  unfold clampByte
  split_ifs <;> omega

/-- C25: the hue wrap of `changeHueSaturationRelative` subtracts or adds 255.
For a hue `h` in 0..255 and a delta `d` in -127..127, the delta `d` followed by
the delta `-d` gives `h` back except for hue 255 with a positive delta and hue
0 with a negative delta; and the new hue is `h + d` modulo 256 only when
`h + d` stays within 0..255. -/
theorem hue_round_trip_breaks_at_ends (h : Nat) (d : Int) (hh : h ≤ 255)
    (hd1 : -127 ≤ d) (hd2 : d ≤ 127) :
    (hueRollOver (hueRollOver h d) (-d) = h ↔
      ¬ (h = 255 ∧ 0 < d) ∧ ¬ (h = 0 ∧ d < 0)) ∧
    (hueRollOver h d = toUint8 ((h : Int) + d) ↔
      0 ≤ (h : Int) + d ∧ (h : Int) + d ≤ 255) := by
  unfold hueRollOver toUint8
  simp only
  constructor
  · split_ifs <;> omega
  · split_ifs <;> omega

/-- Witness of C25: hue 255 and the delta 16.  The delta 16 followed by the
delta -16 does not give hue 255 back. -/
theorem hue_round_trip_breaks_at_ends_witness :
    hueRollOver 255 16 = 16 ∧ hueRollOver 16 (-16) = 0 ∧
    hueRollOver (hueRollOver 255 16) (-16) ≠ 255 :=
  ⟨by decide, by decide, fun e =>
    ((hue_round_trip_breaks_at_ends 255 16 (by decide) (by decide) (by decide)).1.mp e).1
      ⟨rfl, by decide⟩⟩

/-- The segment a freshly constructed iterator points at is the first of the
targeted segments. -/
theorem firstSegment_eq (m_filter : SegmentsFilter) (w : World)
    (hn : w.strip.segments.length ≤ 255) (hm : w.strip.mainSegmentId ≤ 255) :
    firstSegment m_filter w =
      (targetSegments w.irApplyToAllSelected w.strip m_filter).head?.bind
        (fun index => w.strip.segments[index]?) := by
  have hv := segmentsVisited_eq_targets w.irApplyToAllSelected w.strip m_filter hn hm
  unfold segmentsVisited at hv
  unfold firstSegment
  cases hc : SegmentIterator.create w.irApplyToAllSelected w.strip m_filter with
  | none => simp [hc] at hv
  | some it =>
    simp only [hc] at hv
    simp only [visitLoop_head _ _ _ _ hv]

/-- The segments after `changeEffectSpeed`. -/
theorem changeEffectSpeed_segments (m_filter : SegmentsFilter) (speed : Nat)
    (w : World) (hn : w.strip.segments.length ≤ 255)
    (hm : w.strip.mainSegmentId ≤ 255) (j : Nat) :
    (changeEffectSpeed m_filter speed w).strip.segments[j]? =
      if j ∈ targetSegments w.irApplyToAllSelected w.strip m_filter then
        w.strip.segments[j]?.map (fun seg => { seg with speed := speed % 256 })
      else w.strip.segments[j]? :=
  updateSegments_segments m_filter (fun seg => { seg with speed := speed % 256 }) w
    (fun _ => ⟨rfl, rfl⟩) hn hm j

/-- The segments after `changeEffectIntensity`. -/
theorem changeEffectIntensity_segments (m_filter : SegmentsFilter) (intensity : Nat)
    (w : World) (hn : w.strip.segments.length ≤ 255)
    (hm : w.strip.mainSegmentId ≤ 255) (j : Nat) :
    (changeEffectIntensity m_filter intensity w).strip.segments[j]? =
      if j ∈ targetSegments w.irApplyToAllSelected w.strip m_filter then
        w.strip.segments[j]?.map (fun seg => { seg with intensity := intensity % 256 })
      else w.strip.segments[j]? :=
  updateSegments_segments m_filter
    (fun seg => { seg with intensity := intensity % 256 }) w
    (fun _ => ⟨rfl, rfl⟩) hn hm j

/-- The segments after `changeHueSaturationRelative`: the colour computed from
the first targeted segment is written to the targeted segments and to no other
segment. -/
theorem changeHueSaturationRelative_segments (conv : ColorConversion)
    (m_filter : SegmentsFilter) (hue_delta sat_delta : Int) (w : World)
    (first : Segment)
    (hn : w.strip.segments.length ≤ 255) (hm : w.strip.mainSegmentId ≤ 255)
    (hfirst : (targetSegments w.irApplyToAllSelected w.strip m_filter).head?.bind
      (fun index => w.strip.segments[index]?) = some first) (j : Nat) :
    (changeHueSaturationRelative conv m_filter hue_delta sat_delta w).strip.segments[j]? =
      if j ∈ targetSegments w.irApplyToAllSelected w.strip m_filter then
        w.strip.segments[j]?.map (fun seg =>
          { seg with colors0 := hueSaturationColor conv hue_delta sat_delta first.colors0 })
      else w.strip.segments[j]? := by
  unfold changeHueSaturationRelative
  rw [firstSegment_eq m_filter w hn hm, hfirst]
  exact updateSegments_segments m_filter
    (fun seg =>
      { seg with colors0 := hueSaturationColor conv hue_delta sat_delta first.colors0 })
    w (fun _ => ⟨rfl, rfl⟩) hn hm j

/-- C26: the saturation `changeHueSaturationRelative` computes is the old
saturation plus the delta, clamped to 0..255, and this is the saturation the
new colour is converted from; `changeEffectSpeedRelative` and
`changeEffectIntensityRelative` leave a targeted segment with the current
value plus the delta, clamped to 0..255. -/
theorem saturation_speed_intensity_clamp (conv : ColorConversion)
    (m_filter : SegmentsFilter) (hue_delta delta : Int) (color : Nat) (w : World)
    (j : Nat) (seg : Segment)
    (hn : w.strip.segments.length ≤ 255) (hm : w.strip.mainSegmentId ≤ 255)
    (hj : j ∈ targetSegments w.irApplyToAllSelected w.strip m_filter)
    (hseg : w.strip.segments[j]? = some seg) :
    (∀ s : Nat, saturationConstrain s delta = clampByte ((s : Int) + delta)) ∧
    hueSaturationColor conv hue_delta delta color =
      RGBW32
        (conv.hsv2rgb_rainbow
          (hueRollOver ((conv.rgb2hsv (R color, G color, B color)).1 % 256) hue_delta,
           clampByte
            ((((conv.rgb2hsv (R color, G color, B color)).2.1 % 256 : Nat) : Int) + delta),
           (conv.rgb2hsv (R color, G color, B color)).2.2 % 256)).1
        (conv.hsv2rgb_rainbow
          (hueRollOver ((conv.rgb2hsv (R color, G color, B color)).1 % 256) hue_delta,
           clampByte
            ((((conv.rgb2hsv (R color, G color, B color)).2.1 % 256 : Nat) : Int) + delta),
           (conv.rgb2hsv (R color, G color, B color)).2.2 % 256)).2.1
        (conv.hsv2rgb_rainbow
          (hueRollOver ((conv.rgb2hsv (R color, G color, B color)).1 % 256) hue_delta,
           clampByte
            ((((conv.rgb2hsv (R color, G color, B color)).2.1 % 256 : Nat) : Int) + delta),
           (conv.rgb2hsv (R color, G color, B color)).2.2 % 256)).2.2
        (W color) ∧
    (∃ seg2,
      (changeEffectSpeedRelative m_filter delta w).strip.segments[j]? = some seg2 ∧
      seg2.speed = clampByte ((w.effectSpeed : Int) + delta)) ∧
    (∃ seg3,
      (changeEffectIntensityRelative m_filter delta w).strip.segments[j]? = some seg3 ∧
      seg3.intensity = clampByte ((w.effectIntensity : Int) + delta)) := by
  have hs : ∀ s : Nat, saturationConstrain s delta = clampByte ((s : Int) + delta) := by
    intro s
    unfold saturationConstrain
    exact toUint8_constrain _
  refine ⟨hs, ?_, ?_, ?_⟩
  · unfold hueSaturationColor
    simp only [hs]
  · refine ⟨{ seg with speed := clampByte ((w.effectSpeed : Int) + delta) % 256 }, ?_, ?_⟩
    · unfold changeEffectSpeedRelative
      simp only [toUint8_constrain]
      rw [changeEffectSpeed_segments m_filter _ w hn hm j, if_pos hj, hseg]
      rfl
    · exact Nat.mod_eq_of_lt (Nat.lt_succ_of_le (clampByte_le _))
  · refine ⟨{ seg with
        intensity := clampByte ((w.effectIntensity : Int) + delta) % 256 }, ?_, ?_⟩
    · unfold changeEffectIntensityRelative
      simp only [toUint8_constrain]
      rw [changeEffectIntensity_segments m_filter _ w hn hm j, if_pos hj, hseg]
      rfl
    · exact Nat.mod_eq_of_lt (Nat.lt_succ_of_le (clampByte_le _))

/-- Witness of C26: `colourWorld` with the global speed 250, its segment 1 and
the delta 16. -/
theorem saturation_speed_intensity_clamp_witness :
    saturationConstrain 250 16 = 255 ∧ saturationConstrain 5 (-16) = 0 ∧
    (∃ seg2,
      (changeEffectSpeedRelative SegmentsFilter.SELECTED 16
        { colourWorld with effectSpeed := 250, effectIntensity := 250 }).strip.segments[1]? =
          some seg2 ∧
      seg2.speed = 255) :=
  have h := saturation_speed_intensity_clamp plainConversion SegmentsFilter.SELECTED 0 16
    0x00102030 { colourWorld with effectSpeed := 250, effectIntensity := 250 } 1
    { active := true, selected := true, colors0 := 0x55000000, cct := 8,
      mode := 5, palette := 6, capabilities := 0x07 }
    (by decide) (by decide) (by decide) (by decide)
  ⟨by decide, by decide, h.2.2.1⟩

/-- Counterexample to C27 as stated: both segments of `twoWhiteStrip` are
targeted; their white bytes are `0x11` and `0x55`.  After `changeHueRelative`
and after `changeSaturationRelative` both have the white byte `0x11` of the
first segment, so the white byte of segment 1 has changed. -/
theorem hue_change_overwrites_white_of_second_segment :
    targetSegments true twoWhiteStrip SegmentsFilter.SELECTED = [0, 1] ∧
    twoWhiteWorld.strip.segments.map (fun seg => W seg.colors0) = [0x11, 0x55] ∧
    (changeHueRelative plainConversion SegmentsFilter.SELECTED 16
      twoWhiteWorld).strip.segments.map (fun seg => W seg.colors0) = [0x11, 0x11] ∧
    (changeSaturationRelative plainConversion SegmentsFilter.SELECTED 16
      twoWhiteWorld).strip.segments.map (fun seg => W seg.colors0) = [0x11, 0x11] := by
  decide

/-- C27, amended: after `changeHueRelative` and after
`changeSaturationRelative` the white byte of the primary colour of every
targeted segment is the white byte the first targeted segment had before the
call; for the first targeted segment itself this is its own old white byte. -/
theorem hue_change_takes_white_of_first (conv : ColorConversion)
    (m_filter : SegmentsFilter) (delta : Int) (w : World) (j : Nat)
    (seg first : Segment)
    (hn : w.strip.segments.length ≤ 255) (hm : w.strip.mainSegmentId ≤ 255)
    (hj : j ∈ targetSegments w.irApplyToAllSelected w.strip m_filter)
    (hseg : w.strip.segments[j]? = some seg)
    (hfirst : (targetSegments w.irApplyToAllSelected w.strip m_filter).head?.bind
      (fun index => w.strip.segments[index]?) = some first) :
    (∃ seg2,
      (changeHueRelative conv m_filter delta w).strip.segments[j]? = some seg2 ∧
      W seg2.colors0 = W first.colors0) ∧
    (∃ seg3,
      (changeSaturationRelative conv m_filter delta w).strip.segments[j]? = some seg3 ∧
      W seg3.colors0 = W first.colors0) ∧
    ((targetSegments w.irApplyToAllSelected w.strip m_filter).head? = some j →
      first = seg) := by
  have hw : ∀ hd sd : Int,
      W (hueSaturationColor conv hd sd first.colors0) = W first.colors0 := by
    intro hd sd
    unfold hueSaturationColor
    simp only [W_RGBW32]
    exact Nat.mod_eq_of_lt (W_lt _)
  refine ⟨⟨{ seg with colors0 := hueSaturationColor conv delta 0 first.colors0 }, ?_,
    hw _ _⟩, ⟨{ seg with colors0 := hueSaturationColor conv 0 delta first.colors0 }, ?_,
    hw _ _⟩, ?_⟩
  · unfold changeHueRelative
    rw [changeHueSaturationRelative_segments conv m_filter delta 0 w first hn hm hfirst j,
      if_pos hj, hseg]
    rfl
  · unfold changeSaturationRelative
    rw [changeHueSaturationRelative_segments conv m_filter 0 delta w first hn hm hfirst j,
      if_pos hj, hseg]
    rfl
  · intro hh
    rw [hh] at hfirst
    have h2 : w.strip.segments[j]? = some first := hfirst
    rw [hseg] at h2
    exact (Option.some.inj h2).symm

/-- Witness of C27, amended: segment 1 of `twoWhiteStrip`, whose white byte
becomes the one of segment 0. -/
theorem hue_change_takes_white_of_first_witness :
    (∃ seg2,
      (changeHueRelative plainConversion SegmentsFilter.SELECTED 16
        twoWhiteWorld).strip.segments[1]? = some seg2 ∧
      W seg2.colors0 = W 0x11203040) ∧
    (∃ seg3,
      (changeSaturationRelative plainConversion SegmentsFilter.SELECTED 16
        twoWhiteWorld).strip.segments[1]? = some seg3 ∧
      W seg3.colors0 = W 0x11203040) :=
  have h := hue_change_takes_white_of_first plainConversion SegmentsFilter.SELECTED 16
    twoWhiteWorld 1
    { active := true, selected := true, colors0 := 0x55607080, capabilities := 3 }
    { active := true, selected := true, colors0 := 0x11203040, capabilities := 3 }
    (by decide) (by decide) (by decide) (by decide) (by decide)
  ⟨h.1, h.2.1⟩


/-- When the main segment is a segment of the strip, the first targeted segment
is a segment of the strip. -/
theorem targetSegments_head (irApplyToAllSelected : Bool) (strip : Strip)
    (filter : SegmentsFilter) (hm : strip.mainSegmentId < strip.segments.length) :
    ∃ i seg, (targetSegments irApplyToAllSelected strip filter).head? = some i ∧
      i ∈ targetSegments irApplyToAllSelected strip filter ∧
      strip.segments[i]? = some seg := by
  have hmain : ∃ seg, strip.segments[strip.mainSegmentId]? = some seg :=
    ⟨strip.segments[strip.mainSegmentId], List.getElem?_eq_getElem hm⟩
  have hp : ∀ test, ∃ i seg, (passingOrMain strip test).head? = some i ∧
      i ∈ passingOrMain strip test ∧ strip.segments[i]? = some seg := by
    intro test
    unfold passingOrMain
    cases hl : (List.range strip.segments.length).filter test with
    | nil =>
      obtain ⟨seg, hs⟩ := hmain
      exact ⟨strip.mainSegmentId, seg, rfl, List.mem_singleton.mpr rfl, hs⟩
    | cons a l =>
      have ha : a ∈ (List.range strip.segments.length).filter test := by
        rw [hl]
        exact List.mem_cons_self a l
      have halt : a < strip.segments.length :=
        List.mem_range.mp (List.mem_filter.mp ha).1
      exact ⟨a, strip.segments[a], rfl, List.mem_cons_self a l,
        List.getElem?_eq_getElem halt⟩
  have hone : ∃ i seg, [strip.mainSegmentId].head? = some i ∧
      i ∈ [strip.mainSegmentId] ∧ strip.segments[i]? = some seg := by
    obtain ⟨seg, hs⟩ := hmain
    exact ⟨strip.mainSegmentId, seg, rfl, List.mem_singleton.mpr rfl, hs⟩
  cases filter with
  | SELECTED => exact hp _
  | ACTIVE => exact hp _
  | MAIN => exact hone
  | IR_REMOTE_SETTING =>
    cases irApplyToAllSelected with
    | true => exact hp _
    | false => exact hone

/-- On a strip of at most 255 segments that holds its main segment, the world
after an action of the shared shape: the body was run on the targeted
segments, the globals mirror the first targeted segment, `stateChanged` is set
and one notification is raised. -/
theorem updateSegments_world (m_filter : SegmentsFilter) (body : Segment → Segment)
    (w : World) (hb : KeepsFlags body) (i : Nat) (seg : Segment)
    (hn : w.strip.segments.length ≤ 255)
    (hm : w.strip.mainSegmentId < w.strip.segments.length)
    (hi : (targetSegments w.irApplyToAllSelected w.strip m_filter).head? = some i)
    (hseg : w.strip.segments[i]? = some seg) :
    updateSegments m_filter body w =
      callAction (fun s => doUpdate { s with stateChanged := true })
        { w with
          strip :=
            applyToSegments body
              (targetSegments w.irApplyToAllSelected w.strip m_filter) w.strip,
          effectCurrent := (body seg).mode,
          effectSpeed := (body seg).speed,
          effectIntensity := (body seg).intensity,
          effectPalette := (body seg).palette,
          colPri := (body seg).colors0 } := by
  have hmem : i ∈ targetSegments w.irApplyToAllSelected w.strip m_filter :=
    List.mem_of_mem_head? hi
  have hget := applyToSegments_getElem? body i
    (targetSegments w.irApplyToAllSelected w.strip m_filter) w.strip
    (targetSegments_nodup _ _ _)
  rw [if_pos hmem, hseg] at hget
  have hget2 : ((some i).bind fun a =>
      (applyToSegments body (targetSegments w.irApplyToAllSelected w.strip m_filter)
        w.strip).segments[a]?) = some (body seg) := hget
  rw [updateSegments_eq m_filter body w hb hn (by omega), hi]
  simp only [setValuesFromSegmentRef, hget2]

/-- The world after `changeEffect` on a strip of at most 255 segments that
holds its main segment: the global effect is the new effect, and the size of
the strip, its main segment and its effect count are as before. -/
theorem changeEffect_world (m_filter : SegmentsFilter) (fx : Nat) (w : World)
    (hn : w.strip.segments.length ≤ 255)
    (hm : w.strip.mainSegmentId < w.strip.segments.length) :
    (changeEffect m_filter fx w).effectCurrent = fx % 256 ∧
    (changeEffect m_filter fx w).strip.segments.length = w.strip.segments.length ∧
    (changeEffect m_filter fx w).strip.mainSegmentId = w.strip.mainSegmentId ∧
    (changeEffect m_filter fx w).strip.modeCount = w.strip.modeCount := by
  obtain ⟨i, seg, hi, _, hseg⟩ :=
    targetSegments_head w.irApplyToAllSelected w.strip m_filter hm
  unfold changeEffect
  rw [updateSegments_world m_filter (fun seg => seg.setMode fx) w
    (fun _ => ⟨rfl, rfl⟩) i seg hn hm hi hseg]
  exact ⟨rfl, applyToSegments_length _ _ _, (applyToSegments_frame _ _ _).1,
    (applyToSegments_frame _ _ _).2⟩

/-- The world after `changePalette` on a strip of at most 255 segments that
holds its main segment: the global palette is the new palette, and the size of
the strip, its main segment and the palette count are as before. -/
theorem changePalette_world (m_filter : SegmentsFilter) (pal : Nat) (w : World)
    (hn : w.strip.segments.length ≤ 255)
    (hm : w.strip.mainSegmentId < w.strip.segments.length) :
    (changePalette m_filter pal w).effectPalette = pal % 256 ∧
    (changePalette m_filter pal w).strip.segments.length = w.strip.segments.length ∧
    (changePalette m_filter pal w).strip.mainSegmentId = w.strip.mainSegmentId ∧
    (changePalette m_filter pal w).paletteCount = w.paletteCount := by
  obtain ⟨i, seg, hi, _, hseg⟩ :=
    targetSegments_head w.irApplyToAllSelected w.strip m_filter hm
  unfold changePalette
  rw [updateSegments_world m_filter (fun seg => seg.setPalette pal) w
    (fun _ => ⟨rfl, rfl⟩) i seg hn hm hi hseg]
  exact ⟨rfl, applyToSegments_length _ _ _, (applyToSegments_frame _ _ _).1, rfl⟩

/-- The id the step forward computes, as a byte. -/
theorem next_id (n x : Nat) (h1 : 1 ≤ n) (h2 : n ≤ 255) :
    toUint8 (((x + 1) % n : Nat) : Int) % 256 = (x + 1) % n := by
  have hlt : (x + 1) % n < n := Nat.mod_lt _ (by omega)
  unfold toUint8
  omega

/-- The id the step back computes, as a byte. -/
theorem prev_id (n x : Nat) (h1 : 1 ≤ n) (h2 : n ≤ 255) (hx : x < n) :
    toUint8 (if x = 0 then (n : Int) - 1 else (x : Int) - 1) % 256 =
      (x + n - 1) % n := by
  by_cases h0 : x = 0
  · subst h0
    have e : (0 + n - 1) % n = n - 1 := by
      rw [Nat.zero_add]
      exact Nat.mod_eq_of_lt (by omega)
    rw [e]
    unfold toUint8
    simp only [if_true]
    omega
  · have e : (x + n - 1) % n = x - 1 := by
      have e1 : x + n - 1 = (x - 1) + n := by omega
      rw [e1, Nat.add_mod_right]
      exact Nat.mod_eq_of_lt (by omega)
    rw [e]
    unfold toUint8
    simp only [h0, if_false]
    omega

/-- A step forward followed by a step back gives the id back. -/
theorem next_prev_id (n x : Nat) (hx : x < n) :
    ((x + 1) % n + n - 1) % n = x := by
  by_cases h : x + 1 < n
  · rw [Nat.mod_eq_of_lt h]
    have e1 : x + 1 + n - 1 = x + n := by omega
    rw [e1, Nat.add_mod_right]
    exact Nat.mod_eq_of_lt hx
  · have e : x + 1 = n := by omega
    rw [e, Nat.mod_self]
    have e1 : 0 + n - 1 = x := by omega
    rw [e1]
    exact Nat.mod_eq_of_lt hx

/-- A step back followed by a step forward gives the id back. -/
theorem prev_next_id (n x : Nat) (hx : x < n) :
    ((x + n - 1) % n + 1) % n = x := by
  by_cases h0 : x = 0
  · subst h0
    have e : (0 + n - 1) % n = n - 1 := by
      rw [Nat.zero_add]
      exact Nat.mod_eq_of_lt (by omega)
    rw [e]
    have e1 : n - 1 + 1 = n := by omega
    rw [e1, Nat.mod_self]
  · have e1 : x + n - 1 = (x - 1) + n := by omega
    rw [e1, Nat.add_mod_right, Nat.mod_eq_of_lt (show x - 1 < n by omega)]
    have e2 : x - 1 + 1 = x := by omega
    rw [e2]
    exact Nat.mod_eq_of_lt hx

/-- The world after `nextEffect`. -/
theorem nextEffect_world (m_filter : SegmentsFilter) (w : World)
    (hn : w.strip.segments.length ≤ 255)
    (hm : w.strip.mainSegmentId < w.strip.segments.length)
    (h1 : 1 ≤ w.strip.modeCount) (h2 : w.strip.modeCount ≤ 255) :
    (nextEffect m_filter w).effectCurrent =
      (w.effectCurrent + 1) % w.strip.modeCount ∧
    (nextEffect m_filter w).strip.segments.length = w.strip.segments.length ∧
    (nextEffect m_filter w).strip.mainSegmentId = w.strip.mainSegmentId ∧
    (nextEffect m_filter w).strip.modeCount = w.strip.modeCount := by
  have h := changeEffect_world m_filter
    (toUint8 (((w.effectCurrent + 1) % w.strip.modeCount : Nat) : Int)) w hn hm
  rw [next_id _ _ h1 h2] at h
  exact h

/-- The world after `prevEffect`. -/
theorem prevEffect_world (m_filter : SegmentsFilter) (w : World)
    (hn : w.strip.segments.length ≤ 255)
    (hm : w.strip.mainSegmentId < w.strip.segments.length)
    (h1 : 1 ≤ w.strip.modeCount) (h2 : w.strip.modeCount ≤ 255)
    (hx : w.effectCurrent < w.strip.modeCount) :
    (prevEffect m_filter w).effectCurrent =
      (w.effectCurrent + w.strip.modeCount - 1) % w.strip.modeCount ∧
    (prevEffect m_filter w).strip.segments.length = w.strip.segments.length ∧
    (prevEffect m_filter w).strip.mainSegmentId = w.strip.mainSegmentId ∧
    (prevEffect m_filter w).strip.modeCount = w.strip.modeCount := by
  have h := changeEffect_world m_filter
    (toUint8 (if w.effectCurrent = 0 then (w.strip.modeCount : Int) - 1
      else (w.effectCurrent : Int) - 1)) w hn hm
  rw [prev_id _ _ h1 h2 hx] at h
  exact h

/-- The world after `nextPalette`. -/
theorem nextPalette_world (m_filter : SegmentsFilter) (w : World)
    (hn : w.strip.segments.length ≤ 255)
    (hm : w.strip.mainSegmentId < w.strip.segments.length)
    (h1 : 1 ≤ w.paletteCount) (h2 : w.paletteCount ≤ 255) :
    (nextPalette m_filter w).effectPalette =
      (w.effectPalette + 1) % w.paletteCount ∧
    (nextPalette m_filter w).strip.segments.length = w.strip.segments.length ∧
    (nextPalette m_filter w).strip.mainSegmentId = w.strip.mainSegmentId ∧
    (nextPalette m_filter w).paletteCount = w.paletteCount := by
  have h := changePalette_world m_filter
    (toUint8 (((w.effectPalette + 1) % w.paletteCount : Nat) : Int)) w hn hm
  rw [next_id _ _ h1 h2] at h
  exact h

/-- The world after `prevPalette`. -/
theorem prevPalette_world (m_filter : SegmentsFilter) (w : World)
    (hn : w.strip.segments.length ≤ 255)
    (hm : w.strip.mainSegmentId < w.strip.segments.length)
    (h1 : 1 ≤ w.paletteCount) (h2 : w.paletteCount ≤ 255)
    (hx : w.effectPalette < w.paletteCount) :
    (prevPalette m_filter w).effectPalette =
      (w.effectPalette + w.paletteCount - 1) % w.paletteCount ∧
    (prevPalette m_filter w).strip.segments.length = w.strip.segments.length ∧
    (prevPalette m_filter w).strip.mainSegmentId = w.strip.mainSegmentId ∧
    (prevPalette m_filter w).paletteCount = w.paletteCount := by
  have h := changePalette_world m_filter
    (toUint8 (if w.effectPalette = 0 then (w.paletteCount : Int) - 1
      else (w.effectPalette : Int) - 1)) w hn hm
  rw [prev_id _ _ h1 h2 hx] at h
  exact h

/-- The global effect after a number of calls of `nextEffect`. -/
theorem nextEffect_iterate (m_filter : SegmentsFilter) (n : Nat) (h1 : 1 ≤ n)
    (h2 : n ≤ 255) :
    ∀ (k : Nat) (w : World), w.strip.modeCount = n →
      w.strip.segments.length ≤ 255 →
      w.strip.mainSegmentId < w.strip.segments.length →
      w.effectCurrent < n →
      (Nat.iterate (nextEffect m_filter) k w).effectCurrent =
        (w.effectCurrent + k) % n
  | 0, w, _, _, _, hx => by
    rw [Function.iterate_zero_apply, Nat.add_zero, Nat.mod_eq_of_lt hx]
  | k + 1, w, hc, hn, hm, _ => by
    have hw := nextEffect_world m_filter w hn hm (by omega) (by omega)
    rw [Function.iterate_succ_apply,
      nextEffect_iterate m_filter n h1 h2 k (nextEffect m_filter w)
        (by rw [hw.2.2.2, hc]) (by rw [hw.2.1]; exact hn)
        (by rw [hw.2.2.1, hw.2.1]; exact hm)
        (by rw [hw.1, hc]; exact Nat.mod_lt _ (by omega)),
      hw.1, hc, Nat.mod_add_mod]
    congr 1
    omega

/-- The global palette after a number of calls of `nextPalette`. -/
theorem nextPalette_iterate (m_filter : SegmentsFilter) (n : Nat) (h1 : 1 ≤ n)
    (h2 : n ≤ 255) :
    ∀ (k : Nat) (w : World), w.paletteCount = n →
      w.strip.segments.length ≤ 255 →
      w.strip.mainSegmentId < w.strip.segments.length →
      w.effectPalette < n →
      (Nat.iterate (nextPalette m_filter) k w).effectPalette =
        (w.effectPalette + k) % n
  | 0, w, _, _, _, hx => by
    rw [Function.iterate_zero_apply, Nat.add_zero, Nat.mod_eq_of_lt hx]
  | k + 1, w, hc, hn, hm, _ => by
    have hw := nextPalette_world m_filter w hn hm (by omega) (by omega)
    rw [Function.iterate_succ_apply,
      nextPalette_iterate m_filter n h1 h2 k (nextPalette m_filter w)
        (by rw [hw.2.2.2, hc]) (by rw [hw.2.1]; exact hn)
        (by rw [hw.2.2.1, hw.2.1]; exact hm)
        (by rw [hw.1, hc]; exact Nat.mod_lt _ (by omega)),
      hw.1, hc, Nat.mod_add_mod]
    congr 1
    omega

/-- The segments after `changeEffect`. -/
theorem changeEffect_segments (m_filter : SegmentsFilter) (fx : Nat)
    (w : World) (hn : w.strip.segments.length ≤ 255)
    (hm : w.strip.mainSegmentId ≤ 255) (j : Nat) :
    (changeEffect m_filter fx w).strip.segments[j]? =
      if j ∈ targetSegments w.irApplyToAllSelected w.strip m_filter then
        w.strip.segments[j]?.map (fun seg => seg.setMode fx)
      else w.strip.segments[j]? :=
  updateSegments_segments m_filter (fun seg => seg.setMode fx) w
    (fun _ => ⟨rfl, rfl⟩) hn hm j

/-- The segments after `changePalette`. -/
theorem changePalette_segments (m_filter : SegmentsFilter) (pal : Nat)
    (w : World) (hn : w.strip.segments.length ≤ 255)
    (hm : w.strip.mainSegmentId ≤ 255) (j : Nat) :
    (changePalette m_filter pal w).strip.segments[j]? =
      if j ∈ targetSegments w.irApplyToAllSelected w.strip m_filter then
        w.strip.segments[j]?.map (fun seg => seg.setPalette pal)
      else w.strip.segments[j]? :=
  updateSegments_segments m_filter (fun seg => seg.setPalette pal) w
    (fun _ => ⟨rfl, rfl⟩) hn hm j

/-- C28: on a strip of at most 255 segments that holds its main segment, with
an effect count `n` in 1..255 and a current effect `x < n`, `nextEffect` gives
every targeted segment and the global the effect `(x + 1) mod n` and
`prevEffect` leaves the global at `(x + n - 1) mod n`; both are below `n`,
each undoes the other, and `n` calls of `nextEffect` lead back to `x`.  The
same holds for `nextPalette` and `prevPalette` with the palette count. -/
theorem effect_palette_stepping_circular (m_filter : SegmentsFilter) (w : World)
    (j : Nat) (seg : Segment)
    (hn : w.strip.segments.length ≤ 255)
    (hm : w.strip.mainSegmentId < w.strip.segments.length)
    (hj : j ∈ targetSegments w.irApplyToAllSelected w.strip m_filter)
    (hseg : w.strip.segments[j]? = some seg)
    (he1 : 1 ≤ w.strip.modeCount) (he2 : w.strip.modeCount ≤ 255)
    (hex : w.effectCurrent < w.strip.modeCount)
    (hp1 : 1 ≤ w.paletteCount) (hp2 : w.paletteCount ≤ 255)
    (hpx : w.effectPalette < w.paletteCount) :
    ((nextEffect m_filter w).effectCurrent =
        (w.effectCurrent + 1) % w.strip.modeCount ∧
      (∃ seg2, (nextEffect m_filter w).strip.segments[j]? = some seg2 ∧
        seg2.mode = (w.effectCurrent + 1) % w.strip.modeCount) ∧
      (prevEffect m_filter w).effectCurrent =
        (w.effectCurrent + w.strip.modeCount - 1) % w.strip.modeCount ∧
      (nextEffect m_filter w).effectCurrent < w.strip.modeCount ∧
      (prevEffect m_filter w).effectCurrent < w.strip.modeCount ∧
      (prevEffect m_filter (nextEffect m_filter w)).effectCurrent = w.effectCurrent ∧
      (nextEffect m_filter (prevEffect m_filter w)).effectCurrent = w.effectCurrent ∧
      (Nat.iterate (nextEffect m_filter) w.strip.modeCount w).effectCurrent =
        w.effectCurrent) ∧
    ((nextPalette m_filter w).effectPalette =
        (w.effectPalette + 1) % w.paletteCount ∧
      (∃ seg3, (nextPalette m_filter w).strip.segments[j]? = some seg3 ∧
        seg3.palette = (w.effectPalette + 1) % w.paletteCount) ∧
      (prevPalette m_filter w).effectPalette =
        (w.effectPalette + w.paletteCount - 1) % w.paletteCount ∧
      (nextPalette m_filter w).effectPalette < w.paletteCount ∧
      (prevPalette m_filter w).effectPalette < w.paletteCount ∧
      (prevPalette m_filter (nextPalette m_filter w)).effectPalette = w.effectPalette ∧
      (nextPalette m_filter (prevPalette m_filter w)).effectPalette = w.effectPalette ∧
      (Nat.iterate (nextPalette m_filter) w.paletteCount w).effectPalette =
        w.effectPalette) := by
  have hne := nextEffect_world m_filter w hn hm he1 he2
  have hpe := prevEffect_world m_filter w hn hm he1 he2 hex
  have hnp := nextPalette_world m_filter w hn hm hp1 hp2
  have hpp := prevPalette_world m_filter w hn hm hp1 hp2 hpx
  have hne_lt : (nextEffect m_filter w).effectCurrent < w.strip.modeCount := by
    rw [hne.1]
    exact Nat.mod_lt _ (by omega)
  have hpe_lt : (prevEffect m_filter w).effectCurrent < w.strip.modeCount := by
    rw [hpe.1]
    exact Nat.mod_lt _ (by omega)
  have hnp_lt : (nextPalette m_filter w).effectPalette < w.paletteCount := by
    rw [hnp.1]
    exact Nat.mod_lt _ (by omega)
  have hpp_lt : (prevPalette m_filter w).effectPalette < w.paletteCount := by
    rw [hpp.1]
    exact Nat.mod_lt _ (by omega)
  refine ⟨⟨hne.1, ⟨seg.setMode
      (toUint8 (((w.effectCurrent + 1) % w.strip.modeCount : Nat) : Int)), ?_, ?_⟩,
    hpe.1, hne_lt, hpe_lt, ?_, ?_, ?_⟩,
    ⟨hnp.1, ⟨seg.setPalette
      (toUint8 (((w.effectPalette + 1) % w.paletteCount : Nat) : Int)), ?_, ?_⟩,
    hpp.1, hnp_lt, hpp_lt, ?_, ?_, ?_⟩⟩
  · unfold nextEffect
    rw [changeEffect_segments m_filter _ w hn (by omega) j, if_pos hj, hseg]
    rfl
  · exact next_id _ _ he1 he2
  · have h := prevEffect_world m_filter (nextEffect m_filter w)
      (by rw [hne.2.1]; exact hn) (by rw [hne.2.2.1, hne.2.1]; exact hm)
      (by rw [hne.2.2.2]; exact he1) (by rw [hne.2.2.2]; exact he2)
      (by rw [hne.2.2.2]; exact hne_lt)
    rw [h.1, hne.2.2.2, hne.1]
    exact next_prev_id _ _ hex
  · have h := nextEffect_world m_filter (prevEffect m_filter w)
      (by rw [hpe.2.1]; exact hn) (by rw [hpe.2.2.1, hpe.2.1]; exact hm)
      (by rw [hpe.2.2.2]; exact he1) (by rw [hpe.2.2.2]; exact he2)
    rw [h.1, hpe.2.2.2, hpe.1]
    exact prev_next_id _ _ hex
  · rw [nextEffect_iterate m_filter w.strip.modeCount he1 he2 w.strip.modeCount w rfl
      hn hm hex, Nat.add_mod_right]
    exact Nat.mod_eq_of_lt hex
  · unfold nextPalette
    rw [changePalette_segments m_filter _ w hn (by omega) j, if_pos hj, hseg]
    rfl
  · exact next_id _ _ hp1 hp2
  · have h := prevPalette_world m_filter (nextPalette m_filter w)
      (by rw [hnp.2.1]; exact hn) (by rw [hnp.2.2.1, hnp.2.1]; exact hm)
      (by rw [hnp.2.2.2]; exact hp1) (by rw [hnp.2.2.2]; exact hp2)
      (by rw [hnp.2.2.2]; exact hnp_lt)
    rw [h.1, hnp.2.2.2, hnp.1]
    exact next_prev_id _ _ hpx
  · have h := nextPalette_world m_filter (prevPalette m_filter w)
      (by rw [hpp.2.1]; exact hn) (by rw [hpp.2.2.1, hpp.2.1]; exact hm)
      (by rw [hpp.2.2.2]; exact hp1) (by rw [hpp.2.2.2]; exact hp2)
    rw [h.1, hpp.2.2.2, hpp.1]
    exact prev_next_id _ _ hpx
  · rw [nextPalette_iterate m_filter w.paletteCount hp1 hp2 w.paletteCount w rfl
      hn hm hpx, Nat.add_mod_right]
    exact Nat.mod_eq_of_lt hpx

/-- Witness of C28: `colourWorld`, with 200 effects and the current effect 3,
71 palettes and the current palette 4, and its segment 1. -/
theorem effect_palette_stepping_circular_witness :
    (nextEffect SegmentsFilter.SELECTED colourWorld).effectCurrent = (3 + 1) % 200 ∧
    (prevEffect SegmentsFilter.SELECTED colourWorld).effectCurrent =
      (3 + 200 - 1) % 200 ∧
    (Nat.iterate (nextEffect SegmentsFilter.SELECTED) 200 colourWorld).effectCurrent = 3 ∧
    (nextPalette SegmentsFilter.SELECTED colourWorld).effectPalette = (4 + 1) % 71 ∧
    (Nat.iterate (nextPalette SegmentsFilter.SELECTED) 71 colourWorld).effectPalette = 4 :=
  have h := effect_palette_stepping_circular SegmentsFilter.SELECTED colourWorld 1
    { active := true, selected := true, colors0 := 0x55000000, cct := 8,
      mode := 5, palette := 6, capabilities := 0x07 }
    (by decide) (by decide) (by decide) (by decide) (by decide) (by decide)
    (by decide) (by decide) (by decide) (by decide)
  ⟨h.1.1, h.1.2.2.1, h.1.2.2.2.2.2.2.2, h.2.1, h.2.2.2.2.2.2.2.2⟩

/-- The global speed after `changeEffectSpeed` on a strip of at most 255
segments that holds its main segment. -/
theorem changeEffectSpeed_world (m_filter : SegmentsFilter) (speed : Nat) (w : World)
    (hn : w.strip.segments.length ≤ 255)
    (hm : w.strip.mainSegmentId < w.strip.segments.length) :
    (changeEffectSpeed m_filter speed w).effectSpeed = speed % 256 := by
  obtain ⟨i, seg, hi, _, hseg⟩ :=
    targetSegments_head w.irApplyToAllSelected w.strip m_filter hm
  unfold changeEffectSpeed
  rw [updateSegments_world m_filter (fun seg => { seg with speed := speed % 256 }) w
    (fun _ => ⟨rfl, rfl⟩) i seg hn hm hi hseg]
  rfl

/-- The global intensity after `changeEffectIntensity` on a strip of at most
255 segments that holds its main segment. -/
theorem changeEffectIntensity_world (m_filter : SegmentsFilter) (intensity : Nat)
    (w : World) (hn : w.strip.segments.length ≤ 255)
    (hm : w.strip.mainSegmentId < w.strip.segments.length) :
    (changeEffectIntensity m_filter intensity w).effectIntensity = intensity % 256 := by
  obtain ⟨i, seg, hi, _, hseg⟩ :=
    targetSegments_head w.irApplyToAllSelected w.strip m_filter hm
  unfold changeEffectIntensity
  rw [updateSegments_world m_filter
    (fun seg => { seg with intensity := intensity % 256 }) w
    (fun _ => ⟨rfl, rfl⟩) i seg hn hm hi hseg]
  rfl

/-- Method `incEffectSpeed` by cases. -/
theorem incEffectSpeed_cases (m_filter : SegmentsFilter) (w : World)
    (hv : w.effectSpeed ≤ 255) :
    (w.effectSpeed < 255 →
      incEffectSpeed m_filter w = changeEffectSpeed m_filter (stepUp w.effectSpeed) w) ∧
    (w.effectSpeed = 255 → incEffectSpeed m_filter w = w) := by
  have hmod : w.effectSpeed % 256 = w.effectSpeed := Nat.mod_eq_of_lt (by omega)
  unfold incEffectSpeed stepUp
  simp only [hmod]
  constructor
  · intro h
    by_cases h240 : w.effectSpeed < 240
    · simp only [h240, if_true]
      rw [Nat.mod_eq_of_lt (by omega)]
    · simp only [h240, h, if_true, if_false]
      rw [Nat.mod_eq_of_lt (by omega)]
  · intro h
    simp [h]

/-- Method `decEffectSpeed` by cases. -/
theorem decEffectSpeed_cases (m_filter : SegmentsFilter) (w : World)
    (hv : w.effectSpeed ≤ 255) :
    (0 < w.effectSpeed →
      decEffectSpeed m_filter w = changeEffectSpeed m_filter (stepDown w.effectSpeed) w) ∧
    (w.effectSpeed = 0 → decEffectSpeed m_filter w = w) := by
  have hmod : w.effectSpeed % 256 = w.effectSpeed := Nat.mod_eq_of_lt (by omega)
  unfold decEffectSpeed stepDown
  simp only [hmod]
  constructor
  · intro h
    by_cases h15 : w.effectSpeed > 15
    · simp only [h15, if_true]
      congr 1
      unfold toUint8
      omega
    · simp only [h15, h, gt_iff_lt, if_true, if_false]
      congr 1
      unfold toUint8
      omega
  · intro h
    simp [h]

/-- Method `incEffectIntensity` by cases. -/
theorem incEffectIntensity_cases (m_filter : SegmentsFilter) (w : World)
    (hv : w.effectIntensity ≤ 255) :
    (w.effectIntensity < 255 →
      incEffectIntensity m_filter w =
        changeEffectIntensity m_filter (stepUp w.effectIntensity) w) ∧
    (w.effectIntensity = 255 → incEffectIntensity m_filter w = w) := by
  have hmod : w.effectIntensity % 256 = w.effectIntensity := Nat.mod_eq_of_lt (by omega)
  unfold incEffectIntensity stepUp
  simp only [hmod]
  constructor
  · intro h
    by_cases h240 : w.effectIntensity < 240
    · simp only [h240, if_true]
      rw [Nat.mod_eq_of_lt (by omega)]
    · simp only [h240, h, if_true, if_false]
      rw [Nat.mod_eq_of_lt (by omega)]
  · intro h
    simp [h]

/-- Method `decEffectIntensity` by cases. -/
theorem decEffectIntensity_cases (m_filter : SegmentsFilter) (w : World)
    (hv : w.effectIntensity ≤ 255) :
    (0 < w.effectIntensity →
      decEffectIntensity m_filter w =
        changeEffectIntensity m_filter (stepDown w.effectIntensity) w) ∧
    (w.effectIntensity = 0 → decEffectIntensity m_filter w = w) := by
  have hmod : w.effectIntensity % 256 = w.effectIntensity := Nat.mod_eq_of_lt (by omega)
  unfold decEffectIntensity stepDown
  simp only [hmod]
  constructor
  · intro h
    by_cases h15 : w.effectIntensity > 15
    · simp only [h15, if_true]
      congr 1
      unfold toUint8
      omega
    · simp only [h15, h, gt_iff_lt, if_true, if_false]
      congr 1
      unfold toUint8
      omega
  · intro h
    simp [h]

/-- The steps stay within a byte and move the value unless it is at the
boundary. -/
theorem step_bounds (v : Nat) (hv : v ≤ 255) :
    stepUp v ≤ 255 ∧ (v < 255 → v < stepUp v) ∧ (v = 255 → stepUp v = v) ∧
    stepDown v ≤ 255 ∧ (0 < v → stepDown v < v) ∧ (v = 0 → stepDown v = v) := by
  unfold stepUp stepDown
  refine ⟨?_, ?_, ?_, ?_, ?_, ?_⟩ <;> split_ifs <;> omega

/-- C29: on a strip of at most 255 segments that holds its main segment, with
the global speed `v` in 0..255, `incEffectSpeed` leaves the global speed and
the speed of every targeted segment at `v + 12` when `v < 240` and at `v + 1`
when `240 ≤ v < 255`, and hands the world back untouched when `v = 255`;
`decEffectSpeed` leaves them at `v - 12` when `v > 15` and at `v - 1` when
`0 < v ≤ 15`, and hands the world back untouched when `v = 0`.  The same holds
for `incEffectIntensity` and `decEffectIntensity` with the global intensity.
The new value is a byte, above `v` for a step up below 255 and below `v` for a
step down above 0. -/
theorem speed_intensity_steps (m_filter : SegmentsFilter) (w : World)
    (j : Nat) (seg : Segment)
    (hn : w.strip.segments.length ≤ 255)
    (hm : w.strip.mainSegmentId < w.strip.segments.length)
    (hj : j ∈ targetSegments w.irApplyToAllSelected w.strip m_filter)
    (hseg : w.strip.segments[j]? = some seg)
    (hv : w.effectSpeed ≤ 255) (hi : w.effectIntensity ≤ 255) :
    ((incEffectSpeed m_filter w).effectSpeed = stepUp w.effectSpeed ∧
      (w.effectSpeed = 255 → incEffectSpeed m_filter w = w) ∧
      (w.effectSpeed < 255 → ∃ seg2,
        (incEffectSpeed m_filter w).strip.segments[j]? = some seg2 ∧
        seg2.speed = stepUp w.effectSpeed) ∧
      (decEffectSpeed m_filter w).effectSpeed = stepDown w.effectSpeed ∧
      (w.effectSpeed = 0 → decEffectSpeed m_filter w = w) ∧
      (0 < w.effectSpeed → ∃ seg3,
        (decEffectSpeed m_filter w).strip.segments[j]? = some seg3 ∧
        seg3.speed = stepDown w.effectSpeed)) ∧
    ((incEffectIntensity m_filter w).effectIntensity = stepUp w.effectIntensity ∧
      (w.effectIntensity = 255 → incEffectIntensity m_filter w = w) ∧
      (w.effectIntensity < 255 → ∃ seg4,
        (incEffectIntensity m_filter w).strip.segments[j]? = some seg4 ∧
        seg4.intensity = stepUp w.effectIntensity) ∧
      (decEffectIntensity m_filter w).effectIntensity = stepDown w.effectIntensity ∧
      (w.effectIntensity = 0 → decEffectIntensity m_filter w = w) ∧
      (0 < w.effectIntensity → ∃ seg5,
        (decEffectIntensity m_filter w).strip.segments[j]? = some seg5 ∧
        seg5.intensity = stepDown w.effectIntensity)) ∧
    (∀ v : Nat, v ≤ 255 →
      (v < 240 → stepUp v = v + 12) ∧ (240 ≤ v → v < 255 → stepUp v = v + 1) ∧
      (15 < v → stepDown v = v - 12) ∧ (0 < v → v ≤ 15 → stepDown v = v - 1) ∧
      stepUp v ≤ 255 ∧ (v < 255 → v < stepUp v) ∧
      stepDown v ≤ 255 ∧ (0 < v → stepDown v < v)) := by
  have hsu := incEffectSpeed_cases m_filter w hv
  have hsd := decEffectSpeed_cases m_filter w hv
  have hiu := incEffectIntensity_cases m_filter w hi
  have hid := decEffectIntensity_cases m_filter w hi
  have hbs := step_bounds w.effectSpeed hv
  have hbi := step_bounds w.effectIntensity hi
  have hm2 : w.strip.mainSegmentId ≤ 255 := by omega
  refine ⟨⟨?_, hsu.2, ?_, ?_, hsd.2, ?_⟩, ⟨?_, hiu.2, ?_, ?_, hid.2, ?_⟩, ?_⟩
  · by_cases h : w.effectSpeed < 255
    · rw [hsu.1 h, changeEffectSpeed_world m_filter _ w hn hm]
      exact Nat.mod_eq_of_lt (by omega)
    · have e : w.effectSpeed = 255 := by omega
      rw [hsu.2 e, hbs.2.2.1 e]
  · intro h
    refine ⟨{ seg with speed := stepUp w.effectSpeed % 256 }, ?_, ?_⟩
    · rw [hsu.1 h, changeEffectSpeed_segments m_filter _ w hn hm2 j, if_pos hj, hseg]
      rfl
    · exact Nat.mod_eq_of_lt (by omega)
  · by_cases h : 0 < w.effectSpeed
    · rw [hsd.1 h, changeEffectSpeed_world m_filter _ w hn hm]
      exact Nat.mod_eq_of_lt (by omega)
    · have e : w.effectSpeed = 0 := by omega
      rw [hsd.2 e, hbs.2.2.2.2.2 e]
  · intro h
    refine ⟨{ seg with speed := stepDown w.effectSpeed % 256 }, ?_, ?_⟩
    · rw [hsd.1 h, changeEffectSpeed_segments m_filter _ w hn hm2 j, if_pos hj, hseg]
      rfl
    · exact Nat.mod_eq_of_lt (by omega)
  · by_cases h : w.effectIntensity < 255
    · rw [hiu.1 h, changeEffectIntensity_world m_filter _ w hn hm]
      exact Nat.mod_eq_of_lt (by omega)
    · have e : w.effectIntensity = 255 := by omega
      rw [hiu.2 e, hbi.2.2.1 e]
  · intro h
    refine ⟨{ seg with intensity := stepUp w.effectIntensity % 256 }, ?_, ?_⟩
    · rw [hiu.1 h, changeEffectIntensity_segments m_filter _ w hn hm2 j, if_pos hj,
        hseg]
      rfl
    · exact Nat.mod_eq_of_lt (by omega)
  · by_cases h : 0 < w.effectIntensity
    · rw [hid.1 h, changeEffectIntensity_world m_filter _ w hn hm]
      exact Nat.mod_eq_of_lt (by omega)
    · have e : w.effectIntensity = 0 := by omega
      rw [hid.2 e, hbi.2.2.2.2.2 e]
  · intro h
    refine ⟨{ seg with intensity := stepDown w.effectIntensity % 256 }, ?_, ?_⟩
    · rw [hid.1 h, changeEffectIntensity_segments m_filter _ w hn hm2 j, if_pos hj,
        hseg]
      rfl
    · exact Nat.mod_eq_of_lt (by omega)
  · intro v hv2
    unfold stepUp stepDown
    refine ⟨?_, ?_, ?_, ?_, ?_, ?_, ?_, ?_⟩ <;> split_ifs <;> omega

/-- Witness of C29: `colourWorld` with the global speed 250 and the global
intensity 10, and its segment 1. -/
theorem speed_intensity_steps_witness :
    (incEffectSpeed SegmentsFilter.SELECTED
      { colourWorld with effectSpeed := 250, effectIntensity := 10 }).effectSpeed =
        stepUp 250 ∧
    (decEffectIntensity SegmentsFilter.SELECTED
      { colourWorld with effectSpeed := 250, effectIntensity := 10 }).effectIntensity =
        stepDown 10 ∧
    stepUp 250 = 251 ∧ stepDown 10 = 9 :=
  have h := speed_intensity_steps SegmentsFilter.SELECTED
    { colourWorld with effectSpeed := 250, effectIntensity := 10 } 1
    { active := true, selected := true, colors0 := 0x55000000, cct := 8,
      mode := 5, palette := 6, capabilities := 0x07 }
    (by decide) (by decide) (by decide) (by decide) (by decide) (by decide)
  ⟨h.1.1, h.2.1.2.2.2.1, by decide, by decide⟩


/-! Infrared remote: repeat memory -/

/-- A call of an action-engine operation leaves the repeat memory alone. -/
theorem repeatMemory_callAction (f : State → State) (w : World) :
    repeatMemory (callAction f w) = repeatMemory w := rfl

/-- An action of the shared shape leaves the repeat memory alone. -/
theorem repeatMemory_updateSegments (m_filter : SegmentsFilter)
    (body : Segment → Segment) (w : World) :
    repeatMemory (updateSegments m_filter body w) = repeatMemory w := by
  unfold updateSegments
  split
  · rfl
  · split
    · rfl
    · simp only [repeatMemory_callAction, setValuesFromSegmentRef]
      split <;> rfl

/-- The hue and saturation change leaves the repeat memory alone. -/
theorem repeatMemory_changeHueSaturationRelative (conv : ColorConversion)
    (m_filter : SegmentsFilter) (hue_delta sat_delta : Int) (w : World) :
    repeatMemory (changeHueSaturationRelative conv m_filter hue_delta sat_delta w) =
      repeatMemory w := by
  unfold changeHueSaturationRelative
  split
  · rfl
  · exact repeatMemory_updateSegments _ _ _

/-- The action a recorded tag stands for leaves the repeat memory alone. -/
theorem repeatMemory_repeatedAction (conv : ColorConversion) (a : RepeatAction)
    (w : World) : repeatMemory (repeatedAction conv a w) = repeatMemory w := by
  cases a with
  | ACTION_NONE => rfl
  | ACTION_BRIGHT_UP => rfl
  | ACTION_BRIGHT_DOWN => rfl
  | ACTION_SPEED_UP =>
    simp only [repeatedAction, incEffectSpeedOrHue, changeEffectSpeedRelative,
      changeEffectSpeed, changeHueRelative]
    split
    · exact repeatMemory_updateSegments _ _ _
    · exact repeatMemory_changeHueSaturationRelative _ _ _ _ _
  | ACTION_SPEED_DOWN =>
    simp only [repeatedAction, decEffectSpeedOrHue, changeEffectSpeedRelative,
      changeEffectSpeed, changeHueRelative]
    split
    · exact repeatMemory_updateSegments _ _ _
    · exact repeatMemory_changeHueSaturationRelative _ _ _ _ _
  | ACTION_INTENSITY_UP =>
    simp only [repeatedAction, incEffectIntensityOrSaturation,
      changeEffectIntensityRelative, changeEffectIntensity, changeSaturationRelative]
    split
    · exact repeatMemory_updateSegments _ _ _
    · exact repeatMemory_changeHueSaturationRelative _ _ _ _ _
  | ACTION_INTENSITY_DOWN =>
    simp only [repeatedAction, decEffectIntensityOrSaturation,
      changeEffectIntensityRelative, changeEffectIntensity, changeSaturationRelative]
    split
    · exact repeatMemory_updateSegments _ _ _
    · exact repeatMemory_changeHueSaturationRelative _ _ _ _ _

/-- In a fixed-layout mode, with a repeatable action recorded,
`applyRepeatActions` runs the action the tag stands for. -/
theorem applyRepeatActions_eq (codes : IrCodes) (conv : ColorConversion) (w : World)
    (hmode : w.irEnabled ≠ 8)
    (ha : w.lastRepeatableAction ≠ RepeatAction.ACTION_NONE) :
    applyRepeatActions codes conv w = repeatedAction conv w.lastRepeatableAction w := by
  unfold applyRepeatActions
  rw [if_neg hmode]
  cases h : w.lastRepeatableAction with
  | ACTION_NONE => exact absurd h ha
  | ACTION_BRIGHT_UP => rfl
  | ACTION_BRIGHT_DOWN => rfl
  | ACTION_SPEED_UP => rfl
  | ACTION_SPEED_DOWN => rfl
  | ACTION_INTENSITY_UP => rfl
  | ACTION_INTENSITY_DOWN => rfl

/-- In a fixed-layout mode, with a repeatable action recorded, the repeat
sentinel counts the repeat and runs the action the tag stands for. -/
theorem decodeIR_sentinel (codes : IrCodes) (conv : ColorConversion)
    (decoders : Decoders) (w : World) (hmode : w.irEnabled ≠ 8)
    (ha : w.lastRepeatableAction ≠ RepeatAction.ACTION_NONE) :
    decodeIR codes conv decoders 0xFFFFFFFF w =
      repeatedAction conv w.lastRepeatableAction
        { w with irTimesRepeated := (w.irTimesRepeated + 1) % 65536 } := by
  unfold decodeIR
  rw [if_pos rfl]
  exact applyRepeatActions_eq codes conv
    { w with irTimesRepeated := (w.irTimesRepeated + 1) % 65536 } hmode ha

/-- The repeat memory after a number of repeat sentinels in a row, in a
fixed-layout mode with a repeatable action recorded: the counter is a
`uint16_t` and goes round at 65536. -/
theorem repeatSentinels_tagged_memory (codes : IrCodes) (conv : ColorConversion)
    (decoders : Decoders) (w : World) (hmode : w.irEnabled ≠ 8)
    (ha : w.lastRepeatableAction ≠ RepeatAction.ACTION_NONE)
    (hc : w.irTimesRepeated < 65536) :
    ∀ k : Nat,
      repeatMemory (repeatSentinels codes conv decoders k w) =
        (w.lastValidCode, w.lastRepeatableAction, (w.irTimesRepeated + k) % 65536,
          w.irEnabled)
  | 0 => by
    simp only [repeatSentinels, repeatMemory, Nat.add_zero]
    rw [Nat.mod_eq_of_lt hc]
  | k + 1 => by
    have ih := repeatSentinels_tagged_memory codes conv decoders w hmode ha hc k
    have e1 : (repeatSentinels codes conv decoders k w).lastValidCode =
        w.lastValidCode := congrArg (fun m => m.1) ih
    have e2 : (repeatSentinels codes conv decoders k w).lastRepeatableAction =
        w.lastRepeatableAction := congrArg (fun m => m.2.1) ih
    have e3 : (repeatSentinels codes conv decoders k w).irTimesRepeated =
        (w.irTimesRepeated + k) % 65536 := congrArg (fun m => m.2.2.1) ih
    have e4 : (repeatSentinels codes conv decoders k w).irEnabled = w.irEnabled :=
      congrArg (fun m => m.2.2.2) ih
    have hs := decodeIR_sentinel codes conv decoders
      (repeatSentinels codes conv decoders k w) (by rw [e4]; exact hmode)
      (by rw [e2]; exact ha)
    have hmem : repeatMemory (decodeIR codes conv decoders 0xFFFFFFFF
        (repeatSentinels codes conv decoders k w)) =
        ((repeatSentinels codes conv decoders k w).lastValidCode,
          (repeatSentinels codes conv decoders k w).lastRepeatableAction,
          ((repeatSentinels codes conv decoders k w).irTimesRepeated + 1) % 65536,
          (repeatSentinels codes conv decoders k w).irEnabled) := by
      rw [hs, repeatMemory_repeatedAction]
      rfl
    simp only [repeatSentinels]
    rw [hmem, e1, e2, e3, e4, Nat.mod_add_mod]
    rfl

/-- The repeat memory the sentinel number `k + 1` leaves, in a fixed-layout
mode with a repeatable action recorded and the counter at 0 before the first
sentinel. -/
theorem repeatSentinels_tagged_step (codes : IrCodes) (conv : ColorConversion)
    (decoders : Decoders) (w : World) (hmode : w.irEnabled ≠ 8)
    (ha : w.lastRepeatableAction ≠ RepeatAction.ACTION_NONE)
    (hc : w.irTimesRepeated = 0) (k : Nat) :
    repeatMemory (decodeIR codes conv decoders 0xFFFFFFFF
        (repeatSentinels codes conv decoders k w)) =
      (w.lastValidCode, w.lastRepeatableAction, (k + 1) % 65536, w.irEnabled) := by
  have h := repeatSentinels_tagged_memory codes conv decoders w hmode ha
    (by rw [hc]; decide) (k + 1)
  simp only [repeatSentinels] at h
  rw [h, hc, Nat.zero_add]

/-- C30, counterexample: the repeat counter is a `uint16_t`.  The key
`0xF705FA` (brightness up) of the 24-key remote records the brightness step
up with the counter at 0.  The sentinel number 65535 after it leaves the
counter at 65535, and the sentinel number 65536 does not raise it by one: it
leaves the counter at 0. -/
theorem repeat_counter_wraps :
    repeatMemory
        (decodeIR exampleTables.toIrCodes plainConversion
          (irDecoders exampleTables exampleFx plainConversion) 0xF705FA remoteWorld) =
      (0xF705FA, RepeatAction.ACTION_BRIGHT_UP, 0, 1) ∧
    repeatMemory
        (decodeIR exampleTables.toIrCodes plainConversion
          (irDecoders exampleTables exampleFx plainConversion) 0xFFFFFFFF
          (repeatSentinels exampleTables.toIrCodes plainConversion
            (irDecoders exampleTables exampleFx plainConversion) 65534
            (decodeIR exampleTables.toIrCodes plainConversion
              (irDecoders exampleTables exampleFx plainConversion) 0xF705FA
              remoteWorld))) =
      (0xF705FA, RepeatAction.ACTION_BRIGHT_UP, 65535, 1) ∧
    repeatMemory
        (decodeIR exampleTables.toIrCodes plainConversion
          (irDecoders exampleTables exampleFx plainConversion) 0xFFFFFFFF
          (repeatSentinels exampleTables.toIrCodes plainConversion
            (irDecoders exampleTables exampleFx plainConversion) 65535
            (decodeIR exampleTables.toIrCodes plainConversion
              (irDecoders exampleTables exampleFx plainConversion) 0xF705FA
              remoteWorld))) =
      (0xF705FA, RepeatAction.ACTION_BRIGHT_UP, 0, 1) := by
  have hmem : repeatMemory
      (decodeIR exampleTables.toIrCodes plainConversion
        (irDecoders exampleTables exampleFx plainConversion) 0xF705FA remoteWorld) =
      (0xF705FA, RepeatAction.ACTION_BRIGHT_UP, 0, 1) := by decide
  have e1 : (decodeIR exampleTables.toIrCodes plainConversion
      (irDecoders exampleTables exampleFx plainConversion) 0xF705FA
      remoteWorld).lastValidCode = 0xF705FA := congrArg (fun m => m.1) hmem
  have e2 : (decodeIR exampleTables.toIrCodes plainConversion
      (irDecoders exampleTables exampleFx plainConversion) 0xF705FA
      remoteWorld).lastRepeatableAction = RepeatAction.ACTION_BRIGHT_UP :=
    congrArg (fun m => m.2.1) hmem
  have e3 : (decodeIR exampleTables.toIrCodes plainConversion
      (irDecoders exampleTables exampleFx plainConversion) 0xF705FA
      remoteWorld).irTimesRepeated = 0 := congrArg (fun m => m.2.2.1) hmem
  have e4 : (decodeIR exampleTables.toIrCodes plainConversion
      (irDecoders exampleTables exampleFx plainConversion) 0xF705FA
      remoteWorld).irEnabled = 1 := congrArg (fun m => m.2.2.2) hmem
  have hstep := repeatSentinels_tagged_step exampleTables.toIrCodes plainConversion
    (irDecoders exampleTables exampleFx plainConversion)
    (decodeIR exampleTables.toIrCodes plainConversion
      (irDecoders exampleTables exampleFx plainConversion) 0xF705FA remoteWorld)
    (by rw [e4]; decide) (by rw [e2]; decide) e3
  refine ⟨hmem, ?_, ?_⟩
  · rw [hstep 65534, e1, e2, e4]
  · rw [hstep 65535, e1, e2, e4]

/-- C30, amended: in a fixed-layout remote mode with a repeatable action
recorded, the repeat sentinel `0xFFFFFFFF` counts the repeat and runs the
recorded action once; the last valid code, the recorded action and the mode
stay as they were and the 16-bit counter becomes the old value plus one modulo
65536: it goes up by one below 65535 and from 65535 to 0.  Two sentinels in a
row run the action twice and take the counter from 0 to 2, and `k` sentinels
in a row leave the counter at the old value plus `k` modulo 65536.  Every
other code starts from the reset memory, and a code above `0xFFFFFF` leaves
nothing but the reset.  The functions of `ir.cpp` that wrap the speed and
intensity steps record their tag, and those that wrap the brightness steps
record it when the brightness changed. -/
theorem repeat_sentinel_replays (codes : IrCodes) (conv : ColorConversion)
    (decoders : Decoders) (w : World) (hmode : w.irEnabled ≠ 8)
    (ha : w.lastRepeatableAction ≠ RepeatAction.ACTION_NONE) :
    (decodeIR codes conv decoders 0xFFFFFFFF w =
        repeatedAction conv w.lastRepeatableAction
          { w with irTimesRepeated := (w.irTimesRepeated + 1) % 65536 } ∧
      repeatMemory (decodeIR codes conv decoders 0xFFFFFFFF w) =
        (w.lastValidCode, w.lastRepeatableAction, (w.irTimesRepeated + 1) % 65536,
          w.irEnabled) ∧
      (w.irTimesRepeated < 65535 →
        (decodeIR codes conv decoders 0xFFFFFFFF w).irTimesRepeated =
          w.irTimesRepeated + 1)) ∧
    (decodeIR codes conv decoders 0xFFFFFFFF
        (decodeIR codes conv decoders 0xFFFFFFFF w) =
        repeatedAction conv w.lastRepeatableAction
          { repeatedAction conv w.lastRepeatableAction
              { w with irTimesRepeated := (w.irTimesRepeated + 1) % 65536 } with
            irTimesRepeated := ((w.irTimesRepeated + 1) % 65536 + 1) % 65536 } ∧
      (w.irTimesRepeated = 0 →
        repeatMemory (decodeIR codes conv decoders 0xFFFFFFFF
          (decodeIR codes conv decoders 0xFFFFFFFF w)) =
          (w.lastValidCode, w.lastRepeatableAction, 2, w.irEnabled))) ∧
    ((∀ code : Nat, code ≠ 0xFFFFFFFF →
        decodeIR codes conv decoders code w =
          decodeIR codes conv decoders code
            { w with lastValidCode := 0, irTimesRepeated := 0,
                     lastRepeatableAction := RepeatAction.ACTION_NONE }) ∧
      (∀ code : Nat, code ≠ 0xFFFFFFFF → code > 0xFFFFFF →
        decodeIR codes conv decoders code w =
          { w with lastValidCode := 0, irTimesRepeated := 0,
                   lastRepeatableAction := RepeatAction.ACTION_NONE })) ∧
    ((Ir.incEffectSpeedOrHue conv w).lastRepeatableAction =
        RepeatAction.ACTION_SPEED_UP ∧
      (Ir.decEffectSpeedOrHue conv w).lastRepeatableAction =
        RepeatAction.ACTION_SPEED_DOWN ∧
      (Ir.incEffectIntensityOrSaturation conv w).lastRepeatableAction =
        RepeatAction.ACTION_INTENSITY_UP ∧
      (Ir.decEffectIntensityOrSaturation conv w).lastRepeatableAction =
        RepeatAction.ACTION_INTENSITY_DOWN ∧
      ((incBrightness w.ui).1 = true →
        (Ir.incBrightness w).lastRepeatableAction = RepeatAction.ACTION_BRIGHT_UP) ∧
      ((decBrightness w.ui).1 = true →
        (Ir.decBrightness w).lastRepeatableAction =
          RepeatAction.ACTION_BRIGHT_DOWN)) ∧
    ((w.irTimesRepeated = 65535 →
        (decodeIR codes conv decoders 0xFFFFFFFF w).irTimesRepeated = 0) ∧
      (w.irTimesRepeated < 65536 → ∀ k : Nat,
        repeatMemory (repeatSentinels codes conv decoders k w) =
          (w.lastValidCode, w.lastRepeatableAction, (w.irTimesRepeated + k) % 65536,
            w.irEnabled))) := by
  have h1 := decodeIR_sentinel codes conv decoders w hmode ha
  have hmem : repeatMemory (decodeIR codes conv decoders 0xFFFFFFFF w) =
      (w.lastValidCode, w.lastRepeatableAction, (w.irTimesRepeated + 1) % 65536,
        w.irEnabled) := by
    rw [h1, repeatMemory_repeatedAction]
    rfl
  have hcount : (decodeIR codes conv decoders 0xFFFFFFFF w).irTimesRepeated =
      (w.irTimesRepeated + 1) % 65536 := congrArg (fun m => m.2.2.1) hmem
  have htag : (decodeIR codes conv decoders 0xFFFFFFFF w).lastRepeatableAction =
      w.lastRepeatableAction := congrArg (fun m => m.2.1) hmem
  have hmode2 : (decodeIR codes conv decoders 0xFFFFFFFF w).irEnabled = w.irEnabled :=
    congrArg (fun m => m.2.2.2) hmem
  have h2 := decodeIR_sentinel codes conv decoders
    (decodeIR codes conv decoders 0xFFFFFFFF w) (by rw [hmode2]; exact hmode)
    (by rw [htag]; exact ha)
  have h2a : decodeIR codes conv decoders 0xFFFFFFFF
      (decodeIR codes conv decoders 0xFFFFFFFF w) =
      repeatedAction conv w.lastRepeatableAction
        { decodeIR codes conv decoders 0xFFFFFFFF w with
          irTimesRepeated := ((w.irTimesRepeated + 1) % 65536 + 1) % 65536 } := by
    rw [h2, hcount]
    exact congrArg (fun a => repeatedAction conv a
      { decodeIR codes conv decoders 0xFFFFFFFF w with
        irTimesRepeated := ((w.irTimesRepeated + 1) % 65536 + 1) % 65536 }) htag
  have h2b : decodeIR codes conv decoders 0xFFFFFFFF
      (decodeIR codes conv decoders 0xFFFFFFFF w) =
      repeatedAction conv w.lastRepeatableAction
        { repeatedAction conv w.lastRepeatableAction
            { w with irTimesRepeated := (w.irTimesRepeated + 1) % 65536 } with
          irTimesRepeated := ((w.irTimesRepeated + 1) % 65536 + 1) % 65536 } := by
    rw [h2a, h1]
  refine ⟨⟨h1, hmem, ?_⟩, ⟨h2b, ?_⟩, ⟨?_, ?_⟩, ⟨rfl, rfl, rfl, rfl, ?_, ?_⟩,
    ⟨fun h65 => ?_,
      fun hlt => repeatSentinels_tagged_memory codes conv decoders w hmode ha hlt⟩⟩
  · intro hlt
    rw [hcount]
    exact Nat.mod_eq_of_lt (by omega)
  · intro h0
    rw [h2b, repeatMemory_repeatedAction]
    have hm1 : repeatMemory
        (repeatedAction conv w.lastRepeatableAction
          { w with irTimesRepeated := (w.irTimesRepeated + 1) % 65536 }) =
        (w.lastValidCode, w.lastRepeatableAction, (w.irTimesRepeated + 1) % 65536,
          w.irEnabled) := by
      rw [repeatMemory_repeatedAction]
      rfl
    have e1 := congrArg (fun m => m.1) hm1
    have e2 := congrArg (fun m => m.2.1) hm1
    have e4 := congrArg (fun m => m.2.2.2) hm1
    simp only [repeatMemory] at e1 e2 e4 ⊢
    rw [e1, e2, e4, h0]
  · intro code hcode
    unfold decodeIR
    rw [if_neg hcode, if_neg hcode]
  · intro code hcode hbig
    unfold decodeIR
    rw [if_neg hcode]
    simp only [if_neg hmode, if_pos hbig]
  · intro hc
    simp only [Ir.incBrightness, hc, if_true]
  · intro hc
    simp only [Ir.decBrightness, hc, if_true]
  · rw [hcount, h65]

/-- Witness of C30: `repeatWorld`, in the mode of the 24-key remote with a
speed step up recorded while the solid colour effect runs.  Two sentinels
leave the counter at 2 and the recorded key and action as they were, and
raise two notifications. -/
theorem repeat_sentinel_replays_witness :
    repeatMemory (decodeIR exampleCodes plainConversion idleDecoders 0xFFFFFFFF
      (decodeIR exampleCodes plainConversion idleDecoders 0xFFFFFFFF repeatWorld)) =
      (0xF7E01F, RepeatAction.ACTION_SPEED_UP, 2, 1) ∧
    (decodeIR exampleCodes plainConversion idleDecoders 0xFFFFFFFF
      (decodeIR exampleCodes plainConversion idleDecoders 0xFFFFFFFF repeatWorld)).trace =
      repeatWorld.trace ++
        [Event.stateUpdated CallMode.button, Event.stateUpdated CallMode.button] :=
  ⟨(repeat_sentinel_replays exampleCodes plainConversion idleDecoders repeatWorld
    (by decide) (by decide)).2.1.2 rfl, by decide⟩


/-! Colour cycle, white channel and colour temperature -/

/-- The hexadecimal text of a value below `16 ^ (k + 1)` has at most `k + 1`
digits. -/
theorem formatHexUpperAux_length_le :
    ∀ (k fuel n : Nat) (acc : Str), n < fuel → n < 16 ^ (k + 1) →
      (formatHexUpperAux fuel n acc).length ≤ acc.length + k + 1
  | k, 0, n, acc, hf, _ => by omega
  | 0, fuel + 1, n, acc, _, hn => by
    have h16 : n < 16 := by simpa using hn
    simp [formatHexUpperAux, h16]
  | k + 1, fuel + 1, n, acc, hf, hn => by
    by_cases h16 : n < 16
    · simp [formatHexUpperAux, h16]
    · have hdiv : n / 16 < 16 ^ (k + 1) := by
        rw [Nat.div_lt_iff_lt_mul (by decide)]
        calc n < 16 ^ (k + 1 + 1) := hn
          _ = 16 ^ (k + 1) * 16 := by rw [Nat.pow_succ]
      have hfuel : n / 16 < fuel := by omega
      have ih := formatHexUpperAux_length_le k fuel (n / 16)
        (hexDigitUpper (n % 16) :: acc) hfuel hdiv
      simp only [formatHexUpperAux, h16, if_false]
      simp only [List.length_cons] at ih
      omega

/-- The hexadecimal text of a value of at least `16 ^ k` has at least `k + 1`
digits. -/
theorem formatHexUpperAux_length_ge :
    ∀ (k fuel n : Nat) (acc : Str), n < fuel → 16 ^ k ≤ n →
      acc.length + k + 1 ≤ (formatHexUpperAux fuel n acc).length
  | k, 0, n, acc, hf, _ => by omega
  | 0, fuel + 1, n, acc, _, _ => by
    by_cases h16 : n < 16
    · simp [formatHexUpperAux, h16]
    · have hfuel : n / 16 < fuel + 1 := by omega
      simp only [formatHexUpperAux, h16, if_false]
      cases fuel with
      | zero => omega
      | succ fuel =>
        have h0 : 16 ^ 0 ≤ n / 16 := by
          simp only [Nat.pow_zero]
          omega
        have ih := formatHexUpperAux_length_ge 0 (fuel + 1) (n / 16)
          (hexDigitUpper (n % 16) :: acc) (by omega) h0
        simp only [List.length_cons] at ih
        omega
  | k + 1, fuel + 1, n, acc, hf, hn => by
    have h16k : 16 ≤ 16 ^ (k + 1) := by
      calc 16 = 16 ^ 1 := by norm_num
        _ ≤ 16 ^ (k + 1) := Nat.pow_le_pow_right (by decide) (by omega)
    have h16 : ¬ n < 16 := by omega
    have hdiv : 16 ^ k ≤ n / 16 := by
      rw [Nat.le_div_iff_mul_le (by decide)]
      calc 16 ^ k * 16 = 16 ^ (k + 1) := by rw [Nat.pow_succ]
        _ ≤ n := hn
    have hfuel : n / 16 < fuel := by omega
    have ih := formatHexUpperAux_length_ge k fuel (n / 16)
      (hexDigitUpper (n % 16) :: acc) hfuel hdiv
    simp only [formatHexUpperAux, h16, if_false]
    simp only [List.length_cons] at ih
    omega

/-- C40: the key text `decodeIRJson` writes is the one handed to `runJson`, and
for a 32-bit code the key with its terminating NUL fits the 10 bytes of
`objKey` exactly when the code is below `0x10000`; it takes up to 14 bytes. -/
theorem irObjKey_overflows_buffer (code : Nat) (w : World) (hc : code < 4294967296) :
    ((irObjKey code).length + 1 ≤ OBJKEY_SIZE ↔ code < 0x10000) ∧
    (irObjKey code).length + 1 ≤ 14 ∧
    decodeIRJson code w =
      (let r := runJson 13 textIrJson (irObjKey code) w
       match r.1 with
       | UiJsonActionResult.OK_REPEATABLE => { r.2 with lastValidCode := code }
       | UiJsonActionResult.ERR_NO_FILE =>
         { r.2 with lastValidCode := 0, errorFlag := ErrorFlag.ERR_FS_IRLOAD }
       | _ => { r.2 with lastValidCode := 0 }) := by
  have hlen : (irObjKey code).length = (formatHexUpper code).length + 5 := by
    simp [irObjKey]
  refine ⟨?_, ?_, ?_⟩
  · rw [hlen]
    unfold OBJKEY_SIZE formatHexUpper
    constructor
    · intro h
      by_contra hge
      have h2 := formatHexUpperAux_length_ge 4 (code + 1) code [] (by omega)
        (by norm_num; omega)
      simp only [List.length_nil] at h2
      omega
    · intro h
      have h2 := formatHexUpperAux_length_le 3 (code + 1) code [] (by omega)
        (by norm_num; omega)
      simp only [List.length_nil] at h2
      omega
  · rw [hlen]
    unfold formatHexUpper
    have h2 := formatHexUpperAux_length_le 7 (code + 1) code [] (by omega)
      (by norm_num; omega)
    simp only [List.length_nil] at h2
    omega
  · unfold decodeIRJson irObjKey
    simp only
    cases (runJson 13 textIrJson
      ([Char.ofNat 34, '0', 'x'] ++ formatHexUpper code ++ [Char.ofNat 34, ':']) w).1 <;>
      rfl

/-- Witness of C40: code `0xF7C03F`, a key code of 24 bits.  The key text takes
11 characters and 12 bytes with the NUL, two more than `objKey` has. -/
theorem irObjKey_overflows_buffer_witness :
    (irObjKey 0xF7C03F).length + 1 = 12 ∧
    ¬ ((irObjKey 0xF7C03F).length + 1 ≤ OBJKEY_SIZE) :=
  ⟨by decide, fun h =>
    absurd (((irObjKey_overflows_buffer 0xF7C03F bootWorld (by decide)).1).mp h)
      (by decide)⟩

/-- One call of `getNextColorInCycle` by the cursor alone. -/
theorem getNextColorInCycle_eq (w : World) :
    getNextColorInCycle w =
      (colorCycle.getD
          (if (w.colorCycleIndex + 1) % 256 ≥ 13 then 0
           else (w.colorCycleIndex + 1) % 256) 0,
        { w with
          colorCycleIndex :=
            if (w.colorCycleIndex + 1) % 256 ≥ 13 then 0
            else (w.colorCycleIndex + 1) % 256 }) := rfl

/-- Successive calls of `getNextColorInCycle` touch the cursor only, and the
colours and the new cursor depend on the old cursor only. -/
theorem colorCycleCalls_cursor :
    ∀ (n : Nat) (w : World),
      colorCycleCalls n w =
        ((colorCycleCalls n { bootWorld with colorCycleIndex := w.colorCycleIndex }).1,
          { w with
            colorCycleIndex :=
              (colorCycleCalls n
                { bootWorld with colorCycleIndex := w.colorCycleIndex }).2.colorCycleIndex })
  | 0, _ => rfl
  | n + 1, w => by
    have ih1 := colorCycleCalls_cursor n (getNextColorInCycle w).2
    have ih2 := colorCycleCalls_cursor n
      (getNextColorInCycle { bootWorld with colorCycleIndex := w.colorCycleIndex }).2
    simp only [colorCycleCalls]
    rw [ih1, ih2]
    rfl

/-- C35: for a cursor `i < 13`, `getNextColorInCycle` moves the cursor to
`(i + 1) mod 13`, returns the table entry there and touches nothing else; the
cursor after a call is below 13 whatever it was before; 13 calls in a row
return the 13 colours of the table, each once, and lead the cursor back to
`i`. -/
theorem color_cycle_wraps (w : World) (hi : w.colorCycleIndex < 13) :
    (getNextColorInCycle w).2 =
      { w with colorCycleIndex := (w.colorCycleIndex + 1) % 13 } ∧
    colorCycle[(w.colorCycleIndex + 1) % 13]? = some (getNextColorInCycle w).1 ∧
    (∀ w2 : World, (getNextColorInCycle w2).2.colorCycleIndex < 13) ∧
    (colorCycleCalls 13 w).1.Perm colorCycle ∧
    (colorCycleCalls 13 w).1.Nodup ∧
    (colorCycleCalls 13 w).2 = w := by
  have hcalls := colorCycleCalls_cursor 13 w
  have hcol : (colorCycleCalls 13 w).1 =
      (colorCycleCalls 13 { bootWorld with colorCycleIndex := w.colorCycleIndex }).1 := by
    rw [hcalls]
  have hcur : (colorCycleCalls 13
      { bootWorld with colorCycleIndex := w.colorCycleIndex }).2.colorCycleIndex =
      w.colorCycleIndex := by
    generalize w.colorCycleIndex = i at hi
    interval_cases i <;> rfl
  refine ⟨?_, ?_, ?_, ?_, ?_, ?_⟩
  · rw [getNextColorInCycle_eq]
    have e : (if (w.colorCycleIndex + 1) % 256 ≥ 13 then 0
        else (w.colorCycleIndex + 1) % 256) = (w.colorCycleIndex + 1) % 13 := by
      split_ifs <;> omega
    rw [e]
  · rw [getNextColorInCycle_eq]
    generalize w.colorCycleIndex = i at hi
    interval_cases i <;> rfl
  · intro w2
    rw [getNextColorInCycle_eq]
    simp only
    split_ifs <;> omega
  · rw [hcol]
    generalize w.colorCycleIndex = i at hi
    interval_cases i <;> decide
  · rw [hcol]
    generalize w.colorCycleIndex = i at hi
    interval_cases i <;> decide
  · rw [hcalls]
    simp only [hcur]

/-- Witness of C35: the world right after start-up with the cursor at 12, the
last index of the table; the next colour is the first of the table. -/
theorem color_cycle_wraps_witness :
    (getNextColorInCycle { bootWorld with colorCycleIndex := 12 }).2 =
      { bootWorld with colorCycleIndex := 0 } ∧
    (getNextColorInCycle { bootWorld with colorCycleIndex := 12 }).1 = COLOR_WHITE ∧
    (colorCycleCalls 13 { bootWorld with colorCycleIndex := 12 }).1 = colorCycle :=
  have h := color_cycle_wraps { bootWorld with colorCycleIndex := 12 } (by decide)
  ⟨h.1, by decide, by decide⟩

/-- C37: the colour temperature `setWhiteAndChangeCctRelative` hands on is the
main segment value plus the delta narrowed to `uint8_t`, so it wraps around: a
targeted CCT capable segment ends at 255 for the step down from 0 and at 0 for
the step up from 255. -/
theorem cct_relative_wraps_around (m_filter : SegmentsFilter) (c : Nat) (delta : Int)
    (w : World) (j : Nat) (seg mainSegment : Segment)
    (hn : w.strip.segments.length ≤ 255) (hm : w.strip.mainSegmentId ≤ 255)
    (hj : j ∈ targetSegments w.irApplyToAllSelected w.strip m_filter)
    (hseg : w.strip.segments[j]? = some seg) (hcap : seg.capabilities < 256)
    (hcct : GET_BIT seg.capabilities 2 = true)
    (hmain : w.strip.segments[w.strip.mainSegmentId]? = some mainSegment) :
    ∃ seg2,
      (setWhiteAndChangeCctRelative m_filter c delta w).strip.segments[j]? = some seg2 ∧
      seg2.cct = toUint8 ((mainSegment.cct : Int) + delta) ∧
      (mainSegment.cct = 0 → delta = -1 → seg2.cct = 255) ∧
      (mainSegment.cct = 255 → delta = 1 → seg2.cct = 0) := by
  have hval : (colorEffectAndPaletteStep c
      ((toUint8 ((mainSegment.cct : Int) + delta) : Nat) : Int)
      (FX_MODE_STATIC : Int) (-1) seg).cct =
      toUint8 ((mainSegment.cct : Int) + delta) := by
    rw [colorEffectAndPaletteStep_cct c _ _ _ seg hcap]
    have hlt : toUint8 ((mainSegment.cct : Int) + delta) < 256 := by
      unfold toUint8
      omega
    simp only [hcct, Int.natCast_nonneg, and_self, if_true, Int.toNat_ofNat]
    omega
  refine ⟨colorEffectAndPaletteStep c
    ((toUint8 ((mainSegment.cct : Int) + delta) : Nat) : Int)
    (FX_MODE_STATIC : Int) (-1) seg, ?_, hval, ?_, ?_⟩
  · unfold setWhiteAndChangeCctRelative changeColorStatic
    rw [hmain]
    simp only
    rw [changeColorEffectAndPalette_segments m_filter c _ _ (-1) w hn hm j,
      if_pos hj, hseg]
    rfl
  · intro h0 hd
    rw [hval, h0, hd]
    rfl
  · intro h0 hd
    rw [hval, h0, hd]
    rfl

/-- Witness of C37: `cctStrip`, whose one segment is at colour temperature 0,
and the delta -1. -/
theorem cct_relative_wraps_around_witness :
    ∃ seg2,
      (setWhiteAndChangeCctRelative SegmentsFilter.MAIN 0xFFFFFF (-1)
        { bootWorld with strip := cctStrip }).strip.segments[0]? = some seg2 ∧
      seg2.cct = 255 :=
  have h := cct_relative_wraps_around SegmentsFilter.MAIN 0xFFFFFF (-1)
    { bootWorld with strip := cctStrip } 0
    { active := true, selected := true, colors0 := 0xFF102030, cct := 0,
      capabilities := 0x07 }
    { active := true, selected := true, colors0 := 0xFF102030, cct := 0,
      capabilities := 0x07 }
    (by decide) (by decide) (by decide) (by decide) (by decide) (by decide) (by decide)
  h.imp fun _ hs => ⟨hs.1, hs.2.2.1 rfl rfl⟩

/-- C38: `whiteOff` leaves the white byte as it was on a segment with a white
channel and no RGB, and on an RGB segment whose RGB bytes are zero; with two
targeted segments the RGB bytes of the second become those of the first.  On a
segment with RGB bytes that are not zero the white byte becomes 0, and a white
level that is not zero is kept in `whiteLast`. -/
theorem whiteOff_keeps_white_without_rgb :
    ((whiteOff SegmentsFilter.MAIN
        { bootWorld with strip := whiteOnlyStrip }).strip.segments.map
          (fun seg => seg.colors0) = [0x80000000] ∧
      (whiteOff SegmentsFilter.MAIN
        { bootWorld with strip := whiteOnlyStrip }).whiteLast = 0x80) ∧
    ((whiteOff SegmentsFilter.MAIN
        { bootWorld with strip := blackWhiteStrip }).strip.segments.map
          (fun seg => seg.colors0) = [0x80000000]) ∧
    (twoWhiteWorld.strip.segments.map (fun seg => seg.colors0) =
        [0x11203040, 0x55607080] ∧
      (whiteOff SegmentsFilter.SELECTED twoWhiteWorld).strip.segments.map
        (fun seg => seg.colors0) = [0x00203040, 0x00203040] ∧
      (whiteOff SegmentsFilter.SELECTED twoWhiteWorld).whiteLast = 0x11) := by
  decide


/-! Infrared remote: the user-programmable mode -/

/-- Counterexample to C36 as stated: in `jsonRemoteWorld` the command of code
`0x1`, the request `FX=1`, is run with the result OK and is not repeatable, so
no code is remembered; the repeat sentinel that follows takes the buffer lock,
looks up the key of code `0x0` and runs its command, which raises the
brightness from 128 to 154. -/
theorem sentinel_looks_up_code_zero :
    (runJson 13 textIrJson (irObjKey 0x1)
      { jsonRemoteWorld with
        lastValidCode := 0, irTimesRepeated := 0,
        lastRepeatableAction := RepeatAction.ACTION_NONE }).1 =
      UiJsonActionResult.OK ∧
    (decodeIR exampleCodes plainConversion idleDecoders 0x1
      jsonRemoteWorld).lastValidCode = 0 ∧
    (decodeIR exampleCodes plainConversion idleDecoders 0x1 jsonRemoteWorld).ui.bri =
      128 ∧
    (decodeIR exampleCodes plainConversion idleDecoders 0xFFFFFFFF
      (decodeIR exampleCodes plainConversion idleDecoders 0x1
        jsonRemoteWorld)).ui.bri = 154 ∧
    newEvents (decodeIR exampleCodes plainConversion idleDecoders 0x1 jsonRemoteWorld)
      (decodeIR exampleCodes plainConversion idleDecoders 0xFFFFFFFF
        (decodeIR exampleCodes plainConversion idleDecoders 0x1 jsonRemoteWorld)) =
      [Event.lockAcquired 13, Event.lockReleased,
       Event.stateUpdated CallMode.button] := by
  decide

/-- The result of `runJson` when the key is not found: the lock was taken and
released and nothing else has changed but the clock. -/
theorem runJson_not_found (moduleID : Nat) (fileName objKey : Str) (w : World)
    (hl : w.jsonBufferLock = none)
    (hr : readObjectFromFile fileName objKey w = none) :
    ((runJson moduleID fileName objKey w).1 = UiJsonActionResult.ERR_NO_FILE ∨
      (runJson moduleID fileName objKey w).1 =
        UiJsonActionResult.ERR_CODE_NOT_IN_FILE) ∧
    (runJson moduleID fileName objKey w).2.ui = w.ui ∧
    (runJson moduleID fileName objKey w).2.strip = w.strip ∧
    (runJson moduleID fileName objKey w).2.trace =
      w.trace ++ [Event.lockAcquired moduleID, Event.lockReleased] := by
  obtain ⟨m, h1, h2⟩ := runJson_locked_world moduleID w hl
  have hr2 : ((List.lookup fileName w.files).bind fun file => List.lookup objKey file) =
      none := hr
  cases hf : (List.lookup fileName w.files).isSome with
  | false =>
    simp [runJson, h1, h2, readObjectFromFile, fileExists, hr2, hf,
      releaseJSONBufferLock]
  | true =>
    simp [runJson, h1, h2, readObjectFromFile, fileExists, hr2, hf,
      releaseJSONBufferLock]

/-- The code `decodeIRJson` remembers. -/
theorem decodeIRJson_lastValidCode (code : Nat) (w : World) :
    (decodeIRJson code w).lastValidCode =
      (if (runJson 13 textIrJson (irObjKey code) w).1 =
          UiJsonActionResult.OK_REPEATABLE then code else 0) := by
  unfold decodeIRJson irObjKey
  simp only
  generalize runJson 13 textIrJson
    ([Char.ofNat 34, '0', 'x'] ++ formatHexUpper code ++ [Char.ofNat 34, ':']) w = r
  obtain ⟨res, w2⟩ := r
  cases res <;> simp

/-- What `decodeIRJson` leaves when the key is not found and the lock is
free. -/
theorem decodeIRJson_not_found (code : Nat) (w : World)
    (hl : w.jsonBufferLock = none)
    (hr : readObjectFromFile textIrJson (irObjKey code) w = none) :
    (decodeIRJson code w).trace =
      w.trace ++ [Event.lockAcquired 13, Event.lockReleased] ∧
    (decodeIRJson code w).ui = w.ui ∧
    (decodeIRJson code w).strip = w.strip ∧
    (decodeIRJson code w).lastValidCode = 0 := by
  have h := runJson_not_found 13 textIrJson (irObjKey code) w hl hr
  unfold decodeIRJson
  simp only
  unfold irObjKey at h
  generalize runJson 13 textIrJson
    ([Char.ofNat 34, '0', 'x'] ++ formatHexUpper code ++ [Char.ofNat 34, ':']) w = r at h
  obtain ⟨res, w2⟩ := r
  rcases h with ⟨hres | hres, hui, hstrip, htrace⟩
  · simp only at hres hui hstrip htrace
    subst hres
    exact ⟨htrace, hui, hstrip, rfl⟩
  · simp only at hres hui hstrip htrace
    subst hres
    exact ⟨htrace, hui, hstrip, rfl⟩

/-- What `decodeIRJson` does to the lights and the log is what `runJson` does
for the file `/ir.json` and the key of the code. -/
theorem decodeIRJson_runs (code : Nat) (w : World) :
    (decodeIRJson code w).ui = (runJson 13 textIrJson (irObjKey code) w).2.ui ∧
    (decodeIRJson code w).strip = (runJson 13 textIrJson (irObjKey code) w).2.strip ∧
    (decodeIRJson code w).trace = (runJson 13 textIrJson (irObjKey code) w).2.trace := by
  unfold decodeIRJson irObjKey
  simp only
  generalize runJson 13 textIrJson
    ([Char.ofNat 34, '0', 'x'] ++ formatHexUpper code ++ [Char.ofNat 34, ':']) w = r
  obtain ⟨res, w2⟩ := r
  cases res <;> exact ⟨rfl, rfl, rfl⟩

/-- C36, amended: in the user-programmable mode a code other than the sentinel
is remembered exactly when `runJson` returned OK_REPEATABLE, and 0 is
remembered otherwise.  The repeat sentinel always runs `decodeIRJson` with the
remembered code, whatever the last result was: what it does to the lights and
the log is what `runJson` does for `/ir.json` and the key of the remembered
code, which is the key of code 0 when nothing is remembered.  With 0
remembered, the lock free and no entry for the key of code 0 in the file, it
takes and releases the buffer lock and leaves the globals of the action engine
and the strip as they were.  An entry for the key of code 0 does not mean that
a command is run: in `jsonNoActionWorld` the entry is found and the sentinel
changes nothing but the log of the lock. -/
theorem json_mode_repeat (codes : IrCodes) (conv : ColorConversion)
    (decoders : Decoders) (w : World) (hmode : w.irEnabled = 8) :
    (∀ code : Nat, code ≠ 0xFFFFFFFF →
      (decodeIR codes conv decoders code w).lastValidCode =
        (if (runJson 13 textIrJson (irObjKey code)
              { w with lastValidCode := 0, irTimesRepeated := 0,
                       lastRepeatableAction := RepeatAction.ACTION_NONE }).1 =
            UiJsonActionResult.OK_REPEATABLE then code else 0)) ∧
    decodeIR codes conv decoders 0xFFFFFFFF w =
      decodeIRJson w.lastValidCode
        { w with irTimesRepeated := (w.irTimesRepeated + 1) % 65536 } ∧
    (w.lastValidCode = 0 → w.jsonBufferLock = none →
      readObjectFromFile textIrJson (irObjKey 0) w = none →
      (decodeIR codes conv decoders 0xFFFFFFFF w).trace =
        w.trace ++ [Event.lockAcquired 13, Event.lockReleased] ∧
      (decodeIR codes conv decoders 0xFFFFFFFF w).ui = w.ui ∧
      (decodeIR codes conv decoders 0xFFFFFFFF w).strip = w.strip ∧
      (decodeIR codes conv decoders 0xFFFFFFFF w).lastValidCode = 0) ∧
    ((decodeIR codes conv decoders 0xFFFFFFFF w).ui =
        (runJson 13 textIrJson (irObjKey w.lastValidCode)
          { w with irTimesRepeated := (w.irTimesRepeated + 1) % 65536 }).2.ui ∧
      (decodeIR codes conv decoders 0xFFFFFFFF w).strip =
        (runJson 13 textIrJson (irObjKey w.lastValidCode)
          { w with irTimesRepeated := (w.irTimesRepeated + 1) % 65536 }).2.strip ∧
      (decodeIR codes conv decoders 0xFFFFFFFF w).trace =
        (runJson 13 textIrJson (irObjKey w.lastValidCode)
          { w with irTimesRepeated := (w.irTimesRepeated + 1) % 65536 }).2.trace) ∧
    (readObjectFromFile textIrJson (irObjKey 0) jsonNoActionWorld =
        some (textEntry "!bogus".toList) ∧
      (decodeIR codes conv decoders 0xFFFFFFFF jsonNoActionWorld).ui =
        jsonNoActionWorld.ui ∧
      (decodeIR codes conv decoders 0xFFFFFFFF jsonNoActionWorld).strip =
        jsonNoActionWorld.strip ∧
      (decodeIR codes conv decoders 0xFFFFFFFF jsonNoActionWorld).trace =
        [Event.lockAcquired 13, Event.lockReleased]) := by
  have hsent : decodeIR codes conv decoders 0xFFFFFFFF w =
      decodeIRJson w.lastValidCode
        { w with irTimesRepeated := (w.irTimesRepeated + 1) % 65536 } := by
    unfold decodeIR
    rw [if_pos rfl]
    unfold applyRepeatActions
    exact if_pos hmode
  have hbogus : decodeIR codes conv decoders 0xFFFFFFFF jsonNoActionWorld =
      decodeIRJson 0 { jsonNoActionWorld with irTimesRepeated := 1 } := by
    unfold decodeIR
    rw [if_pos rfl]
    unfold applyRepeatActions
    exact if_pos rfl
  refine ⟨?_, hsent, ?_, ?_, ?_⟩
  · intro code hcode
    have hnew : decodeIR codes conv decoders code w =
        decodeIRJson code
          { w with lastValidCode := 0, irTimesRepeated := 0,
                   lastRepeatableAction := RepeatAction.ACTION_NONE } := by
      unfold decodeIR
      rw [if_neg hcode]
      exact if_pos hmode
    rw [hnew, decodeIRJson_lastValidCode]
  · intro h0 hl hr
    have e : decodeIR codes conv decoders 0xFFFFFFFF w =
        decodeIRJson 0
          { w with irTimesRepeated := (w.irTimesRepeated + 1) % 65536 } := by
      rw [hsent]
      exact congrArg (fun c => decodeIRJson c
        { w with irTimesRepeated := (w.irTimesRepeated + 1) % 65536 }) h0
    rw [e]
    exact decodeIRJson_not_found 0
      { w with irTimesRepeated := (w.irTimesRepeated + 1) % 65536 } hl hr
  · rw [hsent]
    exact decodeIRJson_runs w.lastValidCode
      { w with irTimesRepeated := (w.irTimesRepeated + 1) % 65536 }
  · rw [hbogus]
    decide

/-- Witness of C36, amended: the world right after start-up, put in the
user-programmable mode, with no command file. -/
theorem json_mode_repeat_witness :
    (decodeIR exampleCodes plainConversion idleDecoders 0xFFFFFFFF
      { bootWorld with irEnabled := 8 }).trace =
      [Event.lockAcquired 13, Event.lockReleased] ∧
    (decodeIR exampleCodes plainConversion idleDecoders 0xFFFFFFFF
      { bootWorld with irEnabled := 8 }).ui = bootWorld.ui :=
  have h := (json_mode_repeat exampleCodes plainConversion idleDecoders
    { bootWorld with irEnabled := 8 } rfl).2.2.1 rfl rfl rfl
  ⟨h.1, h.2.1⟩


/-! Infrared remote: the per-remote decoders -/

/-- A code that is no `case` of the table runs into `default: return;`. -/
theorem irSwitch_unmapped (table : List (Nat × (World → World))) (code : Nat)
    (w : World) (h : code ∉ table.map Prod.fst) : irSwitch table code w = w := by
  have hl : table.lookup code = none := by
    induction table with
    | nil => rfl
    | cons entry rest ih =>
      obtain ⟨key, action⟩ := entry
      simp only [List.map_cons, List.mem_cons, not_or] at h
      have hne : (code == key) = false := by
        simpa using h.1
      simp only [List.lookup, hne]
      exact ih h.2
  simp only [irSwitch, hl]

/-- A code that is the first `case` with its key runs the action of that case
and is recorded as the last valid code. -/
theorem irSwitch_mapped (front : List (Nat × (World → World))) (key : Nat)
    (action : World → World) (rest : List (Nat × (World → World))) (w : World)
    (h : key ∉ front.map Prod.fst) :
    irSwitch (front ++ (key, action) :: rest) key w =
      { action w with lastValidCode := key } := by
  have hl : (front ++ (key, action) :: rest).lookup key = some action := by
    induction front with
    | nil => simp [List.lookup]
    | cons entry front ih =>
      obtain ⟨key2, action2⟩ := entry
      simp only [List.map_cons, List.mem_cons, not_or] at h
      have hne : (key == key2) = false := by
        simpa using h.1
      simp only [List.cons_append, List.lookup, hne]
      exact ih h.2
  simp only [irSwitch, hl]

/-- In a fixed-layout mode a code of at most 24 bits is handed to the decoder
of the family, after the reset of the repeat memory. -/
theorem decodeIR_fixed_layout (codes : IrCodeTables) (fx : FxModes)
    (conv : ColorConversion) (code : Nat) (w : World)
    (hcode : code ≠ 0xFFFFFFFF) (hmode : w.irEnabled ≠ 8) (h24 : ¬ code > 0xFFFFFF) :
    decodeIR codes.toIrCodes conv (irDecoders codes fx conv) code w =
      irSwitch (familyTable codes fx conv w.irEnabled code) code
        (resetRepeatMemory w) := by
  have key : ∀ n : Nat, n ≠ 8 →
      (match n with
        | 1 =>
          if code > 0xF80000 then
            (irDecoders codes fx conv).decodeIR24OLD code (resetRepeatMemory w)
          else (irDecoders codes fx conv).decodeIR24 code (resetRepeatMemory w)
        | 2 => (irDecoders codes fx conv).decodeIR24CT code (resetRepeatMemory w)
        | 3 => (irDecoders codes fx conv).decodeIR40 code (resetRepeatMemory w)
        | 4 => (irDecoders codes fx conv).decodeIR44 code (resetRepeatMemory w)
        | 5 => (irDecoders codes fx conv).decodeIR21 code (resetRepeatMemory w)
        | 6 => (irDecoders codes fx conv).decodeIR6 code (resetRepeatMemory w)
        | 7 => (irDecoders codes fx conv).decodeIR9 code (resetRepeatMemory w)
        | _ => resetRepeatMemory w) =
      irSwitch (familyTable codes fx conv n code) code (resetRepeatMemory w) := by
    intro n hn
    match n, hn with
    | 0, _ => rfl
    | 1, _ =>
      simp only [familyTable, irDecoders, decodeIR24OLD, decodeIR24]
      split <;> rfl
    | 2, _ => rfl
    | 3, _ => rfl
    | 4, _ => rfl
    | 5, _ => rfl
    | 6, _ => rfl
    | 7, _ => rfl
    | 8, h => exact absurd rfl h
    | n + 9, _ => rfl
  unfold decodeIR
  rw [if_neg hcode]
  have h8 : ¬ (resetRepeatMemory w).irEnabled = 8 := hmode
  have e := key w.irEnabled hmode
  simp only [resetRepeatMemory] at h8 e ⊢
  rw [if_neg h8, if_neg h24]
  exact e

/-- C32: for a code other than the repeat sentinel, in every mode other than
the user-programmable mode 8, a code above `0xFFFFFF` and a code that is no
`case` of the table of the selected family leave nothing but the reset of the
repeat memory: no action is called, the globals of the action engine, the
strip and the log are as before and the last valid code is 0.  In mode 8 every
such code, also one above 24 bits, is handed to `decodeIRJson` and nothing
else is done. -/
theorem oversized_unmapped_discarded (codes : IrCodeTables) (fx : FxModes)
    (conv : ColorConversion) (code : Nat) (w : World) (hcode : code ≠ 0xFFFFFFFF) :
    (w.irEnabled ≠ 8 → code > 0xFFFFFF →
      decodeIR codes.toIrCodes conv (irDecoders codes fx conv) code w =
        resetRepeatMemory w) ∧
    (w.irEnabled ≠ 8 →
      code ∉ (familyTable codes fx conv w.irEnabled code).map Prod.fst →
      decodeIR codes.toIrCodes conv (irDecoders codes fx conv) code w =
        resetRepeatMemory w) ∧
    ((resetRepeatMemory w).lastValidCode = 0 ∧ (resetRepeatMemory w).ui = w.ui ∧
      (resetRepeatMemory w).strip = w.strip ∧ (resetRepeatMemory w).trace = w.trace) ∧
    (w.irEnabled = 8 →
      decodeIR codes.toIrCodes conv (irDecoders codes fx conv) code w =
        decodeIRJson code (resetRepeatMemory w)) := by
  refine ⟨fun hmode hbig => ?_, fun hmode hkey => ?_, ⟨rfl, rfl, rfl, rfl⟩,
    fun hmode => ?_⟩
  · unfold decodeIR
    rw [if_neg hcode]
    have h8 : ¬ (resetRepeatMemory w).irEnabled = 8 := hmode
    simp only [resetRepeatMemory] at h8 ⊢
    rw [if_neg h8, if_pos hbig]
  · by_cases hbig : code > 0xFFFFFF
    · unfold decodeIR
      rw [if_neg hcode]
      have h8 : ¬ (resetRepeatMemory w).irEnabled = 8 := hmode
      simp only [resetRepeatMemory] at h8 ⊢
      rw [if_neg h8, if_pos hbig]
    · rw [decodeIR_fixed_layout codes fx conv code w hcode hmode hbig]
      exact irSwitch_unmapped _ code _ hkey
  · unfold decodeIR
    rw [if_neg hcode]
    exact if_pos hmode

/-- Witness of C32: the world in the mode of the 24-key remote and the code
`0xF70001`, which is no key of the example table. -/
theorem oversized_unmapped_discarded_witness :
    decodeIR exampleTables.toIrCodes plainConversion
      (irDecoders exampleTables exampleFx plainConversion) 0xF70001 remoteWorld =
      resetRepeatMemory remoteWorld :=
  (oversized_unmapped_discarded exampleTables exampleFx plainConversion 0xF70001
    remoteWorld (by decide)).2.1 (by decide) (by decide)

/-- With the power-on key of the 24-key or 40-key remote as the last valid code
and no repeatable action recorded, in a fixed-layout mode, the repeated-code
branch calls `nightlightStart` exactly when the repeat counter is above 7. -/
theorem applyRepeatActions_power_key (codes : IrCodes) (conv : ColorConversion)
    (w : World) (hmode : w.irEnabled ≠ 8)
    (htag : w.lastRepeatableAction = RepeatAction.ACTION_NONE)
    (hkey : w.lastValidCode = codes.IR24_ON ∨ w.lastValidCode = codes.IR40_ON)
    (hplus : w.lastValidCode ≠ codes.IR40_WPLUS)
    (hminus : w.lastValidCode ≠ codes.IR40_WMINUS) :
    applyRepeatActions codes conv w =
      if 7 < w.irTimesRepeated then nightlightStart w else w := by
  unfold applyRepeatActions
  rw [if_neg hmode, htag]
  simp only []
  rw [if_neg hplus, if_neg hminus]
  have hk : (decide (w.lastValidCode = codes.IR24_ON) ||
      decide (w.lastValidCode = codes.IR40_ON)) = true := by
    rcases hkey with h | h
    · exact (Bool.or_eq_true _ _).mpr (Or.inl (decide_eq_true h))
    · exact (Bool.or_eq_true _ _).mpr (Or.inr (decide_eq_true h))
  rw [hk]
  by_cases hc : 7 < w.irTimesRepeated
  · simp [hc]
  · simp [hc]

/-- The repeat sentinel after the power-on key: it counts the repeat and calls
`nightlightStart` exactly when the new count is above 7. -/
theorem decodeIR_sentinel_power_key (codes : IrCodes) (conv : ColorConversion)
    (decoders : Decoders) (w : World) (hmode : w.irEnabled ≠ 8)
    (htag : w.lastRepeatableAction = RepeatAction.ACTION_NONE)
    (hkey : w.lastValidCode = codes.IR24_ON ∨ w.lastValidCode = codes.IR40_ON)
    (hplus : w.lastValidCode ≠ codes.IR40_WPLUS)
    (hminus : w.lastValidCode ≠ codes.IR40_WMINUS) :
    decodeIR codes conv decoders 0xFFFFFFFF w =
      if 7 < (w.irTimesRepeated + 1) % 65536 then
        nightlightStart { w with irTimesRepeated := (w.irTimesRepeated + 1) % 65536 }
      else { w with irTimesRepeated := (w.irTimesRepeated + 1) % 65536 } := by
  unfold decodeIR
  rw [if_pos rfl]
  exact applyRepeatActions_power_key codes conv
    { w with irTimesRepeated := (w.irTimesRepeated + 1) % 65536 } hmode htag hkey hplus
    hminus

/-- The start of the nightlight leaves the repeat memory alone. -/
theorem repeatMemory_nightlightStart (w : World) :
    repeatMemory (nightlightStart w) = repeatMemory w := rfl

/-- The repeat memory after a number of repeat sentinels in a row, with the
power-on key as the last valid code and no repeatable action recorded. -/
theorem repeatSentinels_memory (codes : IrCodes) (conv : ColorConversion)
    (decoders : Decoders) (w : World) (hmode : w.irEnabled ≠ 8)
    (htag : w.lastRepeatableAction = RepeatAction.ACTION_NONE)
    (hkey : w.lastValidCode = codes.IR24_ON ∨ w.lastValidCode = codes.IR40_ON)
    (hplus : w.lastValidCode ≠ codes.IR40_WPLUS)
    (hminus : w.lastValidCode ≠ codes.IR40_WMINUS)
    (hc : w.irTimesRepeated < 65536) :
    ∀ k : Nat,
      repeatMemory (repeatSentinels codes conv decoders k w) =
        (w.lastValidCode, RepeatAction.ACTION_NONE, (w.irTimesRepeated + k) % 65536,
          w.irEnabled)
  | 0 => by
    simp only [repeatSentinels, repeatMemory, htag, Nat.add_zero]
    rw [Nat.mod_eq_of_lt hc]
  | k + 1 => by
    have ih := repeatSentinels_memory codes conv decoders w hmode htag hkey hplus hminus
      hc k
    have e1 : (repeatSentinels codes conv decoders k w).lastValidCode =
        w.lastValidCode := congrArg (fun m => m.1) ih
    have e2 : (repeatSentinels codes conv decoders k w).lastRepeatableAction =
        RepeatAction.ACTION_NONE := congrArg (fun m => m.2.1) ih
    have e3 : (repeatSentinels codes conv decoders k w).irTimesRepeated =
        (w.irTimesRepeated + k) % 65536 := congrArg (fun m => m.2.2.1) ih
    have e4 : (repeatSentinels codes conv decoders k w).irEnabled = w.irEnabled :=
      congrArg (fun m => m.2.2.2) ih
    have hs := decodeIR_sentinel_power_key codes conv decoders
      (repeatSentinels codes conv decoders k w) (by rw [e4]; exact hmode) e2
      (by rw [e1]; exact hkey) (by rw [e1]; exact hplus) (by rw [e1]; exact hminus)
    have hmem : repeatMemory (decodeIR codes conv decoders 0xFFFFFFFF
        (repeatSentinels codes conv decoders k w)) =
        ((repeatSentinels codes conv decoders k w).lastValidCode,
          (repeatSentinels codes conv decoders k w).lastRepeatableAction,
          ((repeatSentinels codes conv decoders k w).irTimesRepeated + 1) % 65536,
          (repeatSentinels codes conv decoders k w).irEnabled) := by
      rw [hs]
      split
      · rw [repeatMemory_nightlightStart]
        rfl
      · rfl
    simp only [repeatSentinels]
    rw [hmem, e1, e2, e3, e4, Nat.mod_add_mod]
    rfl

/-- The sentinel number `k + 1` after the power-on key: the world it leaves, by
the count `(k + 1) % 65536`. -/
theorem repeatSentinels_step (codes : IrCodes) (conv : ColorConversion)
    (decoders : Decoders) (w : World) (hmode : w.irEnabled ≠ 8)
    (htag : w.lastRepeatableAction = RepeatAction.ACTION_NONE)
    (hkey : w.lastValidCode = codes.IR24_ON ∨ w.lastValidCode = codes.IR40_ON)
    (hplus : w.lastValidCode ≠ codes.IR40_WPLUS)
    (hminus : w.lastValidCode ≠ codes.IR40_WMINUS)
    (hc : w.irTimesRepeated = 0) (k : Nat) :
    decodeIR codes conv decoders 0xFFFFFFFF (repeatSentinels codes conv decoders k w) =
      if 7 < (k + 1) % 65536 then
        nightlightStart { repeatSentinels codes conv decoders k w with
          irTimesRepeated := (k + 1) % 65536 }
      else { repeatSentinels codes conv decoders k w with
        irTimesRepeated := (k + 1) % 65536 } := by
  have ih := repeatSentinels_memory codes conv decoders w hmode htag hkey hplus hminus
    (by rw [hc]; decide) k
  have e1 : (repeatSentinels codes conv decoders k w).lastValidCode =
      w.lastValidCode := congrArg (fun m => m.1) ih
  have e2 : (repeatSentinels codes conv decoders k w).lastRepeatableAction =
      RepeatAction.ACTION_NONE := congrArg (fun m => m.2.1) ih
  have e3 : (repeatSentinels codes conv decoders k w).irTimesRepeated =
      (w.irTimesRepeated + k) % 65536 := congrArg (fun m => m.2.2.1) ih
  have e4 : (repeatSentinels codes conv decoders k w).irEnabled = w.irEnabled :=
    congrArg (fun m => m.2.2.2) ih
  have hs := decodeIR_sentinel_power_key codes conv decoders
    (repeatSentinels codes conv decoders k w) (by rw [e4]; exact hmode) e2
    (by rw [e1]; exact hkey) (by rw [e1]; exact hplus) (by rw [e1]; exact hminus)
  have hcount : ((repeatSentinels codes conv decoders k w).irTimesRepeated + 1) % 65536 =
      (k + 1) % 65536 := by
    rw [e3, hc, Nat.zero_add, Nat.mod_add_mod]
  rw [hs]
  generalize repeatSentinels codes conv decoders k w = before at hcount ⊢
  rw [hcount]

/-- The world `decodeIR` leaves for the power-on key of the 24-key remote in
mode 1, or of the 40-key remote in mode 3. -/
theorem decodeIR_power_key (codes : IrCodeTables) (fx : FxModes)
    (conv : ColorConversion) (code : Nat) (w : World)
    (hkey : (w.irEnabled = 1 ∧ code = codes.IR24_ON ∧ code ≤ 0xF80000 ∧
        code ∉ [codes.ir24.IR24_BRIGHTER, codes.ir24.IR24_DARKER,
          codes.ir24.IR24_OFF]) ∨
      (w.irEnabled = 3 ∧ code = codes.IR40_ON ∧ code ≤ 0xFFFFFF ∧
        code ∉ [codes.ir40.IR40_BPLUS, codes.ir40.IR40_BMINUS, codes.ir40.IR40_OFF])) :
    decodeIR codes.toIrCodes conv (irDecoders codes fx conv) code w =
      { callAction (fun s => (turnOn s).2) (resetRepeatMemory w) with
        lastValidCode := code } := by
  rcases hkey with ⟨hm, hk, hle, hfront⟩ | ⟨hm, hk, hle, hfront⟩
  · rw [decodeIR_fixed_layout codes fx conv code w (by omega) (by omega) (by omega), hm]
    have ht : familyTable codes fx conv 1 code = decodeIR24Table codes fx conv := by
      simp only [familyTable]
      rw [if_neg (by omega)]
    rw [ht]
    subst hk
    exact irSwitch_mapped
      [(codes.ir24.IR24_BRIGHTER, Ir.incBrightness),
        (codes.ir24.IR24_DARKER, Ir.decBrightness),
        (codes.ir24.IR24_OFF, callAction (fun s => (turnOff s).2))]
      codes.IR24_ON _ _ (resetRepeatMemory w) hfront
  · rw [decodeIR_fixed_layout codes fx conv code w (by omega) (by omega) (by omega), hm]
    subst hk
    exact irSwitch_mapped
      [(codes.ir40.IR40_BPLUS, Ir.incBrightness),
        (codes.ir40.IR40_BMINUS, Ir.decBrightness),
        (codes.ir40.IR40_OFF, callAction (fun s => (turnOff s).2))]
      codes.IR40_ON _ _ (resetRepeatMemory w) hfront

/-- C31, counterexample: the repeat counter is a `uint16_t`.  After the
power-on key of the 24-key remote, the sentinel number 65536 takes the counter
from 65535 back to 0 and triggers nothing: the action state and the log of
collaborator calls stay as the sentinel before left them, although 65536 is
above 7. -/
theorem long_press_counter_wraps :
    repeatMemory
        (decodeIR exampleTables.toIrCodes plainConversion
          (irDecoders exampleTables exampleFx plainConversion) 0xF7C03F remoteWorld) =
      (exampleTables.IR24_ON, RepeatAction.ACTION_NONE, 0, 1) ∧
    decodeIR exampleTables.toIrCodes plainConversion
        (irDecoders exampleTables exampleFx plainConversion) 0xFFFFFFFF
        (repeatSentinels exampleTables.toIrCodes plainConversion
          (irDecoders exampleTables exampleFx plainConversion) 65535
          (decodeIR exampleTables.toIrCodes plainConversion
            (irDecoders exampleTables exampleFx plainConversion) 0xF7C03F remoteWorld)) =
      { repeatSentinels exampleTables.toIrCodes plainConversion
          (irDecoders exampleTables exampleFx plainConversion) 65535
          (decodeIR exampleTables.toIrCodes plainConversion
            (irDecoders exampleTables exampleFx plainConversion) 0xF7C03F remoteWorld)
        with irTimesRepeated := 0 } := by
  have hmem : repeatMemory
      (decodeIR exampleTables.toIrCodes plainConversion
        (irDecoders exampleTables exampleFx plainConversion) 0xF7C03F remoteWorld) =
      (exampleTables.IR24_ON, RepeatAction.ACTION_NONE, 0, 1) := by decide
  refine ⟨hmem, ?_⟩
  have e1 : (decodeIR exampleTables.toIrCodes plainConversion
      (irDecoders exampleTables exampleFx plainConversion) 0xF7C03F
      remoteWorld).lastValidCode = exampleTables.IR24_ON := congrArg (fun m => m.1) hmem
  have e2 : (decodeIR exampleTables.toIrCodes plainConversion
      (irDecoders exampleTables exampleFx plainConversion) 0xF7C03F
      remoteWorld).lastRepeatableAction = RepeatAction.ACTION_NONE :=
    congrArg (fun m => m.2.1) hmem
  have e3 : (decodeIR exampleTables.toIrCodes plainConversion
      (irDecoders exampleTables exampleFx plainConversion) 0xF7C03F
      remoteWorld).irTimesRepeated = 0 := congrArg (fun m => m.2.2.1) hmem
  have e4 : (decodeIR exampleTables.toIrCodes plainConversion
      (irDecoders exampleTables exampleFx plainConversion) 0xF7C03F
      remoteWorld).irEnabled = 1 := congrArg (fun m => m.2.2.2) hmem
  have hs := repeatSentinels_step exampleTables.toIrCodes plainConversion
    (irDecoders exampleTables exampleFx plainConversion)
    (decodeIR exampleTables.toIrCodes plainConversion
      (irDecoders exampleTables exampleFx plainConversion) 0xF7C03F remoteWorld)
    (by rw [e4]; decide) e2 (Or.inl e1)
    (by rw [e1]; decide) (by rw [e1]; decide) e3 65535
  rw [hs]
  rfl

/-- C31, amended: in mode 1 the power-on key of the 24-key remote, and in
mode 3 the power-on key of the 40-key remote, is decoded to `turnOn` and
leaves the key as the last valid code, no repeatable action and the counter 0.
The sentinel number `k + 1` after it sets the 16-bit counter to
`(k + 1) % 65536`; it calls `nightlightStart` when that count is above 7 and
does nothing else otherwise.  `nightlightStart` raises one notification, so up
to sentinel 65535 the sentinel number `k + 1` raises a notification exactly
when `k + 1 > 7`, and the sentinels 1 to 7 change nothing but the counter. -/
theorem long_press_escalation (codes : IrCodeTables) (fx : FxModes)
    (conv : ColorConversion) (code : Nat) (w : World)
    (hkey : (w.irEnabled = 1 ∧ code = codes.IR24_ON ∧ code ≤ 0xF80000 ∧
        code ∉ [codes.ir24.IR24_BRIGHTER, codes.ir24.IR24_DARKER,
          codes.ir24.IR24_OFF]) ∨
      (w.irEnabled = 3 ∧ code = codes.IR40_ON ∧ code ≤ 0xFFFFFF ∧
        code ∉ [codes.ir40.IR40_BPLUS, codes.ir40.IR40_BMINUS, codes.ir40.IR40_OFF]))
    (hplus : code ≠ codes.IR40_WPLUS) (hminus : code ≠ codes.IR40_WMINUS) :
    decodeIR codes.toIrCodes conv (irDecoders codes fx conv) code w =
      { callAction (fun s => (turnOn s).2) (resetRepeatMemory w) with
        lastValidCode := code } ∧
    repeatMemory (decodeIR codes.toIrCodes conv (irDecoders codes fx conv) code w) =
      (code, RepeatAction.ACTION_NONE, 0, w.irEnabled) ∧
    (∀ k : Nat,
      decodeIR codes.toIrCodes conv (irDecoders codes fx conv) 0xFFFFFFFF
          (repeatSentinels codes.toIrCodes conv (irDecoders codes fx conv) k
            (decodeIR codes.toIrCodes conv (irDecoders codes fx conv) code w)) =
        if 7 < (k + 1) % 65536 then
          nightlightStart
            { repeatSentinels codes.toIrCodes conv (irDecoders codes fx conv) k
                (decodeIR codes.toIrCodes conv (irDecoders codes fx conv) code w) with
              irTimesRepeated := (k + 1) % 65536 }
        else
          { repeatSentinels codes.toIrCodes conv (irDecoders codes fx conv) k
              (decodeIR codes.toIrCodes conv (irDecoders codes fx conv) code w) with
            irTimesRepeated := (k + 1) % 65536 }) ∧
    (∀ k : Nat, k + 1 ≤ 65535 →
      ((decodeIR codes.toIrCodes conv (irDecoders codes fx conv) 0xFFFFFFFF
          (repeatSentinels codes.toIrCodes conv (irDecoders codes fx conv) k
            (decodeIR codes.toIrCodes conv (irDecoders codes fx conv) code
              w))).ui.notifications =
        CallMode.button ::
          (repeatSentinels codes.toIrCodes conv (irDecoders codes fx conv) k
            (decodeIR codes.toIrCodes conv (irDecoders codes fx conv) code
              w)).ui.notifications ↔ 7 < k + 1)) ∧
    (∀ k : Nat, k + 1 ≤ 7 →
      decodeIR codes.toIrCodes conv (irDecoders codes fx conv) 0xFFFFFFFF
          (repeatSentinels codes.toIrCodes conv (irDecoders codes fx conv) k
            (decodeIR codes.toIrCodes conv (irDecoders codes fx conv) code w)) =
        { repeatSentinels codes.toIrCodes conv (irDecoders codes fx conv) k
            (decodeIR codes.toIrCodes conv (irDecoders codes fx conv) code w) with
          irTimesRepeated := k + 1 }) ∧
    (∀ x : World,
      (nightlightStart x).ui =
          stateUpdated CallMode.button { x.ui with nightlightActive := true } ∧
        (nightlightStart x).nightlightStartTime = x.millis ∧
        (nightlightStart x).trace = x.trace ++ [Event.stateUpdated CallMode.button]) := by
  have hdec := decodeIR_power_key codes fx conv code w hkey
  have hmode : w.irEnabled ≠ 8 := by
    rcases hkey with h | h <;> omega
  have hcodes : code = codes.IR24_ON ∨ code = codes.IR40_ON := by
    rcases hkey with h | h
    · exact Or.inl h.2.1
    · exact Or.inr h.2.1
  have hmem : repeatMemory
      (decodeIR codes.toIrCodes conv (irDecoders codes fx conv) code w) =
      (code, RepeatAction.ACTION_NONE, 0, w.irEnabled) := by
    rw [hdec]
    rfl
  have e1 : (decodeIR codes.toIrCodes conv (irDecoders codes fx conv) code
      w).lastValidCode = code := congrArg (fun m => m.1) hmem
  have e2 : (decodeIR codes.toIrCodes conv (irDecoders codes fx conv) code
      w).lastRepeatableAction = RepeatAction.ACTION_NONE :=
    congrArg (fun m => m.2.1) hmem
  have e3 : (decodeIR codes.toIrCodes conv (irDecoders codes fx conv) code
      w).irTimesRepeated = 0 := congrArg (fun m => m.2.2.1) hmem
  have e4 : (decodeIR codes.toIrCodes conv (irDecoders codes fx conv) code
      w).irEnabled = w.irEnabled := congrArg (fun m => m.2.2.2) hmem
  have hstep := repeatSentinels_step codes.toIrCodes conv (irDecoders codes fx conv)
    (decodeIR codes.toIrCodes conv (irDecoders codes fx conv) code w)
    (by rw [e4]; exact hmode) e2 (by rw [e1]; exact hcodes)
    (by rw [e1]; exact hplus) (by rw [e1]; exact hminus) e3
  refine ⟨hdec, hmem, hstep, ?_, ?_, ?_⟩
  · intro k hk
    rw [hstep k, Nat.mod_eq_of_lt (by omega)]
    by_cases h7 : 7 < k + 1
    · rw [if_pos h7]
      exact ⟨fun _ => h7, fun _ => rfl⟩
    · rw [if_neg h7]
      constructor
      · intro h
        exact absurd h.symm (List.cons_ne_self _ _)
      · intro h
        exact absurd h h7
  · intro k hk
    rw [hstep k, Nat.mod_eq_of_lt (by omega), if_neg (by omega)]
  · intro x
    refine ⟨rfl, rfl, ?_⟩
    simp [nightlightStart, callAction, doUpdate, raised, stateUpdated]

/-- Witness of C31: the power-on key `0xF7C03F` of the
24-key remote in mode 1. -/
theorem long_press_escalation_witness :
    ((remoteWorld.irEnabled = 1 ∧ 0xF7C03F = exampleTables.IR24_ON ∧
        0xF7C03F ≤ 0xF80000 ∧
        0xF7C03F ∉ [exampleTables.ir24.IR24_BRIGHTER, exampleTables.ir24.IR24_DARKER,
          exampleTables.ir24.IR24_OFF]) ∨
      (remoteWorld.irEnabled = 3 ∧ 0xF7C03F = exampleTables.IR40_ON ∧
        0xF7C03F ≤ 0xFFFFFF ∧
        0xF7C03F ∉ [exampleTables.ir40.IR40_BPLUS, exampleTables.ir40.IR40_BMINUS,
          exampleTables.ir40.IR40_OFF])) ∧
    0xF7C03F ≠ exampleTables.IR40_WPLUS ∧ 0xF7C03F ≠ exampleTables.IR40_WMINUS ∧
    repeatMemory
        (decodeIR exampleTables.toIrCodes plainConversion
          (irDecoders exampleTables exampleFx plainConversion) 0xF7C03F remoteWorld) =
      (0xF7C03F, RepeatAction.ACTION_NONE, 0, remoteWorld.irEnabled) :=
  ⟨by decide, by decide, by decide,
    (long_press_escalation exampleTables exampleFx plainConversion 0xF7C03F remoteWorld
      (by decide) (by decide) (by decide)).2.1⟩


/-! Transports: infrared receiver, ESP-NOW and RF433 -/

/-- C33, counterexample: `handleIR` has no test on the previous code.  The
key `0xF705FA` (brightness up) of the 24-key remote decoded at 1000 ms and the
same key decoded again at 1200 ms, which is 200 ms later, are both
dispatched: the brightness goes from 128 to 154 and then to 198, and two
notifications are in the log. -/
theorem handleIR_dispatches_duplicate :
    elapsed 1200 1000 < 800 ∧
    remoteWorld.ui.bri = 128 ∧
    (handleIR exampleTables.toIrCodes plainConversion
      (irDecoders exampleTables exampleFx plainConversion)
      (irReceive 0xF705FA 1000 remoteWorld)).ui.bri = 154 ∧
    (handleIR exampleTables.toIrCodes plainConversion
      (irDecoders exampleTables exampleFx plainConversion)
      (irReceive 0xF705FA 1200
        (handleIR exampleTables.toIrCodes plainConversion
          (irDecoders exampleTables exampleFx plainConversion)
          (irReceive 0xF705FA 1000 remoteWorld)))).ui.bri = 198 ∧
    (handleIR exampleTables.toIrCodes plainConversion
      (irDecoders exampleTables exampleFx plainConversion)
      (irReceive 0xF705FA 1200
        (handleIR exampleTables.toIrCodes plainConversion
          (irDecoders exampleTables exampleFx plainConversion)
          (irReceive 0xF705FA 1000 remoteWorld)))).trace =
      [Event.stateUpdated CallMode.button, Event.stateUpdated CallMode.button] := by
  decide

/-- C33, amended: when `handleIR` polls the receiver (more than 120 ms after
the last poll, a remote mode above 0, a receiver, and not within 240 ms while
the strip is updating) and the receiver has a value, the value goes to
`decodeIR`, whatever it is and whenever the one before came; the poll time is
recorded and the receiver resumed.  The discard of a duplicate within 800 ms is
in `RF433Usermod::loop`: a received command equal to the last command and
less than 800 ms after it is dropped with the world as it was; any other
received command is recorded with its time and handed to `remoteJson433`. -/
theorem ir_dispatch_and_rf433_debounce (codes : IrCodes) (conv : ColorConversion)
    (decoders : Decoders) (value : Nat) (w : World)
    (hpoll : elapsed w.millis w.irCheckedTime > 120) (hen : w.irEnabled > 0)
    (hrecv : w.irrecv = true)
    (hnice : ¬ (w.millis < w.strip.updatingUntil ∧
      elapsed w.millis w.irCheckedTime < 240))
    (hval : w.irReceived = some value) :
    handleIR codes conv decoders w =
      { decodeIR codes conv decoders (value % 4294967296)
          { w with irCheckedTime := w.millis } with irReceived := none } ∧
    (∀ (u : RF433Usermod) (v : World) (receivedCommand : Nat),
      u.modEnabled = true → ¬ v.millis < v.strip.updatingUntil →
      u.received = some receivedCommand →
      (u.lastCommand = receivedCommand % 4294967296 ∧
          elapsed v.millis u.lastTime < 800 →
        RF433Usermod.loop u v = ({ u with received := none }, v)) ∧
      (¬ (u.lastCommand = receivedCommand % 4294967296 ∧
          elapsed v.millis u.lastTime < 800) →
        RF433Usermod.loop u v =
          ({ u with received := none, lastCommand := receivedCommand % 4294967296,
                    lastTime := v.millis },
            (RF433Usermod.remoteJson433 (toInt32 (receivedCommand % 4294967296))
              v).2))) := by
  constructor
  · unfold handleIR
    have h1 : (decide (elapsed w.millis w.irCheckedTime > 120) &&
        decide (w.irEnabled > 0) && w.irrecv) = true := by
      simp [hpoll, hen, hrecv]
    have h2 : (decide (w.millis < w.strip.updatingUntil) &&
        decide (elapsed w.millis w.irCheckedTime < 240)) = false := by
      rcases Bool.eq_false_or_eq_true (decide (w.millis < w.strip.updatingUntil) &&
        decide (elapsed w.millis w.irCheckedTime < 240)) with h | h
      · simp only [Bool.and_eq_true, decide_eq_true_eq] at h
        exact absurd h hnice
      · exact h
    simp only [h1, h2, if_true, Bool.false_eq_true, if_false]
    rw [hval]
  · intro u v receivedCommand hmod hupd hrec
    have h0 : (!u.modEnabled || decide (v.millis < v.strip.updatingUntil)) = false := by
      simp [hmod, hupd]
    constructor
    · intro hdup
      unfold RF433Usermod.loop
      rw [h0]
      simp only [Bool.false_eq_true, if_false, hrec]
      have hd : (({ u with received := none } : RF433Usermod).lastCommand ==
          receivedCommand % 4294967296 &&
          decide (elapsed v.millis
            ({ u with received := none } : RF433Usermod).lastTime < 800)) = true := by
        simp only [Bool.and_eq_true, beq_iff_eq, decide_eq_true_eq]
        exact hdup
      rw [if_pos hd]
    · intro hdup
      unfold RF433Usermod.loop
      rw [h0]
      simp only [Bool.false_eq_true, if_false, hrec]
      have hd : ¬ (({ u with received := none } : RF433Usermod).lastCommand ==
          receivedCommand % 4294967296 &&
          decide (elapsed v.millis
            ({ u with received := none } : RF433Usermod).lastTime < 800)) = true := by
        simp only [Bool.and_eq_true, beq_iff_eq, decide_eq_true_eq]
        exact hdup
      rw [if_neg hd]

/-- Witness of C33: the key `0xF705FA` decoded
200 ms after the same key. -/
theorem ir_dispatch_and_rf433_debounce_witness :
    handleIR exampleTables.toIrCodes plainConversion
        (irDecoders exampleTables exampleFx plainConversion)
        (irReceive 0xF705FA 1200
          (handleIR exampleTables.toIrCodes plainConversion
            (irDecoders exampleTables exampleFx plainConversion)
            (irReceive 0xF705FA 1000 remoteWorld))) =
      { decodeIR exampleTables.toIrCodes plainConversion
          (irDecoders exampleTables exampleFx plainConversion) (0xF705FA % 4294967296)
          { irReceive 0xF705FA 1200
              (handleIR exampleTables.toIrCodes plainConversion
                (irDecoders exampleTables exampleFx plainConversion)
                (irReceive 0xF705FA 1000 remoteWorld)) with
            irCheckedTime := 1200 } with irReceived := none } :=
  (ir_dispatch_and_rf433_debounce exampleTables.toIrCodes plainConversion
    (irDecoders exampleTables exampleFx plainConversion) 0xF705FA
    (irReceive 0xF705FA 1200
      (handleIR exampleTables.toIrCodes plainConversion
        (irDecoders exampleTables exampleFx plainConversion)
        (irReceive 0xF705FA 1000 remoteWorld)))
    (by decide) (by decide) (by decide) (by decide) (by decide)).1

/-- The wait for the strip leaves the state of the ESP-NOW adapter alone. -/
theorem waitForStrip_adapter (left : Nat) (w : World) :
    (waitForStrip left w).last_seq = w.last_seq ∧
      (waitForStrip left w).ESPNowButton = w.ESPNowButton := by
  induction left generalizing w with
  | zero => exact ⟨rfl, rfl⟩
  | succ left ih =>
    unfold waitForStrip
    split
    · exact ih _
    · exact ⟨rfl, rfl⟩

/-- Method `runJson` leaves the state of the ESP-NOW adapter alone. -/
theorem runJson_adapter (moduleID : Nat) (fileName objKey : Str) (w : World) :
    (runJson moduleID fileName objKey w).2.last_seq = w.last_seq ∧
      (runJson moduleID fileName objKey w).2.ESPNowButton = w.ESPNowButton := by
  unfold runJson
  cases hl : w.jsonBufferLock with
  | some owner =>
    simp [requestJSONBufferLock, hl]
  | none =>
    simp only [requestJSONBufferLock, hl]
    have hw := waitForStrip_adapter ACTIONIRJSON_BUSWAIT_TIMEOUT
      { w with jsonBufferLock := some moduleID,
               trace := w.trace ++ [Event.lockAcquired moduleID] }
    generalize waitForStrip ACTIONIRJSON_BUSWAIT_TIMEOUT
      { w with jsonBufferLock := some moduleID,
               trace := w.trace ++ [Event.lockAcquired moduleID] } = w1 at hw ⊢
    repeat' split
    all_goals exact hw

/-- The built-in action of a button leaves the last sequence number of the
ESP-NOW adapter alone. -/
theorem builtinButtonAction_last_seq (fx : FxModes) (button : Int) (w : World) :
    (builtinButtonAction fx button w).last_seq = w.last_seq := by
  unfold builtinButtonAction
  repeat' split
  all_goals rfl

/-- The statements for a pending button leave the last sequence number of the
ESP-NOW adapter alone. -/
theorem processButton_last_seq (fx : FxModes) (w : World) :
    (processButton fx w).last_seq = w.last_seq := by
  have hr : (remoteJson w.ESPNowButton w).2.last_seq = w.last_seq :=
    (runJson_adapter 22 textRemoteJson (buttonObjKey w.ESPNowButton) w).1
  unfold processButton
  simp only
  split
  · rw [builtinButtonAction_last_seq]
    exact hr
  · exact hr

/-- C34, counterexample: the adapter starts with `0xFFFFFFFF` as the last
sequence number.  Two packets for the off button with the sequence number
`0xFFFFFFFF` are both dropped and `handleRemote` processes no button: the
brightness stays 128 and nothing is logged.  With the sequence number 7 the
same two packets turn the light off. -/
theorem espnow_first_sequence_dropped :
    (wizPacket 0xFF 0xFF 0xFF 0xFF 2).length = messageStructureSize ∧
    packetSeq (wizPacket 0xFF 0xFF 0xFF 0xFF 2) = bootWorld.last_seq ∧
    handleWiZdata (wizPacket 0xFF 0xFF 0xFF 0xFF 2)
        (handleWiZdata (wizPacket 0xFF 0xFF 0xFF 0xFF 2) bootWorld) = bootWorld ∧
    handleRemote exampleFx
        (handleWiZdata (wizPacket 0xFF 0xFF 0xFF 0xFF 2)
          (handleWiZdata (wizPacket 0xFF 0xFF 0xFF 0xFF 2) bootWorld)) = bootWorld ∧
    bootWorld.ui.bri = 128 ∧
    (handleRemote exampleFx
        (handleWiZdata (wizPacket 7 0 0 0 2)
          (handleWiZdata (wizPacket 7 0 0 0 2) bootWorld))).ui.bri = 0 := by
  decide

/-- C34, amended: let two packets of the length of the message structure carry
the same sequence number.  If it is not the last sequence number of the
adapter, the first packet stores its button and its sequence number and the
second is dropped, whether `handleRemote` ran in between or not;
`handleRemote` runs the statements for the pending button once and clears it,
and a second `handleRemote` changes nothing.  If it is the last sequence
number of the adapter, both packets are dropped and leave the world as it
was, so `handleRemote` does what it does without them: nothing but the
clearing when no button was pending, and the statements for the button that
was pending before.  A packet of another length is ignored. -/
theorem espnow_deduplication (fx : FxModes) (p1 p2 : List Nat) (w : World)
    (hlen1 : p1.length = messageStructureSize)
    (hlen2 : p2.length = messageStructureSize)
    (hseq : packetSeq p2 = packetSeq p1) :
    (packetSeq p1 ≠ w.last_seq →
      handleWiZdata p1 w =
        { w with ESPNowButton := packetButton p1, last_seq := packetSeq p1 } ∧
      handleWiZdata p2 (handleWiZdata p1 w) = handleWiZdata p1 w ∧
      handleRemote fx (handleWiZdata p2 (handleWiZdata p1 w)) =
        { processButton fx (handleWiZdata p1 w) with ESPNowButton := -1 } ∧
      handleWiZdata p2 (handleRemote fx (handleWiZdata p1 w)) =
        handleRemote fx (handleWiZdata p1 w) ∧
      handleRemote fx (handleRemote fx (handleWiZdata p1 w)) =
        handleRemote fx (handleWiZdata p1 w) ∧
      (handleRemote fx (handleWiZdata p1 w)).ESPNowButton = -1) ∧
    (packetSeq p1 = w.last_seq →
      handleWiZdata p1 w = w ∧
      handleWiZdata p2 (handleWiZdata p1 w) = w ∧
      handleRemote fx (handleWiZdata p2 (handleWiZdata p1 w)) = handleRemote fx w ∧
      (w.ESPNowButton < 0 →
        handleRemote fx (handleWiZdata p2 (handleWiZdata p1 w)) =
          { w with ESPNowButton := -1 }) ∧
      (w.ESPNowButton ≥ 0 →
        handleRemote fx (handleWiZdata p2 (handleWiZdata p1 w)) =
          { processButton fx w with ESPNowButton := -1 })) ∧
    (∀ (p : List Nat) (x : World), p.length ≠ messageStructureSize →
      handleWiZdata p x = x) := by
  have hdrop : ∀ x : World, x.last_seq = packetSeq p1 → handleWiZdata p2 x = x := by
    intro x hx
    unfold handleWiZdata
    rw [if_neg (not_not.mpr hlen2)]
    simp only
    rw [if_pos (by rw [hseq, hx])]
  refine ⟨fun hnew => ?_, fun hold => ?_, ?_⟩
  · have h1 : handleWiZdata p1 w =
        { w with ESPNowButton := packetButton p1, last_seq := packetSeq p1 } := by
      unfold handleWiZdata
      rw [if_neg (not_not.mpr hlen1)]
      simp only
      rw [if_neg hnew]
    have hseq1 : (handleWiZdata p1 w).last_seq = packetSeq p1 := by
      rw [h1]
    have h2 : handleWiZdata p2 (handleWiZdata p1 w) = handleWiZdata p1 w :=
      hdrop _ hseq1
    have hbutton : (handleWiZdata p1 w).ESPNowButton ≥ 0 := by
      rw [h1]
      exact Int.ofNat_nonneg _
    have h3 : handleRemote fx (handleWiZdata p1 w) =
        { processButton fx (handleWiZdata p1 w) with ESPNowButton := -1 } := by
      unfold handleRemote
      simp only
      rw [if_pos hbutton]
    have hseq3 : (handleRemote fx (handleWiZdata p1 w)).last_seq = packetSeq p1 := by
      rw [h3]
      exact (processButton_last_seq fx (handleWiZdata p1 w)).trans hseq1
    have h5 : handleRemote fx (handleRemote fx (handleWiZdata p1 w)) =
        handleRemote fx (handleWiZdata p1 w) := by
      rw [h3]
      rfl
    refine ⟨h1, h2, ?_, hdrop _ hseq3, h5, ?_⟩
    · rw [h2, h3]
    · rw [h3]
  · have h1 : handleWiZdata p1 w = w := by
      unfold handleWiZdata
      rw [if_neg (not_not.mpr hlen1)]
      simp only
      rw [if_pos hold]
    have h2 : handleWiZdata p2 (handleWiZdata p1 w) = w := by
      rw [h1]
      exact hdrop w hold.symm
    refine ⟨h1, h2, by rw [h2], fun hneg => ?_, fun hpos => ?_⟩
    · rw [h2]
      unfold handleRemote
      simp only
      rw [if_neg (by omega)]
    · rw [h2]
      unfold handleRemote
      simp only
      rw [if_pos hpos]
  · intro p x hp
    unfold handleWiZdata
    rw [if_pos hp]

/-- Witness of C34: two packets for the off button with the
sequence number 7 on a fresh adapter. -/
theorem espnow_deduplication_witness :
    (wizPacket 7 0 0 0 2).length = messageStructureSize ∧
    packetSeq (wizPacket 7 0 0 0 2) ≠ bootWorld.last_seq ∧
    handleWiZdata (wizPacket 7 0 0 0 2) (handleWiZdata (wizPacket 7 0 0 0 2) bootWorld) =
      handleWiZdata (wizPacket 7 0 0 0 2) bootWorld :=
  ⟨by decide, by decide,
    ((espnow_deduplication exampleFx (wizPacket 7 0 0 0 2) (wizPacket 7 0 0 0 2)
      bootWorld (by decide) (by decide) rfl).1 (by decide)).2.1⟩


end WLED
